import Mathlib

/-!
# CoolProp: `HelmholtzEOSMixtureBackend`

A shallow embedding of `src/Backends/Helmholtz/HelmholtzEOSMixtureBackend.cpp`
and theorems about it.

The C++ class mutates `*this` and throws exceptions; here every member function
is a state transformer `Prog α` that returns either a value together with the
new object state, or the exception together with the object state at the moment
of the throw (C++ does not roll back assignments made before a throw).

Collaborators whose code is not part of this translation unit (the flash
routines, the saturation solver, the fluid descriptors, `AbstractState::clear`)
are parameters: fields of `Env` or of `CoolPropFluid`.
-/

namespace CoolProp

/-! ## Numbers -/

/-- Values of the C++ types `double` and `long double`. Finite values are
rationals with exact arithmetic (no rounding and no overflow); the three IEEE
specials are kept because the code tests for them with `ValidNumber`. Signed
zeros are not distinguished. -/
inductive Dbl where
  | fin (q : ℚ)
  | pinf
  | ninf
  | nan
  deriving DecidableEq

namespace Dbl

/-- IEEE addition on the idealised values. -/
def add : Dbl → Dbl → Dbl
  | fin a, fin b => fin (a + b)
  | nan, _ => nan
  | _, nan => nan
  | pinf, ninf => nan
  | ninf, pinf => nan
  | pinf, _ => pinf
  | _, pinf => pinf
  | ninf, _ => ninf
  | _, ninf => ninf

/-- IEEE negation. -/
def neg : Dbl → Dbl
  | fin a => fin (-a)
  | pinf => ninf
  | ninf => pinf
  | nan => nan

/-- The product of an infinity of sign `pos` with the finite value `b`. -/
def infTimes (pos : Bool) (b : ℚ) : Dbl :=
  if b = 0 then nan else if decide (0 < b) = pos then pinf else ninf

/-- IEEE multiplication on the idealised values. -/
def mul : Dbl → Dbl → Dbl
  | fin a, fin b => fin (a * b)
  | nan, _ => nan
  | _, nan => nan
  | pinf, fin b => infTimes true b
  | ninf, fin b => infTimes false b
  | fin a, pinf => infTimes true a
  | fin a, ninf => infTimes false a
  | pinf, pinf => pinf
  | ninf, ninf => pinf
  | pinf, ninf => ninf
  | ninf, pinf => ninf

/-- IEEE division on the idealised values; a zero divisor counts as `+0`. -/
def div : Dbl → Dbl → Dbl
  | fin a, fin b =>
    if b = 0 then (if a = 0 then nan else if 0 < a then pinf else ninf) else fin (a / b)
  | nan, _ => nan
  | _, nan => nan
  | fin _, pinf => fin 0
  | fin _, ninf => fin 0
  | pinf, fin b => if 0 ≤ b then pinf else ninf
  | ninf, fin b => if 0 ≤ b then ninf else pinf
  | pinf, pinf => nan
  | pinf, ninf => nan
  | ninf, pinf => nan
  | ninf, ninf => nan

/-- The C++ comparison `a < b`: false as soon as one side is NaN. -/
def lt : Dbl → Dbl → Bool
  | fin a, fin b => decide (a < b)
  | nan, _ => false
  | _, nan => false
  | ninf, ninf => false
  | ninf, _ => true
  | _, ninf => false
  | pinf, _ => false
  | fin _, pinf => true

/-- The C++ comparison `a <= b`: false as soon as one side is NaN. -/
def le : Dbl → Dbl → Bool
  | fin a, fin b => decide (a ≤ b)
  | nan, _ => false
  | _, nan => false
  | ninf, _ => true
  | _, pinf => true
  | pinf, _ => false
  | fin _, ninf => false

instance : Zero Dbl := ⟨fin 0⟩
instance : One Dbl := ⟨fin 1⟩
instance : Add Dbl := ⟨add⟩
instance : Neg Dbl := ⟨neg⟩
instance : Sub Dbl := ⟨fun a b => add a (neg b)⟩
instance : Mul Dbl := ⟨mul⟩
instance : Div Dbl := ⟨div⟩
instance : LT Dbl := ⟨fun a b => lt a b = true⟩
instance (a b : Dbl) : Decidable (a < b) := inferInstanceAs (Decidable (lt a b = true))
instance : LE Dbl := ⟨fun a b => le a b = true⟩
instance (a b : Dbl) : Decidable (a ≤ b) := inferInstanceAs (Decidable (le a b = true))
instance : Inhabited Dbl := ⟨fin 0⟩

/-- Whether the value is one of the finite ones. -/
def isFinite : Dbl → Bool
  | fin _ => true
  | _ => false

instance : AddCommMonoid Dbl where
  add_assoc a b c := by
    cases a <;> cases b <;> cases c <;> first | rfl | exact congrArg fin (add_assoc _ _ _)
  zero_add a := by
    cases a <;> first | rfl | exact congrArg fin (zero_add _)
  add_zero a := by
    cases a <;> first | rfl | exact congrArg fin (add_zero _)
  add_comm a b := by
    cases a <;> cases b <;> first | rfl | exact congrArg fin (add_comm _ _)
  nsmul := nsmulRec

end Dbl

/-- The macro `_HUGE` (`HUGE_VAL`). -/
def _HUGE : Dbl := Dbl.pinf

/-- Modelled from the spec: `ValidNumber` of `CoolPropTools.h`, not part of the
translation unit; the spec calls a value valid when it is finite. -/
def ValidNumber (x : Dbl) : Bool := x.isFinite

/-- Modelled from the spec: the helper `max3` of `CoolPropTools.h`, not part of the
translation unit: the largest of three numbers. -/
def max3 (x1 x2 x3 : Dbl) : Dbl :=
  let m := if x1 < x2 then x2 else x1
  if m < x3 then x3 else m

/-- Modelled from the spec: the helper `min3` of `CoolPropTools.h`, not part of the
translation unit: the smallest of three numbers. -/
def min3 (x1 x2 x3 : Dbl) : Dbl :=
  let m := if x2 < x1 then x2 else x1
  if x3 < m then x3 else m

/-- Modelled from the spec: the helper `is_in_closed_range` of `CoolPropTools.h`, not
part of the translation unit: whether `x` lies in the closed range between `x1`
and `x2`, whichever of the two is the smaller. -/
def is_in_closed_range (x1 x2 x : Dbl) : Bool :=
  decide ((x1 ≤ x ∧ x ≤ x2) ∨ (x2 ≤ x ∧ x ≤ x1))

/-! ## Exceptions -/

/-- The exceptions thrown in this file, with their message templates (format
arguments are not expanded). `UndefinedBehaviour` stands for an out-of-range
`operator[]` or the dereference of a null `SatL`/`SatV` pointer. -/
inductive Err where
  | ValueError (msg : String)
  | NotImplementedError (msg : String)
  | UndefinedBehaviour (what : String)
  deriving DecidableEq

/-! ## Enumerations of `DataStructures.h` -/

/-- The phase indices used in this file. -/
inductive phases where
  | iphase_liquid
  | iphase_supercritical
  | iphase_gas
  | iphase_twophase
  | iphase_unknown
  deriving DecidableEq

/-- The parameter keys used in this file; `unlisted n` stands for any other
value of the C++ `int` argument. -/
inductive parameters where
  | iT
  | iP
  | iDmolar
  | iHmolar
  | iSmolar
  | iUmolar
  | iTau
  | iDelta
  | unlisted (code : Nat)
  deriving DecidableEq

/-- The input-pair tags named in this file; `unlisted n` stands for any other
value of the C++ `long` argument. -/
inductive input_pairs where
  | QT_INPUTS
  | PQ_INPUTS
  | PT_INPUTS
  | DmassT_INPUTS
  | DmolarT_INPUTS
  | HmolarT_INPUTS
  | HmassT_INPUTS
  | SmolarT_INPUTS
  | SmassT_INPUTS
  | TUmolar_INPUTS
  | TUmass_INPUTS
  | DmassP_INPUTS
  | DmolarP_INPUTS
  | HmassP_INPUTS
  | HmolarP_INPUTS
  | PSmass_INPUTS
  | PSmolar_INPUTS
  | PUmass_INPUTS
  | PUmolar_INPUTS
  | HmassSmass_INPUTS
  | HmolarSmolar_INPUTS
  | SmassUmass_INPUTS
  | SmolarUmolar_INPUTS
  | DmassHmass_INPUTS
  | DmolarHmolar_INPUTS
  | DmassSmass_INPUTS
  | DmolarSmolar_INPUTS
  | DmassUmass_INPUTS
  | DmolarUmolar_INPUTS
  | unlisted (code : Nat)
  deriving DecidableEq

/-! ## Data of the fluid descriptors (external, read-only) -/

/-- The `SimpleState` record: a state point of a fluid. -/
structure SimpleState where
  T : Dbl
  rhomolar : Dbl
  p : Dbl
  hmolar : Dbl
  smolar : Dbl
  umolar : Dbl

/-- A lazily filled cell (`CachedElement`): `operator=` stores a value and marks
the cell as cached, `pt()` reads the stored value. -/
structure CachedElement where
  is_cached : Bool
  value : Dbl

/-- What `CachedElement::clear` leaves. -/
def CachedElement.cleared : CachedElement := ⟨false, _HUGE⟩

/-- The assignment `cell = v`. -/
def CachedElement.assign (v : Dbl) : CachedElement := ⟨true, v⟩

/-- The accessor `pt()`. -/
def CachedElement.pt (c : CachedElement) : Dbl := c.value

/-- An ancillary curve of a fluid: its value at a temperature, the temperature
at which it takes a value, and the largest absolute error of the fit. -/
structure AncillaryCurve where
  evaluate : Dbl → Dbl
  invert : Dbl → Dbl
  get_max_abs_error : Dbl

/-- The ancillary curves read by this file. -/
structure Ancillaries where
  pL : AncillaryCurve
  pV : AncillaryCurve
  rhoL : AncillaryCurve
  rhoV : AncillaryCurve
  hL : AncillaryCurve
  hLV : AncillaryCurve
  sL : AncillaryCurve
  sLV : AncillaryCurve

/-- The equation of state of one fluid (`pEOS`): constants and the derivatives of
the residual and ideal reduced Helmholtz energy as functions of `(tau, delta)`. -/
structure EquationOfState where
  reduce : SimpleState
  hs_anchor : SimpleState
  Ttriple : Dbl
  ptriple : Dbl
  accentric : Dbl
  baser : Dbl → Dbl → Dbl
  dalphar_dDelta : Dbl → Dbl → Dbl
  dalphar_dTau : Dbl → Dbl → Dbl
  d2alphar_dDelta2 : Dbl → Dbl → Dbl
  d2alphar_dDelta_dTau : Dbl → Dbl → Dbl
  d2alphar_dTau2 : Dbl → Dbl → Dbl
  d3alphar_dDelta3 : Dbl → Dbl → Dbl
  d3alphar_dDelta2_dTau : Dbl → Dbl → Dbl
  d3alphar_dDelta_dTau2 : Dbl → Dbl → Dbl
  d3alphar_dTau3 : Dbl → Dbl → Dbl
  base0 : Dbl → Dbl → Dbl
  dalpha0_dDelta : Dbl → Dbl → Dbl
  dalpha0_dTau : Dbl → Dbl → Dbl
  d2alpha0_dDelta2 : Dbl → Dbl → Dbl
  d2alpha0_dDelta_dTau : Dbl → Dbl → Dbl
  d2alpha0_dTau2 : Dbl → Dbl → Dbl
  d3alpha0_dDelta3 : Dbl → Dbl → Dbl
  d3alpha0_dDelta2_dTau : Dbl → Dbl → Dbl
  d3alpha0_dDelta_dTau2 : Dbl → Dbl → Dbl
  d3alpha0_dTau3 : Dbl → Dbl → Dbl

/-- A fluid descriptor (`CoolPropFluid`), as far as this file reads it. The
descriptor's `pEOS` points to `EOSVector[0]`, so the two expressions
`component.EOSVector[0]` and `*component.pEOS` read the same equation of state. -/
structure CoolPropFluid where
  pEOS : EquationOfState
  crit : SimpleState
  triple_liquid : SimpleState
  ancillaries : Ancillaries
  gas_constant : Dbl
  molar_mass : Dbl

/-- The reducing function of a mixture (a strategy object built by
`ReducingFunction::factory`). -/
structure ReducingFunction where
  Tr : List Dbl → Dbl
  rhormolar : List Dbl → Dbl

/-- The excess Helmholtz energy term of a mixture, as far as this file calls it. -/
structure ExcessTerm where
  alphar : Dbl → Dbl → List Dbl → Dbl
  dalphar_dDelta : Dbl → Dbl → List Dbl → Dbl
  dalphar_dTau : Dbl → Dbl → List Dbl → Dbl
  d2alphar_dDelta2 : Dbl → Dbl → List Dbl → Dbl
  d2alphar_dDelta_dTau : Dbl → Dbl → List Dbl → Dbl
  d2alphar_dTau2 : Dbl → Dbl → List Dbl → Dbl

/-! ## The object state -/

/-- Members inherited from the base class `AbstractState`: the phase and the
cached scalars. These are the members `AbstractState::clear` can reach. -/
structure AbstractState where
  _phase : phases
  _rhomolar : Dbl
  _T : Dbl
  _p : Dbl
  _Q : Dbl
  _tau : CachedElement
  _delta : CachedElement
  _molar_mass : CachedElement
  _gas_constant : CachedElement
  _hmolar : CachedElement
  _smolar : CachedElement
  _umolar : CachedElement
  _reducing : SimpleState
  _crit : SimpleState
  _rhoLanc : CachedElement
  _rhoVanc : CachedElement
  _pLanc : CachedElement
  _pVanc : CachedElement
  _TLanc : CachedElement
  _TVanc : CachedElement
  _alphar : CachedElement
  _dalphar_dDelta : CachedElement
  _dalphar_dTau : CachedElement
  _d2alphar_dDelta2 : CachedElement
  _d2alphar_dDelta_dTau : CachedElement
  _d2alphar_dTau2 : CachedElement
  _alpha0 : CachedElement
  _dalpha0_dDelta : CachedElement
  _dalpha0_dTau : CachedElement
  _d2alpha0_dDelta2 : CachedElement
  _d2alpha0_dDelta_dTau : CachedElement
  _d2alpha0_dTau2 : CachedElement
  _cvmolar : CachedElement
  _cpmolar : CachedElement
  _speed_sound : CachedElement

/-- The members of `HelmholtzEOSMixtureBackend` other than the two owned
saturation states. `N` is unbounded here (the C++ member is an `unsigned int`);
`imposed_phase_index` is `none` for the C++ value `-1`. -/
structure Members extends AbstractState where
  components : List CoolPropFluid
  N : Nat
  is_pure_or_pseudopure : Bool
  mole_fractions : List Dbl
  K : List Dbl
  lnK : List Dbl
  imposed_phase_index : Option phases
  Reducing : Option ReducingFunction
  Excess : ExcessTerm

/-- An object of class `HelmholtzEOSMixtureBackend`: its members and the two
owned pointers `SatL` and `SatV` (`none` is the null pointer). -/
inductive HelmholtzEOSMixtureBackend where
  | mk (self : Members) (SatL SatV : Option HelmholtzEOSMixtureBackend)

namespace HelmholtzEOSMixtureBackend

/-- The members of the object itself. -/
def self : HelmholtzEOSMixtureBackend → Members
  | mk m _ _ => m

/-- The pointer `SatL`. -/
def SatL : HelmholtzEOSMixtureBackend → Option HelmholtzEOSMixtureBackend
  | mk _ l _ => l

/-- The pointer `SatV`. -/
def SatV : HelmholtzEOSMixtureBackend → Option HelmholtzEOSMixtureBackend
  | mk _ _ v => v

/-- Assignments to members of the object itself. -/
def modify (f : Members → Members) : HelmholtzEOSMixtureBackend → HelmholtzEOSMixtureBackend
  | mk m l v => mk (f m) l v

/-- Replace the object `SatL` points to. -/
def setSatL (l : Option HelmholtzEOSMixtureBackend) :
    HelmholtzEOSMixtureBackend → HelmholtzEOSMixtureBackend
  | mk m _ v => mk m l v

/-- Replace the object `SatV` points to. -/
def setSatV (v : Option HelmholtzEOSMixtureBackend) :
    HelmholtzEOSMixtureBackend → HelmholtzEOSMixtureBackend
  | mk m l _ => mk m l v

end HelmholtzEOSMixtureBackend

/-! ## Member functions as state transformers -/

/-- The outcome of a call on an object: a normal return with the returned value
and the object afterwards, or an exception with the object as the throw left
it. -/
inductive Res (α : Type) where
  | ret (a : α) (s : HelmholtzEOSMixtureBackend)
  | throw (e : Err) (s : HelmholtzEOSMixtureBackend)

/-- The object in which the call ended. -/
def Res.state {α : Type} : Res α → HelmholtzEOSMixtureBackend
  | .ret _ s => s
  | .throw _ s => s

/-- Whether the call returned normally. -/
def Res.returned {α : Type} : Res α → Bool
  | .ret _ _ => true
  | .throw _ _ => false

/-- A member function with return type `α`. -/
def Prog (α : Type) : Type := HelmholtzEOSMixtureBackend → Res α

namespace Prog

/-- Run a member function on an object. -/
def run {α : Type} (m : Prog α) (s : HelmholtzEOSMixtureBackend) : Res α := m s

/-- Return a value and leave the object alone. -/
def ret {α : Type} (a : α) : Prog α := fun s => Res.ret a s

/-- Sequencing; an exception of the first part skips the second. -/
def seq {α β : Type} (m : Prog α) (k : α → Prog β) : Prog β := fun s =>
  match m s with
  | Res.ret a s1 => k a s1
  | Res.throw e s1 => Res.throw e s1

/-- The statement `throw e`. -/
def raise {α : Type} (e : Err) : Prog α := fun s => Res.throw e s

/-- Read the members of `*this`. -/
def get : Prog Members := fun s => Res.ret s.self s

/-- Read the whole object. -/
def getObject : Prog HelmholtzEOSMixtureBackend := fun s => Res.ret s s

/-- Assign to members of `*this`. -/
def set (f : Members → Members) : Prog Unit := fun s => Res.ret () (s.modify f)

/-- The statement `if (c){ throw e; }`. -/
def throw_if (c : Bool) (e : Err) : Prog Unit := fun s =>
  if c then Res.throw e s else Res.ret () s

/-- Lift a computation that can only fail. -/
def ofExcept {α : Type} : Except Err α → Prog α
  | .ok a => ret a
  | .error e => raise e

instance : Monad Prog where
  pure := ret
  bind := seq

end Prog

/-- The local class `solver_TP_resid` of `solver_rho_Tp`, without its pointer
`HEOS` (the object the solver is called on). The five members the constructor
leaves unset are `none` until `call` writes them. -/
structure solver_TP_resid where
  T : Dbl
  p : Dbl
  r : Option Dbl
  peos : Option Dbl
  rhomolar : Option Dbl
  rhor : Dbl
  tau : Dbl
  R_u : Dbl
  delta : Option Dbl
  dalphar_dDelta : Option Dbl

/-- The local class `solver_resid` of `solver_for_rho_given_T_oneof_HSU`, without
its pointer `HEOS`. The three members the constructor leaves unset are `none`
until `call` writes them. -/
structure solver_resid where
  other : parameters
  T : Dbl
  value : Dbl
  r : Option Dbl
  eos : Option Dbl
  rhomolar : Option Dbl

/-- The residual objects handed to the one-dimensional solvers (the subclasses of
`FuncWrapper1D` defined in this file). -/
inductive FuncWrapper1D where
  | TP (resid : solver_TP_resid)
  | HSU (resid : solver_resid)

/-- The outcome of a call of a one-dimensional solver: the value it returned or
the exception it threw, the residual object (passed by reference) as the
solver left it, and the object `HEOS` as the calls of the residual left it. -/
structure SolverRun where
  result : Except Err Dbl
  resid : FuncWrapper1D
  state : HelmholtzEOSMixtureBackend

/-- The collaborators that live outside this translation unit. -/
structure Env where
  /-- The base-class method `AbstractState::clear`. -/
  clear : AbstractState → AbstractState
  /-- The base-class members of an object right after base construction. -/
  base_init : AbstractState
  /-- A default-constructed `SimpleState`. -/
  SimpleState_init : SimpleState
  /-- The factory `ReducingFunction::factory`. -/
  ReducingFunction_factory : List CoolPropFluid → ReducingFunction
  /-- A default-constructed `ExcessTerm`. -/
  Excess_init : ExcessTerm
  /-- The call `Excess.construct`. -/
  Excess_construct : List CoolPropFluid → ExcessTerm
  /-- The routine `FlashRoutines::PT_flash`. -/
  PT_flash : Prog Unit
  /-- The routine `FlashRoutines::DHSU_T_flash`. -/
  DHSU_T_flash : parameters → Prog Unit
  /-- The routine `FlashRoutines::PHSU_D_flash`. -/
  PHSU_D_flash : parameters → Prog Unit
  /-- The routine `FlashRoutines::HSU_P_flash`. -/
  HSU_P_flash : parameters → Prog Unit
  /-- The routine `FlashRoutines::QT_flash`. -/
  QT_flash : Prog Unit
  /-- The routine `FlashRoutines::PQ_flash`. -/
  PQ_flash : Prog Unit
  /-- The solver `SaturationSolvers::saturation_T_pure`, run on the object it is
  handed, at the given temperature. -/
  saturation_T_pure : Dbl → Prog Unit
  /-- The library function `log`. -/
  log : Dbl → Dbl
  /-- What the conversion `static_cast<double>(cell)` of a `CachedElement` does
  when the cell holds no cached value (`CachedElement.h` is not part of the
  translation unit). -/
  empty_cell_read : CachedElement → Except Err Dbl
  /-- The solver `Newton(f, x0, ftol, maxiter, errstring)` of `Solvers.h`. -/
  Newton : FuncWrapper1D → Dbl → Dbl → Int → HelmholtzEOSMixtureBackend → SolverRun
  /-- The solver `Secant(f, x0, dx, ftol, maxiter, errstring)` of `Solvers.h`. -/
  Secant : FuncWrapper1D → Dbl → Dbl → Dbl → Int → HelmholtzEOSMixtureBackend → SolverRun
  /-- The solver `Brent(f, a, b, macheps, t, maxiter, errstring)` of `Solvers.h`. -/
  Brent : FuncWrapper1D → Dbl → Dbl → Dbl → Dbl → Int → HelmholtzEOSMixtureBackend → SolverRun
  /-- The routine `solve_cubic(a, b, c, d, N, x0, x1, x2)`: the number of real
  roots it reports and the three output arguments. -/
  solve_cubic : Dbl → Dbl → Dbl → Dbl → Int × Dbl × Dbl × Dbl
  /-- The library function `sqrt`. -/
  sqrt : Dbl → Dbl
  /-- The constant `LDBL_EPSILON` of `<cfloat>`. -/
  LDBL_EPSILON : Dbl

/-! ### Vectors -/

/-- The access `v[i]` of a `std::vector`; out of range is undefined behaviour. -/
def index {α : Type} (v : List α) (i : Nat) : Except Err α :=
  match v.get? i with
  | some a => .ok a
  | none => .error (Err.UndefinedBehaviour "operator[] out of range")

/-- The call `v.resize(n)` of a `std::vector<long double>`: keep the first `n`
elements and pad with zeros. -/
def vector_resize (v : List Dbl) (n : Nat) : List Dbl :=
  v.take n ++ List.replicate (n - v.length) 0

/-- The call `std::copy(src.begin(), src.end(), dest.begin())` for a
destination at least as long as the source. -/
def std_copy (src dest : List Dbl) : List Dbl :=
  src ++ dest.drop src.length

/-- The loop `for (i = 0; i < n; ++i){ summer += term(i); }` started at index `i`
with the running sum `summer`; the result is the final sum. -/
def sum_loop (term : Nat → Except Err Dbl) : Nat → Nat → Dbl → Except Err Dbl
  | 0, _, summer => .ok summer
  | n + 1, i, summer =>
    match term i with
    | .ok t => sum_loop term n (i + 1) (summer + t)
    | .error e => .error e

/-! ### Construction -/

/-- The method `specify_phase` of the class header: impose a phase. -/
def specify_phase (phase_index : phases) (s : HelmholtzEOSMixtureBackend) :
    HelmholtzEOSMixtureBackend :=
  s.modify (fun m => { m with imposed_phase_index := some phase_index })

/-- The members of an object before the constructor body runs: the vectors are
empty and the strategy objects unset. -/
def Members.fresh (env : Env) : Members :=
  { toAbstractState := env.base_init
    components := []
    N := 0
    is_pure_or_pseudopure := false
    mole_fractions := []
    K := []
    lnK := []
    imposed_phase_index := none
    Reducing := none
    Excess := env.Excess_init }

/-- The part of `set_components` that precedes the creation of `SatL`/`SatV`:
copy the components, decide pure or mixture, set the mixture models, reset the
imposed phase. -/
def set_components_members (env : Env) (components : List CoolPropFluid) (m : Members) :
    Members :=
  let m := { m with components := components, N := components.length }
  let m :=
    if components.length = 1 then
      { m with is_pure_or_pseudopure := true, mole_fractions := [1] }
    else
      { m with is_pure_or_pseudopure := false }
  let m :=
    if !m.is_pure_or_pseudopure then
      { m with Reducing := some (env.ReducingFunction_factory m.components),
               Excess := env.Excess_construct m.components }
    else m
  { m with imposed_phase_index := none }

/-- The expression `new HelmholtzEOSMixtureBackend(components, false)`: the
constructor run with `generate_SatL_and_SatV = false`. -/
def new_without_sat (env : Env) (components : List CoolPropFluid) : HelmholtzEOSMixtureBackend :=
  .mk { set_components_members env components (Members.fresh env) with
          _phase := phases.iphase_unknown } none none

/-- The method `set_components`. With the flag set, `SatL` and `SatV` are reset to
new objects built on the same components with the flag cleared. -/
def set_components (env : Env) (components : List CoolPropFluid)
    (generate_SatL_and_SatV : Bool) : HelmholtzEOSMixtureBackend → HelmholtzEOSMixtureBackend
  | .mk m l v =>
    let m := set_components_members env components m
    if generate_SatL_and_SatV then
      .mk m (some (specify_phase phases.iphase_liquid (new_without_sat env components)))
            (some (specify_phase phases.iphase_gas (new_without_sat env components)))
    else
      .mk m l v

/-- The constructor `HelmholtzEOSMixtureBackend(components, generate_SatL_and_SatV)`. -/
def construct (env : Env) (components : List CoolPropFluid)
    (generate_SatL_and_SatV : Bool) : HelmholtzEOSMixtureBackend :=
  (set_components env components generate_SatL_and_SatV
      (.mk (Members.fresh env) none none)).modify
    (fun m => { m with _phase := phases.iphase_unknown })

/-- The method `resize`. -/
def resize (N : Nat) (s : HelmholtzEOSMixtureBackend) : HelmholtzEOSMixtureBackend :=
  s.modify (fun m => { m with mole_fractions := vector_resize m.mole_fractions N,
                              K := vector_resize m.K N,
                              lnK := vector_resize m.lnK N })

/-- The method `set_mole_fractions`. -/
def set_mole_fractions (mole_fractions : List Dbl) : Prog Unit := fun s =>
  if mole_fractions.length ≠ s.self.N then
    Res.throw (Err.ValueError
      "size of mole fraction vector [%d] does not equal that of component vector [%d]") s
  else
    let s := resize s.self.N s
    let s := s.modify (fun m => { m with mole_fractions := std_copy mole_fractions m.mole_fractions })
    let s := match s.SatL with
      | some l => s.setSatL (some (resize s.self.N l))
      | none => s
    let s := match s.SatV with
      | some v => s.setSatV (some (resize s.self.N v))
      | none => s
    Res.ret () s

/-! ### Mole-fraction weighted sums -/

/-- The method `calc_gas_constant`. -/
def calc_gas_constant (m : Members) : Except Err Dbl :=
  sum_loop (fun i =>
      match index m.mole_fractions i, index m.components i with
      | .ok x, .ok c => .ok (x * c.gas_constant)
      | .error e, _ => .error e
      | _, .error e => .error e)
    m.components.length 0 0

/-- The method `calc_molar_mass`. -/
def calc_molar_mass (m : Members) : Except Err Dbl :=
  sum_loop (fun i =>
      match index m.mole_fractions i, index m.components i with
      | .ok x, .ok c => .ok (x * c.molar_mass)
      | .error e, _ => .error e
      | _, .error e => .error e)
    m.components.length 0 0

/-- Modelled from the spec: the cached accessors of `AbstractState`, which are
not part of the translation unit: return the cell when it is cached, otherwise
run the `calc_` method, store its value in the cell and return it. The
argument `computed` is the outcome of the `calc_` method on the object `s`. -/
def via_cache (read : Members → CachedElement) (write : CachedElement → Members → Members)
    (s : HelmholtzEOSMixtureBackend) (computed : Res Dbl) : Res Dbl :=
  if (read s.self).is_cached then
    Res.ret (read s.self).value s
  else
    match computed with
    | Res.ret v s1 => Res.ret v (s1.modify (write (CachedElement.assign v)))
    | Res.throw e s1 => Res.throw e s1

/-- The accessor `molar_mass()`. -/
def molar_mass : Prog Dbl := fun s =>
  via_cache (fun m => m._molar_mass) (fun c m => { m with _molar_mass := c }) s
    (Prog.ofExcept (calc_molar_mass s.self) s)

/-- The accessor `gas_constant()`. -/
def gas_constant : Prog Dbl := fun s =>
  via_cache (fun m => m._gas_constant) (fun c m => { m with _gas_constant := c }) s
    (Prog.ofExcept (calc_gas_constant s.self) s)

/-! ### Calls through the owned pointers -/

/-- The call `SatL->f(...)`: run `f` on the object `SatL` points to. -/
def onSatL {α : Type} (f : Prog α) : Prog α := fun s =>
  match s.SatL with
  | none => Res.throw (Err.UndefinedBehaviour "SatL is null") s
  | some l =>
    match f l with
    | Res.ret a l1 => Res.ret a (s.setSatL (some l1))
    | Res.throw e l1 => Res.throw e (s.setSatL (some l1))

/-- The call `SatV->f(...)`: run `f` on the object `SatV` points to. -/
def onSatV {α : Type} (f : Prog α) : Prog α := fun s =>
  match s.SatV with
  | none => Res.throw (Err.UndefinedBehaviour "SatV is null") s
  | some v =>
    match f v with
    | Res.ret a v1 => Res.ret a (s.setSatV (some v1))
    | Res.throw e v1 => Res.throw e (s.setSatV (some v1))

/-- Run `f` on a local object `obj` of the calling function; the value comes back
with the local object as `f` left it. An exception leaves the function, and the
local object is destroyed. -/
def onLocal {α : Type} (obj : HelmholtzEOSMixtureBackend) (f : Prog α) :
    Prog (α × HelmholtzEOSMixtureBackend) := fun s =>
  match f obj with
  | Res.ret a obj1 => Res.ret (a, obj1) s
  | Res.throw e _ => Res.throw e s

/-- The getter `p()` of the base class. -/
def p : Prog Dbl := fun s => Res.ret s.self._p s

/-- The getter `T()` of the base class. -/
def T : Prog Dbl := fun s => Res.ret s.self._T s

/-- The getter `rhomolar()` of the base class. -/
def rhomolar : Prog Dbl := fun s => Res.ret s.self._rhomolar s

/-- Modelled from the spec: `isTwoPhase` of the base class. -/
def isTwoPhase (m : Members) : Bool := m._phase = phases.iphase_twophase

/-- Modelled from the spec: `isHomogeneousPhase` of the base class; the
homogeneous phases are liquid, gas and supercritical. -/
def isHomogeneousPhase (m : Members) : Bool :=
  m._phase = phases.iphase_liquid || m._phase = phases.iphase_gas
    || m._phase = phases.iphase_supercritical

/-! ### Conversion of mass-based inputs -/

/-- The method `mass_to_molar_inputs`; the three reference arguments come back as
the returned triple. -/
def mass_to_molar_inputs (input_pair : input_pairs) (value1 value2 : Dbl) :
    Prog (input_pairs × Dbl × Dbl) :=
  match input_pair with
  | .DmassT_INPUTS | .HmassT_INPUTS | .SmassT_INPUTS | .TUmass_INPUTS | .DmassP_INPUTS
  | .HmassP_INPUTS | .PSmass_INPUTS | .PUmass_INPUTS | .HmassSmass_INPUTS
  | .SmassUmass_INPUTS | .DmassHmass_INPUTS | .DmassSmass_INPUTS | .DmassUmass_INPUTS => do
    let _ ← molar_mass
    let m ← Prog.get
    let mm := m._molar_mass.value
    pure (match input_pair with
      | .DmassT_INPUTS => (.DmolarT_INPUTS, value1 / mm, value2)
      | .HmassT_INPUTS => (.HmolarT_INPUTS, value1 * mm, value2)
      | .SmassT_INPUTS => (.SmolarT_INPUTS, value1 * mm, value2)
      | .TUmass_INPUTS => (.TUmolar_INPUTS, value1, value2 * mm)
      | .DmassP_INPUTS => (.DmolarP_INPUTS, value1 / mm, value2)
      | .HmassP_INPUTS => (.HmolarP_INPUTS, value1 * mm, value2)
      | .PSmass_INPUTS => (.PSmolar_INPUTS, value1, value2 * mm)
      | .PUmass_INPUTS => (.PUmolar_INPUTS, value1, value2 * mm)
      | .HmassSmass_INPUTS => (.HmolarSmolar_INPUTS, value1 * mm, value2 * mm)
      | .SmassUmass_INPUTS => (.SmolarUmolar_INPUTS, value1 * mm, value2 * mm)
      | .DmassHmass_INPUTS => (.DmolarHmolar_INPUTS, value1 / mm, value2 * mm)
      | .DmassSmass_INPUTS => (.DmolarSmolar_INPUTS, value1 / mm, value2 * mm)
      | .DmassUmass_INPUTS => (.DmolarUmolar_INPUTS, value1 / mm, value2 * mm)
      | _ => (input_pair, value1, value2))
  | _ => pure (input_pair, value1, value2)

/-! ### Reducing state -/

/-- The method `calc_reducing_state_nocache`. -/
def calc_reducing_state_nocache (env : Env) (m : Members) (mole_fractions : List Dbl) :
    Except Err SimpleState :=
  if m.is_pure_or_pseudopure then
    match index m.components 0 with
    | .ok c => .ok c.pEOS.reduce
    | .error e => .error e
  else
    match m.Reducing with
    | some R =>
      .ok { env.SimpleState_init with T := R.Tr mole_fractions,
                                      rhomolar := R.rhormolar mole_fractions }
    | none => .error (Err.UndefinedBehaviour "Reducing.p is null")

/-- The method `calc_reducing_state`. -/
def calc_reducing_state (env : Env) : Prog Unit := do
  let m ← Prog.get
  let reducing ← Prog.ofExcept (calc_reducing_state_nocache env m m.mole_fractions)
  Prog.set (fun m => { m with _reducing := reducing })
  Prog.set (fun m => { m with _crit := m._reducing })

/-! ### Derivatives of the reduced Helmholtz energy -/

/-- The call `pow(x, 2)`. -/
def pow2 (x : Dbl) : Dbl := x * x

/-- The loop `for (i = 0; i < N; ++i){ summer += mole_fractions[i]*components[i]->pEOS->f(tau, delta); }`
of `calc_alphar_deriv_nocache`. -/
def alphar_sum (m : Members) (f : EquationOfState → Dbl → Dbl → Dbl)
    (mole_fractions : List Dbl) (tau delta : Dbl) : Except Err Dbl :=
  sum_loop (fun i =>
      match index mole_fractions i, index m.components i with
      | .ok x, .ok c => .ok (x * f c.pEOS tau delta)
      | .error e, _ => .error e
      | _, .error e => .error e)
    mole_fractions.length 0 0

/-- The expression `components[0]->pEOS->f(tau, delta)`. -/
def pure_deriv (m : Members) (f : EquationOfState → Dbl → Dbl → Dbl) (tau delta : Dbl) :
    Except Err Dbl :=
  match index m.components 0 with
  | .ok c => .ok (f c.pEOS tau delta)
  | .error e => .error e

/-- The method `calc_alphar_deriv_nocache`. -/
def calc_alphar_deriv_nocache (m : Members) (nTau nDelta : Int) (mole_fractions : List Dbl)
    (tau delta : Dbl) : Except Err Dbl :=
  if m.is_pure_or_pseudopure then
    if nTau = 0 ∧ nDelta = 0 then pure_deriv m (fun e => e.baser) tau delta
    else if nTau = 0 ∧ nDelta = 1 then pure_deriv m (fun e => e.dalphar_dDelta) tau delta
    else if nTau = 1 ∧ nDelta = 0 then pure_deriv m (fun e => e.dalphar_dTau) tau delta
    else if nTau = 0 ∧ nDelta = 2 then pure_deriv m (fun e => e.d2alphar_dDelta2) tau delta
    else if nTau = 1 ∧ nDelta = 1 then pure_deriv m (fun e => e.d2alphar_dDelta_dTau) tau delta
    else if nTau = 2 ∧ nDelta = 0 then pure_deriv m (fun e => e.d2alphar_dTau2) tau delta
    else if nTau = 0 ∧ nDelta = 3 then pure_deriv m (fun e => e.d3alphar_dDelta3) tau delta
    else if nTau = 1 ∧ nDelta = 2 then pure_deriv m (fun e => e.d3alphar_dDelta2_dTau) tau delta
    else if nTau = 2 ∧ nDelta = 1 then pure_deriv m (fun e => e.d3alphar_dDelta_dTau2) tau delta
    else if nTau = 3 ∧ nDelta = 0 then pure_deriv m (fun e => e.d3alphar_dTau3) tau delta
    else .error (Err.ValueError "")
  else
    if nTau = 0 ∧ nDelta = 0 then
      (alphar_sum m (fun e => e.baser) mole_fractions tau delta).map
        (fun summer => summer + m.Excess.alphar tau delta mole_fractions)
    else if nTau = 0 ∧ nDelta = 1 then
      (alphar_sum m (fun e => e.dalphar_dDelta) mole_fractions tau delta).map
        (fun summer => summer + m.Excess.dalphar_dDelta tau delta mole_fractions)
    else if nTau = 1 ∧ nDelta = 0 then
      (alphar_sum m (fun e => e.dalphar_dTau) mole_fractions tau delta).map
        (fun summer => summer + m.Excess.dalphar_dTau tau delta mole_fractions)
    else if nTau = 0 ∧ nDelta = 2 then
      (alphar_sum m (fun e => e.d2alphar_dDelta2) mole_fractions tau delta).map
        (fun summer => summer + m.Excess.d2alphar_dDelta2 tau delta mole_fractions)
    else if nTau = 1 ∧ nDelta = 1 then
      (alphar_sum m (fun e => e.d2alphar_dDelta_dTau) mole_fractions tau delta).map
        (fun summer => summer + m.Excess.d2alphar_dDelta_dTau tau delta mole_fractions)
    else if nTau = 2 ∧ nDelta = 0 then
      (alphar_sum m (fun e => e.d2alphar_dTau2) mole_fractions tau delta).map
        (fun summer => summer + m.Excess.d2alphar_dTau2 tau delta mole_fractions)
    else .error (Err.ValueError "")

/-- One pass through the body of the mixture loop of `calc_alpha0_deriv_nocache`:
the term added to `summer` for component `i`, or the exception of the pass. -/
def alpha0_term (env : Env) (m : Members) (nTau nDelta : Int) (mole_fractions : List Dbl)
    (tau delta Tr rhor : Dbl) (i : Nat) : Except Err Dbl :=
  match index m.components i, index mole_fractions i with
  | .error e, _ => .error e
  | _, .error e => .error e
  | .ok c, .ok x =>
    let rho_ci := c.pEOS.reduce.rhomolar
    let T_ci := c.pEOS.reduce.T
    let tau_i := T_ci * tau / Tr
    let delta_i := delta * rhor / rho_ci
    if nTau = 0 ∧ nDelta = 0 then
      .ok (x * (c.pEOS.base0 tau_i delta_i + env.log x))
    else if nTau = 0 ∧ nDelta = 1 then
      .ok (x * rhor / rho_ci * c.pEOS.dalpha0_dDelta tau_i delta_i)
    else if nTau = 1 ∧ nDelta = 0 then
      .ok (x * T_ci / Tr * c.pEOS.dalpha0_dTau tau_i delta_i)
    else if nTau = 0 ∧ nDelta = 2 then
      .ok (x * pow2 (rhor / rho_ci) * c.pEOS.d2alpha0_dDelta2 tau_i delta_i)
    else if nTau = 1 ∧ nDelta = 1 then
      .ok (x * rhor / rho_ci * T_ci / Tr * c.pEOS.d2alpha0_dDelta_dTau tau_i delta_i)
    else if nTau = 2 ∧ nDelta = 0 then
      .ok (x * pow2 (T_ci / Tr) * c.pEOS.d2alpha0_dTau2 tau_i delta_i)
    else .error (Err.ValueError "")

/-- The method `calc_alpha0_deriv_nocache`. -/
def calc_alpha0_deriv_nocache (env : Env) (m : Members) (nTau nDelta : Int)
    (mole_fractions : List Dbl) (tau delta Tr rhor : Dbl) : Except Err Dbl :=
  if m.is_pure_or_pseudopure then
    let val :=
      if nTau = 0 ∧ nDelta = 0 then pure_deriv m (fun e => e.base0) tau delta
      else if nTau = 0 ∧ nDelta = 1 then pure_deriv m (fun e => e.dalpha0_dDelta) tau delta
      else if nTau = 1 ∧ nDelta = 0 then pure_deriv m (fun e => e.dalpha0_dTau) tau delta
      else if nTau = 0 ∧ nDelta = 2 then pure_deriv m (fun e => e.d2alpha0_dDelta2) tau delta
      else if nTau = 1 ∧ nDelta = 1 then pure_deriv m (fun e => e.d2alpha0_dDelta_dTau) tau delta
      else if nTau = 2 ∧ nDelta = 0 then pure_deriv m (fun e => e.d2alpha0_dTau2) tau delta
      else if nTau = 0 ∧ nDelta = 3 then pure_deriv m (fun e => e.d3alpha0_dDelta3) tau delta
      else if nTau = 1 ∧ nDelta = 2 then pure_deriv m (fun e => e.d3alpha0_dDelta2_dTau) tau delta
      else if nTau = 2 ∧ nDelta = 1 then pure_deriv m (fun e => e.d3alpha0_dDelta_dTau2) tau delta
      else if nTau = 3 ∧ nDelta = 0 then pure_deriv m (fun e => e.d3alpha0_dTau3) tau delta
      else .error (Err.ValueError "")
    match val with
    | .error e => .error e
    | .ok val =>
      if !ValidNumber val then
        .error (Err.ValueError
          "calc_alpha0_deriv_nocache returned invalid number with inputs nTau: %d, nDelta: %d")
      else .ok val
  else
    sum_loop (alpha0_term env m nTau nDelta mole_fractions tau delta Tr rhor)
      mole_fractions.length 0 0

/-- The method `calc_alphar`. -/
def calc_alphar (m : Members) : Except Err Dbl :=
  calc_alphar_deriv_nocache m 0 0 m.mole_fractions m._tau.value m._delta.value

/-- The method `calc_dalphar_dDelta`. -/
def calc_dalphar_dDelta (m : Members) : Except Err Dbl :=
  calc_alphar_deriv_nocache m 0 1 m.mole_fractions m._tau.value m._delta.value

/-- The method `calc_dalphar_dTau`. -/
def calc_dalphar_dTau (m : Members) : Except Err Dbl :=
  calc_alphar_deriv_nocache m 1 0 m.mole_fractions m._tau.value m._delta.value

/-- The method `calc_alpha0`. -/
def calc_alpha0 (env : Env) (m : Members) : Except Err Dbl :=
  calc_alpha0_deriv_nocache env m 0 0 m.mole_fractions m._tau.value m._delta.value
    m._reducing.T m._reducing.rhomolar

/-- The method `calc_dalpha0_dTau`. -/
def calc_dalpha0_dTau (env : Env) (m : Members) : Except Err Dbl :=
  calc_alpha0_deriv_nocache env m 1 0 m.mole_fractions m._tau.value m._delta.value
    m._reducing.T m._reducing.rhomolar

/-- The accessor `alphar()`. -/
def alphar : Prog Dbl := fun s =>
  via_cache (fun m => m._alphar) (fun c m => { m with _alphar := c }) s
    (Prog.ofExcept (calc_alphar s.self) s)

/-- The accessor `dalphar_dDelta()`. -/
def dalphar_dDelta : Prog Dbl := fun s =>
  via_cache (fun m => m._dalphar_dDelta) (fun c m => { m with _dalphar_dDelta := c }) s
    (Prog.ofExcept (calc_dalphar_dDelta s.self) s)

/-- The accessor `dalphar_dTau()`. -/
def dalphar_dTau : Prog Dbl := fun s =>
  via_cache (fun m => m._dalphar_dTau) (fun c m => { m with _dalphar_dTau := c }) s
    (Prog.ofExcept (calc_dalphar_dTau s.self) s)

/-- The accessor `alpha0()`. -/
def alpha0 (env : Env) : Prog Dbl := fun s =>
  via_cache (fun m => m._alpha0) (fun c m => { m with _alpha0 := c }) s
    (Prog.ofExcept (calc_alpha0 env s.self) s)

/-- The accessor `dalpha0_dTau()`. -/
def dalpha0_dTau (env : Env) : Prog Dbl := fun s =>
  via_cache (fun m => m._dalpha0_dTau) (fun c m => { m with _dalpha0_dTau := c }) s
    (Prog.ofExcept (calc_dalpha0_dTau env s.self) s)

/-! ### Caloric properties -/

/-- The two-phase branch shared by `calc_hmolar`, `calc_smolar` and `calc_umolar`:
`cell = _Q*SatV->y() + (1 - _Q)*SatL->y(); return cell;`. The arguments `yV` and
`yL` are the outcomes of the accessor `y()` on the objects `SatV` and `SatL`
point to (`none` for a null pointer). -/
def two_phase_mix (write : CachedElement → Members → Members)
    (s : HelmholtzEOSMixtureBackend) (yV yL : Option (Res Dbl)) : Res Dbl :=
  match yV with
  | none => Res.throw (Err.UndefinedBehaviour "SatV is null") s
  | some (Res.throw e v1) => Res.throw e (s.setSatV (some v1))
  | some (Res.ret yV v1) =>
    let s := s.setSatV (some v1)
    match yL with
    | none => Res.throw (Err.UndefinedBehaviour "SatL is null") s
    | some (Res.throw e l1) => Res.throw e (s.setSatL (some l1))
    | some (Res.ret yL l1) =>
      let s := s.setSatL (some l1)
      let val := s.self._Q * yV + (1 - s.self._Q) * yL
      Res.ret val (s.modify (write (CachedElement.assign val)))

/-- The two assignments `_delta = _rhomolar/_reducing.rhomolar; _tau = _reducing.T/_T;`
that open the homogeneous branches. -/
def set_reduced_variables : Prog Unit := do
  Prog.set (fun m => { m with _delta := CachedElement.assign (m._rhomolar / m._reducing.rhomolar) })
  Prog.set (fun m => { m with _tau := CachedElement.assign (m._reducing.T / m._T) })

/-- The homogeneous branch of `calc_hmolar`. -/
def calc_hmolar_homogeneous (env : Env) : Prog Dbl := do
  set_reduced_variables
  let da0_dTau ← dalpha0_dTau env
  let dar_dTau ← dalphar_dTau
  let dar_dDelta ← dalphar_dDelta
  let R_u ← gas_constant
  let m ← Prog.get
  let val := R_u * m._T * (1 + m._tau.pt * (da0_dTau + dar_dTau) + m._delta.pt * dar_dDelta)
  Prog.set (fun m => { m with _hmolar := CachedElement.assign val })
  pure val

/-- The homogeneous branch of `calc_smolar`. -/
def calc_smolar_homogeneous (env : Env) : Prog Dbl := do
  set_reduced_variables
  let da0_dTau ← dalpha0_dTau env
  let ar ← alphar
  let a0 ← alpha0 env
  let dar_dTau ← dalphar_dTau
  let R_u ← gas_constant
  let m ← Prog.get
  let val := R_u * (m._tau.pt * (da0_dTau + dar_dTau) - a0 - ar)
  Prog.set (fun m => { m with _smolar := CachedElement.assign val })
  pure val

/-- The homogeneous branch of `calc_umolar`. -/
def calc_umolar_homogeneous (env : Env) : Prog Dbl := do
  set_reduced_variables
  let da0_dTau ← dalpha0_dTau env
  let dar_dTau ← dalphar_dTau
  let R_u ← gas_constant
  let m ← Prog.get
  let val := R_u * m._T * m._tau.pt * (da0_dTau + dar_dTau)
  Prog.set (fun m => { m with _umolar := CachedElement.assign val })
  pure val

/-- The method `calc_hmolar`. The calls `SatV->hmolar()` and `SatL->hmolar()` are
the cached accessor on the child objects. -/
def calc_hmolar (env : Env) : Prog Dbl
  | .mk m l v =>
    if isTwoPhase m then
      two_phase_mix (fun c m => { m with _hmolar := c }) (.mk m l v)
        (match v with
          | none => none
          | some c => some (via_cache (fun m => m._hmolar) (fun c m => { m with _hmolar := c }) c
              (calc_hmolar env c)))
        (match l with
          | none => none
          | some c => some (via_cache (fun m => m._hmolar) (fun c m => { m with _hmolar := c }) c
              (calc_hmolar env c)))
    else if isHomogeneousPhase m then
      calc_hmolar_homogeneous env (.mk m l v)
    else
      Res.throw (Err.ValueError "phase is invalid") (.mk m l v)

/-- The accessor `hmolar()`. -/
def hmolar (env : Env) : Prog Dbl := fun s =>
  via_cache (fun m => m._hmolar) (fun c m => { m with _hmolar := c }) s (calc_hmolar env s)

/-- The method `calc_smolar`. -/
def calc_smolar (env : Env) : Prog Dbl
  | .mk m l v =>
    if isTwoPhase m then
      two_phase_mix (fun c m => { m with _smolar := c }) (.mk m l v)
        (match v with
          | none => none
          | some c => some (via_cache (fun m => m._smolar) (fun c m => { m with _smolar := c }) c
              (calc_smolar env c)))
        (match l with
          | none => none
          | some c => some (via_cache (fun m => m._smolar) (fun c m => { m with _smolar := c }) c
              (calc_smolar env c)))
    else if isHomogeneousPhase m then
      calc_smolar_homogeneous env (.mk m l v)
    else
      Res.throw (Err.ValueError "phase is invalid") (.mk m l v)

/-- The accessor `smolar()`. -/
def smolar (env : Env) : Prog Dbl := fun s =>
  via_cache (fun m => m._smolar) (fun c m => { m with _smolar := c }) s (calc_smolar env s)

/-- The method `calc_umolar`. It has no final `else`: with a phase that is neither
two-phase nor homogeneous, control flows off the end of a value-returning
function, which is undefined behaviour. -/
def calc_umolar (env : Env) : Prog Dbl
  | .mk m l v =>
    if isTwoPhase m then
      two_phase_mix (fun c m => { m with _umolar := c }) (.mk m l v)
        (match v with
          | none => none
          | some c => some (via_cache (fun m => m._umolar) (fun c m => { m with _umolar := c }) c
              (calc_umolar env c)))
        (match l with
          | none => none
          | some c => some (via_cache (fun m => m._umolar) (fun c m => { m with _umolar := c }) c
              (calc_umolar env c)))
    else if isHomogeneousPhase m then
      calc_umolar_homogeneous env (.mk m l v)
    else
      Res.throw (Err.UndefinedBehaviour "calc_umolar returns no value") (.mk m l v)

/-- The accessor `umolar()`. -/
def umolar (env : Env) : Prog Dbl := fun s =>
  via_cache (fun m => m._umolar) (fun c m => { m with _umolar := c }) s (calc_umolar env s)

/-! ### The flash dispatcher -/

/-- The method `update`. -/
def update (env : Env) (input_pair : input_pairs) (value1 value2 : Dbl) : Prog Unit := do
  Prog.set (fun m => { m with toAbstractState := env.clear m.toAbstractState })
  let m ← Prog.get
  Prog.throw_if (m.is_pure_or_pseudopure == false && m.mole_fractions.length == 0)
    (Err.ValueError "Mole fractions must be set")
  let molar ← mass_to_molar_inputs input_pair value1 value2
  let input_pair := molar.1
  let value1 := molar.2.1
  let value2 := molar.2.2
  let _ ← gas_constant
  calc_reducing_state env
  (match input_pair with
    | .PT_INPUTS => do
      Prog.set (fun m => { m with _p := value1, _T := value2 })
      env.PT_flash
    | .DmolarT_INPUTS => do
      Prog.set (fun m => { m with _rhomolar := value1, _T := value2 })
      env.DHSU_T_flash parameters.iDmolar
    | .SmolarT_INPUTS => do
      Prog.set (fun m => { m with _smolar := CachedElement.assign value1, _T := value2 })
      env.DHSU_T_flash parameters.iSmolar
    | .HmolarT_INPUTS => do
      Prog.set (fun m => { m with _hmolar := CachedElement.assign value1, _T := value2 })
      env.DHSU_T_flash parameters.iHmolar
    | .TUmolar_INPUTS => do
      Prog.set (fun m => { m with _T := value1, _umolar := CachedElement.assign value2 })
      env.DHSU_T_flash parameters.iUmolar
    | .DmolarP_INPUTS => do
      Prog.set (fun m => { m with _rhomolar := value1, _p := value2 })
      env.PHSU_D_flash parameters.iP
    | .DmolarHmolar_INPUTS => do
      Prog.set (fun m => { m with _rhomolar := value1, _hmolar := CachedElement.assign value2 })
      env.PHSU_D_flash parameters.iHmolar
    | .DmolarSmolar_INPUTS => do
      Prog.set (fun m => { m with _rhomolar := value1, _smolar := CachedElement.assign value2 })
      env.PHSU_D_flash parameters.iSmolar
    | .DmolarUmolar_INPUTS => do
      Prog.set (fun m => { m with _rhomolar := value1, _umolar := CachedElement.assign value2 })
      env.PHSU_D_flash parameters.iUmolar
    | .HmolarP_INPUTS => do
      Prog.set (fun m => { m with _hmolar := CachedElement.assign value1, _p := value2 })
      env.HSU_P_flash parameters.iHmolar
    | .PSmolar_INPUTS => do
      Prog.set (fun m => { m with _p := value1, _smolar := CachedElement.assign value2 })
      env.HSU_P_flash parameters.iSmolar
    | .PUmolar_INPUTS => do
      Prog.set (fun m => { m with _p := value1, _umolar := CachedElement.assign value2 })
      env.HSU_P_flash parameters.iUmolar
    | .QT_INPUTS => do
      Prog.set (fun m => { m with _Q := value1, _T := value2 })
      env.QT_flash
    | .PQ_INPUTS => do
      Prog.set (fun m => { m with _p := value1, _Q := value2 })
      env.PQ_flash
    | _ =>
      Prog.raise (Err.ValueError "This pair of inputs [%s] is not yet supported"))
  let m ← Prog.get
  Prog.throw_if (!ValidNumber m._p) (Err.ValueError "p is not a valid number")
  Prog.throw_if (!ValidNumber m._T) (Err.ValueError "T is not a valid number")
  Prog.throw_if (decide (m._rhomolar < 0)) (Err.ValueError "rhomolar is less than zero")
  Prog.throw_if (!ValidNumber m._rhomolar) (Err.ValueError "rhomolar is not a valid number")
  Prog.throw_if (!ValidNumber m._Q) (Err.ValueError "Q is not a valid number")
  Prog.throw_if (decide (m._phase = phases.iphase_unknown)) (Err.ValueError "_phase is unknown")
  Prog.set (fun m => { m with _tau := CachedElement.assign (m._reducing.T / m._T) })
  Prog.set (fun m => { m with _delta := CachedElement.assign (m._rhomolar / m._reducing.rhomolar) })

/-! ### Phase determination at given temperature -/

/-- The constant `DBL_EPSILON` of `<cfloat>`, two to the power -52. -/
def DBL_EPSILON : Dbl := Dbl.fin (1 / 4503599627370496)

/-- The switch that computes `Q` in `T_phase_determination_pure_or_pseudopure`
(the statement after `long double Q;`), run on the local object `HEOS`. -/
def T_phase_determination_quality (env : Env) (other : parameters) (value : Dbl) : Prog Dbl :=
  match other with
  | .iDmolar => do
    let rhoL ← onSatL rhomolar
    let rhoV ← onSatV rhomolar
    let rhoL2 ← onSatL rhomolar
    pure ((1 / value - 1 / rhoL) / (1 / rhoV - 1 / rhoL2))
  | .iSmolar => do
    let sL ← onSatL (smolar env)
    let sV ← onSatV (smolar env)
    let sV2 ← onSatV (smolar env)
    pure ((value - sL) / (sV - sV2))
  | .iHmolar => do
    let hL ← onSatL (hmolar env)
    let hV ← onSatV (hmolar env)
    let hV2 ← onSatV (hmolar env)
    pure ((value - hL) / (hV - hV2))
  | .iUmolar => do
    let uL ← onSatL (umolar env)
    let uV ← onSatV (umolar env)
    let uV2 ← onSatV (umolar env)
    pure ((value - uL) / (uV - uV2))
  | _ => Prog.raise (Err.ValueError "bad input for other")

/-- The statements of the subcritical branch of
`T_phase_determination_pure_or_pseudopure` that follow the first switch, from
the comment `Determine Q based on the input provided` to the end of the
branch. The local object `HEOS` is built with the constructor's default flag,
which generates `SatL` and `SatV`. -/
def T_phase_determination_saturation (env : Env) (other : parameters) (value : Dbl) :
    Prog Unit := do
  let m ← Prog.get
  Prog.throw_if (!m.is_pure_or_pseudopure)
    (Err.ValueError "possibly two-phase inputs not supported for pseudo-pure for now")
  let solved ← onLocal (construct env m.components true) (env.saturation_T_pure m._T)
  let HEOS := solved.2
  if other = parameters.iP then do
    let pL ← onLocal HEOS (onSatL p)
    if pL.1 * (Dbl.fin 100 * DBL_EPSILON + 1) < value then
      Prog.set (fun m => { m with _phase := phases.iphase_liquid, _Q := Dbl.fin (-1000) })
    else do
      let pV ← onLocal pL.2 (onSatV p)
      if value < pV.1 * (1 - Dbl.fin 100 * DBL_EPSILON) then
        Prog.set (fun m => { m with _phase := phases.iphase_gas, _Q := Dbl.fin 1000 })
      else
        Prog.raise (Err.ValueError "subcrit T, funny p")
  else do
    let quality ← onLocal HEOS (T_phase_determination_quality env other value)
    let Q := quality.1
    let HEOS := quality.2
    if Q < -(Dbl.fin 100 * DBL_EPSILON) then
      Prog.set (fun m => { m with _phase := phases.iphase_liquid, _Q := Dbl.fin (-1000) })
    else if 1 + Dbl.fin 100 * DBL_EPSILON < Q then
      Prog.set (fun m => { m with _phase := phases.iphase_gas, _Q := Dbl.fin 1000 })
    else do
      Prog.set (fun m => { m with _phase := phases.iphase_twophase })
      Prog.set (fun m => { m with _Q := Q })
      let pV ← onLocal HEOS (onSatV p)
      let pL ← onLocal pV.2 (onSatL p)
      Prog.set (fun m => { m with _p := m._Q * pV.1 + (1 - m._Q) * pL.1 })
      let rhoV ← onLocal pL.2 (onSatV rhomolar)
      let rhoL ← onLocal rhoV.2 (onSatL rhomolar)
      Prog.set (fun m => { m with _rhomolar := 1 / (m._Q / rhoV.1 + (1 - m._Q) / rhoL.1) })

/-- The case `iUmolar` of the innermost switch of the subcritical branch, which
the case `iHmolar` falls through to. -/
def T_phase_determination_case_iUmolar (env : Env) (other : parameters) (value : Dbl) :
    Prog Unit := do
  let uV ← onSatV (calc_umolar env)
  if uV < value then
    Prog.set (fun m => { m with _phase := phases.iphase_gas })
  else do
    let uL ← onSatL (calc_umolar env)
    if value < uL then
      Prog.set (fun m => { m with _phase := phases.iphase_liquid })
    else
      T_phase_determination_saturation env other value

/-- The subcritical branch (`_T < _crit.T`) of
`T_phase_determination_pure_or_pseudopure`. -/
def T_phase_determination_subcritical (env : Env) (other : parameters) (value : Dbl) :
    Prog Unit := do
  let m ← Prog.get
  let component ← Prog.ofExcept (index m.components 0)
  match other with
  | .iP => do
    Prog.set (fun m => { m with _pLanc := CachedElement.assign (component.ancillaries.pL.evaluate m._T) })
    Prog.set (fun m => { m with _pVanc := CachedElement.assign (component.ancillaries.pV.evaluate m._T) })
    let m ← Prog.get
    let p_vap := Dbl.fin (98 / 100) * m._pVanc.value
    let p_liq := Dbl.fin (102 / 100) * m._pLanc.value
    if value < p_vap then
      Prog.set (fun m => { m with _phase := phases.iphase_gas, _Q := Dbl.fin (-1000) })
    else if p_liq < value then
      Prog.set (fun m => { m with _phase := phases.iphase_liquid, _Q := Dbl.fin 1000 })
    else
      T_phase_determination_saturation env other value
  | _ => do
    Prog.set (fun m => { m with _rhoVanc := CachedElement.assign (component.ancillaries.rhoV.evaluate m._T) })
    Prog.set (fun m => { m with _rhoLanc := CachedElement.assign (component.ancillaries.rhoL.evaluate m._T) })
    let m ← Prog.get
    let rho_vap := Dbl.fin (95 / 100) * m._rhoVanc.value
    let rho_liq := Dbl.fin (105 / 100) * m._rhoLanc.value
    match other with
    | .iDmolar =>
      if value < rho_vap then
        Prog.set (fun m => { m with _phase := phases.iphase_gas })
      else if rho_liq < value then
        Prog.set (fun m => { m with _phase := phases.iphase_liquid })
      else
        T_phase_determination_saturation env other value
    | _ => do
      onSatV (update env input_pairs.DmolarT_INPUTS rho_vap m._T)
      onSatL (update env input_pairs.DmolarT_INPUTS rho_liq m._T)
      match other with
      | .iSmolar => do
        let sV ← onSatV (calc_smolar env)
        if sV < value then
          Prog.set (fun m => { m with _phase := phases.iphase_gas })
        else do
          let sL ← onSatL (calc_smolar env)
          if value < sL then
            Prog.set (fun m => { m with _phase := phases.iphase_liquid })
          else
            T_phase_determination_saturation env other value
      | .iHmolar => do
        let hV ← onSatV (calc_hmolar env)
        if hV < value then
          Prog.set (fun m => { m with _phase := phases.iphase_gas })
        else do
          let hL ← onSatL (calc_hmolar env)
          if value < hL then
            Prog.set (fun m => { m with _phase := phases.iphase_liquid })
          else
            T_phase_determination_case_iUmolar env other value
      | .iUmolar => T_phase_determination_case_iUmolar env other value
      | _ =>
        Prog.raise (Err.ValueError
          "invalid input for other to T_phase_determination_pure_or_pseudopure")

/-- The branch `_T > _crit.T && _T > components[0]->pEOS->Ttriple` of
`T_phase_determination_pure_or_pseudopure`. -/
def T_phase_determination_supercritical (other : parameters) : Prog Unit := do
  Prog.set (fun m => { m with _Q := Dbl.fin 1000000000 })
  let m ← Prog.get
  match other with
  | .iP =>
    if m._crit.p < m._p then
      Prog.set (fun m => { m with _phase := phases.iphase_supercritical })
    else
      Prog.set (fun m => { m with _phase := phases.iphase_gas })
  | .iDmolar =>
    if m._crit.rhomolar < m._rhomolar then
      Prog.set (fun m => { m with _phase := phases.iphase_supercritical })
    else
      Prog.set (fun m => { m with _phase := phases.iphase_gas })
  | .iSmolar =>
    if m._crit.smolar < m._smolar.pt then
      Prog.set (fun m => { m with _phase := phases.iphase_supercritical })
    else
      Prog.set (fun m => { m with _phase := phases.iphase_gas })
  | .iHmolar =>
    if m._crit.hmolar < m._hmolar.pt then
      Prog.set (fun m => { m with _phase := phases.iphase_supercritical })
    else
      Prog.set (fun m => { m with _phase := phases.iphase_gas })
  | .iUmolar =>
    if m._crit.umolar < m._umolar.pt then
      Prog.set (fun m => { m with _phase := phases.iphase_supercritical })
    else
      Prog.set (fun m => { m with _phase := phases.iphase_gas })
  | _ => Prog.raise (Err.ValueError "supercritical temp but other invalid for now")

/-- The method `T_phase_determination_pure_or_pseudopure`. -/
def T_phase_determination_pure_or_pseudopure (env : Env) (other : parameters) (value : Dbl) :
    Prog Unit := do
  Prog.throw_if (!ValidNumber value)
    (Err.ValueError "value to T_phase_determination_pure_or_pseudopure is invalid")
  let m ← Prog.get
  if m._T < m._crit.T then
    T_phase_determination_subcritical env other value
  else do
    let component ← Prog.ofExcept (index m.components 0)
    if m._crit.T < m._T ∧ component.pEOS.Ttriple < m._T then
      T_phase_determination_supercritical other
    else
      Prog.raise (Err.ValueError "For now, we don't support T [%g K] below Ttriple [%g K]")

/-! ### Pressure -/

/-- The method `calc_pressure`. It has no test of the phase. -/
def calc_pressure : Prog Dbl := do
  Prog.set (fun m => { m with _delta := CachedElement.assign (m._rhomolar / m._reducing.rhomolar) })
  Prog.set (fun m => { m with _tau := CachedElement.assign (m._reducing.T / m._T) })
  let dar_dDelta ← dalphar_dDelta
  let R_u ← gas_constant
  let m ← Prog.get
  let val := m._rhomolar * R_u * m._T * (1 + m._delta.pt * dar_dDelta)
  Prog.set (fun m => { m with _p := val })
  pure val

/-! ### Phase determination at given pressure -/

/-- The conversion `static_cast<double>(cell)` of a `CachedElement`: the stored
value when the cell is cached. -/
def cell_to_double (env : Env) (c : CachedElement) : Except Err Dbl :=
  if c.is_cached then .ok c.value else env.empty_cell_read c

/-- The switch that computes `Q` in `p_phase_determination_pure_or_pseudopure`
(the statement after `long double Q;`), run on the local object `HEOS`. -/
def p_phase_determination_quality (env : Env) (other : parameters) (value : Dbl) : Prog Dbl :=
  match other with
  | .iDmolar => do
    let rhoL ← onSatL rhomolar
    let rhoV ← onSatV rhomolar
    let rhoL2 ← onSatL rhomolar
    pure ((1 / value - 1 / rhoL) / (1 / rhoV - 1 / rhoL2))
  | .iSmolar => do
    let sL ← onSatL (smolar env)
    let sV ← onSatV (smolar env)
    let sL2 ← onSatL (smolar env)
    pure ((value - sL) / (sV - sL2))
  | .iHmolar => do
    let hL ← onSatL (hmolar env)
    let hV ← onSatV (hmolar env)
    let hL2 ← onSatL (hmolar env)
    pure ((value - hL) / (hV - hL2))
  | .iUmolar => do
    let uL ← onSatL (umolar env)
    let uV ← onSatV (umolar env)
    let uL2 ← onSatL (umolar env)
    pure ((value - uL) / (uV - uL2))
  | _ => Prog.raise (Err.ValueError "bad input for other")

/-- The statements of the middle branch of
`p_phase_determination_pure_or_pseudopure` from the test of
`is_pure_or_pseudopure` to the end of the branch: the saturation call on the
local object `HEOS`, the quality, the update of the owned `SatL` and `SatV`, and
the classification. The returned value is the out-parameter
`saturation_called`, which is `true` on every return from here. -/
def p_phase_determination_saturation (env : Env) (other : parameters) (value : Dbl) :
    Prog Bool := do
  let m ← Prog.get
  Prog.throw_if (!m.is_pure_or_pseudopure)
    (Err.ValueError "possibly two-phase inputs not supported for pseudo-pure for now")
  let flashed ← onLocal
    ((construct env m.components true).modify (fun h => { h with _p := m._p, _Q := 0 }))
    env.PQ_flash
  let quality ← onLocal flashed.2 (p_phase_determination_quality env other value)
  let Q := quality.1
  let HEOS := quality.2
  let rhoL ← onLocal HEOS (onSatL rhomolar)
  let TL ← onLocal rhoL.2 (onSatL T)
  onSatL (update env input_pairs.DmolarT_INPUTS rhoL.1 TL.1)
  let rhoV ← onLocal TL.2 (onSatV rhomolar)
  let TV ← onLocal rhoV.2 (onSatV T)
  onSatV (update env input_pairs.DmolarT_INPUTS rhoV.1 TV.1)
  if Q < -(Dbl.fin 100 * DBL_EPSILON) then do
    Prog.set (fun m => { m with _phase := phases.iphase_liquid, _Q := Dbl.fin (-1000) })
    pure true
  else if 1 + Dbl.fin 100 * DBL_EPSILON < Q then do
    Prog.set (fun m => { m with _phase := phases.iphase_gas, _Q := Dbl.fin 1000 })
    pure true
  else do
    Prog.set (fun m => { m with _phase := phases.iphase_twophase })
    Prog.set (fun m => { m with _Q := Q })
    let pV ← onLocal TV.2 (onSatV p)
    let pL ← onLocal pV.2 (onSatL p)
    Prog.set (fun m => { m with _p := m._Q * pV.1 + (1 - m._Q) * pL.1 })
    let rhoV ← onLocal pL.2 (onSatV rhomolar)
    let rhoL ← onLocal rhoV.2 (onSatL rhomolar)
    Prog.set (fun m => { m with _rhomolar := 1 / (m._Q / rhoV.1 + (1 - m._Q) / rhoL.1) })
    pure true

/-- The statements of the middle branch between the first switch and the test of
`is_pure_or_pseudopure`: unless the state is definitely two-phase, the ancillary
densities are evaluated and a given density is compared with them. -/
def p_phase_determination_density (env : Env) (other : parameters) (value : Dbl)
    (component : CoolPropFluid) (definitely_two_phase : Bool) : Prog Bool :=
  if !definitely_two_phase then do
    Prog.set (fun m =>
      { m with _rhoVanc := CachedElement.assign (component.ancillaries.rhoV.evaluate m._TVanc.value) })
    Prog.set (fun m =>
      { m with _rhoLanc := CachedElement.assign (component.ancillaries.rhoL.evaluate m._TLanc.value) })
    let m ← Prog.get
    let rho_vap := Dbl.fin (95 / 100) * m._rhoVanc.value
    let rho_liq := Dbl.fin (105 / 100) * m._rhoLanc.value
    match other with
    | .iDmolar =>
      if value < rho_vap then do
        Prog.set (fun m => { m with _phase := phases.iphase_gas })
        pure false
      else if rho_liq < value then do
        Prog.set (fun m => { m with _phase := phases.iphase_liquid })
        pure false
      else
        p_phase_determination_saturation env other value
    | _ => p_phase_determination_saturation env other value
  else
    p_phase_determination_saturation env other value

/-- The three tests that close the cases `iHmolar`, `iSmolar` and `iUmolar` of the
first switch of the middle branch, on the ancillary liquid and vapour values and
their error bands. -/
def p_phase_determination_bands (env : Env) (other : parameters) (value : Dbl)
    (component : CoolPropFluid) (y_liq y_liq_error_band y_vap y_vap_error_band : Dbl) :
    Prog Bool :=
  if y_vap + y_vap_error_band < value then do
    Prog.set (fun m => { m with _phase := phases.iphase_gas, _Q := Dbl.fin (-1000) })
    pure false
  else if value < y_liq - y_liq_error_band then do
    Prog.set (fun m => { m with _phase := phases.iphase_liquid, _Q := Dbl.fin 1000 })
    pure false
  else if y_liq + y_liq_error_band < value ∧ value < y_vap - y_vap_error_band then
    p_phase_determination_density env other value component true
  else
    p_phase_determination_density env other value component false

/-- The middle branch (`_p > ptriple && _p < _crit.p`) of
`p_phase_determination_pure_or_pseudopure`. -/
def p_phase_determination_subcritical (env : Env) (other : parameters) (value : Dbl)
    (component : CoolPropFluid) : Prog Bool := do
  Prog.set (fun m => { m with _TLanc := CachedElement.assign (component.ancillaries.pL.invert m._p) })
  Prog.set (fun m => { m with _TVanc := CachedElement.assign (component.ancillaries.pV.invert m._p) })
  let m ← Prog.get
  match other with
  | .iT => do
    let pVanc ← Prog.ofExcept (cell_to_double env m._pVanc)
    let p_vap := Dbl.fin (98 / 100) * pVanc
    let pLanc ← Prog.ofExcept (cell_to_double env m._pLanc)
    let p_liq := Dbl.fin (102 / 100) * pLanc
    if value < p_vap then do
      Prog.set (fun m => { m with _phase := phases.iphase_gas, _Q := Dbl.fin (-1000) })
      pure false
    else if p_liq < value then do
      Prog.set (fun m => { m with _phase := phases.iphase_liquid, _Q := Dbl.fin 1000 })
      pure false
    else
      p_phase_determination_density env other value component false
  | .iHmolar =>
    let h_liq := component.ancillaries.hL.evaluate m._TLanc.value + component.pEOS.hs_anchor.hmolar
    let h_liq_error_band := component.ancillaries.hL.get_max_abs_error
    let h_vap := h_liq + component.ancillaries.hLV.evaluate m._TLanc.value
    let h_vap_error_band := h_liq_error_band + component.ancillaries.hLV.get_max_abs_error
    p_phase_determination_bands env other value component h_liq h_liq_error_band h_vap
      h_vap_error_band
  | .iSmolar =>
    let s_anchor := component.pEOS.hs_anchor.smolar
    let s_liq := component.ancillaries.sL.evaluate m._TLanc.value + s_anchor
    let s_liq_error_band := component.ancillaries.sL.get_max_abs_error
    let s_vap := s_liq + component.ancillaries.sLV.evaluate m._TVanc.value
    let s_vap_error_band := s_liq_error_band + component.ancillaries.sLV.get_max_abs_error
    p_phase_determination_bands env other value component s_liq s_liq_error_band s_vap
      s_vap_error_band
  | .iUmolar =>
    let h_liq := component.ancillaries.hL.evaluate m._TLanc.value + component.pEOS.hs_anchor.hmolar
    let h_liq_error_band := component.ancillaries.hL.get_max_abs_error
    let h_vap := h_liq + component.ancillaries.hLV.evaluate m._TLanc.value
    let h_vap_error_band := h_liq_error_band + component.ancillaries.hLV.get_max_abs_error
    let rho_vap := component.ancillaries.rhoV.evaluate m._TVanc.value
    let rho_liq := component.ancillaries.rhoL.evaluate m._TLanc.value
    let u_liq := h_liq - m._p / rho_liq
    let u_vap := h_vap - m._p / rho_vap
    let u_liq_error_band := Dbl.fin (3 / 2) * h_liq_error_band
    let u_vap_error_band := Dbl.fin (3 / 2) * h_vap_error_band
    p_phase_determination_bands env other value component u_liq u_liq_error_band u_vap
      u_vap_error_band
  | _ => p_phase_determination_density env other value component false

/-- The branch `_p > _crit.p` of `p_phase_determination_pure_or_pseudopure`. -/
def p_phase_determination_supercritical (other : parameters) : Prog Bool := do
  Prog.set (fun m => { m with _Q := Dbl.fin 1000000000 })
  let m ← Prog.get
  match other with
  | .iT =>
    if m._crit.T < m._T then do
      Prog.set (fun m => { m with _phase := phases.iphase_supercritical })
      pure false
    else do
      Prog.set (fun m => { m with _phase := phases.iphase_liquid })
      pure false
  | .iDmolar =>
    if m._rhomolar < m._crit.rhomolar then do
      Prog.set (fun m => { m with _phase := phases.iphase_supercritical })
      pure false
    else do
      Prog.set (fun m => { m with _phase := phases.iphase_liquid })
      pure false
  | .iSmolar =>
    if m._crit.smolar < m._smolar.pt then do
      Prog.set (fun m => { m with _phase := phases.iphase_supercritical })
      pure false
    else do
      Prog.set (fun m => { m with _phase := phases.iphase_liquid })
      pure false
  | .iHmolar =>
    if m._crit.hmolar < m._hmolar.pt then do
      Prog.set (fun m => { m with _phase := phases.iphase_supercritical })
      pure false
    else do
      Prog.set (fun m => { m with _phase := phases.iphase_liquid })
      pure false
  | .iUmolar =>
    if m._crit.umolar < m._umolar.pt then do
      Prog.set (fun m => { m with _phase := phases.iphase_supercritical })
      pure false
    else do
      Prog.set (fun m => { m with _phase := phases.iphase_liquid })
      pure false
  | _ => Prog.raise (Err.ValueError "supercritical pressure but other invalid for now")

/-- The method `p_phase_determination_pure_or_pseudopure`. The returned value is the
out-parameter `saturation_called`. When none of the three tests on `_p` holds the
function returns without doing anything. -/
def p_phase_determination_pure_or_pseudopure (env : Env) (other : parameters) (value : Dbl) :
    Prog Bool := do
  let m ← Prog.get
  let component ← Prog.ofExcept (index m.components 0)
  if m._crit.p < m._p then
    p_phase_determination_supercritical other
  else if component.pEOS.ptriple < m._p ∧ m._p < m._crit.p then
    p_phase_determination_subcritical env other value component
  else if m._p < component.pEOS.ptriple then
    Prog.raise (Err.NotImplementedError
      "for now, we don't support p [%g Pa] below ptriple [%g Pa]")
  else
    pure false

/-! ### Density solvers -/

/-- The getter `get_reducing()` of the class header. -/
def get_reducing : Prog SimpleState := fun s => Res.ret s.self._reducing s

/-- The getter `get_mole_fractions()` of the class header. -/
def get_mole_fractions : Prog (List Dbl) := fun s => Res.ret s.self.mole_fractions s

/-- The method `calc_pressure_nocache`. -/
def calc_pressure_nocache (env : Env) (T rhomolar : Dbl) : Prog Dbl := do
  let m ← Prog.get
  let reducing ← Prog.ofExcept (calc_reducing_state_nocache env m m.mole_fractions)
  let delta := rhomolar / reducing.rhomolar
  let tau := reducing.T / T
  let dalphar_dDelta ← Prog.ofExcept (calc_alphar_deriv_nocache m 0 1 m.mole_fractions tau delta)
  let R_u ← gas_constant
  pure (rhomolar * R_u * T * (1 + delta * dalphar_dDelta))

/-- The method `calc_hmolar_nocache`. -/
def calc_hmolar_nocache (env : Env) (T rhomolar : Dbl) : Prog Dbl := do
  let m ← Prog.get
  let delta := rhomolar / m._reducing.rhomolar
  let tau := m._reducing.T / T
  let dar_dDelta ← Prog.ofExcept (calc_alphar_deriv_nocache m 0 1 m.mole_fractions tau delta)
  let dar_dTau ← Prog.ofExcept (calc_alphar_deriv_nocache m 1 0 m.mole_fractions tau delta)
  let da0_dTau ← Prog.ofExcept (calc_alpha0_deriv_nocache env m 1 0 m.mole_fractions tau delta
    m._reducing.T m._reducing.rhomolar)
  let R_u ← gas_constant
  pure (R_u * T * (1 + tau * (da0_dTau + dar_dTau) + delta * dar_dDelta))

/-- The method `calc_smolar_nocache`. -/
def calc_smolar_nocache (env : Env) (T rhomolar : Dbl) : Prog Dbl := do
  let m ← Prog.get
  let delta := rhomolar / m._reducing.rhomolar
  let tau := m._reducing.T / T
  let dar_dTau ← Prog.ofExcept (calc_alphar_deriv_nocache m 1 0 m.mole_fractions tau delta)
  let ar ← Prog.ofExcept (calc_alphar_deriv_nocache m 0 0 m.mole_fractions tau delta)
  let da0_dTau ← Prog.ofExcept (calc_alpha0_deriv_nocache env m 1 0 m.mole_fractions tau delta
    m._reducing.T m._reducing.rhomolar)
  let a0 ← Prog.ofExcept (calc_alpha0_deriv_nocache env m 0 0 m.mole_fractions tau delta
    m._reducing.T m._reducing.rhomolar)
  let R_u ← gas_constant
  pure (R_u * (tau * (da0_dTau + dar_dTau) - a0 - ar))

/-- The method `calc_umolar_nocache`. -/
def calc_umolar_nocache (env : Env) (T rhomolar : Dbl) : Prog Dbl := do
  let m ← Prog.get
  let delta := rhomolar / m._reducing.rhomolar
  let tau := m._reducing.T / T
  let dar_dTau ← Prog.ofExcept (calc_alphar_deriv_nocache m 1 0 m.mole_fractions tau delta)
  let da0_dTau ← Prog.ofExcept (calc_alpha0_deriv_nocache env m 1 0 m.mole_fractions tau delta
    m._reducing.T m._reducing.rhomolar)
  let R_u ← gas_constant
  pure (R_u * T * tau * (da0_dTau + dar_dTau))

/-- Whether a handler `catch(std::exception &)` or `catch(...)` takes what was
thrown: the exceptions of this file derive from `std::exception`; undefined
behaviour is not an exception and no handler takes it. -/
def Err.is_exception : Err → Bool
  | .UndefinedBehaviour _ => false
  | _ => true

/-- The statement `return Solver(...);`: the value or the exception of the run,
on the object as the run left it. -/
def SolverRun.finish (run : SolverRun) : Res Dbl :=
  match run.result with
  | .ok rhomolar => Res.ret rhomolar run.state
  | .error e => Res.throw e run.state

/-- The statements `double rhomolar = Solver(...); if (!ValidNumber(rhomolar)){throw
ValueError();}` of `solver_rho_Tp`: the value that `return rhomolar;` would
return, or the exception that leaves the `try` block. -/
def SolverRun.checked (run : SolverRun) : Except Err Dbl :=
  match run.result with
  | .ok rhomolar => if !ValidNumber rhomolar then .error (Err.ValueError "") else .ok rhomolar
  | .error e => .error e

/-- The constructor `solver_TP_resid(HEOS, T, p)`. -/
def solver_TP_resid.new (T p : Dbl) : Prog solver_TP_resid := do
  let reducing ← get_reducing
  let rhor := reducing.rhomolar
  let reducing ← get_reducing
  let tau := reducing.T / T
  let R_u ← gas_constant
  pure { T := T, p := p, r := none, peos := none, rhomolar := none, rhor := rhor, tau := tau,
         R_u := R_u, delta := none, dalphar_dDelta := none }

/-- The member `solver_TP_resid::call`, run on the object `HEOS`; the residual
object comes back with the members the call wrote. -/
def solver_TP_resid.call (f : solver_TP_resid) (rhomolar : Dbl) :
    Prog (Dbl × solver_TP_resid) := do
  let delta := rhomolar / f.rhor
  let m ← Prog.get
  let x ← get_mole_fractions
  let dalphar_dDelta ← Prog.ofExcept (calc_alphar_deriv_nocache m 0 1 x f.tau delta)
  let peos := rhomolar * f.R_u * f.T * (1 + delta * dalphar_dDelta)
  let r := (peos - f.p) / f.p
  pure (r, { f with rhomolar := some rhomolar, delta := some delta,
                    dalphar_dDelta := some dalphar_dDelta, peos := some peos, r := some r })

/-- The member `solver_TP_resid::deriv`, run on the object `HEOS`. It reads the
members `delta` and `dalphar_dDelta` that the last `call` wrote. -/
def solver_TP_resid.deriv (f : solver_TP_resid) (_rhomolar : Dbl) : Prog Dbl :=
  match f.delta, f.dalphar_dDelta with
  | some delta, some dalphar_dDelta => do
    let m ← Prog.get
    let x ← get_mole_fractions
    let d2alphar_dDelta2 ← Prog.ofExcept (calc_alphar_deriv_nocache m 0 2 x f.tau delta)
    pure (f.R_u * f.T * (1 + Dbl.fin 2 * delta * dalphar_dDelta + pow2 delta * d2alphar_dDelta2)
      / f.p)
  | _, _ => Prog.raise (Err.UndefinedBehaviour "read of an uninitialised member")

/-- The member `solver_resid::call`, run on the object `HEOS`; the residual object
comes back with the members the call wrote. -/
def solver_resid.call (env : Env) (f : solver_resid) (rhomolar : Dbl) :
    Prog (Dbl × solver_resid) := do
  let eos ← (match f.other with
    | .iSmolar => calc_smolar_nocache env f.T rhomolar
    | .iHmolar => calc_hmolar_nocache env f.T rhomolar
    | .iUmolar => calc_umolar_nocache env f.T rhomolar
    | _ => Prog.raise (Err.ValueError "Input not supported"))
  let r := eos - f.value
  pure (r, { f with rhomolar := some rhomolar, eos := some eos, r := some r })

/-- The quantity `a_i` (and `a_j`) of `solver_rho_Tp_SRK` for one component. -/
def SRK_a (env : Env) (R_u T : Dbl) (c : CoolPropFluid) : Dbl :=
  let Tci := c.pEOS.reduce.T
  let pci := c.pEOS.reduce.p
  let accentric_i := c.pEOS.accentric
  let m_i := Dbl.fin (480 / 1000) + Dbl.fin (1574 / 1000) * accentric_i
    - Dbl.fin (176 / 1000) * pow2 accentric_i
  Dbl.fin (42747 / 100000) * pow2 (R_u * Tci) / pci * pow2 (1 + m_i * (1 - env.sqrt (T / Tci)))

/-- The loop over `i` of `solver_rho_Tp_SRK`, started at index `i` with the running
values of `a` and `b`; the inner loop over `j` adds to `a`. -/
def SRK_loop (env : Env) (m : Members) (R_u T : Dbl) :
    Nat → Nat → Dbl × Dbl → Except Err (Dbl × Dbl)
  | 0, _, ab => .ok ab
  | n + 1, i, ab =>
    match index m.components i, index m.mole_fractions i with
    | .ok c_i, .ok x_i =>
      let b_i := Dbl.fin (8664 / 100000) * R_u * c_i.pEOS.reduce.T / c_i.pEOS.reduce.p
      let b := ab.2 + x_i * b_i
      let a_i := SRK_a env R_u T c_i
      match sum_loop (fun j =>
          match index m.components j, index m.mole_fractions j with
          | .ok c_j, .ok x_j => .ok (x_i * x_j * env.sqrt (a_i * SRK_a env R_u T c_j) * (1 - 0))
          | .error e, _ => .error e
          | _, .error e => .error e)
        m.components.length 0 ab.1 with
      | .ok a => SRK_loop env m R_u T n (i + 1) (a, b)
      | .error e => .error e
    | .error e, _ => .error e
    | _, .error e => .error e

/-- The statements of `solver_rho_Tp_SRK` after the call of `solve_cubic`
("Determine the guess value"). -/
def solver_rho_Tp_SRK_guess (T p : Dbl) (phase : phases) (R_u : Dbl) (Nsolns : Int)
    (Z0 Z1 Z2 : Dbl) : Except Err Dbl :=
  if Nsolns = 1 then
    .ok (p / (Z0 * R_u * T))
  else
    let rhomolar0 := p / (Z0 * R_u * T)
    let rhomolar1 := p / (Z1 * R_u * T)
    let rhomolar2 := p / (Z2 * R_u * T)
    if 0 < rhomolar0 ∧ rhomolar1 ≤ 0 ∧ rhomolar2 ≤ 0 then .ok rhomolar0
    else if rhomolar0 ≤ 0 ∧ 0 < rhomolar1 ∧ rhomolar2 ≤ 0 then .ok rhomolar1
    else if rhomolar0 ≤ 0 ∧ rhomolar1 ≤ 0 ∧ 0 < rhomolar2 then .ok rhomolar2
    else
      match phase with
      | .iphase_liquid => .ok (max3 rhomolar0 rhomolar1 rhomolar2)
      | .iphase_gas => .ok (min3 rhomolar0 rhomolar1 rhomolar2)
      | _ => .error (Err.ValueError "Bad phase to solver_rho_Tp_SRK")

/-- The statements of `solver_rho_Tp_SRK` up to the call of `solve_cubic`: the
value of `R_u` and what `solve_cubic` reports. -/
def solver_rho_Tp_SRK_cubic (env : Env) (T p : Dbl) : Prog (Dbl × Int × Dbl × Dbl × Dbl) := do
  let R_u ← gas_constant
  let m ← Prog.get
  let ab ← Prog.ofExcept (SRK_loop env m R_u T m.components.length 0 (0, 0))
  let A := ab.1 * p / pow2 (R_u * T)
  let B := ab.2 * p / (R_u * T)
  pure (R_u, env.solve_cubic 1 (-1) (A - B - B * B) ((-A) * B))

/-- The method `solver_rho_Tp_SRK`. -/
def solver_rho_Tp_SRK (env : Env) (T p : Dbl) (phase : phases) : Prog Dbl := do
  let cubic ← solver_rho_Tp_SRK_cubic env T p
  Prog.ofExcept (solver_rho_Tp_SRK_guess T p phase cubic.1 cubic.2.1 cubic.2.2.1 cubic.2.2.2.1
    cubic.2.2.2.2)

/-- The liquid case of the guess of `solver_rho_Tp`: the guess is raised to the
ancillary saturated-liquid density. -/
def solver_rho_Tp_liquid_guess (env : Env) (T rhomolar_guess : Dbl) : Prog Dbl := do
  let m ← Prog.get
  let component ← Prog.ofExcept (index m.components 0)
  Prog.set (fun m => { m with _rhoLanc := CachedElement.assign (component.ancillaries.rhoL.evaluate T) })
  let m ← Prog.get
  let rhoLanc ← Prog.ofExcept (cell_to_double env m._rhoLanc)
  if rhomolar_guess < rhoLanc then
    Prog.ofExcept (cell_to_double env m._rhoLanc)
  else
    pure rhomolar_guess

/-- The statements of `solver_rho_Tp` between the construction of the residual and
the first `try`: the phase and, when no guess was supplied, the guess. -/
def solver_rho_Tp_guess (env : Env) (T p rhomolar_guess : Dbl) : Prog Dbl := do
  let m ← Prog.get
  let phase := match m.imposed_phase_index with
    | some imposed => imposed
    | none => m._phase
  if rhomolar_guess < 0 then do
    let rhomolar_guess ← solver_rho_Tp_SRK env T p phase
    if phase = phases.iphase_gas ∧ rhomolar_guess < 0 then do
      let R_u ← gas_constant
      pure (p / (R_u * T))
    else if phase = phases.iphase_liquid then
      solver_rho_Tp_liquid_guess env T rhomolar_guess
    else
      pure rhomolar_guess
  else
    pure rhomolar_guess

/-- The three nested `try` blocks of `solver_rho_Tp`. -/
def solver_rho_Tp_attempts (env : Env) (rhomolar_guess : Dbl) (resid : FuncWrapper1D) :
    Prog Dbl := fun s =>
  let first := env.Newton resid rhomolar_guess (Dbl.fin (1 / 100000000)) 100 s
  match first.checked with
  | .ok rhomolar => Res.ret rhomolar first.state
  | .error e =>
    if !e.is_exception then Res.throw e first.state
    else
      let second := env.Secant first.resid rhomolar_guess (Dbl.fin (1 / 10000) * rhomolar_guess)
        (Dbl.fin (1 / 100000000)) 100 first.state
      match second.checked with
      | .ok rhomolar => Res.ret rhomolar second.state
      | .error e =>
        if !e.is_exception then Res.throw e second.state
        else
          let third := env.Secant second.resid rhomolar_guess
            (Dbl.fin (1 / 10000) * rhomolar_guess) (Dbl.fin (1 / 100000000)) 100 second.state
          match third.result with
          | .ok _ => Res.ret _HUGE third.state
          | .error e =>
            if e.is_exception then
              Res.throw (Err.ValueError
                "solver_rho_Tp was unable to find a solution for T=%10Lg, p=%10Lg, with guess value %10Lg")
                third.state
            else Res.throw e third.state

/-- The method `solver_rho_Tp`. -/
def solver_rho_Tp (env : Env) (T p rhomolar_guess : Dbl) : Prog Dbl := do
  let resid ← solver_TP_resid.new T p
  let rhomolar_guess ← solver_rho_Tp_guess env T p rhomolar_guess
  solver_rho_Tp_attempts env rhomolar_guess (FuncWrapper1D.TP resid)

/-- The supercritical branch of `solver_for_rho_given_T_oneof_HSU`. -/
def solver_for_rho_given_T_oneof_HSU_supercritical (env : Env) (other : parameters)
    (resid : solver_resid) : Prog Dbl := do
  let m ← Prog.get
  let component ← Prog.ofExcept (index m.components 0)
  let rhomelt := component.triple_liquid.rhomolar
  let rhoc := component.crit.rhomolar
  let rhomin := Dbl.fin (1 / 10000000000)
  let ys ← (match other with
    | .iSmolar => do
      let ymelt ← calc_smolar_nocache env m._T rhomelt
      let yc ← calc_smolar_nocache env m._T rhoc
      let ymin ← calc_smolar_nocache env m._T rhomin
      let y ← Prog.ofExcept (cell_to_double env m._smolar)
      pure (ymelt, yc, ymin, y)
    | .iHmolar => do
      let ymelt ← calc_hmolar_nocache env m._T rhomelt
      let yc ← calc_hmolar_nocache env m._T rhoc
      let ymin ← calc_hmolar_nocache env m._T rhomin
      let y ← Prog.ofExcept (cell_to_double env m._hmolar)
      pure (ymelt, yc, ymin, y)
    | .iUmolar => do
      let ymelt ← calc_umolar_nocache env m._T rhomelt
      let yc ← calc_umolar_nocache env m._T rhoc
      let ymin ← calc_umolar_nocache env m._T rhomin
      let y ← Prog.ofExcept (cell_to_double env m._umolar)
      pure (ymelt, yc, ymin, y)
    | _ => Prog.raise (Err.ValueError ""))
  if is_in_closed_range ys.1 ys.2.1 ys.2.2.2 then
    fun s => (env.Brent (FuncWrapper1D.HSU resid) rhomelt rhoc env.LDBL_EPSILON
      (Dbl.fin (1 / 1000000000000)) 100 s).finish
  else if is_in_closed_range ys.2.1 ys.2.2.1 ys.2.2.2 then
    fun s => (env.Brent (FuncWrapper1D.HSU resid) rhoc rhomin env.LDBL_EPSILON
      (Dbl.fin (1 / 1000000000000)) 100 s).finish
  else
    Prog.raise (Err.ValueError "")

/-- The branch `_phase == iphase_liquid` of `solver_for_rho_given_T_oneof_HSU`. -/
def solver_for_rho_given_T_oneof_HSU_liquid (env : Env) (other : parameters)
    (resid : solver_resid) : Prog Dbl := do
  let m ← Prog.get
  let component ← Prog.ofExcept (index m.components 0)
  let rhomelt := component.triple_liquid.rhomolar
  let rhoL ← Prog.ofExcept (cell_to_double env m._rhoLanc)
  let ys ← (match other with
    | .iSmolar => do
      let ymelt ← calc_smolar_nocache env m._T rhomelt
      let yL ← calc_smolar_nocache env m._T rhoL
      let y ← Prog.ofExcept (cell_to_double env m._smolar)
      pure (ymelt, yL, y)
    | .iHmolar => do
      let ymelt ← calc_hmolar_nocache env m._T rhomelt
      let yL ← calc_hmolar_nocache env m._T rhoL
      let y ← Prog.ofExcept (cell_to_double env m._hmolar)
      pure (ymelt, yL, y)
    | .iUmolar => do
      let ymelt ← calc_umolar_nocache env m._T rhomelt
      let yL ← calc_umolar_nocache env m._T rhoL
      let y ← Prog.ofExcept (cell_to_double env m._umolar)
      pure (ymelt, yL, y)
    | _ => Prog.raise (Err.ValueError ""))
  let rhomolar_guess := (rhomelt - rhoL) / (ys.1 - ys.2.1) * (ys.2.2 - ys.2.1) + rhoL
  fun s => (env.Secant (FuncWrapper1D.HSU resid) rhomolar_guess
    (Dbl.fin (1 / 10000) * rhomolar_guess) (Dbl.fin (1 / 1000000000000)) 100 s).finish

/-- The branch `_phase == iphase_gas` of `solver_for_rho_given_T_oneof_HSU`. -/
def solver_for_rho_given_T_oneof_HSU_gas (env : Env) (resid : solver_resid) : Prog Dbl := do
  let m ← Prog.get
  let rhomin := Dbl.fin (1 / 100000000000000)
  let rhoV ← Prog.ofExcept (cell_to_double env m._rhoVanc)
  fun s =>
    let run := env.Brent (FuncWrapper1D.HSU resid) rhomin rhoV env.LDBL_EPSILON
      (Dbl.fin (1 / 1000000000000)) 100 s
    match run.result with
    | .ok rhomolar => Res.ret rhomolar run.state
    | .error e =>
      if e.is_exception then Res.throw (Err.ValueError "") run.state
      else Res.throw e run.state

/-- The method `solver_for_rho_given_T_oneof_HSU`. When the temperature is not
supercritical and the phase is neither liquid nor gas, control reaches the end
of the function without a `return`. -/
def solver_for_rho_given_T_oneof_HSU (env : Env) (T value : Dbl) (other : parameters) :
    Prog Dbl := do
  let resid : solver_resid :=
    { other := other, T := T, value := value, r := none, eos := none, rhomolar := none }
  let m ← Prog.get
  if m._crit.T < m._T then
    solver_for_rho_given_T_oneof_HSU_supercritical env other resid
  else if m._phase = phases.iphase_liquid then
    solver_for_rho_given_T_oneof_HSU_liquid env other resid
  else if m._phase = phases.iphase_gas then
    solver_for_rho_given_T_oneof_HSU_gas env resid
  else
    Prog.raise (Err.UndefinedBehaviour
      "control reaches the end of solver_for_rho_given_T_oneof_HSU")

/-! ### Second derivatives, heat capacities and partial derivatives -/

/-- The method `calc_d2alphar_dTau2`. -/
def calc_d2alphar_dTau2 (m : Members) : Except Err Dbl :=
  calc_alphar_deriv_nocache m 2 0 m.mole_fractions m._tau.value m._delta.value

/-- The method `calc_d2alphar_dDelta_dTau`. -/
def calc_d2alphar_dDelta_dTau (m : Members) : Except Err Dbl :=
  calc_alphar_deriv_nocache m 1 1 m.mole_fractions m._tau.value m._delta.value

/-- The method `calc_d2alphar_dDelta2`. -/
def calc_d2alphar_dDelta2 (m : Members) : Except Err Dbl :=
  calc_alphar_deriv_nocache m 0 2 m.mole_fractions m._tau.value m._delta.value

/-- The method `calc_d2alpha0_dTau2`. -/
def calc_d2alpha0_dTau2 (env : Env) (m : Members) : Except Err Dbl :=
  calc_alpha0_deriv_nocache env m 2 0 m.mole_fractions m._tau.value m._delta.value
    m._reducing.T m._reducing.rhomolar

/-- The accessor `d2alphar_dTau2()`. -/
def d2alphar_dTau2 : Prog Dbl := fun s =>
  via_cache (fun m => m._d2alphar_dTau2) (fun c m => { m with _d2alphar_dTau2 := c }) s
    (Prog.ofExcept (calc_d2alphar_dTau2 s.self) s)

/-- The accessor `d2alphar_dDelta_dTau()`. -/
def d2alphar_dDelta_dTau : Prog Dbl := fun s =>
  via_cache (fun m => m._d2alphar_dDelta_dTau) (fun c m => { m with _d2alphar_dDelta_dTau := c }) s
    (Prog.ofExcept (calc_d2alphar_dDelta_dTau s.self) s)

/-- The accessor `d2alphar_dDelta2()`. -/
def d2alphar_dDelta2 : Prog Dbl := fun s =>
  via_cache (fun m => m._d2alphar_dDelta2) (fun c m => { m with _d2alphar_dDelta2 := c }) s
    (Prog.ofExcept (calc_d2alphar_dDelta2 s.self) s)

/-- The accessor `d2alpha0_dTau2()`. -/
def d2alpha0_dTau2 (env : Env) : Prog Dbl := fun s =>
  via_cache (fun m => m._d2alpha0_dTau2) (fun c m => { m with _d2alpha0_dTau2 := c }) s
    (Prog.ofExcept (calc_d2alpha0_dTau2 env s.self) s)

/-- The method `calc_cvmolar`. -/
def calc_cvmolar (env : Env) : Prog Dbl := do
  set_reduced_variables
  let d2ar_dTau2 ← d2alphar_dTau2
  let d2a0_dTau2 ← d2alpha0_dTau2 env
  let m ← Prog.get
  let R_u ← Prog.ofExcept (cell_to_double env m._gas_constant)
  Prog.set (fun m => { m with _cvmolar := CachedElement.assign (
    (-R_u) * pow2 m._tau.pt * (d2ar_dTau2 + d2a0_dTau2)) })
  let m ← Prog.get
  Prog.ofExcept (cell_to_double env m._cvmolar)

/-- The method `calc_cpmolar`. -/
def calc_cpmolar (env : Env) : Prog Dbl := do
  set_reduced_variables
  let d2a0_dTau2 ← d2alpha0_dTau2 env
  let dar_dDelta ← dalphar_dDelta
  let d2ar_dDelta2 ← d2alphar_dDelta2
  let d2ar_dDelta_dTau ← d2alphar_dDelta_dTau
  let d2ar_dTau2 ← d2alphar_dTau2
  let m ← Prog.get
  let R_u ← Prog.ofExcept (cell_to_double env m._gas_constant)
  Prog.set (fun m => { m with _cpmolar := CachedElement.assign (
    R_u * ((-pow2 m._tau.pt) * (d2ar_dTau2 + d2a0_dTau2)
      + pow2 (1 + m._delta.pt * dar_dDelta - m._delta.pt * m._tau.pt * d2ar_dDelta_dTau)
        / (1 + Dbl.fin 2 * m._delta.pt * dar_dDelta + pow2 m._delta.pt * d2ar_dDelta2))) })
  let m ← Prog.get
  Prog.ofExcept (cell_to_double env m._cpmolar)

/-- The method `mixderiv_dpdT__constV_n`. -/
def mixderiv_dpdT__constV_n (env : Env) : Prog Dbl := do
  let m ← Prog.get
  let R_u ← Prog.ofExcept (cell_to_double env m._gas_constant)
  let dar_dDelta ← dalphar_dDelta
  let d2ar_dDelta_dTau ← d2alphar_dDelta_dTau
  pure (m._rhomolar * R_u * (1 + m._delta.pt * dar_dDelta
    - m._delta.pt * m._tau.pt * d2ar_dDelta_dTau))

/-- The method `mixderiv_dpdrho__constT_n`. -/
def mixderiv_dpdrho__constT_n (env : Env) : Prog Dbl := do
  let m ← Prog.get
  let R_u ← Prog.ofExcept (cell_to_double env m._gas_constant)
  let dar_dDelta ← dalphar_dDelta
  let d2ar_dDelta2 ← d2alphar_dDelta2
  pure (R_u * m._T * (1 + Dbl.fin 2 * m._delta.pt * dar_dDelta
    + pow2 m._delta.pt * d2ar_dDelta2))

/-- The cases `iHmolar`, `iSmolar` and `iUmolar` of the switch of `get_dtau_ddelta`;
the pair is `(dtau, ddelta)`. The cached accessors are called from left to
right. -/
def get_dtau_ddelta_caloric (env : Env) (T rho rhor dT_dtau R delta tau : Dbl)
    (index : parameters) : Prog (Dbl × Dbl) :=
  match index with
  | .iHmolar => do
    let d2a0_dTau2 ← d2alpha0_dTau2 env
    let d2ar_dTau2 ← d2alphar_dTau2
    let dar_dDelta ← dalphar_dDelta
    let d2ar_dDelta_dTau ← d2alphar_dDelta_dTau
    let dtau := dT_dtau * R * ((-pow2 tau) * (d2a0_dTau2 + d2ar_dTau2)
      + (1 + delta * dar_dDelta - tau * delta * d2ar_dDelta_dTau))
    let d2ar_dDelta_dTau ← d2alphar_dDelta_dTau
    let dar_dDelta ← dalphar_dDelta
    let d2ar_dDelta2 ← d2alphar_dDelta2
    let ddelta := rhor * T * R / rho * (tau * delta * d2ar_dDelta_dTau + delta * dar_dDelta
      + pow2 delta * d2ar_dDelta2)
    pure (dtau, ddelta)
  | .iSmolar => do
    let d2a0_dTau2 ← d2alpha0_dTau2 env
    let d2ar_dTau2 ← d2alphar_dTau2
    let dtau := dT_dtau * R / T * ((-pow2 tau) * (d2a0_dTau2 + d2ar_dTau2))
    let dar_dDelta ← dalphar_dDelta
    let d2ar_dDelta_dTau ← d2alphar_dDelta_dTau
    let ddelta := rhor * R / rho * (-(1 + delta * dar_dDelta - tau * delta * d2ar_dDelta_dTau))
    pure (dtau, ddelta)
  | .iUmolar => do
    let d2a0_dTau2 ← d2alpha0_dTau2 env
    let d2ar_dTau2 ← d2alphar_dTau2
    let dtau := dT_dtau * R * ((-pow2 tau) * (d2a0_dTau2 + d2ar_dTau2))
    let T_ ← CoolProp.T
    let d2ar_dDelta_dTau ← d2alphar_dDelta_dTau
    let ddelta := rhor * T_ * R / rho * (tau * delta * d2ar_dDelta_dTau)
    pure (dtau, ddelta)
  | _ => Prog.raise (Err.ValueError "input to get_dtau_ddelta[%s] is invalid")

/-- The function `get_dtau_ddelta`, run on the object `HEOS`; the pair is
`(dtau, ddelta)`. -/
def get_dtau_ddelta (env : Env) (T rho : Dbl) (index : parameters) : Prog (Dbl × Dbl) := do
  let reducing ← get_reducing
  let rhor := reducing.rhomolar
  let reducing ← get_reducing
  let Tr := reducing.T
  let dT_dtau := (-pow2 T) / Tr
  let R ← gas_constant
  let delta := rho / rhor
  let tau := Tr / T
  match index with
  | .iT => pure (dT_dtau, 0)
  | .iDmolar => pure (0, rhor)
  | .iP => do
    let m ← Prog.get
    let x ← get_mole_fractions
    let dalphar_dDelta ← Prog.ofExcept (calc_alphar_deriv_nocache m 0 1 x tau delta)
    let x ← get_mole_fractions
    let d2alphar_dDelta2 ← Prog.ofExcept (calc_alphar_deriv_nocache m 0 2 x tau delta)
    let x ← get_mole_fractions
    let d2alphar_dDelta_dTau ← Prog.ofExcept (calc_alphar_deriv_nocache m 1 1 x tau delta)
    let ddelta := rhor * R * T * (1 + Dbl.fin 2 * delta * dalphar_dDelta
      + pow2 delta * d2alphar_dDelta2)
    let dtau := dT_dtau * rho * R * (1 + delta * dalphar_dDelta
      - tau * delta * d2alphar_dDelta_dTau)
    pure (dtau, ddelta)
  | .iTau => pure (1, 0)
  | .iDelta => pure (0, 1)
  | _ => get_dtau_ddelta_caloric env T rho rhor dT_dtau R delta tau index

/-- The method `calc_first_partial_deriv_nocache`. -/
def calc_first_partial_deriv_nocache (env : Env) (T rhomolar : Dbl)
    (Of Wrt Constant : parameters) : Prog Dbl := do
  let dOf ← get_dtau_ddelta env T rhomolar Of
  let dWrt ← get_dtau_ddelta env T rhomolar Wrt
  let dConstant ← get_dtau_ddelta env T rhomolar Constant
  pure ((dOf.1 * dConstant.2 - dOf.2 * dConstant.1)
    / (dWrt.1 * dConstant.2 - dWrt.2 * dConstant.1))

/-- The method `calc_first_partial_deriv`. -/
def calc_first_partial_deriv (env : Env) (Of Wrt Constant : parameters) : Prog Dbl := do
  let m ← Prog.get
  calc_first_partial_deriv_nocache env m._T m._rhomolar Of Wrt Constant

/-! ## Vocabulary of the statements -/

/-- The object after a sequence of `set_mole_fractions` calls, successful or
failed, with the given arguments in order. -/
def after_set_mole_fractions (s : HelmholtzEOSMixtureBackend) (calls : List (List Dbl)) :
    HelmholtzEOSMixtureBackend :=
  calls.foldl (fun s x => (set_mole_fractions x s).state) s

/-- The physical quantity an input value stands for. -/
inductive Quantity where
  | density
  | temperature
  | pressure
  | enthalpy
  | entropy
  | internal_energy
  deriving DecidableEq

/-- The 13 mass-based input pairs: what the first and the second value are, and
the molar counterpart of the tag. Every other tag gives `none`. -/
def mass_based : input_pairs → Option (Quantity × Quantity × input_pairs)
  | .DmassT_INPUTS => some (.density, .temperature, .DmolarT_INPUTS)
  | .HmassT_INPUTS => some (.enthalpy, .temperature, .HmolarT_INPUTS)
  | .SmassT_INPUTS => some (.entropy, .temperature, .SmolarT_INPUTS)
  | .TUmass_INPUTS => some (.temperature, .internal_energy, .TUmolar_INPUTS)
  | .DmassP_INPUTS => some (.density, .pressure, .DmolarP_INPUTS)
  | .HmassP_INPUTS => some (.enthalpy, .pressure, .HmolarP_INPUTS)
  | .PSmass_INPUTS => some (.pressure, .entropy, .PSmolar_INPUTS)
  | .PUmass_INPUTS => some (.pressure, .internal_energy, .PUmolar_INPUTS)
  | .HmassSmass_INPUTS => some (.enthalpy, .entropy, .HmolarSmolar_INPUTS)
  | .SmassUmass_INPUTS => some (.entropy, .internal_energy, .SmolarUmolar_INPUTS)
  | .DmassHmass_INPUTS => some (.density, .enthalpy, .DmolarHmolar_INPUTS)
  | .DmassSmass_INPUTS => some (.density, .entropy, .DmolarSmolar_INPUTS)
  | .DmassUmass_INPUTS => some (.density, .internal_energy, .DmolarUmolar_INPUTS)
  | _ => none

/-- The mass-to-molar rule for one value with molar mass `M`: a mass density is
divided by `M`; a mass enthalpy, entropy or internal energy is multiplied by
`M`; a temperature or pressure is left as it is. -/
def to_molar (M : Dbl) : Quantity → Dbl → Dbl
  | .density, v => v / M
  | .enthalpy, v => v * M
  | .entropy, v => v * M
  | .internal_energy, v => v * M
  | _, v => v

/-- The 14 molar input pairs that have a flash routine. -/
def molar_pairs_with_flash : List input_pairs :=
  [.PT_INPUTS, .DmolarT_INPUTS, .SmolarT_INPUTS, .HmolarT_INPUTS, .TUmolar_INPUTS,
   .DmolarP_INPUTS, .DmolarHmolar_INPUTS, .DmolarSmolar_INPUTS, .DmolarUmolar_INPUTS,
   .HmolarP_INPUTS, .PSmolar_INPUTS, .PUmolar_INPUTS, .QT_INPUTS, .PQ_INPUTS]

/-- The supported input pairs: the 14 molar pairs and the mass-based pairs whose
molar counterpart is one of the 14. -/
def supported_input_pair (input_pair : input_pairs) : Bool :=
  match mass_based input_pair with
  | some (_, _, molar) => decide (molar ∈ molar_pairs_with_flash)
  | none => decide (input_pair ∈ molar_pairs_with_flash)

/-- The environment with its six flash routines replaced. -/
def Env.with_flash (env : Env) (PT_flash : Prog Unit) (DHSU_T_flash : parameters → Prog Unit)
    (PHSU_D_flash : parameters → Prog Unit) (HSU_P_flash : parameters → Prog Unit)
    (QT_flash : Prog Unit) (PQ_flash : Prog Unit) : Env :=
  { env with PT_flash := PT_flash, DHSU_T_flash := DHSU_T_flash, PHSU_D_flash := PHSU_D_flash,
             HSU_P_flash := HSU_P_flash, QT_flash := QT_flash, PQ_flash := PQ_flash }

/-- An exception that no code of this file throws; a flash routine that throws it
reveals that it was entered. -/
def flash_entered : Err := Err.ValueError "a flash routine was entered"

/-- The environment in which every flash routine throws `flash_entered` at once. -/
def Env.probe (env : Env) : Env :=
  env.with_flash (Prog.raise flash_entered) (fun _ => Prog.raise flash_entered)
    (fun _ => Prog.raise flash_entered) (fun _ => Prog.raise flash_entered)
    (Prog.raise flash_entered) (Prog.raise flash_entered)

/-- An object whose composition is in place: one mole fraction per component, at
least one component, and for a mixture a reducing function. -/
def composition_set (s : HelmholtzEOSMixtureBackend) : Prop :=
  s.self.mole_fractions.length = s.self.components.length ∧ s.self.components ≠ []
    ∧ (s.self.is_pure_or_pseudopure = false → s.self.Reducing.isSome = true)

/-- Two objects with the same composition members. -/
def same_composition (s s1 : HelmholtzEOSMixtureBackend) : Prop :=
  s1.self.mole_fractions = s.self.mole_fractions ∧ s1.self.components = s.self.components
    ∧ s1.self.is_pure_or_pseudopure = s.self.is_pure_or_pseudopure
    ∧ s1.self.Reducing = s.self.Reducing

/-- The tag `mass_to_molar_inputs` hands on: the molar counterpart of a mass-based
tag, the tag itself otherwise. -/
def molar_tag (input_pair : input_pairs) : input_pairs :=
  match mass_based input_pair with
  | some (_, _, molar) => molar
  | none => input_pair

/-- The two values `mass_to_molar_inputs` hands on, with `M` the molar mass: the
values of a mass-based pair converted by the mass-to-molar rule, the values
themselves for every other tag. -/
def molar_values (M : Dbl) (input_pair : input_pairs) (value1 value2 : Dbl) : Dbl × Dbl :=
  match mass_based input_pair with
  | some (first, second, _) => (to_molar M first value1, to_molar M second value2)
  | none => (value1, value2)

/-- The stored variable that `T_phase_determination_pure_or_pseudopure` pairs with
the temperature, for the five supported keys. -/
def paired_variable (m : Members) : parameters → Option Dbl
  | .iP => some m._p
  | .iDmolar => some m._rhomolar
  | .iSmolar => some m._smolar.pt
  | .iHmolar => some m._hmolar.pt
  | .iUmolar => some m._umolar.pt
  | _ => none

/-- The critical value of the paired variable, for the five supported keys. -/
def critical_value (m : Members) : parameters → Option Dbl
  | .iP => some m._crit.p
  | .iDmolar => some m._crit.rhomolar
  | .iSmolar => some m._crit.smolar
  | .iHmolar => some m._crit.hmolar
  | .iUmolar => some m._crit.umolar
  | _ => none

/-- The descriptor's derivative of the residual part, of order `a` in `tau` and
`b` in `delta`; the descriptor has the ten derivatives of total order at most 3. -/
def residual_derivative : Nat → Nat → Option (EquationOfState → Dbl → Dbl → Dbl)
  | 0, 0 => some (fun e => e.baser)
  | 0, 1 => some (fun e => e.dalphar_dDelta)
  | 1, 0 => some (fun e => e.dalphar_dTau)
  | 0, 2 => some (fun e => e.d2alphar_dDelta2)
  | 1, 1 => some (fun e => e.d2alphar_dDelta_dTau)
  | 2, 0 => some (fun e => e.d2alphar_dTau2)
  | 0, 3 => some (fun e => e.d3alphar_dDelta3)
  | 1, 2 => some (fun e => e.d3alphar_dDelta2_dTau)
  | 2, 1 => some (fun e => e.d3alphar_dDelta_dTau2)
  | 3, 0 => some (fun e => e.d3alphar_dTau3)
  | _, _ => none

/-- The descriptor's derivative of the ideal-gas part, of order `a` in `tau` and
`b` in `delta`. -/
def ideal_derivative : Nat → Nat → Option (EquationOfState → Dbl → Dbl → Dbl)
  | 0, 0 => some (fun e => e.base0)
  | 0, 1 => some (fun e => e.dalpha0_dDelta)
  | 1, 0 => some (fun e => e.dalpha0_dTau)
  | 0, 2 => some (fun e => e.d2alpha0_dDelta2)
  | 1, 1 => some (fun e => e.d2alpha0_dDelta_dTau)
  | 2, 0 => some (fun e => e.d2alpha0_dTau2)
  | 0, 3 => some (fun e => e.d3alpha0_dDelta3)
  | 1, 2 => some (fun e => e.d3alpha0_dDelta2_dTau)
  | 2, 1 => some (fun e => e.d3alpha0_dDelta_dTau2)
  | 3, 0 => some (fun e => e.d3alpha0_dTau3)
  | _, _ => none

/-- The derivative of the excess term, of order `a` in `tau` and `b` in `delta`;
the excess term has the six derivatives of total order at most 2. -/
def excess_derivative : Nat → Nat → Option (ExcessTerm → Dbl → Dbl → List Dbl → Dbl)
  | 0, 0 => some (fun e => e.alphar)
  | 0, 1 => some (fun e => e.dalphar_dDelta)
  | 1, 0 => some (fun e => e.dalphar_dTau)
  | 0, 2 => some (fun e => e.d2alphar_dDelta2)
  | 1, 1 => some (fun e => e.d2alphar_dDelta_dTau)
  | 2, 0 => some (fun e => e.d2alphar_dTau2)
  | _, _ => none

/-- The power `x^n` with a natural exponent. -/
def Dbl.npow (x : Dbl) : Nat → Dbl
  | 0 => 1
  | n + 1 => Dbl.npow x n * x

/-- The stated term of component `c` with mole fraction `x` in the ideal-gas part
of a mixture, for the derivative `f` of order `a` in `tau` and `b` in `delta`:
`x * (Tc/Tr)^a * (rhor/rhoc)^b * f(tau*Tc/Tr, delta*rhor/rhoc)`, and for order
(0,0) in addition `x * ln x`. -/
def ideal_mixture_term (log : Dbl → Dbl) (a b : Nat) (f : EquationOfState → Dbl → Dbl → Dbl)
    (tau delta Tr rhor : Dbl) (x : Dbl) (c : CoolPropFluid) : Dbl :=
  let Tc := c.pEOS.reduce.T
  let rhoc := c.pEOS.reduce.rhomolar
  let weighted :=
    x * Dbl.npow (Tc / Tr) a * Dbl.npow (rhor / rhoc) b * f c.pEOS (tau * Tc / Tr) (delta * rhor / rhoc)
  if a = 0 ∧ b = 0 then weighted + x * log x else weighted

/-- Two objects with the same temperature, density and reduced variables. -/
def same_reduced_point (s s1 : HelmholtzEOSMixtureBackend) : Prop :=
  s1.self._T = s.self._T ∧ s1.self._tau = s.self._tau ∧ s1.self._delta = s.self._delta
    ∧ s1.self._rhomolar = s.self._rhomolar

/-- The stored variable that `p_phase_determination_pure_or_pseudopure` pairs with
the pressure, for the five supported keys. -/
def paired_variable_at_pressure (m : Members) : parameters → Option Dbl
  | .iT => some m._T
  | .iDmolar => some m._rhomolar
  | .iSmolar => some m._smolar.pt
  | .iHmolar => some m._hmolar.pt
  | .iUmolar => some m._umolar.pt
  | _ => none

/-- The critical value of the variable paired with the pressure. -/
def critical_value_at_pressure (m : Members) : parameters → Option Dbl
  | .iT => some m._crit.T
  | .iDmolar => some m._crit.rhomolar
  | .iSmolar => some m._crit.smolar
  | .iHmolar => some m._crit.hmolar
  | .iUmolar => some m._crit.umolar
  | _ => none

/-- The two comparisons that let a computed quality through as two-phase. -/
def quality_within_tolerance (Q : Dbl) : Prop :=
  ¬ (Q < -(Dbl.fin 100 * DBL_EPSILON)) ∧ ¬ (1 + Dbl.fin 100 * DBL_EPSILON < Q)

/-- An object whose quality passed the two comparisons if its phase is two-phase. -/
def two_phase_quality_checked (s : HelmholtzEOSMixtureBackend) : Prop :=
  s.self._phase = phases.iphase_twophase → quality_within_tolerance s.self._Q

/-- Every normal return of `f` leaves an object with the property `P`. -/
def Prog.ends_with {α : Type} (P : HelmholtzEOSMixtureBackend → Prop) (f : Prog α) : Prop :=
  ∀ s a s1, f s = Res.ret a s1 → P s1

/-- The values `update` stores for a molar input pair before it calls the flash
routine of the pair. -/
def inputs_stored (input_pair : input_pairs) (value1 value2 : Dbl) (m : Members) : Prop :=
  match input_pair with
  | .PT_INPUTS => m._p = value1 ∧ m._T = value2
  | .DmolarT_INPUTS => m._rhomolar = value1 ∧ m._T = value2
  | .SmolarT_INPUTS => m._smolar = CachedElement.assign value1 ∧ m._T = value2
  | .HmolarT_INPUTS => m._hmolar = CachedElement.assign value1 ∧ m._T = value2
  | .TUmolar_INPUTS => m._T = value1 ∧ m._umolar = CachedElement.assign value2
  | .DmolarP_INPUTS => m._rhomolar = value1 ∧ m._p = value2
  | .DmolarHmolar_INPUTS => m._rhomolar = value1 ∧ m._hmolar = CachedElement.assign value2
  | .DmolarSmolar_INPUTS => m._rhomolar = value1 ∧ m._smolar = CachedElement.assign value2
  | .DmolarUmolar_INPUTS => m._rhomolar = value1 ∧ m._umolar = CachedElement.assign value2
  | .HmolarP_INPUTS => m._hmolar = CachedElement.assign value1 ∧ m._p = value2
  | .PSmolar_INPUTS => m._p = value1 ∧ m._smolar = CachedElement.assign value2
  | .PUmolar_INPUTS => m._p = value1 ∧ m._umolar = CachedElement.assign value2
  | .QT_INPUTS => m._Q = value1 ∧ m._T = value2
  | .PQ_INPUTS => m._p = value1 ∧ m._Q = value2
  | _ => True

/-- The flash routine `update` calls for a molar input pair. -/
def flash_routine (env : Env) (input_pair : input_pairs) : Prog Unit :=
  match input_pair with
  | .PT_INPUTS => env.PT_flash
  | .DmolarT_INPUTS => env.DHSU_T_flash parameters.iDmolar
  | .SmolarT_INPUTS => env.DHSU_T_flash parameters.iSmolar
  | .HmolarT_INPUTS => env.DHSU_T_flash parameters.iHmolar
  | .TUmolar_INPUTS => env.DHSU_T_flash parameters.iUmolar
  | .DmolarP_INPUTS => env.PHSU_D_flash parameters.iP
  | .DmolarHmolar_INPUTS => env.PHSU_D_flash parameters.iHmolar
  | .DmolarSmolar_INPUTS => env.PHSU_D_flash parameters.iSmolar
  | .DmolarUmolar_INPUTS => env.PHSU_D_flash parameters.iUmolar
  | .HmolarP_INPUTS => env.HSU_P_flash parameters.iHmolar
  | .PSmolar_INPUTS => env.HSU_P_flash parameters.iSmolar
  | .PUmolar_INPUTS => env.HSU_P_flash parameters.iUmolar
  | .QT_INPUTS => env.QT_flash
  | .PQ_INPUTS => env.PQ_flash
  | _ => Prog.raise (Err.ValueError "This pair of inputs [%s] is not yet supported")

/-- The checks at the end of `update` and the assignments of `_tau` and `_delta`
that follow them. -/
def update_checks : Prog Unit := do
  let m ← Prog.get
  Prog.throw_if (!ValidNumber m._p) (Err.ValueError "p is not a valid number")
  Prog.throw_if (!ValidNumber m._T) (Err.ValueError "T is not a valid number")
  Prog.throw_if (decide (m._rhomolar < 0)) (Err.ValueError "rhomolar is less than zero")
  Prog.throw_if (!ValidNumber m._rhomolar) (Err.ValueError "rhomolar is not a valid number")
  Prog.throw_if (!ValidNumber m._Q) (Err.ValueError "Q is not a valid number")
  Prog.throw_if (decide (m._phase = phases.iphase_unknown)) (Err.ValueError "_phase is unknown")
  Prog.set (fun m => { m with _tau := CachedElement.assign (m._reducing.T / m._T) })
  Prog.set (fun m => { m with _delta := CachedElement.assign (m._rhomolar / m._reducing.rhomolar) })

/-- A solver run that failed in the sense of `solver_rho_Tp`: it threw an
exception, or it returned a value that is not a valid number. -/
def SolverRun.failed (run : SolverRun) : Prop :=
  ∃ e, run.checked = .error e ∧ e.is_exception = true

/-- The phase `solver_rho_Tp` works with, in the words of the statement: the
imposed phase if one was specified, the phase of the state otherwise. -/
def phase_used (m : Members) : phases :=
  match m.imposed_phase_index with
  | some imposed => imposed
  | none => m._phase

/-- The starting density of `solver_rho_Tp` when no guess is supplied, in the words
of the statement: the SRK density, replaced by the ideal-gas density when the
phase is gas and the SRK density is not positive, and raised to the larger of
the SRK density and the ancillary saturated-liquid density when the phase is
liquid. -/
def starting_density (phase : phases) (rho_SRK rho_ideal rhoL : Dbl) : Dbl :=
  if phase = phases.iphase_gas ∧ rho_SRK ≤ 0 then rho_ideal
  else if phase = phases.iphase_liquid then (if rho_SRK < rhoL then rhoL else rho_SRK)
  else rho_SRK

/-- A number that is finite and not zero. -/
def finite_nonzero (x : Dbl) : Prop := ∃ q : ℚ, q ≠ 0 ∧ x = Dbl.fin q

/-- The denominators `Z*R_u*T` of the candidate densities that `solver_rho_Tp_SRK`
reads are finite and not zero. -/
def SRK_roots_regular (T R_u : Dbl) (Nsolns : Int) (Z0 Z1 Z2 : Dbl) : Prop :=
  finite_nonzero (Z0 * R_u * T)
    ∧ (Nsolns ≠ 1 → finite_nonzero (Z1 * R_u * T) ∧ finite_nonzero (Z2 * R_u * T))

/-- The caloric property named by the key `other` (entropy, enthalpy or internal
energy), evaluated at `(T, rhomolar)` without the cache. -/
def caloric_nocache (env : Env) (other : parameters) (T rhomolar : Dbl) : Prog Dbl :=
  match other with
  | .iSmolar => calc_smolar_nocache env T rhomolar
  | .iHmolar => calc_hmolar_nocache env T rhomolar
  | .iUmolar => calc_umolar_nocache env T rhomolar
  | _ => Prog.raise (Err.ValueError "")

/-- The cell of the caloric property named by the key `other`. -/
def caloric_cell (other : parameters) (m : Members) : CachedElement :=
  match other with
  | .iSmolar => m._smolar
  | .iHmolar => m._hmolar
  | .iUmolar => m._umolar
  | _ => CachedElement.cleared

/-- The value a cached accessor hands out: the content of the cell when the cell
is cached, the outcome of the `calc_` method otherwise. -/
def cached_or (c : CachedElement) (computed : Except Err Dbl) : Except Err Dbl :=
  if c.is_cached then .ok c.value else computed

/-- The members with the six cells that `get_dtau_ddelta` may fill replaced by
`c1`, ..., `c6`. -/
def fill_cells (c1 c2 c3 c4 c5 c6 : CachedElement) (m : Members) : Members :=
  { m with _gas_constant := c1, _dalphar_dDelta := c2, _d2alphar_dDelta2 := c3,
           _d2alphar_dDelta_dTau := c4, _d2alphar_dTau2 := c5, _d2alpha0_dTau2 := c6 }

/-- Two objects that differ at most in the content of the six cells of
`fill_cells` and on which each of the six cached accessors hands out the same
value. -/
def same_cache_values (env : Env) (s s1 : HelmholtzEOSMixtureBackend) : Prop :=
  (∃ c1 c2 c3 c4 c5 c6, s1 = s.modify (fill_cells c1 c2 c3 c4 c5 c6))
    ∧ cached_or s1.self._gas_constant (calc_gas_constant s1.self)
        = cached_or s.self._gas_constant (calc_gas_constant s.self)
    ∧ cached_or s1.self._dalphar_dDelta (calc_dalphar_dDelta s1.self)
        = cached_or s.self._dalphar_dDelta (calc_dalphar_dDelta s.self)
    ∧ cached_or s1.self._d2alphar_dDelta2 (calc_d2alphar_dDelta2 s1.self)
        = cached_or s.self._d2alphar_dDelta2 (calc_d2alphar_dDelta2 s.self)
    ∧ cached_or s1.self._d2alphar_dDelta_dTau (calc_d2alphar_dDelta_dTau s1.self)
        = cached_or s.self._d2alphar_dDelta_dTau (calc_d2alphar_dDelta_dTau s.self)
    ∧ cached_or s1.self._d2alphar_dTau2 (calc_d2alphar_dTau2 s1.self)
        = cached_or s.self._d2alphar_dTau2 (calc_d2alphar_dTau2 s.self)
    ∧ cached_or s1.self._d2alpha0_dTau2 (calc_d2alpha0_dTau2 env s1.self)
        = cached_or s.self._d2alpha0_dTau2 (calc_d2alpha0_dTau2 env s.self)

/-- A transformer whose returned value is the same on two objects with the same
cache values, and which leaves objects with these cache values. -/
def Prog.cache_stable {α : Type} (env : Env) (f : Prog α) : Prop :=
  ∀ s t a s1, same_cache_values env s t → f s = Res.ret a s1 →
    same_cache_values env s s1 ∧ ∃ t1, f t = Res.ret a t1 ∧ same_cache_values env t t1

/-! ## Example data -/

/-- A state point with all entries equal to `x`. -/
def SimpleState.const (x : Dbl) : SimpleState := ⟨x, x, x, x, x, x⟩

/-- An equation of state whose Helmholtz derivatives all vanish, with the
reducing point at 400 K, 5000 mol/m3 and 4 MPa, and the triple point at 200 K. -/
def example_EOS : EquationOfState :=
  { reduce := ⟨Dbl.fin 400, Dbl.fin 5000, Dbl.fin 4000000, Dbl.fin 0, Dbl.fin 0, Dbl.fin 0⟩
    hs_anchor := ⟨Dbl.fin 300, Dbl.fin 40000, Dbl.fin 100000, Dbl.fin 0, Dbl.fin 0, Dbl.fin 0⟩
    Ttriple := Dbl.fin 200
    ptriple := Dbl.fin 600
    accentric := Dbl.fin 0
    baser := fun _ _ => Dbl.fin 0
    dalphar_dDelta := fun _ _ => Dbl.fin 0
    dalphar_dTau := fun _ _ => Dbl.fin 0
    d2alphar_dDelta2 := fun _ _ => Dbl.fin 0
    d2alphar_dDelta_dTau := fun _ _ => Dbl.fin 0
    d2alphar_dTau2 := fun _ _ => Dbl.fin 0
    d3alphar_dDelta3 := fun _ _ => Dbl.fin 0
    d3alphar_dDelta2_dTau := fun _ _ => Dbl.fin 0
    d3alphar_dDelta_dTau2 := fun _ _ => Dbl.fin 0
    d3alphar_dTau3 := fun _ _ => Dbl.fin 0
    base0 := fun _ _ => Dbl.fin 0
    dalpha0_dDelta := fun _ _ => Dbl.fin 0
    dalpha0_dTau := fun _ _ => Dbl.fin 0
    d2alpha0_dDelta2 := fun _ _ => Dbl.fin 0
    d2alpha0_dDelta_dTau := fun _ _ => Dbl.fin 0
    d2alpha0_dTau2 := fun _ _ => Dbl.fin 0
    d3alpha0_dDelta3 := fun _ _ => Dbl.fin 0
    d3alpha0_dDelta2_dTau := fun _ _ => Dbl.fin 0
    d3alpha0_dDelta_dTau2 := fun _ _ => Dbl.fin 0
    d3alpha0_dTau3 := fun _ _ => Dbl.fin 0 }

/-- An ancillary curve with the same value `y` at every temperature, inverse
300 K and no fitting error. -/
def example_curve (y : ℚ) : AncillaryCurve :=
  { evaluate := fun _ => Dbl.fin y
    invert := fun _ => Dbl.fin 300
    get_max_abs_error := Dbl.fin 0 }

/-- A fluid with molar mass `M` and gas constant `R` on `example_EOS`; its
ancillary curves are constant: saturation pressure 1000 Pa, saturated densities
40000 (liquid) and 1 (vapour) mol/m3, enthalpy and entropy curves at 0. -/
def example_fluid (M R : ℚ) : CoolPropFluid :=
  { pEOS := example_EOS
    crit := example_EOS.reduce
    triple_liquid := ⟨Dbl.fin 200, Dbl.fin 45000, Dbl.fin 600, Dbl.fin 0, Dbl.fin 0, Dbl.fin 0⟩
    ancillaries :=
      { pL := example_curve 1000
        pV := example_curve 1000
        rhoL := example_curve 40000
        rhoV := example_curve 1
        hL := example_curve 0
        hLV := example_curve 0
        sL := example_curve 0
        sLV := example_curve 0 }
    gas_constant := Dbl.fin R
    molar_mass := Dbl.fin M }

/-- Base-class members with every cell empty, the bulk values at `-_HUGE` and the
phase unknown. -/
def example_cleared : AbstractState :=
  { _phase := phases.iphase_unknown
    _rhomolar := Dbl.ninf
    _T := Dbl.ninf
    _p := Dbl.ninf
    _Q := Dbl.ninf
    _tau := CachedElement.cleared
    _delta := CachedElement.cleared
    _molar_mass := CachedElement.cleared
    _gas_constant := CachedElement.cleared
    _hmolar := CachedElement.cleared
    _smolar := CachedElement.cleared
    _umolar := CachedElement.cleared
    _reducing := SimpleState.const Dbl.ninf
    _crit := SimpleState.const Dbl.ninf
    _rhoLanc := CachedElement.cleared
    _rhoVanc := CachedElement.cleared
    _pLanc := CachedElement.cleared
    _pVanc := CachedElement.cleared
    _TLanc := CachedElement.cleared
    _TVanc := CachedElement.cleared
    _alphar := CachedElement.cleared
    _dalphar_dDelta := CachedElement.cleared
    _dalphar_dTau := CachedElement.cleared
    _d2alphar_dDelta2 := CachedElement.cleared
    _d2alphar_dDelta_dTau := CachedElement.cleared
    _d2alphar_dTau2 := CachedElement.cleared
    _alpha0 := CachedElement.cleared
    _dalpha0_dDelta := CachedElement.cleared
    _dalpha0_dTau := CachedElement.cleared
    _d2alpha0_dDelta2 := CachedElement.cleared
    _d2alpha0_dDelta_dTau := CachedElement.cleared
    _d2alpha0_dTau2 := CachedElement.cleared
    _cvmolar := CachedElement.cleared
    _cpmolar := CachedElement.cleared
    _speed_sound := CachedElement.cleared }

/-- An excess term that contributes nothing. -/
def example_excess : ExcessTerm :=
  ⟨fun _ _ _ => Dbl.fin 0, fun _ _ _ => Dbl.fin 0, fun _ _ _ => Dbl.fin 0,
   fun _ _ _ => Dbl.fin 0, fun _ _ _ => Dbl.fin 0, fun _ _ _ => Dbl.fin 0⟩

/-- A flash routine that stores density 1 mol/m3, pressure 2500 Pa, the quality
-1 and the phase gas, and leaves the temperature alone. -/
def example_flash : Prog Unit :=
  Prog.set (fun m => { m with _rhomolar := Dbl.fin 1, _p := Dbl.fin 2500, _Q := Dbl.fin (-1),
                              _phase := phases.iphase_gas })

/-- An environment for the examples: `clear` empties every cell, every flash
routine is `example_flash`, the saturation solver fails. -/
def example_env : Env :=
  { clear := fun _ => example_cleared
    base_init := example_cleared
    SimpleState_init := SimpleState.const _HUGE
    ReducingFunction_factory := fun _ => ⟨fun _ => Dbl.fin 400, fun _ => Dbl.fin 5000⟩
    Excess_init := example_excess
    Excess_construct := fun _ => example_excess
    PT_flash := example_flash
    DHSU_T_flash := fun _ => example_flash
    PHSU_D_flash := fun _ => example_flash
    HSU_P_flash := fun _ => example_flash
    QT_flash := example_flash
    PQ_flash := example_flash
    saturation_T_pure := fun _ => Prog.raise (Err.ValueError "saturation_T_pure did not converge")
    log := fun _ => Dbl.nan
    empty_cell_read := fun _ => .error (Err.ValueError "the cell holds no value")
    Newton := fun f x0 _ _ s => ⟨.ok x0, f, s⟩
    Secant := fun f x0 _ _ _ s => ⟨.ok x0, f, s⟩
    Brent := fun f a _ _ _ _ s => ⟨.ok a, f, s⟩
    solve_cubic := fun _ _ _ _ => (1, 1, 0, 0)
    sqrt := fun _ => Dbl.nan
    LDBL_EPSILON := Dbl.fin (1 / 9223372036854775808) }

/-- A pure fluid object (one component, molar mass 18, gas constant 8). -/
def example_pure : HelmholtzEOSMixtureBackend :=
  construct example_env [example_fluid 18 8] true

/-- A two-component mixture object right after construction. -/
def example_mixture : HelmholtzEOSMixtureBackend :=
  construct example_env [example_fluid 18 8, example_fluid 44 8] true

/-- The object `example_pure` with temperature `T`, pressure `p` and density
`rho` stored and the reducing state computed, as a flash routine finds it when
it calls the phase determination. -/
def example_pure_at (T p rho : ℚ) : HelmholtzEOSMixtureBackend :=
  example_pure.modify (fun m =>
    { m with _T := Dbl.fin T, _p := Dbl.fin p, _rhomolar := Dbl.fin rho,
             _reducing := example_EOS.reduce, _crit := example_EOS.reduce })

/-- The values of the natural logarithm at 0 and at 1; the examples use no other
argument. -/
def example_log (x : Dbl) : Dbl :=
  if x = Dbl.fin 0 then Dbl.ninf else if x = Dbl.fin 1 then Dbl.fin 0 else Dbl.nan

/-- The environment `example_env` with `example_log` as the logarithm. -/
def example_env_log : Env := { example_env with log := example_log }

/-- The equation of state `example_EOS` with an ideal-gas part `ln delta`, as far
as the examples read it: minus infinity at `delta = 0`. -/
def example_EOS_log : EquationOfState :=
  { example_EOS with base0 := fun _ delta => example_log delta }

/-- The members of a pure state on `example_EOS_log`. -/
def example_pure_log : Members :=
  { example_pure.self with
    components := [{ example_fluid 18 8 with pEOS := example_EOS_log }] }

/-- The equation of state `example_EOS` with the reducing point at `Tc` and `rhoc`
and an ideal-gas part whose derivative in `tau` is `tau` and whose derivative in
`delta` is `delta`. -/
def example_EOS_ideal (Tc rhoc : ℚ) : EquationOfState :=
  { example_EOS with
    reduce := ⟨Dbl.fin Tc, Dbl.fin rhoc, Dbl.fin 4000000, Dbl.fin 0, Dbl.fin 0, Dbl.fin 0⟩
    dalpha0_dTau := fun tau _ => tau
    dalpha0_dDelta := fun _ delta => delta }

/-- The members of a two-component mixture whose components have the reducing
points (400 K, 5000 mol/m3) and (200 K, 10000 mol/m3). -/
def example_mixture_ideal : Members :=
  { example_mixture.self with
    components := [{ example_fluid 18 8 with pEOS := example_EOS_ideal 400 5000 },
                   { example_fluid 44 8 with pEOS := example_EOS_ideal 200 10000 }] }

/-- A pure gas state at 300 K and 100 mol/m3 on `example_EOS_ideal 400 5000`, with
the gas constant 8 already in its cell. -/
def example_gas : HelmholtzEOSMixtureBackend :=
  (example_pure_at 300 1000 100).modify (fun m =>
    { m with _phase := phases.iphase_gas
             _gas_constant := CachedElement.assign (Dbl.fin 8)
             components := [{ example_fluid 18 8 with pEOS := example_EOS_ideal 400 5000 }] })

/-- A saturated-phase object at 300 K with density `rho`, pressure `p` and the
molar enthalpy `h`, entropy `s` and internal energy `u` in their cells. -/
def example_saturated (rho p h s u : ℚ) : HelmholtzEOSMixtureBackend :=
  (new_without_sat example_env [example_fluid 18 8]).modify (fun m =>
    { m with _T := Dbl.fin 300, _rhomolar := Dbl.fin rho, _p := Dbl.fin p
             _hmolar := CachedElement.assign (Dbl.fin h)
             _smolar := CachedElement.assign (Dbl.fin s)
             _umolar := CachedElement.assign (Dbl.fin u) })

/-- A two-phase state with quality 1/4 between a saturated liquid with
(h, s, u) = (100, 1, 90) and a saturated vapour with (h, s, u) = (500, 3, 450). -/
def example_two_phase : HelmholtzEOSMixtureBackend :=
  (((example_pure_at 300 1000 100).modify (fun m =>
      { m with _phase := phases.iphase_twophase, _Q := Dbl.fin (1 / 4) })).setSatL
    (some (example_saturated 40000 1000 100 1 90))).setSatV
    (some (example_saturated 1 1000 500 3 450))

/-- A local object after the saturation call: `SatL` is a saturated liquid with
density 40000 and `SatV` a saturated vapour with density 1, both at 1000 Pa. -/
def example_HEOS : HelmholtzEOSMixtureBackend :=
  ((construct example_env [example_fluid 18 8] true).setSatL
    (some (example_saturated 40000 1000 100 1 90))).setSatV
    (some (example_saturated 1 1000 500 3 450))

/-- A saturation routine that leaves the saturated states of `example_HEOS` in
`SatL` and `SatV`. -/
def example_solver : Prog Unit := fun s =>
  Res.ret () ((s.setSatL (some (example_saturated 40000 1000 100 1 90))).setSatV
    (some (example_saturated 1 1000 500 3 450)))

/-- The environment `example_env` with `example_solver` as the saturation solver at
given temperature and as the flash routine at given pressure and quality. -/
def example_env_sat : Env :=
  { example_env with saturation_T_pure := fun _ => example_solver, PQ_flash := example_solver }

/-- The object `example_pure_at 300 2500 2` whose cells `_pVanc` and `_pLanc` hold
the value 1000 left by an earlier call. -/
def example_stale_ancillaries : HelmholtzEOSMixtureBackend :=
  (example_pure_at 300 2500 2).modify (fun m =>
    { m with _pVanc := CachedElement.assign (Dbl.fin 1000)
             _pLanc := CachedElement.assign (Dbl.fin 1000) })

/-- The environment `example_env` in which `Newton` throws and `Secant` returns NaN
without throwing. -/
def example_env_nan : Env :=
  { example_env with
    Newton := fun f _ _ _ s => ⟨.error (Err.ValueError "Newton did not converge"), f, s⟩
    Secant := fun f _ _ _ _ s => ⟨.ok Dbl.nan, f, s⟩ }

/-- The environment `example_env` whose cubic solver reports the three roots -21,
-18 and 40; they are the roots of `Z^3 - Z^2 + (A - B - B^2) Z - A B` for
`A = -630` and `B = -24`. -/
def example_env_cubic : Env :=
  { example_env with
    solve_cubic := fun _ _ _ _ => (3, Dbl.fin (-21), Dbl.fin (-18), Dbl.fin 40) }

/-- The object `example_pure_at 450 1000 100`, above the critical temperature 400,
with the molar entropy 0 in its cell. -/
def example_supercritical : HelmholtzEOSMixtureBackend :=
  (example_pure_at 450 1000 100).modify (fun m =>
    { m with _smolar := CachedElement.assign (Dbl.fin 0) })

/-- The object `example_pure_at 300 1000 100` after the subcritical branch of the
T-given phase determination has stored the ancillary densities 1 and 40000 and
updated the owned `SatV` at 0.95 * 1 mol/m3 and the owned `SatL` at
1.05 * 40000 mol/m3, both at 300 K. -/
def example_ancillary_updated : HelmholtzEOSMixtureBackend :=
  (onSatL (update example_env_sat input_pairs.DmolarT_INPUTS (Dbl.fin (105 / 100) * Dbl.fin 40000)
      (Dbl.fin 300))
    (onSatV (update example_env_sat input_pairs.DmolarT_INPUTS (Dbl.fin (95 / 100) * Dbl.fin 1)
        (Dbl.fin 300))
      ((example_pure_at 300 1000 100).modify (fun m =>
        { m with _rhoVanc := CachedElement.assign (Dbl.fin 1),
                 _rhoLanc := CachedElement.assign (Dbl.fin 40000) }))).state).state

/-- The equation of state `example_EOS` with constant residual derivatives
`1/2` (delta), `1` (delta delta), `1` (delta tau), `-1` (tau tau) and the
ideal-gas derivative `-2` (tau tau). -/
def example_EOS_curved : EquationOfState :=
  { example_EOS with
    dalphar_dDelta := fun _ _ => Dbl.fin (1 / 2)
    d2alphar_dDelta2 := fun _ _ => Dbl.fin 1
    d2alphar_dDelta_dTau := fun _ _ => Dbl.fin 1
    d2alphar_dTau2 := fun _ _ => Dbl.fin (-1)
    d2alpha0_dTau2 := fun _ _ => Dbl.fin (-2) }

/-- A pure gas state at 300 K and 100 mol/m3 on `example_EOS_curved`, with the
reducing temperature `Tr` and the reducing density 5000 mol/m3, the gas constant
8 in its cell and the reduced variables `tau = Tr/300` and `delta = 100/5000`
stored. -/
def example_curved (Tr : ℚ) : HelmholtzEOSMixtureBackend :=
  (example_pure_at 300 1000 100).modify (fun m =>
    { m with _phase := phases.iphase_gas
             _gas_constant := CachedElement.assign (Dbl.fin 8)
             _reducing := ⟨Dbl.fin Tr, Dbl.fin 5000, Dbl.fin 4000000, Dbl.fin 0, Dbl.fin 0,
               Dbl.fin 0⟩
             _tau := CachedElement.assign (Dbl.fin (Tr / 300))
             _delta := CachedElement.assign (Dbl.fin (100 / 5000))
             components := [{ example_fluid 18 8 with pEOS := example_EOS_curved }] })

/-! ## Lemmas on the state transformers -/

namespace Prog

theorem bind_apply {α β : Type} (m : Prog α) (k : α → Prog β) (s : HelmholtzEOSMixtureBackend) :
    (m >>= k) s = match m s with
      | Res.ret a s1 => k a s1
      | Res.throw e s1 => Res.throw e s1 := rfl

theorem bind_eq_ret {α β : Type} (m : Prog α) (k : α → Prog β)
    (s s2 : HelmholtzEOSMixtureBackend) (b : β) :
    (m >>= k) s = Res.ret b s2 ↔ ∃ a s1, m s = Res.ret a s1 ∧ k a s1 = Res.ret b s2 := by
  rw [bind_apply]
  cases h : m s with
  | ret a s1 =>
    constructor
    · intro hk
      exact ⟨a, s1, rfl, hk⟩
    · rintro ⟨a1, s3, h1, hk⟩
      cases h1
      exact hk
  | throw e s1 => simp

theorem pure_apply {α : Type} (a : α) (s : HelmholtzEOSMixtureBackend) :
    (pure a : Prog α) s = Res.ret a s := rfl

theorem get_apply (s : HelmholtzEOSMixtureBackend) : Prog.get s = Res.ret s.self s := rfl

theorem set_apply (f : Members → Members) (s : HelmholtzEOSMixtureBackend) :
    Prog.set f s = Res.ret () (s.modify f) := rfl

theorem raise_apply {α : Type} (e : Err) (s : HelmholtzEOSMixtureBackend) :
    (Prog.raise e : Prog α) s = Res.throw e s := rfl

theorem throw_if_true (e : Err) (s : HelmholtzEOSMixtureBackend) :
    Prog.throw_if true e s = Res.throw e s := rfl

theorem throw_if_false (e : Err) (s : HelmholtzEOSMixtureBackend) :
    Prog.throw_if false e s = Res.ret () s := rfl

theorem throw_if_eq_ret (c : Bool) (e : Err) (s s2 : HelmholtzEOSMixtureBackend) (u : Unit) :
    Prog.throw_if c e s = Res.ret u s2 ↔ c = false ∧ s = s2 := by
  cases c <;> simp [throw_if]

theorem ofExcept_ok {α : Type} (a : α) (s : HelmholtzEOSMixtureBackend) :
    Prog.ofExcept (Except.ok a) s = Res.ret a s := rfl

theorem ofExcept_error {α : Type} (e : Err) (s : HelmholtzEOSMixtureBackend) :
    (Prog.ofExcept (Except.error e) : Prog α) s = Res.throw e s := rfl

end Prog

namespace HelmholtzEOSMixtureBackend

theorem self_modify (f : Members → Members) (s : HelmholtzEOSMixtureBackend) :
    (s.modify f).self = f s.self := by
  cases s; rfl

theorem self_setSatL (l : Option HelmholtzEOSMixtureBackend) (s : HelmholtzEOSMixtureBackend) :
    (s.setSatL l).self = s.self := by
  cases s; rfl

theorem self_setSatV (v : Option HelmholtzEOSMixtureBackend) (s : HelmholtzEOSMixtureBackend) :
    (s.setSatV v).self = s.self := by
  cases s; rfl

end HelmholtzEOSMixtureBackend

theorem Res.eq_ret_state {α : Type} (r : Res α) (h : r.returned = true) :
    ∃ a, r = Res.ret a r.state := by
  cases r with
  | ret a s => exact ⟨a, rfl⟩
  | throw e s => simp [Res.returned] at h

theorem Dbl.not_lt_self (a : Dbl) : ¬ (a < a) := by
  show ¬ (Dbl.lt a a = true)
  cases a <;> simp [Dbl.lt]

theorem Dbl.fin_lt_fin (a b : ℚ) : (Dbl.fin a < Dbl.fin b) ↔ a < b := by
  show Dbl.lt (Dbl.fin a) (Dbl.fin b) = true ↔ a < b
  simp [Dbl.lt]

theorem Dbl.fin_add_fin (a b : ℚ) : Dbl.fin a + Dbl.fin b = Dbl.fin (a + b) := rfl

theorem Dbl.fin_mul_fin (a b : ℚ) : Dbl.fin a * Dbl.fin b = Dbl.fin (a * b) := rfl

theorem Dbl.fin_sub_fin (a b : ℚ) : Dbl.fin a - Dbl.fin b = Dbl.fin (a - b) := by
  show Dbl.add (Dbl.fin a) (Dbl.neg (Dbl.fin b)) = Dbl.fin (a - b)
  simp [Dbl.add, Dbl.neg, sub_eq_add_neg]

theorem Dbl.fin_div_fin (a b : ℚ) (h : b ≠ 0) : Dbl.fin a / Dbl.fin b = Dbl.fin (a / b) := by
  show Dbl.div (Dbl.fin a) (Dbl.fin b) = Dbl.fin (a / b)
  simp [Dbl.div, h]

theorem Dbl.zero_eq : (0 : Dbl) = Dbl.fin 0 := rfl

theorem Dbl.one_eq : (1 : Dbl) = Dbl.fin 1 := rfl

theorem vector_resize_length (v : List Dbl) (n : Nat) : (vector_resize v n).length = n := by
  simp only [vector_resize, List.length_append, List.length_take, List.length_replicate]
  omega

theorem std_copy_full (src dest : List Dbl) (h : dest.length = src.length) :
    std_copy src dest = src := by
  simp [std_copy, List.drop_eq_nil_of_le (le_of_eq h)]

/-! ## The flash dispatcher: post-conditions (C1) -/

/-- C1. If `update(input_pair, value1, value2)` returns without raising, whatever
the input pair, the values, the object and the collaborators, then the stored
`_p`, `_T`, `_rhomolar` and `_Q` are valid (finite) numbers, `_rhomolar` is not
negative, and the stored phase is not `iphase_unknown`. -/
theorem update_postcondition (env : Env) (input_pair : input_pairs) (value1 value2 : Dbl)
    (s s2 : HelmholtzEOSMixtureBackend)
    (h : update env input_pair value1 value2 s = Res.ret () s2) :
    ValidNumber s2.self._p = true ∧ ValidNumber s2.self._T = true
      ∧ ValidNumber s2.self._rhomolar = true ∧ ValidNumber s2.self._Q = true
      ∧ (∃ q : ℚ, s2.self._rhomolar = Dbl.fin q ∧ 0 ≤ q)
      ∧ s2.self._phase ≠ phases.iphase_unknown := by
  unfold update at h
  simp only [Prog.bind_eq_ret, Prog.throw_if_eq_ret, Prog.get_apply, Prog.set_apply] at h
  obtain ⟨_, _, _, _, _, _, _, _, _, _, _, _, _, _, _, _, _, _, _, s3, _, m, s4, hm, h⟩ := h
  cases hm
  obtain ⟨_, _, ⟨hp, rfl⟩, _, _, ⟨hT, rfl⟩, _, _, ⟨hneg, rfl⟩, _, _, ⟨hrho, rfl⟩, _, _,
    ⟨hQ, rfl⟩, _, _, ⟨hphase, rfl⟩, _, _, h1, h2⟩ := h
  cases h1
  cases h2
  simp only [HelmholtzEOSMixtureBackend.self_modify]
  simp only [Bool.not_eq_false', decide_eq_false_iff_not] at hp hT hneg hrho hQ hphase
  refine ⟨hp, hT, hrho, hQ, ?_, hphase⟩
  revert hneg hrho
  cases s3.self._rhomolar with
  | fin q =>
    intro hneg _
    refine ⟨q, rfl, ?_⟩
    have hq : ¬ (q < 0) := fun hq => hneg ((Dbl.fin_lt_fin q 0).mpr hq)
    exact not_lt.mp hq
  | pinf => intro _ h; simp [ValidNumber, Dbl.isFinite] at h
  | ninf => intro _ h; simp [ValidNumber, Dbl.isFinite] at h
  | nan => intro _ h; simp [ValidNumber, Dbl.isFinite] at h

/-- Witness for C1: on the pure example fluid, `update(PT_INPUTS, 2500, 300)`
returns, and the post-conditions hold of the object it leaves. -/
theorem update_postcondition_witness :
    (update example_env input_pairs.PT_INPUTS (Dbl.fin 2500) (Dbl.fin 300)
        example_pure).returned = true
      ∧ ValidNumber (update example_env input_pairs.PT_INPUTS (Dbl.fin 2500) (Dbl.fin 300)
          example_pure).state.self._p = true
      ∧ ValidNumber (update example_env input_pairs.PT_INPUTS (Dbl.fin 2500) (Dbl.fin 300)
          example_pure).state.self._T = true
      ∧ ValidNumber (update example_env input_pairs.PT_INPUTS (Dbl.fin 2500) (Dbl.fin 300)
          example_pure).state.self._rhomolar = true
      ∧ ValidNumber (update example_env input_pairs.PT_INPUTS (Dbl.fin 2500) (Dbl.fin 300)
          example_pure).state.self._Q = true
      ∧ (∃ q : ℚ, (update example_env input_pairs.PT_INPUTS (Dbl.fin 2500) (Dbl.fin 300)
          example_pure).state.self._rhomolar = Dbl.fin q ∧ 0 ≤ q)
      ∧ (update example_env input_pairs.PT_INPUTS (Dbl.fin 2500) (Dbl.fin 300)
          example_pure).state.self._phase ≠ phases.iphase_unknown := by
  have hret : (update example_env input_pairs.PT_INPUTS (Dbl.fin 2500) (Dbl.fin 300)
      example_pure).returned = true := by decide
  obtain ⟨_, h⟩ := Res.eq_ret_state _ hret
  exact ⟨hret, update_postcondition _ _ _ _ _ _ h⟩

/-! ## Composition (C2, C3, C4) -/

theorem set_components_members_N (env : Env) (components : List CoolPropFluid) (m : Members) :
    (set_components_members env components m).N = components.length
      ∧ (set_components_members env components m).components = components := by
  unfold set_components_members
  by_cases h : components.length = 1 <;> simp [h]

theorem set_components_members_pure (env : Env) (components : List CoolPropFluid) (m : Members)
    (h : components.length = 1) :
    (set_components_members env components m).is_pure_or_pseudopure = true
      ∧ (set_components_members env components m).mole_fractions = [1] := by
  unfold set_components_members
  simp [h]

theorem set_components_members_mixture (env : Env) (components : List CoolPropFluid) (m : Members)
    (h : components.length ≠ 1) :
    (set_components_members env components m).is_pure_or_pseudopure = false
      ∧ (set_components_members env components m).mole_fractions = m.mole_fractions := by
  unfold set_components_members
  simp [h]

theorem construct_self (env : Env) (components : List CoolPropFluid) (generate : Bool) :
    (construct env components generate).self =
      { set_components_members env components (Members.fresh env) with
          _phase := phases.iphase_unknown } := by
  cases generate <;> rfl

theorem construct_N (env : Env) (components : List CoolPropFluid) (generate : Bool) :
    (construct env components generate).self.N = components.length := by
  rw [construct_self]
  exact (set_components_members_N env components _).1

theorem construct_mole_fractions (env : Env) (components : List CoolPropFluid)
    (generate : Bool) :
    (construct env components generate).self.mole_fractions =
      if components.length = 1 then [1] else [] := by
  rw [construct_self]
  by_cases h : components.length = 1
  · simp only [h, if_true]
    exact (set_components_members_pure env components _ h).2
  · simp only [h, if_false]
    exact (set_components_members_mixture env components _ h).2

theorem construct_is_pure (env : Env) (components : List CoolPropFluid) (generate : Bool) :
    (construct env components generate).self.is_pure_or_pseudopure =
      decide (components.length = 1) := by
  rw [construct_self]
  by_cases h : components.length = 1
  · simp only [h, decide_True]
    exact (set_components_members_pure env components _ h).1
  · simp only [h, decide_False]
    exact (set_components_members_mixture env components _ h).1

/-- C2. On an object constructed from more than one component, before any
`set_mole_fractions`, `update` raises for every input pair and every pair of
values. The exception is `Mole fractions must be set` and the object it leaves
is the constructed one with only `clear()` applied, whatever the collaborators
are: no molar mass, gas constant or reducing state has been stored and no flash
routine has run. -/
theorem update_without_composition (env : Env) (components : List CoolPropFluid)
    (generate : Bool) (input_pair : input_pairs) (value1 value2 : Dbl)
    (h : 1 < components.length) :
    update env input_pair value1 value2 (construct env components generate) =
      Res.throw (Err.ValueError "Mole fractions must be set")
        ((construct env components generate).modify
          (fun m => { m with toAbstractState := env.clear m.toAbstractState })) := by
  have hne : components.length ≠ 1 := by omega
  have hp := construct_is_pure env components generate
  have hx := construct_mole_fractions env components generate
  simp only [hne, decide_False, if_false] at hp hx
  unfold update
  simp only [Prog.bind_apply, Prog.set_apply, Prog.get_apply,
    HelmholtzEOSMixtureBackend.self_modify, hp, hx]
  rfl

/-- Witness for C2: the two-component example mixture, given a mass-based pair. -/
theorem update_without_composition_witness :
    1 < [example_fluid 18 8, example_fluid 44 8].length
      ∧ update example_env input_pairs.DmassT_INPUTS (Dbl.fin 997) (Dbl.fin 300)
          (construct example_env [example_fluid 18 8, example_fluid 44 8] true) =
        Res.throw (Err.ValueError "Mole fractions must be set")
          ((construct example_env [example_fluid 18 8, example_fluid 44 8] true).modify
            (fun m => { m with toAbstractState := example_env.clear m.toAbstractState })) :=
  ⟨by decide, update_without_composition example_env _ true _ _ _ (by decide)⟩

theorem set_mole_fractions_outcome (x : List Dbl) (s : HelmholtzEOSMixtureBackend) :
    ((set_mole_fractions x s).returned = false ↔ x.length ≠ s.self.N)
      ∧ ((set_mole_fractions x s).returned = false → (set_mole_fractions x s).state = s)
      ∧ ((set_mole_fractions x s).returned = true →
          (set_mole_fractions x s).state.self.mole_fractions = x) := by
  unfold set_mole_fractions
  by_cases h : x.length = s.self.N
  · have hcopy : std_copy x (vector_resize s.self.mole_fractions s.self.N) = x :=
      std_copy_full _ _ (by rw [vector_resize_length, h])
    simp only [h, ne_eq, not_true_eq_false, if_false, Res.returned, Res.state, iff_false,
      Bool.true_eq_false, not_false_eq_true, false_implies, true_implies, true_and]
    cases s with
    | mk m l v =>
      cases l <;> cases v <;>
        simp [resize, HelmholtzEOSMixtureBackend.modify, HelmholtzEOSMixtureBackend.self,
          HelmholtzEOSMixtureBackend.SatL, HelmholtzEOSMixtureBackend.SatV,
          HelmholtzEOSMixtureBackend.setSatL, HelmholtzEOSMixtureBackend.setSatV] <;>
        exact hcopy
  · simp [h, Res.returned, Res.state]

/-- C3. `set_mole_fractions(x)` raises if and only if the length of `x` differs
from the stored component count `N`; when it raises the whole object, and so the
stored mole fractions, is unchanged; when it returns the stored mole fractions
are `x`. -/
theorem set_mole_fractions_contract (x : List Dbl) (s : HelmholtzEOSMixtureBackend) :
    ((set_mole_fractions x s).returned = false ↔ x.length ≠ s.self.N)
      ∧ ((set_mole_fractions x s).returned = false → (set_mole_fractions x s).state = s)
      ∧ ((set_mole_fractions x s).returned = true →
          (set_mole_fractions x s).state.self.mole_fractions = x) := by
  unfold set_mole_fractions
  by_cases h : x.length = s.self.N
  · have hcopy : std_copy x (vector_resize s.self.mole_fractions s.self.N) = x :=
      std_copy_full _ _ (by rw [vector_resize_length, h])
    simp only [h, ne_eq, not_true_eq_false, if_false, Res.returned, Res.state, iff_false,
      Bool.true_eq_false, not_false_eq_true, false_implies, true_implies, true_and]
    cases s with
    | mk m l v =>
      cases l <;> cases v <;>
        simp [resize, HelmholtzEOSMixtureBackend.modify, HelmholtzEOSMixtureBackend.self,
          HelmholtzEOSMixtureBackend.SatL, HelmholtzEOSMixtureBackend.SatV,
          HelmholtzEOSMixtureBackend.setSatL, HelmholtzEOSMixtureBackend.setSatV] <;>
        exact hcopy
  · simp [h, Res.returned, Res.state]

theorem set_mole_fractions_state_N (x : List Dbl) (s : HelmholtzEOSMixtureBackend) :
    (set_mole_fractions x s).state.self.N = s.self.N := by
  unfold set_mole_fractions
  by_cases h : x.length = s.self.N
  · simp only [h, ne_eq, not_true_eq_false, if_false, Res.state]
    cases s with
    | mk m l v =>
      cases l <;> cases v <;>
        simp [resize, HelmholtzEOSMixtureBackend.modify, HelmholtzEOSMixtureBackend.self,
          HelmholtzEOSMixtureBackend.SatL, HelmholtzEOSMixtureBackend.SatV,
          HelmholtzEOSMixtureBackend.setSatL, HelmholtzEOSMixtureBackend.setSatV]
  · simp [h, Res.state]

theorem set_mole_fractions_state_length (x : List Dbl) (s : HelmholtzEOSMixtureBackend) :
    (set_mole_fractions x s).state.self.mole_fractions =
      if x.length = s.self.N then x else s.self.mole_fractions := by
  have h3 := set_mole_fractions_outcome x s
  by_cases h : x.length = s.self.N
  · simp only [h, if_true]
    apply h3.2.2
    cases hr : (set_mole_fractions x s).returned with
    | true => rfl
    | false => exact absurd h (h3.1.mp hr)
  · simp only [h, if_false]
    rw [h3.2.1 (h3.1.mpr h)]

theorem after_set_mole_fractions_invariant (calls : List (List Dbl)) :
    ∀ s : HelmholtzEOSMixtureBackend,
      (after_set_mole_fractions s calls).self.N = s.self.N
        ∧ (after_set_mole_fractions s calls).self.mole_fractions.length =
            if (∃ x ∈ calls, x.length = s.self.N) then s.self.N
            else s.self.mole_fractions.length := by
  induction calls with
  | nil => intro s; simp [after_set_mole_fractions]
  | cons x rest ih =>
    intro s
    have hN := set_mole_fractions_state_N x s
    have hx := set_mole_fractions_state_length x s
    have ih1 := ih (set_mole_fractions x s).state
    rw [hN] at ih1
    have hfold : after_set_mole_fractions s (x :: rest) =
        after_set_mole_fractions (set_mole_fractions x s).state rest := rfl
    rw [hfold]
    refine ⟨ih1.1, ?_⟩
    rw [ih1.2, hx]
    by_cases hrest : ∃ y ∈ rest, y.length = s.self.N
    · have hall : ∃ y ∈ x :: rest, y.length = s.self.N := by
        obtain ⟨y, hy, hl⟩ := hrest
        exact ⟨y, List.mem_cons_of_mem _ hy, hl⟩
      simp only [hrest, hall, if_true]
    · by_cases hx0 : x.length = s.self.N
      · have hall : ∃ y ∈ x :: rest, y.length = s.self.N := ⟨x, List.mem_cons_self _ _, hx0⟩
        simp only [hrest, hall, hx0, if_true, if_false]
      · have hall : ¬ ∃ y ∈ x :: rest, y.length = s.self.N := by
          rintro ⟨y, hy, hl⟩
          rcases List.mem_cons.mp hy with rfl | hy
          · exact hx0 hl
          · exact hrest ⟨y, hy, hl⟩
        simp only [hrest, hall, hx0, if_false]

/-- C4, counterexample. Directly after construction from two components the
stored mole-fraction vector is empty, while `N` is 2. -/
theorem mole_fractions_length_counterexample :
    example_mixture.self.N = 2 ∧ example_mixture.self.mole_fractions.length = 0
      ∧ example_mixture.self.mole_fractions.length ≠ example_mixture.self.N := by
  decide

/-- C4, amended. After construction from any component list and any sequence of
successful or failed `set_mole_fractions` calls, the stored `N` is the number of
components; the stored mole-fraction vector has length exactly `N` as soon as
`N = 1` or one of the calls had an argument of length `N` (that call succeeded);
otherwise, so for `N > 1` before the first successful call, it has length 0. -/
theorem mole_fractions_length_invariant (env : Env) (components : List CoolPropFluid)
    (generate : Bool) (calls : List (List Dbl)) :
    (after_set_mole_fractions (construct env components generate) calls).self.N
        = components.length
      ∧ ((components.length = 1 ∨ ∃ x ∈ calls, x.length = components.length) →
          (after_set_mole_fractions (construct env components generate)
              calls).self.mole_fractions.length
            = (after_set_mole_fractions (construct env components generate) calls).self.N)
      ∧ (¬ (components.length = 1 ∨ ∃ x ∈ calls, x.length = components.length) →
          (after_set_mole_fractions (construct env components generate)
              calls).self.mole_fractions.length = 0) := by
  have hinv := after_set_mole_fractions_invariant calls (construct env components generate)
  rw [construct_N, construct_mole_fractions] at hinv
  refine ⟨hinv.1, ?_, ?_⟩
  · intro hor
    rw [hinv.1, hinv.2]
    by_cases h2 : ∃ x ∈ calls, x.length = components.length
    · simp [h2]
    · have h1 : components.length = 1 := hor.resolve_right h2
      simp [h1, h2]
  · intro hnot
    rw [hinv.2]
    have h1 : ¬ components.length = 1 := fun h => hnot (Or.inl h)
    have h2 : ¬ ∃ x ∈ calls, x.length = components.length := fun h => hnot (Or.inr h)
    simp [h1, h2]

/-! ## Mole-fraction weighted sums (C5) -/

theorem index_append_length {α : Type} (pre : List α) (a : α) (rest : List α) :
    index (pre ++ a :: rest) pre.length = Except.ok a := by
  induction pre with
  | nil => rfl
  | cons b pre ih => simpa [index] using ih

theorem sum_loop_zipWith (g : Dbl → CoolPropFluid → Dbl) :
    ∀ (xs : List Dbl) (cs : List CoolPropFluid) (px : List Dbl) (pc : List CoolPropFluid)
      (summer : Dbl), xs.length = cs.length → px.length = pc.length →
      sum_loop (fun i =>
          match index (px ++ xs) i, index (pc ++ cs) i with
          | .ok x, .ok c => .ok (g x c)
          | .error e, _ => .error e
          | _, .error e => .error e)
        cs.length pc.length summer = Except.ok (summer + (List.zipWith g xs cs).sum) := by
  intro xs
  induction xs with
  | nil =>
    intro cs px pc summer hlen _
    have hcs : cs = [] := List.length_eq_zero.mp hlen.symm
    subst hcs
    simp [sum_loop]
  | cons x xs ih =>
    intro cs px pc summer hlen hpre
    cases cs with
    | nil => simp at hlen
    | cons c cs =>
      have hlen2 : xs.length = cs.length := by simpa using hlen
      have hx : index (px ++ x :: xs) pc.length = Except.ok x := by
        rw [← hpre]; exact index_append_length px x xs
      have hc : index (pc ++ c :: cs) pc.length = Except.ok c := index_append_length pc c cs
      have hstep := ih cs (px ++ [x]) (pc ++ [c]) (summer + g x c) hlen2 (by simp [hpre])
      simp only [List.append_assoc, List.singleton_append, List.length_append,
        List.length_singleton] at hstep
      simp only [List.length_cons, sum_loop, hx, hc, hstep, List.zipWith_cons_cons,
        List.sum_cons, add_assoc]

theorem calc_mixture_sums (m : Members)
    (h : m.mole_fractions.length = m.components.length) :
    calc_molar_mass m =
        Except.ok ((List.zipWith (fun x c => x * c.molar_mass) m.mole_fractions m.components).sum)
      ∧ calc_gas_constant m =
        Except.ok ((List.zipWith (fun x c => x * c.gas_constant) m.mole_fractions
          m.components).sum) := by
  constructor
  · have := sum_loop_zipWith (fun x c => x * c.molar_mass) m.mole_fractions m.components [] [] 0
      h rfl
    simpa [calc_molar_mass] using this
  · have := sum_loop_zipWith (fun x c => x * c.gas_constant) m.mole_fractions m.components [] [] 0
      h rfl
    simpa [calc_gas_constant] using this

/-- C5. When there is one mole fraction per component, `calc_molar_mass()` returns
the sum over the components of `x_i * M_i` and `calc_gas_constant()` the sum of
`x_i * R_i`, with `M_i` and `R_i` the molar mass and gas constant of component
`i` (arithmetic on finite values is exact in this embedding). -/
theorem mixture_sum_rule (m : Members)
    (h : m.mole_fractions.length = m.components.length) :
    calc_molar_mass m =
        Except.ok ((List.zipWith (fun x c => x * c.molar_mass) m.mole_fractions m.components).sum)
      ∧ calc_gas_constant m =
        Except.ok ((List.zipWith (fun x c => x * c.gas_constant) m.mole_fractions
          m.components).sum) := by
  constructor
  · have := sum_loop_zipWith (fun x c => x * c.molar_mass) m.mole_fractions m.components [] [] 0
      h rfl
    simpa [calc_molar_mass] using this
  · have := sum_loop_zipWith (fun x c => x * c.gas_constant) m.mole_fractions m.components [] [] 0
      h rfl
    simpa [calc_gas_constant] using this

/-- Witness for C5: the two-component example mixture with fractions 1/4 and 3/4;
the molar mass is 18/4 + 3*44/4 = 75/2 and the gas constant 8. -/
theorem mixture_sum_rule_witness :
    (after_set_mole_fractions example_mixture
        [[Dbl.fin (1 / 4), Dbl.fin (3 / 4)]]).self.mole_fractions.length
      = (after_set_mole_fractions example_mixture
        [[Dbl.fin (1 / 4), Dbl.fin (3 / 4)]]).self.components.length
    ∧ calc_molar_mass (after_set_mole_fractions example_mixture
        [[Dbl.fin (1 / 4), Dbl.fin (3 / 4)]]).self = Except.ok (Dbl.fin (75 / 2))
    ∧ calc_gas_constant (after_set_mole_fractions example_mixture
        [[Dbl.fin (1 / 4), Dbl.fin (3 / 4)]]).self = Except.ok (Dbl.fin 8) := by
  have hlen : (after_set_mole_fractions example_mixture
        [[Dbl.fin (1 / 4), Dbl.fin (3 / 4)]]).self.mole_fractions.length
      = (after_set_mole_fractions example_mixture
        [[Dbl.fin (1 / 4), Dbl.fin (3 / 4)]]).self.components.length := by decide
  have h := mixture_sum_rule _ hlen
  have hx : (after_set_mole_fractions example_mixture
      [[Dbl.fin (1 / 4), Dbl.fin (3 / 4)]]).self.mole_fractions
        = [Dbl.fin (1 / 4), Dbl.fin (3 / 4)] := rfl
  have hc : (after_set_mole_fractions example_mixture
      [[Dbl.fin (1 / 4), Dbl.fin (3 / 4)]]).self.components
        = [example_fluid 18 8, example_fluid 44 8] := rfl
  refine ⟨hlen, ?_, ?_⟩
  · rw [h.1, hx, hc]
    simp only [List.zipWith_cons_cons, List.zipWith_nil_right, List.sum_cons, List.sum_nil,
      example_fluid, Dbl.fin_mul_fin, Dbl.fin_add_fin, Dbl.zero_eq]
    norm_num
  · rw [h.2, hx, hc]
    simp only [List.zipWith_cons_cons, List.zipWith_nil_right, List.sum_cons, List.sum_nil,
      example_fluid, Dbl.fin_mul_fin, Dbl.fin_add_fin, Dbl.zero_eq]
    norm_num

/-! ## Conversion of mass-based inputs (C6) -/

theorem molar_mass_value (s s1 : HelmholtzEOSMixtureBackend) (M : Dbl)
    (h : molar_mass s = Res.ret M s1) : s1.self._molar_mass.value = M := by
  unfold molar_mass via_cache at h
  by_cases hc : s.self._molar_mass.is_cached = true
  · simp only [hc, if_true] at h
    cases h
    rfl
  · simp only [hc] at h
    cases hm : calc_molar_mass s.self with
    | ok v =>
      simp only [hm, Prog.ofExcept_ok] at h
      cases h
      simp [HelmholtzEOSMixtureBackend.self_modify, CachedElement.assign]
    | error e =>
      simp only [hm, Prog.ofExcept_error] at h
      cases h

theorem mass_to_molar_inputs_conversion (input_pair : input_pairs) (value1 value2 M : Dbl)
    (s s1 : HelmholtzEOSMixtureBackend) (h : molar_mass s = Res.ret M s1) :
    mass_to_molar_inputs input_pair value1 value2 s =
      match mass_based input_pair with
      | some (first, second, molar) =>
        Res.ret (molar, to_molar M first value1, to_molar M second value2) s1
      | none => Res.ret (input_pair, value1, value2) s := by
  have hM := molar_mass_value s s1 M h
  cases input_pair <;>
    simp [mass_to_molar_inputs, mass_based, to_molar, Prog.bind_apply, Prog.get_apply,
      Prog.pure_apply, h, hM]

/-- C6. With `M` the value the accessor `molar_mass()` returns, for each of the 13
mass-based tags `mass_to_molar_inputs` returns the molar counterpart of the tag,
every mass density divided by `M`, every mass enthalpy, entropy and internal
energy multiplied by `M`, and temperatures and pressures as they were; for every
other tag it returns the tag and both values unchanged and does not touch the
object. -/
theorem mass_to_molar_inputs_rule (input_pair : input_pairs) (value1 value2 M : Dbl)
    (s s1 : HelmholtzEOSMixtureBackend) (h : molar_mass s = Res.ret M s1) :
    mass_to_molar_inputs input_pair value1 value2 s =
      match mass_based input_pair with
      | some (first, second, molar) =>
        Res.ret (molar, to_molar M first value1, to_molar M second value2) s1
      | none => Res.ret (input_pair, value1, value2) s := by
  have hM := molar_mass_value s s1 M h
  cases input_pair <;>
    simp [mass_to_molar_inputs, mass_based, to_molar, Prog.bind_apply, Prog.get_apply,
      Prog.pure_apply, h, hM]

/-- Witness for C6: on the pure example fluid (molar mass 18) the pair
`DmassHmass_INPUTS` with density 900 and enthalpy 100 becomes
`DmolarHmolar_INPUTS` with density 50 and enthalpy 1800. -/
theorem mass_to_molar_inputs_rule_witness :
    (molar_mass example_pure).returned = true
      ∧ (∃ s1, mass_to_molar_inputs input_pairs.DmassHmass_INPUTS (Dbl.fin 900) (Dbl.fin 100)
            example_pure
          = Res.ret (input_pairs.DmolarHmolar_INPUTS, Dbl.fin 50, Dbl.fin 1800) s1) := by
  have hret : (molar_mass example_pure).returned = true := by decide
  have hval : molar_mass example_pure = Res.ret (Dbl.fin 18) (molar_mass example_pure).state := by
    obtain ⟨M, hM⟩ := Res.eq_ret_state _ hret
    have hv : M = Dbl.fin 18 := by
      have h1 := molar_mass_value _ _ _ hM
      rw [← h1]
      simp [molar_mass, via_cache, example_pure, construct, set_components,
        set_components_members, Members.fresh, example_env, example_cleared,
        CachedElement.cleared, HelmholtzEOSMixtureBackend.modify,
        HelmholtzEOSMixtureBackend.self, calc_molar_mass, sum_loop, index, example_fluid,
        Prog.ofExcept, Prog.ret, Res.state, CachedElement.assign, Dbl.one_eq, Dbl.zero_eq,
        Dbl.fin_mul_fin, Dbl.fin_add_fin]
    rw [hv] at hM
    exact hM
  refine ⟨hret, (molar_mass example_pure).state, ?_⟩
  rw [mass_to_molar_inputs_rule _ _ _ _ _ _ hval]
  simp only [mass_based, to_molar]
  rw [Dbl.fin_div_fin _ _ (by norm_num), Dbl.fin_mul_fin]
  norm_num

/-! ## The supported input pairs (C7) -/

theorem composition_set_of_same (s s1 : HelmholtzEOSMixtureBackend)
    (h : same_composition s s1) (hs : composition_set s) : composition_set s1 := by
  unfold composition_set at *
  obtain ⟨h1, h2, h3, h4⟩ := h
  rw [h1, h2, h3, h4]
  exact hs

theorem via_cache_returns (read : Members → CachedElement)
    (write : CachedElement → Members → Members) (s : HelmholtzEOSMixtureBackend) (v : Dbl)
    (hw : ∀ c m, (write c m).mole_fractions = m.mole_fractions
      ∧ (write c m).components = m.components
      ∧ (write c m).is_pure_or_pseudopure = m.is_pure_or_pseudopure
      ∧ (write c m).Reducing = m.Reducing) :
    ∃ a s1, via_cache read write s (Res.ret v s) = Res.ret a s1 ∧ same_composition s s1 := by
  unfold via_cache
  by_cases hc : (read s.self).is_cached = true
  · exact ⟨(read s.self).value, s, by simp [hc], rfl, rfl, rfl, rfl⟩
  · refine ⟨v, _, by simp only [hc]; rfl, ?_⟩
    unfold same_composition
    rw [HelmholtzEOSMixtureBackend.self_modify]
    exact hw _ _

theorem molar_mass_returns (s : HelmholtzEOSMixtureBackend) (hs : composition_set s) :
    ∃ M s1, molar_mass s = Res.ret M s1 ∧ same_composition s s1 := by
  unfold molar_mass
  rw [(calc_mixture_sums s.self hs.1).1, Prog.ofExcept_ok]
  exact via_cache_returns _ _ s _ (fun _ _ => ⟨rfl, rfl, rfl, rfl⟩)

theorem gas_constant_returns (s : HelmholtzEOSMixtureBackend) (hs : composition_set s) :
    ∃ R s1, gas_constant s = Res.ret R s1 ∧ same_composition s s1 := by
  unfold gas_constant
  rw [(calc_mixture_sums s.self hs.1).2, Prog.ofExcept_ok]
  exact via_cache_returns _ _ s _ (fun _ _ => ⟨rfl, rfl, rfl, rfl⟩)

theorem mass_to_molar_inputs_tag (input_pair : input_pairs) (value1 value2 : Dbl)
    (s s1 : HelmholtzEOSMixtureBackend) (r : input_pairs × Dbl × Dbl)
    (h : mass_to_molar_inputs input_pair value1 value2 s = Res.ret r s1) :
    r.1 = molar_tag input_pair := by
  cases hm : molar_mass s with
  | ret M s2 =>
    rw [mass_to_molar_inputs_conversion input_pair value1 value2 M s s2 hm] at h
    cases input_pair <;> simp only [mass_based] at h <;> cases h <;> rfl
  | throw e s2 =>
    cases input_pair <;>
      simp [mass_to_molar_inputs, Prog.bind_apply, Prog.pure_apply, hm] at h <;>
      (rw [← h.1]; rfl)

theorem mass_to_molar_inputs_returns (input_pair : input_pairs) (value1 value2 : Dbl)
    (s : HelmholtzEOSMixtureBackend) (hs : composition_set s) :
    ∃ r s1, mass_to_molar_inputs input_pair value1 value2 s = Res.ret r s1
      ∧ same_composition s s1 := by
  obtain ⟨M, s2, hm, hc⟩ := molar_mass_returns s hs
  rw [mass_to_molar_inputs_conversion input_pair value1 value2 M s s2 hm]
  cases hb : mass_based input_pair with
  | none => exact ⟨_, s, rfl, rfl, rfl, rfl, rfl⟩
  | some q => exact ⟨_, s2, rfl, hc⟩

theorem calc_reducing_state_returns (env : Env) (s : HelmholtzEOSMixtureBackend)
    (hs : composition_set s) : ∃ s1, calc_reducing_state env s = Res.ret () s1 := by
  obtain ⟨_, hne, hred⟩ := hs
  unfold calc_reducing_state calc_reducing_state_nocache
  simp only [Prog.bind_apply, Prog.get_apply, Prog.set_apply]
  cases hp : s.self.is_pure_or_pseudopure with
  | true =>
    cases hcs : s.self.components with
    | nil => exact absurd hcs hne
    | cons c cs =>
      simp only [index, List.get?_cons_zero, Prog.ofExcept_ok, if_true]
      exact ⟨_, rfl⟩
  | false =>
    cases hR : s.self.Reducing with
    | none => simp [hR, hp] at hred
    | some R =>
      simp only [Prog.ofExcept_ok, Bool.false_eq_true, if_false]
      exact ⟨_, rfl⟩

theorem unsupported_molar_tag (input_pair : input_pairs)
    (hsup : supported_input_pair input_pair = false) :
    molar_tag input_pair = input_pairs.HmolarSmolar_INPUTS
      ∨ molar_tag input_pair = input_pairs.SmolarUmolar_INPUTS
      ∨ ∃ n, molar_tag input_pair = input_pairs.unlisted n := by
  cases input_pair <;> simp [supported_input_pair, mass_based, molar_pairs_with_flash] at hsup
    <;> simp [molar_tag, mass_based]

theorem update_unsupported_raises (env : Env) (input_pair : input_pairs) (value1 value2 : Dbl)
    (s : HelmholtzEOSMixtureBackend) (hsup : supported_input_pair input_pair = false) :
    (update env input_pair value1 value2 s).returned = false := by
  have htag := unsupported_molar_tag input_pair hsup
  unfold update
  simp only [Prog.bind_apply, Prog.set_apply, Prog.get_apply]
  generalize s.modify (fun m => { m with toAbstractState := env.clear m.toAbstractState }) = s0
  generalize (s0.self.is_pure_or_pseudopure == false && s0.self.mole_fractions.length == 0) = c
  cases c
  · simp only [Prog.throw_if_false]
    cases hmm : mass_to_molar_inputs input_pair value1 value2 s0 with
    | throw e s2 => rfl
    | ret r s2 =>
      have hr := mass_to_molar_inputs_tag _ _ _ _ _ _ hmm
      simp only []
      cases hg : gas_constant s2 with
      | throw e s3 => rfl
      | ret R s3 =>
        simp only []
        cases hc : calc_reducing_state env s3 with
        | throw e s4 => rfl
        | ret u s4 =>
          simp only []
          rw [hr]
          rcases htag with h | h | ⟨n, h⟩ <;> rw [h] <;> rfl
  · rfl

theorem update_unsupported_no_flash (env : Env) (input_pair : input_pairs)
    (value1 value2 : Dbl) (s : HelmholtzEOSMixtureBackend)
    (hsup : supported_input_pair input_pair = false)
    (PT : Prog Unit) (DHSU PHSU HSU : parameters → Prog Unit) (QT PQ : Prog Unit) :
    update (env.with_flash PT DHSU PHSU HSU QT PQ) input_pair value1 value2 s
      = update env input_pair value1 value2 s := by
  have htag := unsupported_molar_tag input_pair hsup
  have hcr : calc_reducing_state (env.with_flash PT DHSU PHSU HSU QT PQ)
      = calc_reducing_state env := rfl
  have hcl : (env.with_flash PT DHSU PHSU HSU QT PQ).clear = env.clear := rfl
  unfold update
  simp only [Prog.bind_apply, Prog.set_apply, Prog.get_apply, hcr, hcl]
  generalize s.modify (fun m => { m with toAbstractState := env.clear m.toAbstractState }) = s0
  generalize (s0.self.is_pure_or_pseudopure == false && s0.self.mole_fractions.length == 0) = c
  cases c
  · simp only [Prog.throw_if_false]
    cases hmm : mass_to_molar_inputs input_pair value1 value2 s0 with
    | throw e s2 => rfl
    | ret r s2 =>
      have hr := mass_to_molar_inputs_tag _ _ _ _ _ _ hmm
      simp only []
      cases hg : gas_constant s2 with
      | throw e s3 => rfl
      | ret R s3 =>
        simp only []
        cases hc : calc_reducing_state env s3 with
        | throw e s4 => rfl
        | ret u s4 =>
          simp only []
          rw [hr]
          rcases htag with h | h | ⟨n, h⟩ <;> rw [h]
  · rfl

theorem update_prelude (env : Env) (input_pair : input_pairs) (value1 value2 : Dbl)
    (s : HelmholtzEOSMixtureBackend) (hs : composition_set s) :
    ∃ s0 r s1 R s2 s3,
      s0 = s.modify (fun m => { m with toAbstractState := env.clear m.toAbstractState })
      ∧ (s0.self.is_pure_or_pseudopure == false && s0.self.mole_fractions.length == 0) = false
      ∧ mass_to_molar_inputs input_pair value1 value2 s0 = Res.ret r s1
      ∧ r.1 = molar_tag input_pair
      ∧ gas_constant s1 = Res.ret R s2
      ∧ calc_reducing_state env s2 = Res.ret () s3 := by
  have hs0 : composition_set
      (s.modify (fun m => { m with toAbstractState := env.clear m.toAbstractState })) := by
    apply composition_set_of_same s _ _ hs
    unfold same_composition
    rw [HelmholtzEOSMixtureBackend.self_modify]
    exact ⟨rfl, rfl, rfl, rfl⟩
  obtain ⟨r, s1, hmm, hc1⟩ := mass_to_molar_inputs_returns input_pair value1 value2 _ hs0
  have hs1 := composition_set_of_same _ _ hc1 hs0
  obtain ⟨R, s2, hg, hc2⟩ := gas_constant_returns s1 hs1
  have hs2 := composition_set_of_same _ _ hc2 hs1
  obtain ⟨s3, hcr⟩ := calc_reducing_state_returns env s2 hs2
  refine ⟨_, r, s1, R, s2, s3, rfl, ?_, hmm, mass_to_molar_inputs_tag _ _ _ _ _ _ hmm, hg, hcr⟩
  have hlen : 0 < (s.modify (fun m =>
      { m with toAbstractState := env.clear m.toAbstractState })).self.mole_fractions.length := by
    rw [hs0.1]
    exact List.length_pos.mpr hs0.2.1
  have hne : ((s.modify (fun m =>
      { m with toAbstractState := env.clear m.toAbstractState })).self.mole_fractions.length
        == 0) = false := by
    simp only [beq_eq_false_iff_ne, ne_eq]
    omega
  rw [hne, Bool.and_false]

theorem update_unsupported_error (env : Env) (input_pair : input_pairs) (value1 value2 : Dbl)
    (s : HelmholtzEOSMixtureBackend) (hsup : supported_input_pair input_pair = false)
    (hs : composition_set s) :
    ∃ s1, update env input_pair value1 value2 s =
      Res.throw (Err.ValueError "This pair of inputs [%s] is not yet supported") s1 := by
  have htag := unsupported_molar_tag input_pair hsup
  obtain ⟨s0, r, s1, R, s2, s3, hs0, hguard, hmm, hr, hg, hcr⟩ :=
    update_prelude env input_pair value1 value2 s hs
  unfold update
  simp only [Prog.bind_apply, Prog.set_apply, Prog.get_apply]
  rw [← hs0, hguard]
  simp only [Prog.throw_if_false, hmm, hg, hcr]
  rw [hr]
  rcases htag with h | h | ⟨n, h⟩ <;> rw [h] <;> exact ⟨_, rfl⟩

theorem update_supported_probe (env : Env) (input_pair : input_pairs) (value1 value2 : Dbl)
    (s : HelmholtzEOSMixtureBackend) (hsup : supported_input_pair input_pair = true)
    (hs : composition_set s) :
    ∃ s1, update env.probe input_pair value1 value2 s = Res.throw flash_entered s1 := by
  obtain ⟨s0, r, s1, R, s2, s3, hs0, hguard, hmm, hr, hg, hcr⟩ :=
    update_prelude env.probe input_pair value1 value2 s hs
  unfold update
  simp only [Prog.bind_apply, Prog.set_apply, Prog.get_apply]
  rw [← hs0, hguard]
  simp only [Prog.throw_if_false, hmm, hg, hcr]
  rw [hr]
  cases input_pair <;>
    simp [supported_input_pair, mass_based, molar_pairs_with_flash] at hsup <;>
    exact ⟨_, rfl⟩

/-- C7. The supported set is the 14 molar pairs with a flash routine plus the
mass-based pairs whose molar counterpart is one of them; `HmassSmass_INPUTS` and
`SmassUmass_INPUTS` are outside it. For a supported pair, on an object whose
composition is in place, `update` enters a flash routine: when every flash
routine is replaced by one that throws `flash_entered`, that is the exception
`update` ends with. For every other pair `update` raises on every object, and
its outcome is the same whatever the six flash routines are, so none of them is
called; when the composition is in place the exception is the one for an
unsupported pair. -/
theorem supported_input_pairs_closed (env : Env) (input_pair : input_pairs)
    (value1 value2 : Dbl) (s : HelmholtzEOSMixtureBackend) :
    supported_input_pair input_pairs.HmassSmass_INPUTS = false
      ∧ supported_input_pair input_pairs.SmassUmass_INPUTS = false
      ∧ (supported_input_pair input_pair = true → composition_set s →
          ∃ s1, update env.probe input_pair value1 value2 s = Res.throw flash_entered s1)
      ∧ (supported_input_pair input_pair = false →
          (update env input_pair value1 value2 s).returned = false
          ∧ (∀ (PT : Prog Unit) (DHSU PHSU HSU : parameters → Prog Unit) (QT PQ : Prog Unit),
              update (env.with_flash PT DHSU PHSU HSU QT PQ) input_pair value1 value2 s
                = update env input_pair value1 value2 s)
          ∧ (composition_set s → ∃ s1, update env input_pair value1 value2 s =
              Res.throw (Err.ValueError "This pair of inputs [%s] is not yet supported") s1)) :=
  ⟨by decide, by decide,
   fun hsup hs => update_supported_probe env input_pair value1 value2 s hsup hs,
   fun hsup =>
    ⟨update_unsupported_raises env input_pair value1 value2 s hsup,
     fun PT DHSU PHSU HSU QT PQ =>
       update_unsupported_no_flash env input_pair value1 value2 s hsup PT DHSU PHSU HSU QT PQ,
     fun hs => update_unsupported_error env input_pair value1 value2 s hsup hs⟩⟩

/-- Sanity check for C7 on the pure example fluid: `PT_INPUTS` enters a flash
routine, `HmassSmass_INPUTS` raises the unsupported-pair error. -/
theorem supported_input_pairs_closed_witness :
    composition_set example_pure
      ∧ (∃ s1, update example_env.probe input_pairs.PT_INPUTS (Dbl.fin 2500) (Dbl.fin 300)
          example_pure = Res.throw flash_entered s1)
      ∧ (∃ s1, update example_env input_pairs.HmassSmass_INPUTS (Dbl.fin 2500) (Dbl.fin 300)
          example_pure =
            Res.throw (Err.ValueError "This pair of inputs [%s] is not yet supported") s1) := by
  have hs : composition_set example_pure :=
    ⟨by decide, List.cons_ne_nil (example_fluid 18 8) [], by decide⟩
  have h := supported_input_pairs_closed example_env input_pairs.PT_INPUTS (Dbl.fin 2500)
    (Dbl.fin 300) example_pure
  have h2 := supported_input_pairs_closed example_env input_pairs.HmassSmass_INPUTS
    (Dbl.fin 2500) (Dbl.fin 300) example_pure
  exact ⟨hs, h.2.2.1 (by decide) hs, (h2.2.2.2 (by decide)).2.2 hs⟩

/-! ## Phase determination at given temperature (C8, C9, C10) -/

theorem Dbl.lt_asymm (a b : Dbl) (h : a < b) : ¬ (b < a) := by
  change Dbl.lt a b = true at h
  show ¬ (Dbl.lt b a = true)
  cases a <;> cases b <;> simp [Dbl.lt] at h ⊢
  exact le_of_lt h

theorem HelmholtzEOSMixtureBackend.modify_modify (f g : Members → Members)
    (s : HelmholtzEOSMixtureBackend) : (s.modify f).modify g = s.modify (fun m => g (f m)) := by
  cases s; rfl

/-- C8, as the code behaves. With `_T` equal to the critical temperature `_crit.T`,
for every other-variable and every valid value,
`T_phase_determination_pure_or_pseudopure` throws the error of the final `else`
(`For now, we don't support T ... below Ttriple ...`) and assigns no phase: the
first test `_T < _crit.T` and the second test `_T > _crit.T && ...` are both
false. -/
theorem T_phase_determination_at_critical_temperature (env : Env) (other : parameters)
    (value : Dbl) (s : HelmholtzEOSMixtureBackend) (c : CoolPropFluid)
    (cs : List CoolPropFluid) (hvalue : ValidNumber value = true)
    (hcomp : s.self.components = c :: cs) (hT : s.self._T = s.self._crit.T) :
    T_phase_determination_pure_or_pseudopure env other value s =
      Res.throw (Err.ValueError "For now, we don't support T [%g K] below Ttriple [%g K]") s := by
  have h1 : ¬ (s.self._T < s.self._crit.T) := by rw [hT]; exact Dbl.not_lt_self _
  have h2 : ¬ (s.self._crit.T < s.self._T) := by rw [hT]; exact Dbl.not_lt_self _
  unfold T_phase_determination_pure_or_pseudopure
  simp only [Prog.bind_apply, Prog.get_apply, hvalue, Bool.not_true, Prog.throw_if_false, h1,
    h2, if_false, hcomp, index, List.get?_cons_zero, Prog.ofExcept_ok, false_and]
  rfl

/-- Failing input for C8: the pure example fluid (critical temperature 400 K,
triple point 200 K) at exactly 400 K with density 6000 mol/m3 given. -/
theorem T_phase_determination_at_critical_temperature_witness :
    ValidNumber (Dbl.fin 6000) = true
      ∧ (example_pure_at 400 5000000 6000).self._T = (example_pure_at 400 5000000 6000).self._crit.T
      ∧ T_phase_determination_pure_or_pseudopure example_env parameters.iDmolar (Dbl.fin 6000)
          (example_pure_at 400 5000000 6000) =
        Res.throw (Err.ValueError "For now, we don't support T [%g K] below Ttriple [%g K]")
          (example_pure_at 400 5000000 6000) :=
  ⟨rfl, rfl, T_phase_determination_at_critical_temperature example_env parameters.iDmolar
    (Dbl.fin 6000) (example_pure_at 400 5000000 6000) (example_fluid 18 8) [] rfl rfl rfl⟩

/-- C9. With `_T` strictly above the critical temperature and above the triple
temperature, for each of the five supported other-variables and every valid
value, `T_phase_determination_pure_or_pseudopure` returns, sets `_Q` to `1e9`,
and sets the phase to supercritical if the stored paired variable (`_p`,
`_rhomolar`, `_smolar`, `_hmolar`, `_umolar`) is strictly above its critical
value and to gas otherwise; nothing else changes. -/
theorem T_phase_determination_above_critical (env : Env) (other : parameters) (value : Dbl)
    (s : HelmholtzEOSMixtureBackend) (c : CoolPropFluid) (cs : List CoolPropFluid)
    (y yc : Dbl) (hvalue : ValidNumber value = true) (hcomp : s.self.components = c :: cs)
    (hTc : s.self._crit.T < s.self._T) (hTt : c.pEOS.Ttriple < s.self._T)
    (hy : paired_variable s.self other = some y) (hyc : critical_value s.self other = some yc) :
    T_phase_determination_pure_or_pseudopure env other value s =
      Res.ret () (s.modify (fun m =>
        { m with _Q := Dbl.fin 1000000000,
                 _phase := if yc < y then phases.iphase_supercritical
                           else phases.iphase_gas })) := by
  have h1 : ¬ (s.self._T < s.self._crit.T) := Dbl.lt_asymm _ _ hTc
  unfold T_phase_determination_pure_or_pseudopure T_phase_determination_supercritical
  simp only [Prog.bind_apply, Prog.get_apply, Prog.set_apply, hvalue, Bool.not_true,
    Prog.throw_if_false, h1, if_false, hcomp, index, List.get?_cons_zero, Prog.ofExcept_ok,
    hTc, hTt, and_self, if_true, HelmholtzEOSMixtureBackend.self_modify]
  cases other <;> simp only [paired_variable, critical_value, Option.some.injEq] at hy hyc <;>
    first
    | (cases hy; done)
    | (subst hy; subst hyc; dsimp only; split <;> rename_i hlt <;>
        simp only [hlt, if_true, if_false, Prog.set_apply,
          HelmholtzEOSMixtureBackend.modify_modify])

/-- Witness for C9, the scenario of a temperature just above critical with a
density below critical: the pure example fluid (critical point 400 K, 5000
mol/m3) at 450 K and 3000 mol/m3 is classified as gas, not supercritical. -/
theorem T_phase_determination_above_critical_witness :
    (example_pure_at 450 5000000 3000).self._crit.T < (example_pure_at 450 5000000 3000).self._T
      ∧ (example_fluid 18 8).pEOS.Ttriple < (example_pure_at 450 5000000 3000).self._T
      ∧ T_phase_determination_pure_or_pseudopure example_env parameters.iDmolar (Dbl.fin 3000)
          (example_pure_at 450 5000000 3000) =
        Res.ret () ((example_pure_at 450 5000000 3000).modify (fun m =>
          { m with _Q := Dbl.fin 1000000000, _phase := phases.iphase_gas })) := by
  have hTc : (example_pure_at 450 5000000 3000).self._crit.T
      < (example_pure_at 450 5000000 3000).self._T :=
    (Dbl.fin_lt_fin 400 450).mpr (by norm_num)
  have hTt : (example_fluid 18 8).pEOS.Ttriple < (example_pure_at 450 5000000 3000).self._T :=
    (Dbl.fin_lt_fin 200 450).mpr (by norm_num)
  have h := T_phase_determination_above_critical example_env parameters.iDmolar (Dbl.fin 3000)
    (example_pure_at 450 5000000 3000) (example_fluid 18 8) [] (Dbl.fin 3000) (Dbl.fin 5000)
    rfl rfl hTc hTt rfl rfl
  have hlt : ¬ (Dbl.fin 5000 < Dbl.fin 3000) := by
    rw [Dbl.fin_lt_fin]; norm_num
  rw [if_neg hlt] at h
  exact ⟨hTc, hTt, h⟩

/-- C10, as the code behaves. With `_T` below the triple temperature and below the
critical temperature, pressure as the other variable and a value below 0.98
times the ancillary vapour pressure, `T_phase_determination_pure_or_pseudopure`
does not fail: the test `_T < _crit.T` comes first, and the subcritical branch
classifies the state as gas with `_Q = -1000`. The triple temperature is never
compared with `_T` on this path. -/
theorem T_phase_determination_below_triple (env : Env) (value : Dbl)
    (s : HelmholtzEOSMixtureBackend) (c : CoolPropFluid) (cs : List CoolPropFluid)
    (hvalue : ValidNumber value = true) (hcomp : s.self.components = c :: cs)
    (_hTt : s.self._T < c.pEOS.Ttriple) (hTc : s.self._T < s.self._crit.T)
    (hp : value < Dbl.fin (98 / 100) * c.ancillaries.pV.evaluate s.self._T) :
    T_phase_determination_pure_or_pseudopure env parameters.iP value s =
      Res.ret () (s.modify (fun m =>
        { m with _pLanc := CachedElement.assign (c.ancillaries.pL.evaluate m._T),
                 _pVanc := CachedElement.assign (c.ancillaries.pV.evaluate m._T),
                 _phase := phases.iphase_gas, _Q := Dbl.fin (-1000) })) := by
  unfold T_phase_determination_pure_or_pseudopure T_phase_determination_subcritical
  simp only [Prog.bind_apply, Prog.get_apply, Prog.set_apply, hvalue, Bool.not_true,
    Prog.throw_if_false, hTc, if_true, hcomp, index, List.get?_cons_zero, Prog.ofExcept_ok,
    HelmholtzEOSMixtureBackend.self_modify, CachedElement.assign, hp,
    HelmholtzEOSMixtureBackend.modify_modify]

/-- Failing input for C10: the pure example fluid (triple point 200 K, critical
temperature 400 K, ancillary vapour pressure 1000 Pa) at 100 K with the pressure
1 Pa given: the call returns with the phase gas. -/
theorem T_phase_determination_below_triple_witness :
    (example_pure_at 100 1 1).self._T < (example_fluid 18 8).pEOS.Ttriple
      ∧ (T_phase_determination_pure_or_pseudopure example_env parameters.iP (Dbl.fin 1)
          (example_pure_at 100 1 1)).returned = true
      ∧ (T_phase_determination_pure_or_pseudopure example_env parameters.iP (Dbl.fin 1)
          (example_pure_at 100 1 1)).state.self._phase = phases.iphase_gas := by
  have hTt : (example_pure_at 100 1 1).self._T < (example_fluid 18 8).pEOS.Ttriple :=
    (Dbl.fin_lt_fin 100 200).mpr (by norm_num)
  have hTc : (example_pure_at 100 1 1).self._T < (example_pure_at 100 1 1).self._crit.T :=
    (Dbl.fin_lt_fin 100 400).mpr (by norm_num)
  have hp : Dbl.fin 1 < Dbl.fin (98 / 100)
      * (example_fluid 18 8).ancillaries.pV.evaluate (example_pure_at 100 1 1).self._T := by
    show Dbl.fin 1 < Dbl.fin (98 / 100) * Dbl.fin 1000
    rw [Dbl.fin_mul_fin, Dbl.fin_lt_fin]
    norm_num
  have h := T_phase_determination_below_triple example_env (Dbl.fin 1) (example_pure_at 100 1 1)
    (example_fluid 18 8) [] rfl rfl hTt hTc hp
  rw [h]
  exact ⟨hTt, rfl, rfl⟩

/-! ## Phase determination: the saturation call and the quality (C11, C12, C13) -/

namespace HelmholtzEOSMixtureBackend

theorem SatL_setSatL (x : Option HelmholtzEOSMixtureBackend) (s : HelmholtzEOSMixtureBackend) :
    (s.setSatL x).SatL = x := by cases s; rfl

theorem SatV_setSatL (x : Option HelmholtzEOSMixtureBackend) (s : HelmholtzEOSMixtureBackend) :
    (s.setSatL x).SatV = s.SatV := by cases s; rfl

theorem SatV_setSatV (x : Option HelmholtzEOSMixtureBackend) (s : HelmholtzEOSMixtureBackend) :
    (s.setSatV x).SatV = x := by cases s; rfl

theorem SatL_setSatV (x : Option HelmholtzEOSMixtureBackend) (s : HelmholtzEOSMixtureBackend) :
    (s.setSatV x).SatL = s.SatL := by cases s; rfl

theorem SatL_modify (f : Members → Members) (s : HelmholtzEOSMixtureBackend) :
    (s.modify f).SatL = s.SatL := by cases s; rfl

theorem SatV_modify (f : Members → Members) (s : HelmholtzEOSMixtureBackend) :
    (s.modify f).SatV = s.SatV := by cases s; rfl

theorem setSatL_same (s l : HelmholtzEOSMixtureBackend) (h : s.SatL = some l) :
    s.setSatL (some l) = s := by cases s; cases h; rfl

theorem setSatV_same (s v : HelmholtzEOSMixtureBackend) (h : s.SatV = some v) :
    s.setSatV (some v) = s := by cases s; cases h; rfl

end HelmholtzEOSMixtureBackend

theorem onSatL_apply {α : Type} (f : Prog α) (s l l1 : HelmholtzEOSMixtureBackend) (a : α)
    (hL : s.SatL = some l) (h : f l = Res.ret a l1) :
    onSatL f s = Res.ret a (s.setSatL (some l1)) := by
  unfold onSatL; rw [hL]; simp only [h]

theorem onSatV_apply {α : Type} (f : Prog α) (s v v1 : HelmholtzEOSMixtureBackend) (a : α)
    (hV : s.SatV = some v) (h : f v = Res.ret a v1) :
    onSatV f s = Res.ret a (s.setSatV (some v1)) := by
  unfold onSatV; rw [hV]; simp only [h]

theorem onLocal_apply {α : Type} (f : Prog α) (obj obj1 s : HelmholtzEOSMixtureBackend) (a : α)
    (h : f obj = Res.ret a obj1) : onLocal obj f s = Res.ret (a, obj1) s := by
  unfold onLocal; simp only [h]

theorem via_cache_idem (read : Members → CachedElement)
    (write : CachedElement → Members → Members) (hrw : ∀ c m, read (write c m) = c)
    (s s1 : HelmholtzEOSMixtureBackend) (y : Dbl) (computed : Res Dbl)
    (h : via_cache read write s computed = Res.ret y s1) (computed1 : Res Dbl) :
    via_cache read write s1 computed1 = Res.ret y s1 := by
  unfold via_cache at h
  split at h
  · cases h
    rename_i hc
    unfold via_cache; rw [if_pos hc]
  · cases computed with
    | throw e s2 => simp at h
    | ret v s2 =>
      simp only [Res.ret.injEq] at h
      obtain ⟨rfl, rfl⟩ := h
      unfold via_cache
      simp [HelmholtzEOSMixtureBackend.self_modify, hrw, CachedElement.assign]

theorem smolar_idem (env : Env) (s s1 : HelmholtzEOSMixtureBackend) (y : Dbl)
    (h : smolar env s = Res.ret y s1) : smolar env s1 = Res.ret y s1 :=
  via_cache_idem (fun m => m._smolar) (fun c m => { m with _smolar := c }) (fun _ _ => rfl)
    s s1 y (calc_smolar env s) h (calc_smolar env s1)

theorem hmolar_idem (env : Env) (s s1 : HelmholtzEOSMixtureBackend) (y : Dbl)
    (h : hmolar env s = Res.ret y s1) : hmolar env s1 = Res.ret y s1 :=
  via_cache_idem (fun m => m._hmolar) (fun c m => { m with _hmolar := c }) (fun _ _ => rfl)
    s s1 y (calc_hmolar env s) h (calc_hmolar env s1)

theorem umolar_idem (env : Env) (s s1 : HelmholtzEOSMixtureBackend) (y : Dbl)
    (h : umolar env s = Res.ret y s1) : umolar env s1 = Res.ret y s1 :=
  via_cache_idem (fun m => m._umolar) (fun c m => { m with _umolar := c }) (fun _ _ => rfl)
    s s1 y (calc_umolar env s) h (calc_umolar env s1)

/-- The three accessor calls of a quality expression `(value - SatL->y())/(SatV->y() - SatL->y())`. -/
theorem quality_calls_LVL (y : Prog Dbl) (hidem : ∀ s s1 a, y s = Res.ret a s1 → y s1 = Res.ret a s1)
    (g : Dbl → Dbl → Dbl → Dbl)
    (s l v l1 v1 : HelmholtzEOSMixtureBackend) (yL yV : Dbl)
    (hL : s.SatL = some l) (hV : s.SatV = some v)
    (hyL : y l = Res.ret yL l1) (hyV : y v = Res.ret yV v1) :
    (do let a ← onSatL y
        let b ← onSatV y
        let c ← onSatL y
        pure (g a b c) : Prog Dbl) s =
      Res.ret (g yL yV yL) ((s.setSatL (some l1)).setSatV (some v1)) := by
  have h1 := onSatL_apply y s l l1 yL hL hyL
  have h2 := onSatV_apply y (s.setSatL (some l1)) v v1 yV
    (by rw [HelmholtzEOSMixtureBackend.SatV_setSatL, hV]) hyV
  have h3 := onSatL_apply y ((s.setSatL (some l1)).setSatV (some v1)) l1 l1 yL
    (by rw [HelmholtzEOSMixtureBackend.SatL_setSatV, HelmholtzEOSMixtureBackend.SatL_setSatL])
    (hidem _ _ _ hyL)
  rw [HelmholtzEOSMixtureBackend.setSatL_same ((s.setSatL (some l1)).setSatV (some v1)) l1 (by
    rw [HelmholtzEOSMixtureBackend.SatL_setSatV, HelmholtzEOSMixtureBackend.SatL_setSatL])] at h3
  simp only [Prog.bind_apply, h1, h2, h3, Prog.pure_apply]

/-- The three accessor calls of a quality expression `(value - SatL->y())/(SatV->y() - SatV->y())`. -/
theorem quality_calls_LVV (y : Prog Dbl) (hidem : ∀ s s1 a, y s = Res.ret a s1 → y s1 = Res.ret a s1)
    (g : Dbl → Dbl → Dbl → Dbl)
    (s l v l1 v1 : HelmholtzEOSMixtureBackend) (yL yV : Dbl)
    (hL : s.SatL = some l) (hV : s.SatV = some v)
    (hyL : y l = Res.ret yL l1) (hyV : y v = Res.ret yV v1) :
    (do let a ← onSatL y
        let b ← onSatV y
        let c ← onSatV y
        pure (g a b c) : Prog Dbl) s =
      Res.ret (g yL yV yV) ((s.setSatL (some l1)).setSatV (some v1)) := by
  have h1 := onSatL_apply y s l l1 yL hL hyL
  have h2 := onSatV_apply y (s.setSatL (some l1)) v v1 yV
    (by rw [HelmholtzEOSMixtureBackend.SatV_setSatL, hV]) hyV
  have h3 := onSatV_apply y ((s.setSatL (some l1)).setSatV (some v1)) v1 v1 yV
    (by rw [HelmholtzEOSMixtureBackend.SatV_setSatV]) (hidem _ _ _ hyV)
  rw [HelmholtzEOSMixtureBackend.setSatV_same ((s.setSatL (some l1)).setSatV (some v1)) v1 (by
    rw [HelmholtzEOSMixtureBackend.SatV_setSatV])] at h3
  simp only [Prog.bind_apply, h1, h2, h3, Prog.pure_apply]

theorem rhomolar_idem (s s1 : HelmholtzEOSMixtureBackend) (a : Dbl)
    (h : rhomolar s = Res.ret a s1) : rhomolar s1 = Res.ret a s1 := by
  unfold rhomolar at h ⊢
  cases h; rfl

theorem setSat_same (s l v : HelmholtzEOSMixtureBackend) (hL : s.SatL = some l)
    (hV : s.SatV = some v) : (s.setSatL (some l)).setSatV (some v) = s := by
  cases s; cases hL; cases hV; rfl

theorem p_quality_density (env : Env) (value : Dbl) (s l v : HelmholtzEOSMixtureBackend)
    (hL : s.SatL = some l) (hV : s.SatV = some v) :
    p_phase_determination_quality env parameters.iDmolar value s =
      Res.ret ((1 / value - 1 / l.self._rhomolar) / (1 / v.self._rhomolar - 1 / l.self._rhomolar))
        s := by
  have h := quality_calls_LVL rhomolar rhomolar_idem
    (fun a b c => (1 / value - 1 / a) / (1 / b - 1 / c)) s l v l v _ _ hL hV rfl rfl
  rw [setSat_same s l v hL hV] at h
  exact h

theorem T_quality_density (env : Env) (value : Dbl) (s l v : HelmholtzEOSMixtureBackend)
    (hL : s.SatL = some l) (hV : s.SatV = some v) :
    T_phase_determination_quality env parameters.iDmolar value s =
      Res.ret ((1 / value - 1 / l.self._rhomolar) / (1 / v.self._rhomolar - 1 / l.self._rhomolar))
        s := by
  have h := quality_calls_LVL rhomolar rhomolar_idem
    (fun a b c => (1 / value - 1 / a) / (1 / b - 1 / c)) s l v l v _ _ hL hV rfl rfl
  rw [setSat_same s l v hL hV] at h
  exact h

/-- C13. In `p_phase_determination_pure_or_pseudopure`, on the local object on which
the saturation call was made, with `SatL` and `SatV` in place: for density the
quality is `(1/value - 1/rhoL)/(1/rhoV - 1/rhoL)`; for molar entropy, enthalpy
and internal energy it is `(value - yL)/(yV - yL)`, with `yL` and `yV` the values
the accessor of that property returns on `SatL` and `SatV`; every other key, the
temperature included, raises `ValueError("bad input for other")`. -/
theorem p_quality_rule (env : Env) (value : Dbl) (s l v : HelmholtzEOSMixtureBackend)
    (hL : s.SatL = some l) (hV : s.SatV = some v) :
    p_phase_determination_quality env parameters.iDmolar value s =
        Res.ret ((1 / value - 1 / l.self._rhomolar)
          / (1 / v.self._rhomolar - 1 / l.self._rhomolar)) s
      ∧ (∀ (l1 v1 : HelmholtzEOSMixtureBackend) (yL yV : Dbl),
          smolar env l = Res.ret yL l1 → smolar env v = Res.ret yV v1 →
          p_phase_determination_quality env parameters.iSmolar value s =
            Res.ret ((value - yL) / (yV - yL)) ((s.setSatL (some l1)).setSatV (some v1)))
      ∧ (∀ (l1 v1 : HelmholtzEOSMixtureBackend) (yL yV : Dbl),
          hmolar env l = Res.ret yL l1 → hmolar env v = Res.ret yV v1 →
          p_phase_determination_quality env parameters.iHmolar value s =
            Res.ret ((value - yL) / (yV - yL)) ((s.setSatL (some l1)).setSatV (some v1)))
      ∧ (∀ (l1 v1 : HelmholtzEOSMixtureBackend) (yL yV : Dbl),
          umolar env l = Res.ret yL l1 → umolar env v = Res.ret yV v1 →
          p_phase_determination_quality env parameters.iUmolar value s =
            Res.ret ((value - yL) / (yV - yL)) ((s.setSatL (some l1)).setSatV (some v1)))
      ∧ (∀ other : parameters, other ≠ parameters.iDmolar → other ≠ parameters.iSmolar →
          other ≠ parameters.iHmolar → other ≠ parameters.iUmolar →
          p_phase_determination_quality env other value s =
            Res.throw (Err.ValueError "bad input for other") s)
      ∧ p_phase_determination_quality env parameters.iT value s =
          Res.throw (Err.ValueError "bad input for other") s := by
  refine ⟨p_quality_density env value s l v hL hV, ?_, ?_, ?_, ?_, rfl⟩
  · intro l1 v1 yL yV hyL hyV
    exact quality_calls_LVL (smolar env) (smolar_idem env) (fun a b c => (value - a) / (b - c))
      s l v l1 v1 yL yV hL hV hyL hyV
  · intro l1 v1 yL yV hyL hyV
    exact quality_calls_LVL (hmolar env) (hmolar_idem env) (fun a b c => (value - a) / (b - c))
      s l v l1 v1 yL yV hL hV hyL hyV
  · intro l1 v1 yL yV hyL hyV
    exact quality_calls_LVL (umolar env) (umolar_idem env) (fun a b c => (value - a) / (b - c))
      s l v l1 v1 yL yV hL hV hyL hyV
  · intro other h1 h2 h3 h4
    cases other <;>
      first
      | rfl
      | exact absurd rfl h1
      | exact absurd rfl h2
      | exact absurd rfl h3
      | exact absurd rfl h4

/-- Witness for C13: saturated liquid with density 40000 and (h, s, u) = (100, 1, 90),
saturated vapour with density 1 and (h, s, u) = (500, 3, 450). -/
theorem p_quality_rule_witness :
    p_phase_determination_quality example_env parameters.iDmolar (Dbl.fin 2) example_HEOS =
        Res.ret (Dbl.fin (19999 / 39999)) example_HEOS
      ∧ p_phase_determination_quality example_env parameters.iSmolar (Dbl.fin 2) example_HEOS =
        Res.ret (Dbl.fin (1 / 2)) example_HEOS
      ∧ p_phase_determination_quality example_env parameters.iHmolar (Dbl.fin 200) example_HEOS =
        Res.ret (Dbl.fin (1 / 4)) example_HEOS
      ∧ p_phase_determination_quality example_env parameters.iUmolar (Dbl.fin 180) example_HEOS =
        Res.ret (Dbl.fin (1 / 4)) example_HEOS
      ∧ p_phase_determination_quality example_env parameters.iT (Dbl.fin 300) example_HEOS =
        Res.throw (Err.ValueError "bad input for other") example_HEOS := by
  have h := p_quality_rule example_env
  have e1 : (1 / Dbl.fin 2 - 1 / Dbl.fin 40000) / (1 / Dbl.fin 1 - 1 / Dbl.fin 40000)
      = Dbl.fin (19999 / 39999) := by
    simp only [Dbl.one_eq]
    rw [Dbl.fin_div_fin _ _ (by norm_num), Dbl.fin_div_fin _ _ (by norm_num),
      Dbl.fin_div_fin _ _ (by norm_num), Dbl.fin_sub_fin, Dbl.fin_sub_fin,
      Dbl.fin_div_fin _ _ (by norm_num)]
    norm_num
  have e2 : (Dbl.fin 2 - Dbl.fin 1) / (Dbl.fin 3 - Dbl.fin 1) = Dbl.fin (1 / 2) := by
    rw [Dbl.fin_sub_fin, Dbl.fin_sub_fin, Dbl.fin_div_fin _ _ (by norm_num)]; norm_num
  have e3 : (Dbl.fin 200 - Dbl.fin 100) / (Dbl.fin 500 - Dbl.fin 100) = Dbl.fin (1 / 4) := by
    rw [Dbl.fin_sub_fin, Dbl.fin_sub_fin, Dbl.fin_div_fin _ _ (by norm_num)]; norm_num
  have e4 : (Dbl.fin 180 - Dbl.fin 90) / (Dbl.fin 450 - Dbl.fin 90) = Dbl.fin (1 / 4) := by
    rw [Dbl.fin_sub_fin, Dbl.fin_sub_fin, Dbl.fin_div_fin _ _ (by norm_num)]; norm_num
  refine ⟨?_, ?_, ?_, ?_, ?_⟩
  · exact ((h (Dbl.fin 2) example_HEOS _ _ rfl rfl).1).trans (congrArg (fun q => Res.ret q _) e1)
  · exact ((h (Dbl.fin 2) example_HEOS _ _ rfl rfl).2.1 _ _ (Dbl.fin 1) (Dbl.fin 3) rfl rfl).trans
      (congrArg (fun q => Res.ret q _) e2)
  · exact ((h (Dbl.fin 200) example_HEOS _ _ rfl rfl).2.2.1 _ _ (Dbl.fin 100) (Dbl.fin 500) rfl
      rfl).trans (congrArg (fun q => Res.ret q _) e3)
  · exact ((h (Dbl.fin 180) example_HEOS _ _ rfl rfl).2.2.2.1 _ _ (Dbl.fin 90) (Dbl.fin 450) rfl
      rfl).trans (congrArg (fun q => Res.ret q _) e4)
  · exact (h (Dbl.fin 300) example_HEOS _ _ rfl rfl).2.2.2.2.2

theorem onLocal_onSatV_getter (g : Members → Dbl) (obj V s : HelmholtzEOSMixtureBackend)
    (hV : obj.SatV = some V) :
    onLocal obj (onSatV (fun c => Res.ret (g c.self) c)) s = Res.ret (g V.self, obj) s := by
  have h := onSatV_apply (fun c => Res.ret (g c.self) c) obj V V (g V.self) hV rfl
  rw [HelmholtzEOSMixtureBackend.setSatV_same obj V hV] at h
  exact onLocal_apply _ obj obj s _ h

theorem onLocal_onSatL_getter (g : Members → Dbl) (obj L s : HelmholtzEOSMixtureBackend)
    (hL : obj.SatL = some L) :
    onLocal obj (onSatL (fun c => Res.ret (g c.self) c)) s = Res.ret (g L.self, obj) s := by
  have h := onSatL_apply (fun c => Res.ret (g c.self) c) obj L L (g L.self) hL rfl
  rw [HelmholtzEOSMixtureBackend.setSatL_same obj L hL] at h
  exact onLocal_apply _ obj obj s _ h

theorem T_saturation_classification (env : Env) (other : parameters) (value Q : Dbl)
    (s HEOS HEOS1 L V : HelmholtzEOSMixtureBackend)
    (hpure : s.self.is_pure_or_pseudopure = true) (hother : other ≠ parameters.iP)
    (hsolve : env.saturation_T_pure s.self._T (construct env s.self.components true)
      = Res.ret () HEOS)
    (hQ : T_phase_determination_quality env other value HEOS = Res.ret Q HEOS1)
    (hL : HEOS1.SatL = some L) (hV : HEOS1.SatV = some V) :
    T_phase_determination_saturation env other value s =
      Res.ret () (s.modify (fun m =>
        if Q < -(Dbl.fin 100 * DBL_EPSILON) then
          { m with _phase := phases.iphase_liquid, _Q := Dbl.fin (-1000) }
        else if 1 + Dbl.fin 100 * DBL_EPSILON < Q then
          { m with _phase := phases.iphase_gas, _Q := Dbl.fin 1000 }
        else
          { m with _phase := phases.iphase_twophase, _Q := Q,
                   _p := Q * V.self._p + (1 - Q) * L.self._p,
                   _rhomolar := 1 / (Q / V.self._rhomolar + (1 - Q) / L.self._rhomolar) })) := by
  have h1 := onLocal_apply (env.saturation_T_pure s.self._T) _ _ s _ hsolve
  have h2 := onLocal_apply (T_phase_determination_quality env other value) _ _ s _ hQ
  have hpV : ∀ t, onLocal HEOS1 (onSatV p) t = Res.ret (V.self._p, HEOS1) t :=
    fun t => onLocal_onSatV_getter (fun m => m._p) HEOS1 V t hV
  have hpL : ∀ t, onLocal HEOS1 (onSatL p) t = Res.ret (L.self._p, HEOS1) t :=
    fun t => onLocal_onSatL_getter (fun m => m._p) HEOS1 L t hL
  have hrV : ∀ t, onLocal HEOS1 (onSatV rhomolar) t = Res.ret (V.self._rhomolar, HEOS1) t :=
    fun t => onLocal_onSatV_getter (fun m => m._rhomolar) HEOS1 V t hV
  have hrL : ∀ t, onLocal HEOS1 (onSatL rhomolar) t = Res.ret (L.self._rhomolar, HEOS1) t :=
    fun t => onLocal_onSatL_getter (fun m => m._rhomolar) HEOS1 L t hL
  unfold T_phase_determination_saturation
  simp only [Prog.bind_apply, Prog.get_apply, hpure, Bool.not_true, Prog.throw_if_false, h1,
    hother, if_false, h2]
  by_cases c1 : Q < -(Dbl.fin 100 * DBL_EPSILON)
  · simp only [c1, if_true, Prog.set_apply]
  · by_cases c2 : 1 + Dbl.fin 100 * DBL_EPSILON < Q
    · simp only [c1, c2, if_true, if_false, Prog.set_apply]
    · simp only [c1, c2, if_false, Prog.bind_apply, Prog.set_apply, hpV, hpL, hrV, hrL,
        HelmholtzEOSMixtureBackend.modify_modify, HelmholtzEOSMixtureBackend.self_modify]

theorem p_saturation_classification (env : Env) (other : parameters) (value Q : Dbl)
    (s HEOS HEOS1 L V l0 v0 l1 v1 : HelmholtzEOSMixtureBackend)
    (hpure : s.self.is_pure_or_pseudopure = true)
    (hflash : env.PQ_flash ((construct env s.self.components true).modify
      (fun h => { h with _p := s.self._p, _Q := 0 })) = Res.ret () HEOS)
    (hQ : p_phase_determination_quality env other value HEOS = Res.ret Q HEOS1)
    (hL : HEOS1.SatL = some L) (hV : HEOS1.SatV = some V)
    (hl0 : s.SatL = some l0) (hv0 : s.SatV = some v0)
    (hupL : update env input_pairs.DmolarT_INPUTS L.self._rhomolar L.self._T l0 = Res.ret () l1)
    (hupV : update env input_pairs.DmolarT_INPUTS V.self._rhomolar V.self._T v0 = Res.ret () v1) :
    p_phase_determination_saturation env other value s =
      Res.ret true (((s.setSatL (some l1)).setSatV (some v1)).modify (fun m =>
        if Q < -(Dbl.fin 100 * DBL_EPSILON) then
          { m with _phase := phases.iphase_liquid, _Q := Dbl.fin (-1000) }
        else if 1 + Dbl.fin 100 * DBL_EPSILON < Q then
          { m with _phase := phases.iphase_gas, _Q := Dbl.fin 1000 }
        else
          { m with _phase := phases.iphase_twophase, _Q := Q,
                   _p := Q * V.self._p + (1 - Q) * L.self._p,
                   _rhomolar := 1 / (Q / V.self._rhomolar + (1 - Q) / L.self._rhomolar) })) := by
  have h1 := onLocal_apply env.PQ_flash _ _ s _ hflash
  have h2 := onLocal_apply (p_phase_determination_quality env other value) _ _ s _ hQ
  have hpV : ∀ t, onLocal HEOS1 (onSatV p) t = Res.ret (V.self._p, HEOS1) t :=
    fun t => onLocal_onSatV_getter (fun m => m._p) HEOS1 V t hV
  have hpL : ∀ t, onLocal HEOS1 (onSatL p) t = Res.ret (L.self._p, HEOS1) t :=
    fun t => onLocal_onSatL_getter (fun m => m._p) HEOS1 L t hL
  have hrV : ∀ t, onLocal HEOS1 (onSatV rhomolar) t = Res.ret (V.self._rhomolar, HEOS1) t :=
    fun t => onLocal_onSatV_getter (fun m => m._rhomolar) HEOS1 V t hV
  have hrL : ∀ t, onLocal HEOS1 (onSatL rhomolar) t = Res.ret (L.self._rhomolar, HEOS1) t :=
    fun t => onLocal_onSatL_getter (fun m => m._rhomolar) HEOS1 L t hL
  have hTV : ∀ t, onLocal HEOS1 (onSatV T) t = Res.ret (V.self._T, HEOS1) t :=
    fun t => onLocal_onSatV_getter (fun m => m._T) HEOS1 V t hV
  have hTL : ∀ t, onLocal HEOS1 (onSatL T) t = Res.ret (L.self._T, HEOS1) t :=
    fun t => onLocal_onSatL_getter (fun m => m._T) HEOS1 L t hL
  have huL := onSatL_apply (update env input_pairs.DmolarT_INPUTS L.self._rhomolar L.self._T)
    s l0 l1 () hl0 hupL
  have huV := onSatV_apply (update env input_pairs.DmolarT_INPUTS V.self._rhomolar V.self._T)
    (s.setSatL (some l1)) v0 v1 ()
    (by rw [HelmholtzEOSMixtureBackend.SatV_setSatL, hv0]) hupV
  unfold p_phase_determination_saturation
  simp only [Prog.bind_apply, Prog.get_apply, hpure, Bool.not_true, Prog.throw_if_false, h1,
    h2, hrL, hTL, huL, hrV, hTV, huV]
  by_cases c1 : Q < -(Dbl.fin 100 * DBL_EPSILON)
  · simp only [c1, if_true, Prog.bind_apply, Prog.set_apply, Prog.pure_apply]
  · by_cases c2 : 1 + Dbl.fin 100 * DBL_EPSILON < Q
    · simp only [c1, c2, if_true, if_false, Prog.bind_apply, Prog.set_apply, Prog.pure_apply]
    · simp only [c1, c2, if_false, Prog.bind_apply, Prog.set_apply, hpV, hpL, hrV, hrL,
        Prog.pure_apply,
        HelmholtzEOSMixtureBackend.modify_modify, HelmholtzEOSMixtureBackend.self_modify]

theorem T_density_reaches_saturation (env : Env) (value : Dbl) (s : HelmholtzEOSMixtureBackend)
    (c : CoolPropFluid) (cs : List CoolPropFluid) (hvalue : ValidNumber value = true)
    (hcomp : s.self.components = c :: cs) (hT : s.self._T < s.self._crit.T)
    (h1 : ¬ (value < Dbl.fin (95 / 100) * c.ancillaries.rhoV.evaluate s.self._T))
    (h2 : ¬ (Dbl.fin (105 / 100) * c.ancillaries.rhoL.evaluate s.self._T < value)) :
    T_phase_determination_pure_or_pseudopure env parameters.iDmolar value s =
      T_phase_determination_saturation env parameters.iDmolar value (s.modify (fun m =>
        { m with _rhoVanc := CachedElement.assign (c.ancillaries.rhoV.evaluate m._T),
                 _rhoLanc := CachedElement.assign (c.ancillaries.rhoL.evaluate m._T) })) := by
  unfold T_phase_determination_pure_or_pseudopure T_phase_determination_subcritical
  simp only [Prog.bind_apply, Prog.get_apply, Prog.set_apply, hvalue, Bool.not_true,
    Prog.throw_if_false, hT, if_true, hcomp, index, List.get?_cons_zero, Prog.ofExcept_ok,
    HelmholtzEOSMixtureBackend.self_modify, HelmholtzEOSMixtureBackend.modify_modify,
    CachedElement.assign, h1, h2, if_false]

theorem p_density_reaches_saturation (env : Env) (value : Dbl) (s : HelmholtzEOSMixtureBackend)
    (c : CoolPropFluid) (cs : List CoolPropFluid)
    (hcomp : s.self.components = c :: cs) (hpc : ¬ (s.self._crit.p < s.self._p))
    (hpt : c.pEOS.ptriple < s.self._p) (hpc2 : s.self._p < s.self._crit.p)
    (h1 : ¬ (value < Dbl.fin (95 / 100)
      * c.ancillaries.rhoV.evaluate (c.ancillaries.pV.invert s.self._p)))
    (h2 : ¬ (Dbl.fin (105 / 100)
      * c.ancillaries.rhoL.evaluate (c.ancillaries.pL.invert s.self._p) < value)) :
    p_phase_determination_pure_or_pseudopure env parameters.iDmolar value s =
      p_phase_determination_saturation env parameters.iDmolar value (s.modify (fun m =>
        { m with _TLanc := CachedElement.assign (c.ancillaries.pL.invert m._p),
                 _TVanc := CachedElement.assign (c.ancillaries.pV.invert m._p),
                 _rhoVanc := CachedElement.assign
                   (c.ancillaries.rhoV.evaluate (c.ancillaries.pV.invert m._p)),
                 _rhoLanc := CachedElement.assign
                   (c.ancillaries.rhoL.evaluate (c.ancillaries.pL.invert m._p)) })) := by
  unfold p_phase_determination_pure_or_pseudopure p_phase_determination_subcritical
    p_phase_determination_density
  simp only [Prog.bind_apply, Prog.get_apply, Prog.set_apply, hcomp, index, List.get?_cons_zero,
    Prog.ofExcept_ok, hpc, hpt, hpc2, and_self, if_true, if_false,
    HelmholtzEOSMixtureBackend.self_modify, HelmholtzEOSMixtureBackend.modify_modify,
    CachedElement.assign, Bool.not_false, h1, h2]

/-- C11. In both variants, once the saturation call on the local object has returned
and the quality `Q` has been computed, with `L` and `V` the objects the local
`SatL` and `SatV` point to: `Q < -100*DBL_EPSILON` sets the phase to liquid (and
`_Q` to -1000), `Q > 1 + 100*DBL_EPSILON` sets it to gas (and `_Q` to 1000);
otherwise the phase is two-phase, `_Q = Q`, `_p = Q*pV + (1-Q)*pL` and
`_rhomolar = 1/(Q/rhoV + (1-Q)/rhoL)`. Nothing else of `*this` changes, except
that the variant at given pressure has updated the owned `SatL` and `SatV`
before, and reports `saturation_called = true`. -/
theorem saturation_classification (env : Env) (other : parameters) (value Q : Dbl) :
    (∀ (s HEOS HEOS1 L V : HelmholtzEOSMixtureBackend),
        s.self.is_pure_or_pseudopure = true → other ≠ parameters.iP →
        env.saturation_T_pure s.self._T (construct env s.self.components true)
          = Res.ret () HEOS →
        T_phase_determination_quality env other value HEOS = Res.ret Q HEOS1 →
        HEOS1.SatL = some L → HEOS1.SatV = some V →
        T_phase_determination_saturation env other value s =
          Res.ret () (s.modify (fun m =>
            if Q < -(Dbl.fin 100 * DBL_EPSILON) then
              { m with _phase := phases.iphase_liquid, _Q := Dbl.fin (-1000) }
            else if 1 + Dbl.fin 100 * DBL_EPSILON < Q then
              { m with _phase := phases.iphase_gas, _Q := Dbl.fin 1000 }
            else
              { m with _phase := phases.iphase_twophase, _Q := Q,
                       _p := Q * V.self._p + (1 - Q) * L.self._p,
                       _rhomolar := 1 / (Q / V.self._rhomolar + (1 - Q) / L.self._rhomolar) })))
      ∧ (∀ (s HEOS HEOS1 L V l0 v0 l1 v1 : HelmholtzEOSMixtureBackend),
        s.self.is_pure_or_pseudopure = true →
        env.PQ_flash ((construct env s.self.components true).modify
          (fun h => { h with _p := s.self._p, _Q := 0 })) = Res.ret () HEOS →
        p_phase_determination_quality env other value HEOS = Res.ret Q HEOS1 →
        HEOS1.SatL = some L → HEOS1.SatV = some V →
        s.SatL = some l0 → s.SatV = some v0 →
        update env input_pairs.DmolarT_INPUTS L.self._rhomolar L.self._T l0 = Res.ret () l1 →
        update env input_pairs.DmolarT_INPUTS V.self._rhomolar V.self._T v0 = Res.ret () v1 →
        p_phase_determination_saturation env other value s =
          Res.ret true (((s.setSatL (some l1)).setSatV (some v1)).modify (fun m =>
            if Q < -(Dbl.fin 100 * DBL_EPSILON) then
              { m with _phase := phases.iphase_liquid, _Q := Dbl.fin (-1000) }
            else if 1 + Dbl.fin 100 * DBL_EPSILON < Q then
              { m with _phase := phases.iphase_gas, _Q := Dbl.fin 1000 }
            else
              { m with _phase := phases.iphase_twophase, _Q := Q,
                       _p := Q * V.self._p + (1 - Q) * L.self._p,
                       _rhomolar := 1 / (Q / V.self._rhomolar + (1 - Q) / L.self._rhomolar) }))) :=
  ⟨fun s HEOS HEOS1 L V hpure hother hsolve hQ hL hV =>
      T_saturation_classification env other value Q s HEOS HEOS1 L V hpure hother hsolve hQ hL hV,
   fun s HEOS HEOS1 L V l0 v0 l1 v1 hpure hflash hQ hL hV hl0 hv0 hupL hupV =>
      p_saturation_classification env other value Q s HEOS HEOS1 L V l0 v0 l1 v1 hpure hflash hQ
        hL hV hl0 hv0 hupL hupV⟩

theorem example_quality_value :
    (1 / Dbl.fin 2 - 1 / Dbl.fin 40000) / (1 / Dbl.fin 1 - 1 / Dbl.fin 40000)
      = Dbl.fin (19999 / 39999) := by
  simp only [Dbl.one_eq]
  rw [Dbl.fin_div_fin _ _ (by norm_num), Dbl.fin_div_fin _ _ (by norm_num),
    Dbl.fin_div_fin _ _ (by norm_num), Dbl.fin_sub_fin, Dbl.fin_sub_fin,
    Dbl.fin_div_fin _ _ (by norm_num)]
  norm_num

theorem example_quality_between :
    ¬ (Dbl.fin (19999 / 39999) < -(Dbl.fin 100 * DBL_EPSILON))
      ∧ ¬ (1 + Dbl.fin 100 * DBL_EPSILON < Dbl.fin (19999 / 39999)) := by
  have hneg : -(Dbl.fin 100 * DBL_EPSILON) = Dbl.fin (-(100 * (1 / 4503599627370496))) := rfl
  have hpos : 1 + Dbl.fin 100 * DBL_EPSILON = Dbl.fin (1 + 100 * (1 / 4503599627370496)) := rfl
  rw [hneg, hpos, Dbl.fin_lt_fin, Dbl.fin_lt_fin]
  constructor <;> norm_num

theorem example_two_phase_values :
    Dbl.fin (19999 / 39999) * Dbl.fin 1000 + (1 - Dbl.fin (19999 / 39999)) * Dbl.fin 1000
        = Dbl.fin 1000
      ∧ 1 / (Dbl.fin (19999 / 39999) / Dbl.fin 1 + (1 - Dbl.fin (19999 / 39999)) / Dbl.fin 40000)
        = Dbl.fin 2 := by
  constructor
  · simp only [Dbl.one_eq, Dbl.fin_sub_fin, Dbl.fin_mul_fin, Dbl.fin_add_fin]; norm_num
  · simp only [Dbl.one_eq, Dbl.fin_sub_fin]
    rw [Dbl.fin_div_fin _ _ (by norm_num), Dbl.fin_div_fin _ _ (by norm_num), Dbl.fin_add_fin,
      Dbl.fin_div_fin _ _ (by norm_num)]
    norm_num

/-- Witness for C11: both functions on the pure example fluid at 300 K and 1000 Pa
with the density 2 mol/m3 between the saturated densities 1 and 40000: the
quality is 19999/39999, the state is two-phase, and the recomposed density is
again 2. -/
theorem saturation_classification_witness :
    (∃ s1, T_phase_determination_pure_or_pseudopure example_env_sat parameters.iDmolar (Dbl.fin 2)
          (example_pure_at 300 1000 2) = Res.ret () s1
        ∧ s1.self._phase = phases.iphase_twophase ∧ s1.self._Q = Dbl.fin (19999 / 39999)
        ∧ s1.self._p = Dbl.fin 1000 ∧ s1.self._rhomolar = Dbl.fin 2)
      ∧ (∃ s1, p_phase_determination_pure_or_pseudopure example_env_sat parameters.iDmolar
          (Dbl.fin 2) (example_pure_at 300 1000 2) = Res.ret true s1
        ∧ s1.self._phase = phases.iphase_twophase ∧ s1.self._Q = Dbl.fin (19999 / 39999)
        ∧ s1.self._p = Dbl.fin 1000 ∧ s1.self._rhomolar = Dbl.fin 2) := by
  have hT : (example_pure_at 300 1000 2).self._T < (example_pure_at 300 1000 2).self._crit.T :=
    (Dbl.fin_lt_fin 300 400).mpr (by norm_num)
  have hr1 : ¬ (Dbl.fin 2 < Dbl.fin (95 / 100) * Dbl.fin 1) := by
    rw [Dbl.fin_mul_fin, Dbl.fin_lt_fin]; norm_num
  have hr2 : ¬ (Dbl.fin (105 / 100) * Dbl.fin 40000 < Dbl.fin 2) := by
    rw [Dbl.fin_mul_fin, Dbl.fin_lt_fin]; norm_num
  have hp1 : ¬ ((example_pure_at 300 1000 2).self._crit.p < (example_pure_at 300 1000 2).self._p) := by
    show ¬ (Dbl.fin 4000000 < Dbl.fin 1000)
    rw [Dbl.fin_lt_fin]; norm_num
  have hp2 : (example_fluid 18 8).pEOS.ptriple < (example_pure_at 300 1000 2).self._p :=
    (Dbl.fin_lt_fin 600 1000).mpr (by norm_num)
  have hp3 : (example_pure_at 300 1000 2).self._p < (example_pure_at 300 1000 2).self._crit.p :=
    (Dbl.fin_lt_fin 1000 4000000).mpr (by norm_num)
  have hc := saturation_classification example_env_sat parameters.iDmolar (Dbl.fin 2)
    ((1 / Dbl.fin 2 - 1 / Dbl.fin 40000) / (1 / Dbl.fin 1 - 1 / Dbl.fin 40000))
  constructor
  · have h0 := T_density_reaches_saturation example_env_sat (Dbl.fin 2)
      (example_pure_at 300 1000 2) (example_fluid 18 8) [] rfl rfl hT hr1 hr2
    have h1 := hc.1 ((example_pure_at 300 1000 2).modify (fun m =>
        { m with _rhoVanc := CachedElement.assign ((example_fluid 18 8).ancillaries.rhoV.evaluate m._T),
                 _rhoLanc := CachedElement.assign ((example_fluid 18 8).ancillaries.rhoL.evaluate m._T) }))
      example_HEOS example_HEOS (example_saturated 40000 1000 100 1 90)
      (example_saturated 1 1000 500 3 450) rfl (by decide) rfl
      (T_quality_density example_env_sat (Dbl.fin 2) example_HEOS _ _ rfl rfl) rfl rfl
    rw [example_quality_value] at h1
    simp only [example_quality_between.1, example_quality_between.2, if_false] at h1
    refine ⟨_, h0.trans h1, ?_⟩
    rw [HelmholtzEOSMixtureBackend.self_modify]
    exact ⟨rfl, rfl, example_two_phase_values.1, example_two_phase_values.2⟩
  · have h0 := p_density_reaches_saturation example_env_sat (Dbl.fin 2)
      (example_pure_at 300 1000 2) (example_fluid 18 8) [] rfl hp1 hp2 hp3 hr1 hr2
    have hl : (update example_env_sat input_pairs.DmolarT_INPUTS (Dbl.fin 40000) (Dbl.fin 300)
        (specify_phase phases.iphase_liquid
          (new_without_sat example_env [example_fluid 18 8]))).returned = true := by decide
    have hv : (update example_env_sat input_pairs.DmolarT_INPUTS (Dbl.fin 1) (Dbl.fin 300)
        (specify_phase phases.iphase_gas
          (new_without_sat example_env [example_fluid 18 8]))).returned = true := by decide
    obtain ⟨_, hl⟩ := Res.eq_ret_state _ hl
    obtain ⟨_, hv⟩ := Res.eq_ret_state _ hv
    have h1 := hc.2 ((example_pure_at 300 1000 2).modify (fun m =>
        { m with _TLanc := CachedElement.assign ((example_fluid 18 8).ancillaries.pL.invert m._p),
                 _TVanc := CachedElement.assign ((example_fluid 18 8).ancillaries.pV.invert m._p),
                 _rhoVanc := CachedElement.assign ((example_fluid 18 8).ancillaries.rhoV.evaluate
                   ((example_fluid 18 8).ancillaries.pV.invert m._p)),
                 _rhoLanc := CachedElement.assign ((example_fluid 18 8).ancillaries.rhoL.evaluate
                   ((example_fluid 18 8).ancillaries.pL.invert m._p)) }))
      _ _ (example_saturated 40000 1000 100 1 90)
      (example_saturated 1 1000 500 3 450)
      (specify_phase phases.iphase_liquid (new_without_sat example_env [example_fluid 18 8]))
      (specify_phase phases.iphase_gas (new_without_sat example_env [example_fluid 18 8]))
      _ _ rfl rfl
      (p_quality_density example_env_sat (Dbl.fin 2) _ (example_saturated 40000 1000 100 1 90)
        (example_saturated 1 1000 500 3 450) rfl rfl) rfl rfl rfl rfl hl hv
    rw [example_quality_value] at h1
    simp only [example_quality_between.1, example_quality_between.2, if_false] at h1
    refine ⟨_, h0.trans h1, ?_⟩
    rw [HelmholtzEOSMixtureBackend.self_modify]
    exact ⟨rfl, rfl, example_two_phase_values.1, example_two_phase_values.2⟩

/-- C12, as the code behaves. In `T_phase_determination_pure_or_pseudopure` the
quality for density is `(1/value - 1/rhoL)/(1/rhoV - 1/rhoL)`, but for molar
entropy, enthalpy and internal energy the divisor is `yV - yV`, the vapour value
minus itself, and the quality is `(value - yL)/(yV - yV)`. -/
theorem T_quality_as_coded (env : Env) (value : Dbl) (s l v : HelmholtzEOSMixtureBackend)
    (hL : s.SatL = some l) (hV : s.SatV = some v) :
    T_phase_determination_quality env parameters.iDmolar value s =
        Res.ret ((1 / value - 1 / l.self._rhomolar)
          / (1 / v.self._rhomolar - 1 / l.self._rhomolar)) s
      ∧ (∀ (l1 v1 : HelmholtzEOSMixtureBackend) (yL yV : Dbl),
          smolar env l = Res.ret yL l1 → smolar env v = Res.ret yV v1 →
          T_phase_determination_quality env parameters.iSmolar value s =
            Res.ret ((value - yL) / (yV - yV)) ((s.setSatL (some l1)).setSatV (some v1)))
      ∧ (∀ (l1 v1 : HelmholtzEOSMixtureBackend) (yL yV : Dbl),
          hmolar env l = Res.ret yL l1 → hmolar env v = Res.ret yV v1 →
          T_phase_determination_quality env parameters.iHmolar value s =
            Res.ret ((value - yL) / (yV - yV)) ((s.setSatL (some l1)).setSatV (some v1)))
      ∧ (∀ (l1 v1 : HelmholtzEOSMixtureBackend) (yL yV : Dbl),
          umolar env l = Res.ret yL l1 → umolar env v = Res.ret yV v1 →
          T_phase_determination_quality env parameters.iUmolar value s =
            Res.ret ((value - yL) / (yV - yV)) ((s.setSatL (some l1)).setSatV (some v1))) := by
  refine ⟨T_quality_density env value s l v hL hV, ?_, ?_, ?_⟩
  · intro l1 v1 yL yV hyL hyV
    exact quality_calls_LVV (smolar env) (smolar_idem env) (fun a b c => (value - a) / (b - c))
      s l v l1 v1 yL yV hL hV hyL hyV
  · intro l1 v1 yL yV hyL hyV
    exact quality_calls_LVV (hmolar env) (hmolar_idem env) (fun a b c => (value - a) / (b - c))
      s l v l1 v1 yL yV hL hV hyL hyV
  · intro l1 v1 yL yV hyL hyV
    exact quality_calls_LVV (umolar env) (umolar_idem env) (fun a b c => (value - a) / (b - c))
      s l v l1 v1 yL yV hL hV hyL hyV

theorem example_quality_infinite :
    (Dbl.fin 2 - Dbl.fin 1) / (Dbl.fin 3 - Dbl.fin 3) = Dbl.pinf := by
  rw [Dbl.fin_sub_fin, Dbl.fin_sub_fin]
  show Dbl.div _ _ = _
  norm_num [Dbl.div]

/-- The failing input of C12: saturated entropies 1 (liquid) and 3 (vapour) and the
value 2. The stated quality is 1/2; the code computes `(2 - 1)/(3 - 3)`, plus
infinity, and classifies the state as gas with `_Q = 1000`. -/
theorem T_quality_as_coded_witness :
    (Dbl.fin 2 - Dbl.fin 1) / (Dbl.fin 3 - Dbl.fin 1) = Dbl.fin (1 / 2)
      ∧ T_phase_determination_quality example_env_sat parameters.iSmolar (Dbl.fin 2) example_HEOS
        = Res.ret Dbl.pinf example_HEOS
      ∧ T_phase_determination_saturation example_env_sat parameters.iSmolar (Dbl.fin 2)
          (example_pure_at 300 1000 2) =
        Res.ret () ((example_pure_at 300 1000 2).modify (fun m =>
          { m with _phase := phases.iphase_gas, _Q := Dbl.fin 1000 })) := by
  have e : (Dbl.fin 2 - Dbl.fin 1) / (Dbl.fin 3 - Dbl.fin 1) = Dbl.fin (1 / 2) := by
    rw [Dbl.fin_sub_fin, Dbl.fin_sub_fin, Dbl.fin_div_fin _ _ (by norm_num)]; norm_num
  have hq := ((T_quality_as_coded example_env_sat (Dbl.fin 2) example_HEOS _ _ rfl rfl).2.1 _ _
    (Dbl.fin 1) (Dbl.fin 3) rfl rfl).trans
    (congrArg (fun q => Res.ret q example_HEOS) example_quality_infinite)
  have hs := T_saturation_classification example_env_sat parameters.iSmolar (Dbl.fin 2) Dbl.pinf
    (example_pure_at 300 1000 2) example_HEOS example_HEOS (example_saturated 40000 1000 100 1 90)
    (example_saturated 1 1000 500 3 450) rfl (by decide) rfl hq rfl rfl
  have c1 : ¬ (Dbl.pinf < -(Dbl.fin 100 * DBL_EPSILON)) := by decide
  have c2 : 1 + Dbl.fin 100 * DBL_EPSILON < Dbl.pinf := by decide
  simp only [c1, c2, if_true, if_false] at hs
  exact ⟨e, hq, hs⟩

/-! ## Caloric properties and pressure (C14, C15) -/

theorem via_cache_ofExcept_frame (read : Members → CachedElement)
    (write : CachedElement → Members → Members) (e : Except Err Dbl)
    (s s1 : HelmholtzEOSMixtureBackend) (v : Dbl)
    (hw : ∀ c m, (write c m)._T = m._T ∧ (write c m)._tau = m._tau ∧ (write c m)._delta = m._delta
      ∧ (write c m)._rhomolar = m._rhomolar)
    (h : via_cache read write s (Prog.ofExcept e s) = Res.ret v s1) :
    same_reduced_point s s1 := by
  unfold via_cache at h
  split at h
  · cases h; exact ⟨rfl, rfl, rfl, rfl⟩
  · cases e with
    | error err => simp [Prog.ofExcept, Prog.raise] at h
    | ok a =>
      simp only [Prog.ofExcept, Prog.ret] at h
      cases h
      simp only [same_reduced_point, HelmholtzEOSMixtureBackend.self_modify]
      exact hw _ _

theorem same_reduced_point_trans {s s1 s2 : HelmholtzEOSMixtureBackend}
    (h1 : same_reduced_point s s1) (h2 : same_reduced_point s1 s2) : same_reduced_point s s2 :=
  ⟨h2.1.trans h1.1, h2.2.1.trans h1.2.1, h2.2.2.1.trans h1.2.2.1, h2.2.2.2.trans h1.2.2.2⟩

theorem alphar_frame (s s1 : HelmholtzEOSMixtureBackend) (v : Dbl)
    (h : alphar s = Res.ret v s1) : same_reduced_point s s1 :=
  via_cache_ofExcept_frame (fun m => m._alphar) (fun c m => { m with _alphar := c })
    (calc_alphar s.self) s s1 v (fun _ _ => ⟨rfl, rfl, rfl, rfl⟩) h

theorem dalphar_dDelta_frame (s s1 : HelmholtzEOSMixtureBackend) (v : Dbl)
    (h : dalphar_dDelta s = Res.ret v s1) : same_reduced_point s s1 :=
  via_cache_ofExcept_frame (fun m => m._dalphar_dDelta) (fun c m => { m with _dalphar_dDelta := c })
    (calc_dalphar_dDelta s.self) s s1 v (fun _ _ => ⟨rfl, rfl, rfl, rfl⟩) h

theorem dalphar_dTau_frame (s s1 : HelmholtzEOSMixtureBackend) (v : Dbl)
    (h : dalphar_dTau s = Res.ret v s1) : same_reduced_point s s1 :=
  via_cache_ofExcept_frame (fun m => m._dalphar_dTau) (fun c m => { m with _dalphar_dTau := c })
    (calc_dalphar_dTau s.self) s s1 v (fun _ _ => ⟨rfl, rfl, rfl, rfl⟩) h

theorem alpha0_frame (env : Env) (s s1 : HelmholtzEOSMixtureBackend) (v : Dbl)
    (h : alpha0 env s = Res.ret v s1) : same_reduced_point s s1 :=
  via_cache_ofExcept_frame (fun m => m._alpha0) (fun c m => { m with _alpha0 := c })
    (calc_alpha0 env s.self) s s1 v (fun _ _ => ⟨rfl, rfl, rfl, rfl⟩) h

theorem dalpha0_dTau_frame (env : Env) (s s1 : HelmholtzEOSMixtureBackend) (v : Dbl)
    (h : dalpha0_dTau env s = Res.ret v s1) : same_reduced_point s s1 :=
  via_cache_ofExcept_frame (fun m => m._dalpha0_dTau) (fun c m => { m with _dalpha0_dTau := c })
    (calc_dalpha0_dTau env s.self) s s1 v (fun _ _ => ⟨rfl, rfl, rfl, rfl⟩) h

theorem gas_constant_frame (s s1 : HelmholtzEOSMixtureBackend) (v : Dbl)
    (h : gas_constant s = Res.ret v s1) : same_reduced_point s s1 :=
  via_cache_ofExcept_frame (fun m => m._gas_constant) (fun c m => { m with _gas_constant := c })
    (calc_gas_constant s.self) s s1 v (fun _ _ => ⟨rfl, rfl, rfl, rfl⟩) h

theorem set_reduced_variables_apply (s : HelmholtzEOSMixtureBackend) :
    set_reduced_variables s = Res.ret () (set_reduced_variables s).state
      ∧ (set_reduced_variables s).state.self._T = s.self._T
      ∧ (set_reduced_variables s).state.self._tau =
          CachedElement.assign (s.self._reducing.T / s.self._T)
      ∧ (set_reduced_variables s).state.self._delta =
          CachedElement.assign (s.self._rhomolar / s.self._reducing.rhomolar)
      ∧ (set_reduced_variables s).state.self._rhomolar = s.self._rhomolar := by
  cases s
  exact ⟨rfl, rfl, rfl, rfl, rfl⟩

theorem calc_hmolar_homogeneous_value (env : Env) (s s1 s2 s3 s4 : HelmholtzEOSMixtureBackend)
    (a0_tau ar_tau ar_delta R : Dbl)
    (h1 : dalpha0_dTau env (set_reduced_variables s).state = Res.ret a0_tau s1)
    (h2 : dalphar_dTau s1 = Res.ret ar_tau s2)
    (h3 : dalphar_dDelta s2 = Res.ret ar_delta s3)
    (h4 : gas_constant s3 = Res.ret R s4) :
    calc_hmolar_homogeneous env s =
      Res.ret (R * s.self._T * (1 + s.self._reducing.T / s.self._T * (a0_tau + ar_tau)
          + s.self._rhomolar / s.self._reducing.rhomolar * ar_delta))
        (s4.modify (fun m => { m with _hmolar := CachedElement.assign (R * s.self._T *
          (1 + s.self._reducing.T / s.self._T * (a0_tau + ar_tau)
            + s.self._rhomolar / s.self._reducing.rhomolar * ar_delta)) })) := by
  obtain ⟨hs0, f0⟩ := set_reduced_variables_apply s
  have f := same_reduced_point_trans (same_reduced_point_trans (same_reduced_point_trans
    (dalpha0_dTau_frame env _ _ _ h1) (dalphar_dTau_frame _ _ _ h2))
    (dalphar_dDelta_frame _ _ _ h3)) (gas_constant_frame _ _ _ h4)
  generalize (set_reduced_variables s).state = s0 at hs0 f0 f h1
  unfold calc_hmolar_homogeneous
  simp only [Prog.bind_apply, hs0, h1, h2, h3, h4, Prog.get_apply, Prog.set_apply, Prog.pure_apply,
    f.1, f.2.1, f.2.2.1, f.2.2.2, f0.1, f0.2.1, f0.2.2.1, f0.2.2.2, CachedElement.pt, CachedElement.assign]

theorem calc_smolar_homogeneous_value (env : Env) (s s1 s2 s3 s4 s5 : HelmholtzEOSMixtureBackend)
    (a0_tau ar a0 ar_tau R : Dbl)
    (h1 : dalpha0_dTau env (set_reduced_variables s).state = Res.ret a0_tau s1)
    (h2 : alphar s1 = Res.ret ar s2)
    (h3 : alpha0 env s2 = Res.ret a0 s3)
    (h4 : dalphar_dTau s3 = Res.ret ar_tau s4)
    (h5 : gas_constant s4 = Res.ret R s5) :
    calc_smolar_homogeneous env s =
      Res.ret (R * (s.self._reducing.T / s.self._T * (a0_tau + ar_tau) - a0 - ar))
        (s5.modify (fun m => { m with _smolar := CachedElement.assign (R *
          (s.self._reducing.T / s.self._T * (a0_tau + ar_tau) - a0 - ar)) })) := by
  obtain ⟨hs0, f0⟩ := set_reduced_variables_apply s
  have f := same_reduced_point_trans (same_reduced_point_trans (same_reduced_point_trans
    (same_reduced_point_trans (dalpha0_dTau_frame env _ _ _ h1) (alphar_frame _ _ _ h2))
    (alpha0_frame env _ _ _ h3)) (dalphar_dTau_frame _ _ _ h4)) (gas_constant_frame _ _ _ h5)
  generalize (set_reduced_variables s).state = s0 at hs0 f0 f h1
  unfold calc_smolar_homogeneous
  simp only [Prog.bind_apply, hs0, h1, h2, h3, h4, h5, Prog.get_apply, Prog.set_apply,
    Prog.pure_apply, f.1, f.2.1, f.2.2.1, f.2.2.2, f0.1, f0.2.1, f0.2.2.1, f0.2.2.2, CachedElement.pt,
    CachedElement.assign]

theorem calc_umolar_homogeneous_value (env : Env) (s s1 s2 s3 : HelmholtzEOSMixtureBackend)
    (a0_tau ar_tau R : Dbl)
    (h1 : dalpha0_dTau env (set_reduced_variables s).state = Res.ret a0_tau s1)
    (h2 : dalphar_dTau s1 = Res.ret ar_tau s2)
    (h3 : gas_constant s2 = Res.ret R s3) :
    calc_umolar_homogeneous env s =
      Res.ret (R * s.self._T * (s.self._reducing.T / s.self._T) * (a0_tau + ar_tau))
        (s3.modify (fun m => { m with _umolar := CachedElement.assign (R * s.self._T *
          (s.self._reducing.T / s.self._T) * (a0_tau + ar_tau)) })) := by
  obtain ⟨hs0, f0⟩ := set_reduced_variables_apply s
  have f := same_reduced_point_trans (same_reduced_point_trans
    (dalpha0_dTau_frame env _ _ _ h1) (dalphar_dTau_frame _ _ _ h2)) (gas_constant_frame _ _ _ h3)
  generalize (set_reduced_variables s).state = s0 at hs0 f0 f h1
  unfold calc_umolar_homogeneous
  simp only [Prog.bind_apply, hs0, h1, h2, h3, Prog.get_apply, Prog.set_apply,
    Prog.pure_apply, f.1, f.2.1, f.2.2.1, f.2.2.2, f0.1, f0.2.1, f0.2.2.1, f0.2.2.2, CachedElement.pt,
    CachedElement.assign]

theorem two_phase_mix_value (write : CachedElement → Members → Members)
    (s V1 L1 : HelmholtzEOSMixtureBackend) (yV yL : Dbl) :
    two_phase_mix write s (some (Res.ret yV V1)) (some (Res.ret yL L1)) =
      Res.ret (s.self._Q * yV + (1 - s.self._Q) * yL)
        (((s.setSatV (some V1)).setSatL (some L1)).modify
          (write (CachedElement.assign (s.self._Q * yV + (1 - s.self._Q) * yL)))) := by
  cases s; rfl

theorem calc_hmolar_two_phase (env : Env) (s V L V1 L1 : HelmholtzEOSMixtureBackend)
    (yV yL : Dbl) (h2 : isTwoPhase s.self = true) (hV : s.SatV = some V) (hL : s.SatL = some L)
    (hyV : hmolar env V = Res.ret yV V1) (hyL : hmolar env L = Res.ret yL L1) :
    calc_hmolar env s = Res.ret (s.self._Q * yV + (1 - s.self._Q) * yL)
      (((s.setSatV (some V1)).setSatL (some L1)).modify (fun m =>
        { m with _hmolar := CachedElement.assign (s.self._Q * yV + (1 - s.self._Q) * yL) })) := by
  cases s with
  | mk m l v =>
    cases hV; cases hL
    have h2m : isTwoPhase m = true := h2
    unfold hmolar at hyV hyL
    rw [calc_hmolar]
    simp only [h2m, if_true, hyV, hyL]
    exact two_phase_mix_value _ _ _ _ _ _

theorem calc_smolar_two_phase (env : Env) (s V L V1 L1 : HelmholtzEOSMixtureBackend)
    (yV yL : Dbl) (h2 : isTwoPhase s.self = true) (hV : s.SatV = some V) (hL : s.SatL = some L)
    (hyV : smolar env V = Res.ret yV V1) (hyL : smolar env L = Res.ret yL L1) :
    calc_smolar env s = Res.ret (s.self._Q * yV + (1 - s.self._Q) * yL)
      (((s.setSatV (some V1)).setSatL (some L1)).modify (fun m =>
        { m with _smolar := CachedElement.assign (s.self._Q * yV + (1 - s.self._Q) * yL) })) := by
  cases s with
  | mk m l v =>
    cases hV; cases hL
    have h2m : isTwoPhase m = true := h2
    unfold smolar at hyV hyL
    rw [calc_smolar]
    simp only [h2m, if_true, hyV, hyL]
    exact two_phase_mix_value _ _ _ _ _ _

theorem calc_umolar_two_phase (env : Env) (s V L V1 L1 : HelmholtzEOSMixtureBackend)
    (yV yL : Dbl) (h2 : isTwoPhase s.self = true) (hV : s.SatV = some V) (hL : s.SatL = some L)
    (hyV : umolar env V = Res.ret yV V1) (hyL : umolar env L = Res.ret yL L1) :
    calc_umolar env s = Res.ret (s.self._Q * yV + (1 - s.self._Q) * yL)
      (((s.setSatV (some V1)).setSatL (some L1)).modify (fun m =>
        { m with _umolar := CachedElement.assign (s.self._Q * yV + (1 - s.self._Q) * yL) })) := by
  cases s with
  | mk m l v =>
    cases hV; cases hL
    have h2m : isTwoPhase m = true := h2
    unfold umolar at hyV hyL
    rw [calc_umolar]
    simp only [h2m, if_true, hyV, hyL]
    exact two_phase_mix_value _ _ _ _ _ _

theorem calc_hmolar_of_homogeneous (env : Env) (s : HelmholtzEOSMixtureBackend)
    (h2 : isTwoPhase s.self = false) (hh : isHomogeneousPhase s.self = true) :
    calc_hmolar env s = calc_hmolar_homogeneous env s := by
  cases s with
  | mk m l v =>
    have h2m : isTwoPhase m = false := h2
    have hhm : isHomogeneousPhase m = true := hh
    cases l <;> cases v <;>
      (rw [calc_hmolar]; simp only [h2m, hhm, if_true, Bool.false_eq_true, if_false])

theorem calc_smolar_of_homogeneous (env : Env) (s : HelmholtzEOSMixtureBackend)
    (h2 : isTwoPhase s.self = false) (hh : isHomogeneousPhase s.self = true) :
    calc_smolar env s = calc_smolar_homogeneous env s := by
  cases s with
  | mk m l v =>
    have h2m : isTwoPhase m = false := h2
    have hhm : isHomogeneousPhase m = true := hh
    cases l <;> cases v <;>
      (rw [calc_smolar]; simp only [h2m, hhm, if_true, Bool.false_eq_true, if_false])

theorem calc_umolar_of_homogeneous (env : Env) (s : HelmholtzEOSMixtureBackend)
    (h2 : isTwoPhase s.self = false) (hh : isHomogeneousPhase s.self = true) :
    calc_umolar env s = calc_umolar_homogeneous env s := by
  cases s with
  | mk m l v =>
    have h2m : isTwoPhase m = false := h2
    have hhm : isHomogeneousPhase m = true := hh
    cases l <;> cases v <;>
      (rw [calc_umolar]; simp only [h2m, hhm, if_true, Bool.false_eq_true, if_false])

theorem calc_hmolar_invalid_phase (env : Env) (s : HelmholtzEOSMixtureBackend)
    (h2 : isTwoPhase s.self = false) (hh : isHomogeneousPhase s.self = false) :
    calc_hmolar env s = Res.throw (Err.ValueError "phase is invalid") s := by
  cases s with
  | mk m l v =>
    have h2m : isTwoPhase m = false := h2
    have hhm : isHomogeneousPhase m = false := hh
    cases l <;> cases v <;>
      (rw [calc_hmolar]; simp only [h2m, hhm, Bool.false_eq_true, if_false])

theorem calc_smolar_invalid_phase (env : Env) (s : HelmholtzEOSMixtureBackend)
    (h2 : isTwoPhase s.self = false) (hh : isHomogeneousPhase s.self = false) :
    calc_smolar env s = Res.throw (Err.ValueError "phase is invalid") s := by
  cases s with
  | mk m l v =>
    have h2m : isTwoPhase m = false := h2
    have hhm : isHomogeneousPhase m = false := hh
    cases l <;> cases v <;>
      (rw [calc_smolar]; simp only [h2m, hhm, Bool.false_eq_true, if_false])

theorem calc_pressure_value (s s1 s2 : HelmholtzEOSMixtureBackend) (ar_delta R : Dbl)
    (h1 : dalphar_dDelta (set_reduced_variables s).state = Res.ret ar_delta s1)
    (h2 : gas_constant s1 = Res.ret R s2) :
    calc_pressure s =
      Res.ret (s.self._rhomolar * R * s.self._T
          * (1 + s.self._rhomolar / s.self._reducing.rhomolar * ar_delta))
        (s2.modify (fun m => { m with _p := s.self._rhomolar * R * s.self._T
          * (1 + s.self._rhomolar / s.self._reducing.rhomolar * ar_delta) })) := by
  obtain ⟨hs0, f0⟩ := set_reduced_variables_apply s
  have f := same_reduced_point_trans (dalphar_dDelta_frame _ _ _ h1) (gas_constant_frame _ _ _ h2)
  have hcp : calc_pressure s = (do
      set_reduced_variables
      let dar_dDelta ← dalphar_dDelta
      let R_u ← gas_constant
      let m ← Prog.get
      let val := m._rhomolar * R_u * m._T * (1 + m._delta.pt * dar_dDelta)
      Prog.set (fun m => { m with _p := val })
      pure val : Prog Dbl) s := by
    cases s; rfl
  rw [hcp]
  generalize (set_reduced_variables s).state = s0 at hs0 f0 f h1
  simp only [Prog.bind_apply, hs0, h1, h2, Prog.get_apply, Prog.set_apply,
    Prog.pure_apply, f.1, f.2.1, f.2.2.1, f.2.2.2, f0.1, f0.2.1, f0.2.2.1, f0.2.2.2, CachedElement.pt,
    CachedElement.assign]

/-- C14. In the two-phase branch `calc_hmolar`, `calc_smolar` and `calc_umolar`
return `Q*yV + (1-Q)*yL`, with `yV` and `yL` the values the accessor of the same
property returns on the objects `SatV` and `SatL` point to. In the homogeneous
branch, with `tau = _reducing.T/_T`, `delta = _rhomolar/_reducing.rhomolar` and
`a0_tau`, `ar_tau`, `ar_delta`, `a0`, `ar`, `R` the values returned by the accessors
`dalpha0_dTau`, `dalphar_dTau`, `dalphar_dDelta`, `alpha0`, `alphar` and
`gas_constant` in the order of the calls, they return
`R*T*(1 + tau*(a0_tau + ar_tau) + delta*ar_delta)`,
`R*(tau*(a0_tau + ar_tau) - a0 - ar)` and `R*T*tau*(a0_tau + ar_tau)`. -/
theorem caloric_formulas (env : Env) (s : HelmholtzEOSMixtureBackend) :
    (isTwoPhase s.self = true →
      ∀ (V L : HelmholtzEOSMixtureBackend), s.SatV = some V → s.SatL = some L →
        (∀ (V1 L1 : HelmholtzEOSMixtureBackend) (yV yL : Dbl),
          hmolar env V = Res.ret yV V1 → hmolar env L = Res.ret yL L1 →
          ∃ s1, calc_hmolar env s = Res.ret (s.self._Q * yV + (1 - s.self._Q) * yL) s1)
        ∧ (∀ (V1 L1 : HelmholtzEOSMixtureBackend) (yV yL : Dbl),
          smolar env V = Res.ret yV V1 → smolar env L = Res.ret yL L1 →
          ∃ s1, calc_smolar env s = Res.ret (s.self._Q * yV + (1 - s.self._Q) * yL) s1)
        ∧ (∀ (V1 L1 : HelmholtzEOSMixtureBackend) (yV yL : Dbl),
          umolar env V = Res.ret yV V1 → umolar env L = Res.ret yL L1 →
          ∃ s1, calc_umolar env s = Res.ret (s.self._Q * yV + (1 - s.self._Q) * yL) s1))
      ∧ (isTwoPhase s.self = false → isHomogeneousPhase s.self = true →
        (∀ (s1 s2 s3 s4 : HelmholtzEOSMixtureBackend) (a0_tau ar_tau ar_delta R : Dbl),
          dalpha0_dTau env (set_reduced_variables s).state = Res.ret a0_tau s1 →
          dalphar_dTau s1 = Res.ret ar_tau s2 → dalphar_dDelta s2 = Res.ret ar_delta s3 →
          gas_constant s3 = Res.ret R s4 →
          ∃ s5, calc_hmolar env s =
            Res.ret (R * s.self._T * (1 + s.self._reducing.T / s.self._T * (a0_tau + ar_tau)
              + s.self._rhomolar / s.self._reducing.rhomolar * ar_delta)) s5)
        ∧ (∀ (s1 s2 s3 s4 s5 : HelmholtzEOSMixtureBackend) (a0_tau ar a0 ar_tau R : Dbl),
          dalpha0_dTau env (set_reduced_variables s).state = Res.ret a0_tau s1 →
          alphar s1 = Res.ret ar s2 → alpha0 env s2 = Res.ret a0 s3 →
          dalphar_dTau s3 = Res.ret ar_tau s4 → gas_constant s4 = Res.ret R s5 →
          ∃ s6, calc_smolar env s =
            Res.ret (R * (s.self._reducing.T / s.self._T * (a0_tau + ar_tau) - a0 - ar)) s6)
        ∧ (∀ (s1 s2 s3 : HelmholtzEOSMixtureBackend) (a0_tau ar_tau R : Dbl),
          dalpha0_dTau env (set_reduced_variables s).state = Res.ret a0_tau s1 →
          dalphar_dTau s1 = Res.ret ar_tau s2 → gas_constant s2 = Res.ret R s3 →
          ∃ s4, calc_umolar env s =
            Res.ret (R * s.self._T * (s.self._reducing.T / s.self._T) * (a0_tau + ar_tau)) s4)) := by
  refine ⟨fun h2 V L hV hL => ⟨fun V1 L1 yV yL hyV hyL => ⟨_, calc_hmolar_two_phase env s V L V1 L1
      yV yL h2 hV hL hyV hyL⟩, fun V1 L1 yV yL hyV hyL => ⟨_, calc_smolar_two_phase env s V L V1 L1
      yV yL h2 hV hL hyV hyL⟩, fun V1 L1 yV yL hyV hyL => ⟨_, calc_umolar_two_phase env s V L V1 L1
      yV yL h2 hV hL hyV hyL⟩⟩, ?_⟩
  intro h2 hh
  refine ⟨fun s1 s2 s3 s4 a0_tau ar_tau ar_delta R h1 h3 h4 h5 => ?_,
    fun s1 s2 s3 s4 s5 a0_tau ar a0 ar_tau R h1 h3 h4 h5 h6 => ?_,
    fun s1 s2 s3 a0_tau ar_tau R h1 h3 h4 => ?_⟩
  · rw [calc_hmolar_of_homogeneous env s h2 hh,
      calc_hmolar_homogeneous_value env s s1 s2 s3 s4 a0_tau ar_tau ar_delta R h1 h3 h4 h5]
    exact ⟨_, rfl⟩
  · rw [calc_smolar_of_homogeneous env s h2 hh,
      calc_smolar_homogeneous_value env s s1 s2 s3 s4 s5 a0_tau ar a0 ar_tau R h1 h3 h4 h5 h6]
    exact ⟨_, rfl⟩
  · rw [calc_umolar_of_homogeneous env s h2 hh,
      calc_umolar_homogeneous_value env s s1 s2 s3 a0_tau ar_tau R h1 h3 h4]
    exact ⟨_, rfl⟩

/-- Witness for C14: the two-phase example state with quality 1/4 gives
`h = 500/4 + 3*100/4 = 200`, `s = 3/2` and `u = 180`; the gas example state with
`tau = 4/3`, `a0_tau = tau`, vanishing residual part and `R = 8` gives
`h = 8*300*(1 + 16/9) = 20000/3`, `s = 8*16/9` and `u = 8*300*16/9`. -/
theorem caloric_formulas_witness :
    isTwoPhase example_two_phase.self = true
      ∧ (∃ s1, calc_hmolar example_env example_two_phase = Res.ret (Dbl.fin 200) s1)
      ∧ (∃ s1, calc_smolar example_env example_two_phase = Res.ret (Dbl.fin (3 / 2)) s1)
      ∧ (∃ s1, calc_umolar example_env example_two_phase = Res.ret (Dbl.fin 180) s1)
      ∧ isHomogeneousPhase example_gas.self = true
      ∧ (∃ s1, calc_hmolar example_env example_gas = Res.ret (Dbl.fin (20000 / 3)) s1)
      ∧ (∃ s1, calc_smolar example_env example_gas = Res.ret (Dbl.fin (128 / 9)) s1)
      ∧ (∃ s1, calc_umolar example_env example_gas = Res.ret (Dbl.fin (12800 / 3)) s1) := by
  have h2 := (caloric_formulas example_env example_two_phase).1 rfl _ _ rfl rfl
  obtain ⟨t1, ht1⟩ := h2.1 _ _ (Dbl.fin 500) (Dbl.fin 100) rfl rfl
  obtain ⟨t2, ht2⟩ := h2.2.1 _ _ (Dbl.fin 3) (Dbl.fin 1) rfl rfl
  obtain ⟨t3, ht3⟩ := h2.2.2 _ _ (Dbl.fin 450) (Dbl.fin 90) rfl rfl
  have g := (caloric_formulas example_env example_gas).2 rfl rfl
  obtain ⟨g1, hg1⟩ := g.1 _ _ _ _ (Dbl.fin 400 / Dbl.fin 300) (Dbl.fin 0) (Dbl.fin 0) (Dbl.fin 8)
    rfl rfl rfl rfl
  obtain ⟨g2, hg2⟩ := g.2.1 _ _ _ _ _ (Dbl.fin 400 / Dbl.fin 300) (Dbl.fin 0) (Dbl.fin 0)
    (Dbl.fin 0) (Dbl.fin 8) rfl rfl rfl rfl rfl
  obtain ⟨g3, hg3⟩ := g.2.2 _ _ _ (Dbl.fin 400 / Dbl.fin 300) (Dbl.fin 0) (Dbl.fin 8) rfl rfl rfl
  have e1 : Dbl.fin (1 / 4) * Dbl.fin 500 + (1 - Dbl.fin (1 / 4)) * Dbl.fin 100 = Dbl.fin 200 := by
    simp only [Dbl.one_eq, Dbl.fin_sub_fin, Dbl.fin_mul_fin, Dbl.fin_add_fin]; norm_num
  have e2 : Dbl.fin (1 / 4) * Dbl.fin 3 + (1 - Dbl.fin (1 / 4)) * Dbl.fin 1 = Dbl.fin (3 / 2) := by
    simp only [Dbl.one_eq, Dbl.fin_sub_fin, Dbl.fin_mul_fin, Dbl.fin_add_fin]; norm_num
  have e3 : Dbl.fin (1 / 4) * Dbl.fin 450 + (1 - Dbl.fin (1 / 4)) * Dbl.fin 90 = Dbl.fin 180 := by
    simp only [Dbl.one_eq, Dbl.fin_sub_fin, Dbl.fin_mul_fin, Dbl.fin_add_fin]; norm_num
  have e4 : Dbl.fin 8 * Dbl.fin 300 * (1 + Dbl.fin 400 / Dbl.fin 300
      * (Dbl.fin 400 / Dbl.fin 300 + Dbl.fin 0) + Dbl.fin 100 / Dbl.fin 5000 * Dbl.fin 0)
      = Dbl.fin (20000 / 3) := by
    rw [Dbl.fin_div_fin _ _ (by norm_num), Dbl.fin_div_fin _ _ (by norm_num)]
    simp only [Dbl.one_eq, Dbl.fin_mul_fin, Dbl.fin_add_fin]; norm_num
  have e5 : Dbl.fin 8 * (Dbl.fin 400 / Dbl.fin 300 * (Dbl.fin 400 / Dbl.fin 300 + Dbl.fin 0)
      - Dbl.fin 0 - Dbl.fin 0) = Dbl.fin (128 / 9) := by
    rw [Dbl.fin_div_fin _ _ (by norm_num)]
    simp only [Dbl.fin_sub_fin, Dbl.fin_mul_fin, Dbl.fin_add_fin]; norm_num
  have e6 : Dbl.fin 8 * Dbl.fin 300 * (Dbl.fin 400 / Dbl.fin 300)
      * (Dbl.fin 400 / Dbl.fin 300 + Dbl.fin 0) = Dbl.fin (12800 / 3) := by
    rw [Dbl.fin_div_fin _ _ (by norm_num)]
    simp only [Dbl.fin_mul_fin, Dbl.fin_add_fin]; norm_num
  exact ⟨rfl, ⟨t1, ht1.trans (congrArg (fun v => Res.ret v t1) e1)⟩,
    ⟨t2, ht2.trans (congrArg (fun v => Res.ret v t2) e2)⟩,
    ⟨t3, ht3.trans (congrArg (fun v => Res.ret v t3) e3)⟩, rfl,
    ⟨g1, hg1.trans (congrArg (fun v => Res.ret v g1) e4)⟩,
    ⟨g2, hg2.trans (congrArg (fun v => Res.ret v g2) e5)⟩,
    ⟨g3, hg3.trans (congrArg (fun v => Res.ret v g3) e6)⟩⟩

/-- C15, as the code behaves: `calc_pressure` has no test of the phase. On the pure
example state with unknown phase at 300 K and 100 mol/m3 it returns the pressure
`100 * 8 * 300 * (1 + delta * 0) = 240000` instead of failing. -/
theorem calc_pressure_returns_with_unknown_phase :
    (example_pure_at 300 1000 100).self._phase = phases.iphase_unknown
      ∧ isTwoPhase (example_pure_at 300 1000 100).self = false
      ∧ isHomogeneousPhase (example_pure_at 300 1000 100).self = false
      ∧ ∃ s1, calc_pressure (example_pure_at 300 1000 100) = Res.ret (Dbl.fin 240000) s1 := by
  have hv : Dbl.fin 100 * (0 + 1 * Dbl.fin 8) * Dbl.fin 300
      * (1 + Dbl.fin 100 / Dbl.fin 5000 * Dbl.fin 0) = Dbl.fin 240000 := by
    rw [Dbl.fin_div_fin _ _ (by norm_num)]
    simp only [Dbl.zero_eq, Dbl.one_eq, Dbl.fin_mul_fin, Dbl.fin_add_fin]
    norm_num
  have h : ∃ s1, calc_pressure (example_pure_at 300 1000 100) =
      Res.ret (Dbl.fin 100 * (0 + 1 * Dbl.fin 8) * Dbl.fin 300
        * (1 + Dbl.fin 100 / Dbl.fin 5000 * Dbl.fin 0)) s1 := ⟨_, rfl⟩
  rw [hv] at h
  exact ⟨rfl, rfl, rfl, h⟩

/-- C15, amended. When the phase is unknown (neither two-phase nor homogeneous),
`calc_hmolar` and `calc_smolar` fail with `ValueError("phase is invalid")` and
leave the object as it was. `calc_pressure` makes no test of the phase: whenever
its calls of `dalphar_dDelta` and `gas_constant` return `ar_delta` and `R`, it
returns `rho*R*T*(1 + delta*ar_delta)`. -/
theorem accessors_with_unknown_phase (env : Env) (s : HelmholtzEOSMixtureBackend)
    (h2 : isTwoPhase s.self = false) (hh : isHomogeneousPhase s.self = false) :
    calc_hmolar env s = Res.throw (Err.ValueError "phase is invalid") s
      ∧ calc_smolar env s = Res.throw (Err.ValueError "phase is invalid") s
      ∧ (∀ (s1 s2 : HelmholtzEOSMixtureBackend) (ar_delta R : Dbl),
          dalphar_dDelta (set_reduced_variables s).state = Res.ret ar_delta s1 →
          gas_constant s1 = Res.ret R s2 →
          ∃ s3, calc_pressure s = Res.ret (s.self._rhomolar * R * s.self._T
            * (1 + s.self._rhomolar / s.self._reducing.rhomolar * ar_delta)) s3) :=
  ⟨calc_hmolar_invalid_phase env s h2 hh, calc_smolar_invalid_phase env s h2 hh,
   fun s1 s2 ar_delta R h1 h3 => ⟨_, calc_pressure_value s s1 s2 ar_delta R h1 h3⟩⟩

/-- Witness for C15: the pure example state right after the inputs are stored, with
the phase still unknown. -/
theorem accessors_with_unknown_phase_witness :
    isTwoPhase (example_pure_at 300 1000 100).self = false
      ∧ isHomogeneousPhase (example_pure_at 300 1000 100).self = false
      ∧ calc_hmolar example_env (example_pure_at 300 1000 100) =
          Res.throw (Err.ValueError "phase is invalid") (example_pure_at 300 1000 100)
      ∧ calc_smolar example_env (example_pure_at 300 1000 100) =
          Res.throw (Err.ValueError "phase is invalid") (example_pure_at 300 1000 100) :=
  ⟨rfl, rfl,
   (accessors_with_unknown_phase example_env (example_pure_at 300 1000 100) rfl rfl).1,
   (accessors_with_unknown_phase example_env (example_pure_at 300 1000 100) rfl rfl).2.1⟩

/-! ## Derivatives of the reduced Helmholtz energy (C16, C17, C18, C19, C20) -/

theorem residual_derivative_isSome (a b : Nat) :
    (residual_derivative a b).isSome = decide (a + b ≤ 3) := by
  rcases a with _ | _ | _ | _ | a <;> rcases b with _ | _ | _ | _ | b <;>
    simp [residual_derivative] <;> omega

theorem ideal_derivative_isSome (a b : Nat) :
    (ideal_derivative a b).isSome = decide (a + b ≤ 3) := by
  rcases a with _ | _ | _ | _ | a <;> rcases b with _ | _ | _ | _ | b <;>
    simp [ideal_derivative] <;> omega

theorem excess_derivative_isSome (a b : Nat) :
    (excess_derivative a b).isSome = decide (a + b ≤ 2) := by
  rcases a with _ | _ | _ | a <;> rcases b with _ | _ | _ | b <;>
    simp [excess_derivative] <;> omega

theorem calc_alphar_pure_unsupported (m : Members) (hpure : m.is_pure_or_pseudopure = true)
    (x : List Dbl) (tau delta : Dbl) (nTau nDelta : Int)
    (h : ¬ (0 ≤ nTau ∧ 0 ≤ nDelta ∧ nTau + nDelta ≤ 3)) :
    calc_alphar_deriv_nocache m nTau nDelta x tau delta = Except.error (Err.ValueError "") := by
  unfold calc_alphar_deriv_nocache
  rw [if_pos hpure]
  repeat' (rw [if_neg (by omega)])

theorem calc_alphar_pure_supported (m : Members) (c : CoolPropFluid)
    (cs : List CoolPropFluid) (hpure : m.is_pure_or_pseudopure = true)
    (hc : m.components = c :: cs) (x : List Dbl) (tau delta : Dbl)
    (a b : Nat) (f : EquationOfState → Dbl → Dbl → Dbl) (h : residual_derivative a b = some f) :
    calc_alphar_deriv_nocache m a b x tau delta = Except.ok (f c.pEOS tau delta) := by
  have hp : ∀ g : EquationOfState → Dbl → Dbl → Dbl,
      pure_deriv m g tau delta = Except.ok (g c.pEOS tau delta) := by
    intro g; simp [pure_deriv, hc, index]
  unfold calc_alphar_deriv_nocache
  rw [if_pos hpure]
  rcases a with _ | _ | _ | _ | a <;> rcases b with _ | _ | _ | _ | b <;>
      simp [residual_derivative] at h <;> subst h <;> simp [hp]

theorem calc_alpha0_pure_unsupported (env : Env) (m : Members)
    (hpure : m.is_pure_or_pseudopure = true)
    (x : List Dbl) (tau delta Tr rhor : Dbl) (nTau nDelta : Int)
    (h : ¬ (0 ≤ nTau ∧ 0 ≤ nDelta ∧ nTau + nDelta ≤ 3)) :
    calc_alpha0_deriv_nocache env m nTau nDelta x tau delta Tr rhor =
      Except.error (Err.ValueError "") := by
  unfold calc_alpha0_deriv_nocache
  rw [if_pos hpure]
  dsimp only
  repeat' (rw [if_neg (by omega)])

theorem calc_alpha0_pure_supported (env : Env) (m : Members) (c : CoolPropFluid)
    (cs : List CoolPropFluid) (hpure : m.is_pure_or_pseudopure = true)
    (hc : m.components = c :: cs) (x : List Dbl) (tau delta Tr rhor : Dbl)
    (a b : Nat) (f : EquationOfState → Dbl → Dbl → Dbl) (h : ideal_derivative a b = some f) :
    calc_alpha0_deriv_nocache env m a b x tau delta Tr rhor =
      if ValidNumber (f c.pEOS tau delta) then Except.ok (f c.pEOS tau delta)
      else Except.error (Err.ValueError
        "calc_alpha0_deriv_nocache returned invalid number with inputs nTau: %d, nDelta: %d") := by
  have hp : ∀ g : EquationOfState → Dbl → Dbl → Dbl,
      pure_deriv m g tau delta = Except.ok (g c.pEOS tau delta) := by
    intro g; simp [pure_deriv, hc, index]
  unfold calc_alpha0_deriv_nocache
  rw [if_pos hpure]
  rcases a with _ | _ | _ | _ | a <;> rcases b with _ | _ | _ | _ | b <;>
      simp [ideal_derivative] at h <;> subst h <;> simp [hp] <;>
      cases ValidNumber _ <;> rfl

theorem alphar_sum_eq (m : Members) (f : EquationOfState → Dbl → Dbl → Dbl) (x : List Dbl)
    (tau delta : Dbl) (hlen : x.length = m.components.length) :
    alphar_sum m f x tau delta =
      Except.ok ((List.zipWith (fun xi c => xi * f c.pEOS tau delta) x m.components).sum) := by
  have h := sum_loop_zipWith (fun xi c => xi * f c.pEOS tau delta) x m.components [] [] 0 hlen rfl
  simp only [List.nil_append, List.length_nil, zero_add] at h
  unfold alphar_sum
  rw [hlen]
  exact h

theorem calc_alphar_mixture_supported (m : Members) (hmix : m.is_pure_or_pseudopure = false)
    (x : List Dbl) (tau delta : Dbl) (hlen : x.length = m.components.length)
    (a b : Nat) (f : EquationOfState → Dbl → Dbl → Dbl)
    (g : ExcessTerm → Dbl → Dbl → List Dbl → Dbl)
    (hf : residual_derivative a b = some f) (hg : excess_derivative a b = some g) :
    calc_alphar_deriv_nocache m a b x tau delta =
      Except.ok ((List.zipWith (fun xi c => xi * f c.pEOS tau delta) x m.components).sum
        + g m.Excess tau delta x) := by
  unfold calc_alphar_deriv_nocache
  rw [if_neg (by simp [hmix])]
  rcases a with _ | _ | _ | a <;> rcases b with _ | _ | _ | b <;>
      simp [excess_derivative] at hg <;> subst hg <;>
      simp [residual_derivative] at hf <;> subst hf <;>
      simp [alphar_sum_eq m _ x tau delta hlen, Except.map]

theorem calc_alphar_mixture_unsupported (m : Members) (hmix : m.is_pure_or_pseudopure = false)
    (x : List Dbl) (tau delta : Dbl) (nTau nDelta : Int)
    (h : ¬ (0 ≤ nTau ∧ 0 ≤ nDelta ∧ nTau + nDelta ≤ 2)) :
    calc_alphar_deriv_nocache m nTau nDelta x tau delta = Except.error (Err.ValueError "") := by
  unfold calc_alphar_deriv_nocache
  rw [if_neg (by simp [hmix])]
  repeat' (rw [if_neg (by omega)])

theorem Dbl.mul_comm_all (a b : Dbl) : a * b = b * a := by
  cases a <;> cases b <;> first | rfl | exact congrArg Dbl.fin (mul_comm _ _)

theorem Dbl.fin_mul_add (q : ℚ) (a b : Dbl) :
    Dbl.fin q * (a + b) = Dbl.fin q * a + Dbl.fin q * b := by
  cases a <;> cases b <;>
    first
    | exact congrArg Dbl.fin (mul_add _ _ _)
    | (show Dbl.mul _ (Dbl.add _ _) = Dbl.add (Dbl.mul _ _) (Dbl.mul _ _)
       simp only [Dbl.mul, Dbl.add, Dbl.infTimes]
       done)
    | (show Dbl.mul _ (Dbl.add _ _) = Dbl.add (Dbl.mul _ _) (Dbl.mul _ _)
       simp only [Dbl.mul, Dbl.add, Dbl.infTimes]
       split_ifs <;> simp_all [Dbl.add])

theorem isFinite_eq_fin (x : Dbl) (h : x.isFinite = true) : ∃ q, x = Dbl.fin q := by
  cases x <;> first | exact ⟨_, rfl⟩ | cases h

theorem sum_loop_of_terms (term : Nat → Except Err Dbl) (ts : List Dbl) :
    ∀ (i : Nat) (summer : Dbl),
      (∀ (j : Nat) (hj : j < ts.length), term (i + j) = Except.ok (ts.get ⟨j, hj⟩)) →
      sum_loop term ts.length i summer = Except.ok (summer + ts.sum) := by
  induction ts with
  | nil => intro i summer _; simp [sum_loop]
  | cons t ts ih =>
    intro i summer h
    have h0 := h 0 (by simp)
    simp only [add_zero, List.get_eq_getElem, List.getElem_cons_zero] at h0
    have hstep := ih (i + 1) (summer + t) (fun j hj => by
      have := h (j + 1) (by simpa using hj)
      simpa [add_assoc, add_comm 1 j] using this)
    simp only [List.length_cons, sum_loop, h0, hstep, List.sum_cons, add_assoc]


theorem alpha0_term_value (env : Env) (m : Members) (a b : Nat)
    (f : EquationOfState → Dbl → Dbl → Dbl) (hf : ideal_derivative a b = some f)
    (hab : a + b ≤ 2) (xs : List Dbl) (tau delta Tr rhor : Dbl) (i : Nat) (xi : Dbl)
    (c : CoolPropFluid) (hxi : index xs i = Except.ok xi) (hci : index m.components i = Except.ok c)
    (hx : xi.isFinite = true) (hT : c.pEOS.reduce.T.isFinite = true)
    (hrho : c.pEOS.reduce.rhomolar.isFinite = true) (hrho0 : c.pEOS.reduce.rhomolar ≠ 0)
    (hTr : Tr.isFinite = true) (hTr0 : Tr ≠ 0) (hrhor : rhor.isFinite = true) :
    alpha0_term env m a b xs tau delta Tr rhor i =
      Except.ok (ideal_mixture_term env.log a b f tau delta Tr rhor xi c) := by
  obtain ⟨q, rfl⟩ := isFinite_eq_fin xi hx
  obtain ⟨t, ht⟩ := isFinite_eq_fin _ hT
  obtain ⟨r, hr⟩ := isFinite_eq_fin _ hrho
  obtain ⟨T0, rfl⟩ := isFinite_eq_fin Tr hTr
  obtain ⟨R0, rfl⟩ := isFinite_eq_fin rhor hrhor
  have hr0 : r ≠ 0 := fun h => hrho0 (by rw [hr, h, Dbl.zero_eq])
  have hT0 : T0 ≠ 0 := fun h => hTr0 (by rw [h, Dbl.zero_eq])
  unfold alpha0_term
  rw [hci, hxi]
  simp only [ideal_mixture_term, ht, hr, Dbl.mul_comm_all (Dbl.fin t) tau]
  rcases a with _ | _ | _ | a <;> rcases b with _ | _ | _ | b <;>
    first | (exfalso; omega) | skip
  all_goals simp [ideal_derivative] at hf
  all_goals subst hf
  all_goals simp [Dbl.npow, pow2, Dbl.one_eq, Dbl.fin_mul_fin, Dbl.fin_div_fin _ _ hr0,
    Dbl.fin_div_fin _ _ hT0, Dbl.fin_mul_add]
  all_goals (congr 2; ring)

theorem calc_alpha0_mixture_supported (env : Env) (m : Members)
    (hmix : m.is_pure_or_pseudopure = false) (x : List Dbl)
    (hlen : x.length = m.components.length) (hx : ∀ xi ∈ x, xi.isFinite = true)
    (hc : ∀ c ∈ m.components, c.pEOS.reduce.T.isFinite = true
      ∧ c.pEOS.reduce.rhomolar.isFinite = true ∧ c.pEOS.reduce.rhomolar ≠ 0)
    (tau delta Tr rhor : Dbl) (hTr : Tr.isFinite = true) (hTr0 : Tr ≠ 0)
    (hrhor : rhor.isFinite = true) (a b : Nat) (f : EquationOfState → Dbl → Dbl → Dbl)
    (hf : ideal_derivative a b = some f) (hab : a + b ≤ 2) :
    calc_alpha0_deriv_nocache env m a b x tau delta Tr rhor =
      Except.ok ((List.zipWith (ideal_mixture_term env.log a b f tau delta Tr rhor) x
        m.components).sum) := by
  unfold calc_alpha0_deriv_nocache
  rw [if_neg (by simp [hmix])]
  have hlen2 : (List.zipWith (ideal_mixture_term env.log a b f tau delta Tr rhor) x
      m.components).length = x.length := by simp [hlen]
  have h := sum_loop_of_terms (alpha0_term env m a b x tau delta Tr rhor)
    (List.zipWith (ideal_mixture_term env.log a b f tau delta Tr rhor) x m.components) 0 0
    (fun j hj => by
      have hjx : j < x.length := hlen2 ▸ hj
      have hjc : j < m.components.length := hlen ▸ hjx
      rw [zero_add, alpha0_term_value env m a b f hf hab x tau delta Tr rhor j (x.get ⟨j, hjx⟩)
        (m.components.get ⟨j, hjc⟩) (by simp [index, hjx]) (by simp [index, hjc])
        (hx _ (List.get_mem _ _ _)) (hc _ (List.get_mem _ _ _)).1 (hc _ (List.get_mem _ _ _)).2.1
        (hc _ (List.get_mem _ _ _)).2.2 hTr hTr0 hrhor]
      simp)
  rw [hlen2, zero_add] at h
  exact h

theorem calc_alpha0_mixture_unsupported (env : Env) (m : Members)
    (hmix : m.is_pure_or_pseudopure = false) (xi : Dbl) (x : List Dbl) (c : CoolPropFluid)
    (cs : List CoolPropFluid) (hc : m.components = c :: cs)
    (tau delta Tr rhor : Dbl) (nTau nDelta : Int)
    (h : ¬ (0 ≤ nTau ∧ 0 ≤ nDelta ∧ nTau + nDelta ≤ 2)) :
    calc_alpha0_deriv_nocache env m nTau nDelta (xi :: x) tau delta Tr rhor =
      Except.error (Err.ValueError "") := by
  unfold calc_alpha0_deriv_nocache
  rw [if_neg (by simp [hmix])]
  have h0 : alpha0_term env m nTau nDelta (xi :: x) tau delta Tr rhor 0 =
      Except.error (Err.ValueError "") := by
    unfold alpha0_term
    simp only [hc, index, List.get?_cons_zero]
    repeat' (rw [if_neg (by omega)])
  simp only [List.length_cons, sum_loop, h0]

theorem calc_alpha0_mixture_empty (env : Env) (m : Members)
    (hmix : m.is_pure_or_pseudopure = false) (tau delta Tr rhor : Dbl) (nTau nDelta : Int) :
    calc_alpha0_deriv_nocache env m nTau nDelta [] tau delta Tr rhor = Except.ok 0 := by
  unfold calc_alpha0_deriv_nocache
  rw [if_neg (by simp [hmix])]
  rfl

/-- C16, as the code behaves: the ideal-gas part of a pure state raises at a
supported order pair when the descriptor's value is not a valid number. The
pure example state whose ideal-gas part is `ln delta` raises at order (0,0) and
`delta = 0`, where the descriptor's value is minus infinity. -/
theorem pure_alpha0_raises_at_supported_order :
    example_pure_log.is_pure_or_pseudopure = true
      ∧ (ideal_derivative 0 0).isSome = true
      ∧ calc_alpha0_deriv_nocache example_env example_pure_log 0 0 [] (Dbl.fin 1) (Dbl.fin 0)
          (Dbl.fin 400) (Dbl.fin 5000) =
        Except.error (Err.ValueError
          "calc_alpha0_deriv_nocache returned invalid number with inputs nTau: %d, nDelta: %d") :=
  ⟨rfl, rfl, rfl⟩

/-- C16, amended. For a pure or pseudo-pure state with first component `c`, and
every mole-fraction argument `x`: the descriptor has a derivative for exactly
the ten order pairs with `a + b ≤ 3`; for these `calc_alphar_deriv_nocache`
returns the descriptor's residual derivative at `(tau, delta)`, and
`calc_alpha0_deriv_nocache` returns the descriptor's ideal-gas derivative at
`(tau, delta)` when that value is a valid number and raises the invalid-number
error otherwise; for every other order pair both raise `ValueError`. -/
theorem pure_deriv_nocache_orders (env : Env) (m : Members) (c : CoolPropFluid)
    (cs : List CoolPropFluid) (hpure : m.is_pure_or_pseudopure = true)
    (hc : m.components = c :: cs) (x : List Dbl) (tau delta Tr rhor : Dbl) :
    (∀ a b : Nat, (residual_derivative a b).isSome = decide (a + b ≤ 3)
        ∧ (ideal_derivative a b).isSome = decide (a + b ≤ 3))
      ∧ (∀ (a b : Nat) (f : EquationOfState → Dbl → Dbl → Dbl), residual_derivative a b = some f →
          calc_alphar_deriv_nocache m a b x tau delta = Except.ok (f c.pEOS tau delta))
      ∧ (∀ nTau nDelta : Int, ¬ (0 ≤ nTau ∧ 0 ≤ nDelta ∧ nTau + nDelta ≤ 3) →
          calc_alphar_deriv_nocache m nTau nDelta x tau delta = Except.error (Err.ValueError ""))
      ∧ (∀ (a b : Nat) (f : EquationOfState → Dbl → Dbl → Dbl), ideal_derivative a b = some f →
          calc_alpha0_deriv_nocache env m a b x tau delta Tr rhor =
            if ValidNumber (f c.pEOS tau delta) then Except.ok (f c.pEOS tau delta)
            else Except.error (Err.ValueError
              "calc_alpha0_deriv_nocache returned invalid number with inputs nTau: %d, nDelta: %d"))
      ∧ (∀ nTau nDelta : Int, ¬ (0 ≤ nTau ∧ 0 ≤ nDelta ∧ nTau + nDelta ≤ 3) →
          calc_alpha0_deriv_nocache env m nTau nDelta x tau delta Tr rhor =
            Except.error (Err.ValueError "")) :=
  ⟨fun a b => ⟨residual_derivative_isSome a b, ideal_derivative_isSome a b⟩,
   fun a b f h => calc_alphar_pure_supported m c cs hpure hc x tau delta a b f h,
   fun nTau nDelta h => calc_alphar_pure_unsupported m hpure x tau delta nTau nDelta h,
   fun a b f h => calc_alpha0_pure_supported env m c cs hpure hc x tau delta Tr rhor a b f h,
   fun nTau nDelta h => calc_alpha0_pure_unsupported env m hpure x tau delta Tr rhor nTau nDelta h⟩

/-- Witness for C16: the pure example state, whose derivatives all vanish, with two
different mole-fraction arguments: the orders (1,2) and (2,1) return 0, the
orders (4,0) and (-1,0) raise. -/
theorem pure_deriv_nocache_orders_witness :
    example_pure.self.is_pure_or_pseudopure = true
      ∧ calc_alphar_deriv_nocache example_pure.self 1 2 [] (Dbl.fin 1) (Dbl.fin 1)
          = Except.ok (Dbl.fin 0)
      ∧ calc_alphar_deriv_nocache example_pure.self 4 0 [] (Dbl.fin 1) (Dbl.fin 1)
          = Except.error (Err.ValueError "")
      ∧ calc_alpha0_deriv_nocache example_env example_pure.self 2 1 [Dbl.fin 7] (Dbl.fin 1)
          (Dbl.fin 1) (Dbl.fin 400) (Dbl.fin 5000) = Except.ok (Dbl.fin 0)
      ∧ calc_alpha0_deriv_nocache example_env example_pure.self (-1) 0 [Dbl.fin 7] (Dbl.fin 1)
          (Dbl.fin 1) (Dbl.fin 400) (Dbl.fin 5000) = Except.error (Err.ValueError "") := by
  have h1 := pure_deriv_nocache_orders example_env example_pure.self (example_fluid 18 8) []
    rfl rfl [] (Dbl.fin 1) (Dbl.fin 1) (Dbl.fin 400) (Dbl.fin 5000)
  have h2 := pure_deriv_nocache_orders example_env example_pure.self (example_fluid 18 8) []
    rfl rfl [Dbl.fin 7] (Dbl.fin 1) (Dbl.fin 1) (Dbl.fin 400) (Dbl.fin 5000)
  exact ⟨rfl, h1.2.1 1 2 _ rfl, h1.2.2.1 4 0 (by decide), h2.2.2.2.1 2 1 _ rfl,
    h2.2.2.2.2 (-1) 0 (by decide)⟩

/-- C17. For a mixture with one mole fraction per component and every order pair
for which the excess term has a derivative (the six pairs with `a + b ≤ 2`),
`calc_alphar_deriv_nocache` returns the sum over the components of `x_i` times
the component's residual derivative of that order at the mixture's
`(tau, delta)`, plus the excess term's derivative of the same order at
`(tau, delta, x)`. -/
theorem mixture_alphar_rule (m : Members) (hmix : m.is_pure_or_pseudopure = false)
    (x : List Dbl) (tau delta : Dbl) (hlen : x.length = m.components.length)
    (a b : Nat) (f : EquationOfState → Dbl → Dbl → Dbl)
    (g : ExcessTerm → Dbl → Dbl → List Dbl → Dbl)
    (hf : residual_derivative a b = some f) (hg : excess_derivative a b = some g) :
    calc_alphar_deriv_nocache m a b x tau delta =
      Except.ok ((List.zipWith (fun xi c => xi * f c.pEOS tau delta) x m.components).sum
        + g m.Excess tau delta x) :=
  calc_alphar_mixture_supported m hmix x tau delta hlen a b f g hf hg

/-- Witness for C17: the two-component example mixture with fractions 1/2 and 1/2
at order (0,1). -/
theorem mixture_alphar_rule_witness :
    example_mixture.self.is_pure_or_pseudopure = false
      ∧ [Dbl.fin (1 / 2), Dbl.fin (1 / 2)].length = example_mixture.self.components.length
      ∧ calc_alphar_deriv_nocache example_mixture.self 0 1 [Dbl.fin (1 / 2), Dbl.fin (1 / 2)]
          (Dbl.fin 1) (Dbl.fin 1) =
        Except.ok ((List.zipWith (fun xi c => xi * c.pEOS.dalphar_dDelta (Dbl.fin 1) (Dbl.fin 1))
            [Dbl.fin (1 / 2), Dbl.fin (1 / 2)] example_mixture.self.components).sum
          + example_mixture.self.Excess.dalphar_dDelta (Dbl.fin 1) (Dbl.fin 1)
              [Dbl.fin (1 / 2), Dbl.fin (1 / 2)]) :=
  ⟨rfl, rfl, mixture_alphar_rule example_mixture.self rfl _ _ _ rfl 0 1 _ _ rfl rfl⟩

/-- C18, as the code behaves: for a mixture the second orders (2,0) and (0,2) do
not raise. The two-component example mixture with fractions 1/2 and 1/2 returns
the value 0 at both. -/
theorem mixture_alphar_second_order_returns :
    example_mixture.self.is_pure_or_pseudopure = false
      ∧ calc_alphar_deriv_nocache example_mixture.self 2 0 [Dbl.fin (1 / 2), Dbl.fin (1 / 2)]
          (Dbl.fin 1) (Dbl.fin 1) = Except.ok (Dbl.fin 0)
      ∧ calc_alphar_deriv_nocache example_mixture.self 0 2 [Dbl.fin (1 / 2), Dbl.fin (1 / 2)]
          (Dbl.fin 1) (Dbl.fin 1) = Except.ok (Dbl.fin 0) := by
  have hm : example_mixture.self.is_pure_or_pseudopure = false := rfl
  have hc : example_mixture.self.components = [example_fluid 18 8, example_fluid 44 8] := rfl
  have he : example_mixture.self.Excess = example_excess := rfl
  refine ⟨rfl, ?_, ?_⟩
  · simp [calc_alphar_deriv_nocache, alphar_sum, sum_loop, index, hm, hc, he, example_fluid,
      example_EOS, example_excess, Except.map, Dbl.zero_eq, Dbl.fin_mul_fin, Dbl.fin_add_fin]
  · simp [calc_alphar_deriv_nocache, alphar_sum, sum_loop, index, hm, hc, he, example_fluid,
      example_EOS, example_excess, Except.map, Dbl.zero_eq, Dbl.fin_mul_fin, Dbl.fin_add_fin]

/-- C18, amended. For a mixture with one mole fraction per component,
`calc_alphar_deriv_nocache` returns a value exactly for the six order pairs with
`nTau ≥ 0`, `nDelta ≥ 0` and `nTau + nDelta ≤ 2`, the second orders (2,0), (1,1)
and (0,2) included; every other order pair, so every third-order pair, raises
`ValueError`. -/
theorem mixture_alphar_orders (m : Members) (hmix : m.is_pure_or_pseudopure = false)
    (x : List Dbl) (tau delta : Dbl) (hlen : x.length = m.components.length)
    (nTau nDelta : Int) :
    ((0 ≤ nTau ∧ 0 ≤ nDelta ∧ nTau + nDelta ≤ 2) →
        ∃ v, calc_alphar_deriv_nocache m nTau nDelta x tau delta = Except.ok v)
      ∧ (¬ (0 ≤ nTau ∧ 0 ≤ nDelta ∧ nTau + nDelta ≤ 2) →
        calc_alphar_deriv_nocache m nTau nDelta x tau delta = Except.error (Err.ValueError "")) := by
  refine ⟨?_, calc_alphar_mixture_unsupported m hmix x tau delta nTau nDelta⟩
  rintro ⟨h1, h2, h3⟩
  obtain ⟨a, rfl⟩ := Int.eq_ofNat_of_zero_le h1
  obtain ⟨b, rfl⟩ := Int.eq_ofNat_of_zero_le h2
  have hab : a + b ≤ 2 := by omega
  have hg : (excess_derivative a b).isSome = true := by
    rw [excess_derivative_isSome]; exact decide_eq_true hab
  have hf : (residual_derivative a b).isSome = true := by
    rw [residual_derivative_isSome]; exact decide_eq_true (by omega)
  obtain ⟨g, hg⟩ := Option.isSome_iff_exists.mp hg
  obtain ⟨f, hf⟩ := Option.isSome_iff_exists.mp hf
  exact ⟨_, calc_alphar_mixture_supported m hmix x tau delta hlen a b f g hf hg⟩

/-- Witness for C18: the two-component example mixture at the orders (1,1) and
(3,0). -/
theorem mixture_alphar_orders_witness :
    example_mixture.self.is_pure_or_pseudopure = false
      ∧ (∃ v, calc_alphar_deriv_nocache example_mixture.self 1 1
          [Dbl.fin (1 / 2), Dbl.fin (1 / 2)] (Dbl.fin 1) (Dbl.fin 1) = Except.ok v)
      ∧ calc_alphar_deriv_nocache example_mixture.self 3 0
          [Dbl.fin (1 / 2), Dbl.fin (1 / 2)] (Dbl.fin 1) (Dbl.fin 1) =
        Except.error (Err.ValueError "") :=
  ⟨rfl,
   (mixture_alphar_orders example_mixture.self rfl [Dbl.fin (1 / 2), Dbl.fin (1 / 2)] (Dbl.fin 1)
      (Dbl.fin 1) rfl 1 1).1 (by decide),
   (mixture_alphar_orders example_mixture.self rfl [Dbl.fin (1 / 2), Dbl.fin (1 / 2)] (Dbl.fin 1)
      (Dbl.fin 1) rfl 3 0).2 (by decide)⟩

/-- C20: what holds and where the code departs. In the pure branch every returned
value is a valid number. The mixture branch returns its sum unchecked: for the
two-component example mixture with fractions 0 and 1 at order (0,0), the term of
the first component is `0 * (0 + ln 0) = 0 * (-inf)`, and the call returns NaN
instead of raising. -/
theorem mixture_alpha0_returns_invalid_number :
    (∀ (env : Env) (m : Members) (nTau nDelta : Int) (x : List Dbl) (tau delta Tr rhor v : Dbl),
        m.is_pure_or_pseudopure = true →
        calc_alpha0_deriv_nocache env m nTau nDelta x tau delta Tr rhor = Except.ok v →
        ValidNumber v = true)
      ∧ example_env_log.log (Dbl.fin 0) = Dbl.ninf ∧ example_env_log.log (Dbl.fin 1) = Dbl.fin 0
      ∧ example_mixture.self.is_pure_or_pseudopure = false
      ∧ calc_alpha0_deriv_nocache example_env_log example_mixture.self 0 0
          [Dbl.fin 0, Dbl.fin 1] (Dbl.fin 1) (Dbl.fin 1) (Dbl.fin 400) (Dbl.fin 5000) =
        Except.ok Dbl.nan
      ∧ ValidNumber Dbl.nan = false := by
  refine ⟨?_, rfl, rfl, rfl, rfl, rfl⟩
  intro env m nTau nDelta x tau delta Tr rhor v hpure h
  unfold calc_alpha0_deriv_nocache at h
  rw [if_pos hpure] at h
  dsimp only at h
  split at h
  · cases h
  · split at h
    · cases h
    · rename_i hv
      cases h
      simpa using hv

/-! ## A failed update (C23) -/

theorem gas_constant_cached (s s1 : HelmholtzEOSMixtureBackend) (R : Dbl)
    (h : gas_constant s = Res.ret R s1) : s1.self._gas_constant.is_cached = true := by
  unfold gas_constant via_cache at h
  by_cases hc : s.self._gas_constant.is_cached = true
  · simp only [hc, if_true] at h
    cases h
    exact hc
  · simp only [hc] at h
    cases hg : calc_gas_constant s.self with
    | ok v =>
      rw [hg, Prog.ofExcept_ok] at h
      cases h
      rw [HelmholtzEOSMixtureBackend.self_modify]
      rfl
    | error e =>
      rw [hg] at h
      cases h

theorem calc_reducing_state_stored (env : Env) (s s1 : HelmholtzEOSMixtureBackend)
    (h : calc_reducing_state env s = Res.ret () s1) :
    s1.self._gas_constant = s.self._gas_constant
      ∧ calc_reducing_state_nocache env s.self s.self.mole_fractions = .ok s1.self._reducing
      ∧ s1.self._crit = s1.self._reducing := by
  unfold calc_reducing_state at h
  simp only [Prog.bind_apply, Prog.get_apply, Prog.set_apply] at h
  cases hr : calc_reducing_state_nocache env s.self s.self.mole_fractions with
  | ok v =>
    rw [hr, Prog.ofExcept_ok] at h
    cases h
    refine ⟨?_, ?_, ?_⟩ <;> simp only [HelmholtzEOSMixtureBackend.self_modify]
  | error e =>
    rw [hr] at h
    cases h


theorem calc_reducing_state_nocache_of_same (env : Env) (s s1 : HelmholtzEOSMixtureBackend)
    (h : same_composition s s1) :
    calc_reducing_state_nocache env s1.self s1.self.mole_fractions
      = calc_reducing_state_nocache env s.self s.self.mole_fractions := by
  obtain ⟨h1, h2, h3, h4⟩ := h
  unfold calc_reducing_state_nocache
  rw [h1, h2, h3, h4]

theorem same_composition_trans (s s1 s2 : HelmholtzEOSMixtureBackend)
    (h : same_composition s s1) (h1 : same_composition s1 s2) : same_composition s s2 := by
  unfold same_composition at *
  exact ⟨h1.1.trans h.1, h1.2.1.trans h.2.1, h1.2.2.1.trans h.2.2.1, h1.2.2.2.trans h.2.2.2⟩

theorem update_prelude_stored (env : Env) (input_pair : input_pairs) (value1 value2 : Dbl)
    (s : HelmholtzEOSMixtureBackend) (hs : composition_set s) :
    ∃ r s1 R s2 s3,
      ((s.modify (fun m => { m with toAbstractState := env.clear m.toAbstractState
          })).self.is_pure_or_pseudopure == false
        && (s.modify (fun m => { m with toAbstractState := env.clear m.toAbstractState
          })).self.mole_fractions.length == 0) = false
      ∧ mass_to_molar_inputs input_pair value1 value2
          (s.modify (fun m => { m with toAbstractState := env.clear m.toAbstractState }))
          = Res.ret r s1
      ∧ r.1 = molar_tag input_pair
      ∧ gas_constant s1 = Res.ret R s2
      ∧ calc_reducing_state env s2 = Res.ret () s3
      ∧ s3.self._gas_constant.is_cached = true
      ∧ calc_reducing_state_nocache env s.self s.self.mole_fractions = .ok s3.self._reducing := by
  have hc0 : same_composition s
      (s.modify (fun m => { m with toAbstractState := env.clear m.toAbstractState })) := by
    unfold same_composition
    rw [HelmholtzEOSMixtureBackend.self_modify]
    exact ⟨rfl, rfl, rfl, rfl⟩
  have hs0 := composition_set_of_same s _ hc0 hs
  obtain ⟨r, s1, hmm, hc1⟩ := mass_to_molar_inputs_returns input_pair value1 value2 _ hs0
  have hs1 := composition_set_of_same _ _ hc1 hs0
  obtain ⟨R, s2, hg, hc2⟩ := gas_constant_returns s1 hs1
  have hs2 := composition_set_of_same _ _ hc2 hs1
  obtain ⟨s3, hcr⟩ := calc_reducing_state_returns env s2 hs2
  have hst := calc_reducing_state_stored env s2 s3 hcr
  have hsame := same_composition_trans _ _ _ (same_composition_trans _ _ _ hc0 hc1) hc2
  refine ⟨r, s1, R, s2, s3, ?_, hmm, mass_to_molar_inputs_tag _ _ _ _ _ _ hmm, hg, hcr, ?_, ?_⟩
  · have hlen : 0 < (s.modify (fun m =>
        { m with toAbstractState := env.clear m.toAbstractState })).self.mole_fractions.length := by
      rw [hs0.1]
      exact List.length_pos.mpr hs0.2.1
    have hne : ((s.modify (fun m =>
        { m with toAbstractState := env.clear m.toAbstractState })).self.mole_fractions.length
          == 0) = false := by
      simp only [beq_eq_false_iff_ne, ne_eq]
      omega
    rw [hne, Bool.and_false]
  · rw [hst.1]
    exact gas_constant_cached s1 s2 R hg
  · rw [← calc_reducing_state_nocache_of_same env s s2 hsame]
    exact hst.2.1

theorem update_unsupported_state (env : Env) (input_pair : input_pairs) (value1 value2 : Dbl)
    (s : HelmholtzEOSMixtureBackend) (hsup : supported_input_pair input_pair = false)
    (hs : composition_set s) :
    ∃ s1, update env input_pair value1 value2 s =
        Res.throw (Err.ValueError "This pair of inputs [%s] is not yet supported") s1
      ∧ s1.self._gas_constant.is_cached = true
      ∧ calc_reducing_state_nocache env s.self s.self.mole_fractions = .ok s1.self._reducing
      ∧ s1.self._crit = s1.self._reducing := by
  have htag := unsupported_molar_tag input_pair hsup
  obtain ⟨r, s1, R, s2, s3, hguard, hmm, hr, hg, hcr, hcache, hred⟩ :=
    update_prelude_stored env input_pair value1 value2 s hs
  have hcrit := (calc_reducing_state_stored env s2 s3 hcr).2.2
  unfold update
  simp only [Prog.bind_apply, Prog.set_apply, Prog.get_apply]
  rw [hguard]
  simp only [Prog.throw_if_false, hmm, hg, hcr]
  rw [hr]
  rcases htag with h | h | ⟨n, h⟩ <;> rw [h] <;> exact ⟨_, rfl, hcache, hred, hcrit⟩

theorem mass_to_molar_inputs_values (input_pair : input_pairs) (value1 value2 M : Dbl)
    (s s1 sM : HelmholtzEOSMixtureBackend) (r : input_pairs × Dbl × Dbl)
    (hM : molar_mass s = Res.ret M sM)
    (h : mass_to_molar_inputs input_pair value1 value2 s = Res.ret r s1) :
    r = (molar_tag input_pair, (molar_values M input_pair value1 value2).1,
      (molar_values M input_pair value1 value2).2) := by
  rw [mass_to_molar_inputs_conversion input_pair value1 value2 M s sM hM] at h
  unfold molar_tag molar_values
  cases hb : mass_based input_pair with
  | none =>
    rw [hb] at h
    cases h
    rfl
  | some q =>
    obtain ⟨first, second, molar⟩ := q
    rw [hb] at h
    cases h
    rfl

theorem supported_molar_tag (input_pair : input_pairs)
    (hsup : supported_input_pair input_pair = true) :
    molar_tag input_pair ∈ molar_pairs_with_flash := by
  unfold supported_input_pair at hsup
  unfold molar_tag
  cases hb : mass_based input_pair with
  | none =>
    rw [hb] at hsup
    exact of_decide_eq_true hsup
  | some q =>
    obtain ⟨first, second, molar⟩ := q
    rw [hb] at hsup
    exact of_decide_eq_true hsup

theorem update_supported_pair (env : Env) (input_pair : input_pairs) (value1 value2 : Dbl)
    (s : HelmholtzEOSMixtureBackend) (h : supported_input_pair input_pair = true)
    (hs : composition_set s) :
    ∃ M sM s0,
      molar_mass (s.modify (fun m => { m with toAbstractState := env.clear m.toAbstractState }))
        = Res.ret M sM
      ∧ inputs_stored (molar_tag input_pair) (molar_values M input_pair value1 value2).1
          (molar_values M input_pair value1 value2).2 s0.self
      ∧ s0.self._gas_constant.is_cached = true
      ∧ calc_reducing_state_nocache env s.self s.self.mole_fractions = .ok s0.self._reducing
      ∧ s0.self._crit = s0.self._reducing
      ∧ update env input_pair value1 value2 s
          = (flash_routine env (molar_tag input_pair) >>= fun _ => update_checks) s0 := by
  obtain ⟨r, s1, R, s2, s3, hguard, hmm, hr, hg, hcr, hcache, hred⟩ :=
    update_prelude_stored env input_pair value1 value2 s hs
  have hc0 : same_composition s
      (s.modify (fun m => { m with toAbstractState := env.clear m.toAbstractState })) := by
    unfold same_composition
    rw [HelmholtzEOSMixtureBackend.self_modify]
    exact ⟨rfl, rfl, rfl, rfl⟩
  obtain ⟨M, sM, hM, _⟩ := molar_mass_returns _ (composition_set_of_same s _ hc0 hs)
  have hval := mass_to_molar_inputs_values input_pair value1 value2 M _ s1 sM r hM hmm
  have hcrit := (calc_reducing_state_stored env s2 s3 hcr).2.2
  have hmem := supported_molar_tag input_pair h
  refine ⟨M, sM, ?_⟩
  generalize (molar_values M input_pair value1 value2).1 = w1 at hval ⊢
  generalize (molar_values M input_pair value1 value2).2 = w2 at hval ⊢
  generalize molar_tag input_pair = tag at hval hmem hr ⊢
  subst hval
  have hupd : update env input_pair value1 value2 s =
      ((match tag with
        | .PT_INPUTS => (do
          Prog.set (fun m => { m with _p := w1, _T := w2 })
          env.PT_flash : Prog Unit)
        | .DmolarT_INPUTS => do
          Prog.set (fun m => { m with _rhomolar := w1, _T := w2 })
          env.DHSU_T_flash parameters.iDmolar
        | .SmolarT_INPUTS => do
          Prog.set (fun m => { m with _smolar := CachedElement.assign w1, _T := w2 })
          env.DHSU_T_flash parameters.iSmolar
        | .HmolarT_INPUTS => do
          Prog.set (fun m => { m with _hmolar := CachedElement.assign w1, _T := w2 })
          env.DHSU_T_flash parameters.iHmolar
        | .TUmolar_INPUTS => do
          Prog.set (fun m => { m with _T := w1, _umolar := CachedElement.assign w2 })
          env.DHSU_T_flash parameters.iUmolar
        | .DmolarP_INPUTS => do
          Prog.set (fun m => { m with _rhomolar := w1, _p := w2 })
          env.PHSU_D_flash parameters.iP
        | .DmolarHmolar_INPUTS => do
          Prog.set (fun m => { m with _rhomolar := w1, _hmolar := CachedElement.assign w2 })
          env.PHSU_D_flash parameters.iHmolar
        | .DmolarSmolar_INPUTS => do
          Prog.set (fun m => { m with _rhomolar := w1, _smolar := CachedElement.assign w2 })
          env.PHSU_D_flash parameters.iSmolar
        | .DmolarUmolar_INPUTS => do
          Prog.set (fun m => { m with _rhomolar := w1, _umolar := CachedElement.assign w2 })
          env.PHSU_D_flash parameters.iUmolar
        | .HmolarP_INPUTS => do
          Prog.set (fun m => { m with _hmolar := CachedElement.assign w1, _p := w2 })
          env.HSU_P_flash parameters.iHmolar
        | .PSmolar_INPUTS => do
          Prog.set (fun m => { m with _p := w1, _smolar := CachedElement.assign w2 })
          env.HSU_P_flash parameters.iSmolar
        | .PUmolar_INPUTS => do
          Prog.set (fun m => { m with _p := w1, _umolar := CachedElement.assign w2 })
          env.HSU_P_flash parameters.iUmolar
        | .QT_INPUTS => do
          Prog.set (fun m => { m with _Q := w1, _T := w2 })
          env.QT_flash
        | .PQ_INPUTS => do
          Prog.set (fun m => { m with _p := w1, _Q := w2 })
          env.PQ_flash
        | _ =>
          Prog.raise (Err.ValueError "This pair of inputs [%s] is not yet supported"))
        >>= fun _ => update_checks) s3 := by
    unfold update
    simp only [Prog.bind_apply, Prog.set_apply, Prog.get_apply]
    rw [hguard]
    simp only [Prog.throw_if_false, hmm, hg, hcr]
    rfl
  rw [hupd]
  cases tag <;> first
    | (simp [molar_pairs_with_flash] at hmem; done)
    | (refine ⟨?_, hM, ?_, ?_, ?_, ?_, ?_⟩
       pick_goal 6
       · exact rfl
       all_goals rw [HelmholtzEOSMixtureBackend.self_modify]
       · exact ⟨rfl, rfl⟩
       · exact hcache
       · exact hred
       · exact hcrit)

theorem update_checks_failure_state (s : HelmholtzEOSMixtureBackend)
    (h : (update_checks s).returned = false) : (update_checks s).state = s := by
  unfold update_checks at h ⊢
  simp only [Prog.bind_apply, Prog.get_apply] at h ⊢
  generalize (!ValidNumber s.self._p) = c1 at h ⊢
  generalize (!ValidNumber s.self._T) = c2 at h ⊢
  generalize decide (s.self._rhomolar < 0) = c3 at h ⊢
  generalize (!ValidNumber s.self._rhomolar) = c4 at h ⊢
  generalize (!ValidNumber s.self._Q) = c5 at h ⊢
  generalize decide (s.self._phase = phases.iphase_unknown) = c6 at h ⊢
  cases c1
  · cases c2
    · cases c3
      · cases c4
        · cases c5
          · cases c6
            · cases h
            · rfl
          · rfl
        · rfl
      · rfl
    · rfl
  · rfl

theorem update_without_fractions_state (env : Env) (input_pair : input_pairs)
    (value1 value2 : Dbl) (s : HelmholtzEOSMixtureBackend)
    (hp : s.self.is_pure_or_pseudopure = false) (hx : s.self.mole_fractions = []) :
    update env input_pair value1 value2 s =
      Res.throw (Err.ValueError "Mole fractions must be set")
        (s.modify (fun m => { m with toAbstractState := env.clear m.toAbstractState })) := by
  unfold update
  simp only [Prog.bind_apply, Prog.set_apply, Prog.get_apply,
    HelmholtzEOSMixtureBackend.self_modify, hp, hx]
  rfl

/-- C23, amended. `update` has no handler and rolls nothing back: when it raises,
the object is left as it was at the throw. When the mole fractions of a mixture
are missing, that is exactly the cleared state. On an unsupported pair
(composition in place) the gas constant is cached, `_reducing` holds the
reducing state of the composition and `_crit` is the same state. For every
supported pair, molar or mass-based (composition in place), the flash routine
of the molar tag is entered on an object that in addition holds the two input
values, those of a mass-based pair converted with the molar mass `M` that
`molar_mass()` returns on the cleared object; when the flash routine raises,
`update` ends with its exception on the object as the flash routine left it,
and when a check after the flash routine fails, `update` ends on the object as
the flash routine left it. -/
theorem update_failure_state (env : Env) (input_pair : input_pairs) (value1 value2 : Dbl)
    (s : HelmholtzEOSMixtureBackend) :
    (s.self.is_pure_or_pseudopure = false → s.self.mole_fractions = [] →
        update env input_pair value1 value2 s =
          Res.throw (Err.ValueError "Mole fractions must be set")
            (s.modify (fun m => { m with toAbstractState := env.clear m.toAbstractState })))
      ∧ (composition_set s → supported_input_pair input_pair = false →
          ∃ s1, update env input_pair value1 value2 s =
              Res.throw (Err.ValueError "This pair of inputs [%s] is not yet supported") s1
            ∧ s1.self._gas_constant.is_cached = true
            ∧ calc_reducing_state_nocache env s.self s.self.mole_fractions
                = .ok s1.self._reducing
            ∧ s1.self._crit = s1.self._reducing)
      ∧ (composition_set s → supported_input_pair input_pair = true →
          ∃ M sM s0,
            molar_mass
                (s.modify (fun m => { m with toAbstractState := env.clear m.toAbstractState }))
              = Res.ret M sM
            ∧ inputs_stored (molar_tag input_pair) (molar_values M input_pair value1 value2).1
                (molar_values M input_pair value1 value2).2 s0.self
            ∧ s0.self._gas_constant.is_cached = true
            ∧ calc_reducing_state_nocache env s.self s.self.mole_fractions
                = .ok s0.self._reducing
            ∧ s0.self._crit = s0.self._reducing
            ∧ (∀ e s1, flash_routine env (molar_tag input_pair) s0 = Res.throw e s1 →
                update env input_pair value1 value2 s = Res.throw e s1)
            ∧ (∀ s1, flash_routine env (molar_tag input_pair) s0 = Res.ret () s1 →
                (update env input_pair value1 value2 s).returned = false →
                (update env input_pair value1 value2 s).state = s1)) := by
  refine ⟨update_without_fractions_state env input_pair value1 value2 s,
    fun hs hsup => update_unsupported_state env input_pair value1 value2 s hsup hs,
    fun hs hsup => ?_⟩
  obtain ⟨M, sM, s0, hM, hin, hcache, hred, hcrit, hupd⟩ :=
    update_supported_pair env input_pair value1 value2 s hsup hs
  refine ⟨M, sM, s0, hM, hin, hcache, hred, hcrit, ?_, ?_⟩
  · intro e s1 hf
    rw [hupd, Prog.bind_apply, hf]
  · intro s1 hf
    rw [hupd, Prog.bind_apply, hf]
    exact update_checks_failure_state s1

/-- Sanity check for C23 on the pure example fluid (molar mass 18) with the
mass-based pair `DmassT_INPUTS`, density 900 and temperature 300, and flash
routines that raise at once: `update` ends with the exception of the flash
routine on an object whose `_rhomolar` is 900/18 = 50 and whose `_T` is 300. -/
theorem update_failure_state_witness :
    composition_set example_pure
      ∧ supported_input_pair input_pairs.DmassT_INPUTS = true
      ∧ ∃ s1, update example_env.probe input_pairs.DmassT_INPUTS (Dbl.fin 900) (Dbl.fin 300)
            example_pure = Res.throw flash_entered s1
          ∧ s1.self._rhomolar = Dbl.fin 50 ∧ s1.self._T = Dbl.fin 300
          ∧ s1.self._crit = s1.self._reducing := by
  have hs : composition_set example_pure :=
    ⟨by decide, List.cons_ne_nil (example_fluid 18 8) [], by decide⟩
  obtain ⟨M, sM, s0, hM, hin, _, _, hcrit, hthrow, _⟩ :=
    (update_failure_state example_env.probe input_pairs.DmassT_INPUTS (Dbl.fin 900) (Dbl.fin 300)
      example_pure).2.2 hs rfl
  have hM18 : M = Dbl.fin 18 := by
    have h2 : molar_mass (example_pure.modify (fun m =>
        { m with toAbstractState := example_env.probe.clear m.toAbstractState })) =
        Res.ret (0 + 1 * Dbl.fin 18) (molar_mass (example_pure.modify (fun m =>
        { m with toAbstractState := example_env.probe.clear m.toAbstractState }))).state := rfl
    have h3 := hM.symm.trans h2
    injection h3 with h4
    rw [h4, Dbl.one_eq, Dbl.zero_eq, Dbl.fin_mul_fin, Dbl.fin_add_fin]
    norm_num
  subst hM18
  refine ⟨hs, rfl, s0, hthrow flash_entered s0 rfl, hin.1.trans ?_, hin.2, hcrit⟩
  show Dbl.fin 900 / Dbl.fin 18 = Dbl.fin 50
  rw [Dbl.fin_div_fin _ _ (by norm_num)]
  norm_num

/-- C23, as the code behaves, on the pure example fluid. After the unsupported pair
`HmolarSmolar_INPUTS` the gas constant cell is cached and `_reducing.T` is 400,
where `clear` leaves the cell empty and `_reducing.T` at `-_HUGE`. After
`PT_INPUTS` with a flash routine that raises at once, `_p` and `_T` hold the
inputs 2500 and 300, where `clear` leaves both at `-_HUGE`. -/
theorem update_failure_keeps_values :
    (∃ s1, update example_env input_pairs.HmolarSmolar_INPUTS (Dbl.fin 2500) (Dbl.fin 300)
          example_pure =
            Res.throw (Err.ValueError "This pair of inputs [%s] is not yet supported") s1
        ∧ s1.self._gas_constant.is_cached = true
        ∧ (example_env.clear example_pure.self.toAbstractState)._gas_constant.is_cached = false
        ∧ s1.self._reducing.T = Dbl.fin 400
        ∧ (example_env.clear example_pure.self.toAbstractState)._reducing.T = Dbl.ninf)
      ∧ (∃ s1, update example_env.probe input_pairs.PT_INPUTS (Dbl.fin 2500) (Dbl.fin 300)
          example_pure = Res.throw flash_entered s1
        ∧ s1.self._p = Dbl.fin 2500 ∧ s1.self._T = Dbl.fin 300
        ∧ (example_env.clear example_pure.self.toAbstractState)._p = Dbl.ninf
        ∧ (example_env.clear example_pure.self.toAbstractState)._T = Dbl.ninf) :=
  ⟨⟨_, rfl, rfl, rfl, rfl, rfl⟩, ⟨_, rfl, rfl, rfl, rfl, rfl⟩⟩

/-! ## The solver cascade of solver_rho_Tp (C21) -/

theorem solver_rho_Tp_eq_attempts (env : Env) (T p rhomolar_guess g : Dbl)
    (s s1 s2 : HelmholtzEOSMixtureBackend) (resid : solver_TP_resid)
    (hnew : solver_TP_resid.new T p s = Res.ret resid s1)
    (hguess : solver_rho_Tp_guess env T p rhomolar_guess s1 = Res.ret g s2) :
    solver_rho_Tp env T p rhomolar_guess s
      = solver_rho_Tp_attempts env g (FuncWrapper1D.TP resid) s2 := by
  unfold solver_rho_Tp
  simp only [Prog.bind_apply, hnew, hguess]

/-- C21, as the code behaves. With the residual object constructed and the starting
density `g` determined, `solver_rho_Tp` returns the value of `Newton` when that
is a valid number. When `Newton` failed (it threw, or its value is not a valid
number), it returns the value of `Secant` when that is a valid number. When
`Secant` failed as well, `Secant` is run a second time with the same arguments:
if this second run throws, `solver_rho_Tp` raises the error that names T, p and
the guess; if it returns, whatever its value, `solver_rho_Tp` returns `_HUGE`. -/
theorem solver_rho_Tp_cascade (env : Env) (T p rhomolar_guess g : Dbl)
    (s s1 s2 : HelmholtzEOSMixtureBackend) (resid : solver_TP_resid)
    (newton secant rerun : SolverRun)
    (hnew : solver_TP_resid.new T p s = Res.ret resid s1)
    (hguess : solver_rho_Tp_guess env T p rhomolar_guess s1 = Res.ret g s2)
    (hnewton : newton = env.Newton (FuncWrapper1D.TP resid) g (Dbl.fin (1 / 100000000)) 100 s2)
    (hsecant : secant = env.Secant newton.resid g (Dbl.fin (1 / 10000) * g)
      (Dbl.fin (1 / 100000000)) 100 newton.state)
    (hrerun : rerun = env.Secant secant.resid g (Dbl.fin (1 / 10000) * g)
      (Dbl.fin (1 / 100000000)) 100 secant.state) :
    (∀ x, newton.result = .ok x → ValidNumber x = true →
        solver_rho_Tp env T p rhomolar_guess s = Res.ret x newton.state)
      ∧ (newton.failed → ∀ x, secant.result = .ok x → ValidNumber x = true →
        solver_rho_Tp env T p rhomolar_guess s = Res.ret x secant.state)
      ∧ (newton.failed → secant.failed →
        (∃ e, rerun.result = .error e ∧ e.is_exception = true) →
        solver_rho_Tp env T p rhomolar_guess s = Res.throw (Err.ValueError
          "solver_rho_Tp was unable to find a solution for T=%10Lg, p=%10Lg, with guess value %10Lg")
          rerun.state)
      ∧ (newton.failed → secant.failed → ∀ x, rerun.result = .ok x →
        solver_rho_Tp env T p rhomolar_guess s = Res.ret _HUGE rerun.state) := by
  rw [solver_rho_Tp_eq_attempts env T p rhomolar_guess g s s1 s2 resid hnew hguess]
  unfold solver_rho_Tp_attempts
  simp only [← hnewton, ← hsecant, ← hrerun]
  refine ⟨?_, ?_, ?_, ?_⟩
  · intro x hx hv
    have hc : newton.checked = .ok x := by
      unfold SolverRun.checked
      rw [hx]
      simp [hv]
    rw [hc]
  · rintro ⟨e, he, hex⟩ x hx hv
    have hc : secant.checked = .ok x := by
      unfold SolverRun.checked
      rw [hx]
      simp [hv]
    rw [he]
    simp only [hex, Bool.not_true, Bool.false_eq_true, if_false, hc]
  · rintro ⟨e, he, hex⟩ ⟨e1, he1, hex1⟩ ⟨e2, he2, hex2⟩
    rw [he]
    simp only [hex, Bool.not_true, Bool.false_eq_true, if_false, he1, hex1, he2, hex2, if_true]
  · rintro ⟨e, he, hex⟩ ⟨e1, he1, hex1⟩ x hx
    rw [he]
    simp only [hex, Bool.not_true, Bool.false_eq_true, if_false, he1, hex1, hx]

/-- C21 at the failing input: `Newton` throws and `Secant` returns NaN without
throwing, at 300 K, 1000 Pa and the guess 100 mol/m3; `solver_rho_Tp` returns
`_HUGE` and raises nothing. -/
theorem solver_rho_Tp_cascade_witness :
    ∃ s1, solver_rho_Tp example_env_nan (Dbl.fin 300) (Dbl.fin 1000) (Dbl.fin 100)
        (example_pure_at 300 1000 100) = Res.ret _HUGE s1 :=
  ⟨_, (solver_rho_Tp_cascade example_env_nan (Dbl.fin 300) (Dbl.fin 1000) (Dbl.fin 100)
    (Dbl.fin 100) (example_pure_at 300 1000 100) _ _ _ _ _ _ rfl rfl rfl rfl rfl).2.2.2
      ⟨Err.ValueError "Newton did not converge", rfl, rfl⟩ ⟨Err.ValueError "", rfl, rfl⟩
      Dbl.nan rfl⟩

/-! ## The residual of solver_rho_Tp (C22) -/

theorem gas_constant_ret (s s1 : HelmholtzEOSMixtureBackend) (R : Dbl)
    (h : gas_constant s = Res.ret R s1) :
    same_composition s s1 ∧ s1.self._reducing = s.self._reducing
      ∧ s1.self.Excess = s.self.Excess ∧ gas_constant s1 = Res.ret R s1 := by
  have hidem : gas_constant s1 = Res.ret R s1 :=
    via_cache_idem (fun m => m._gas_constant) (fun c m => { m with _gas_constant := c })
      (fun _ _ => rfl) s s1 R _ h _
  refine ⟨?_, ?_, ?_, hidem⟩ <;>
  · unfold gas_constant via_cache at h
    split at h
    · cases h
      first | rfl | exact ⟨rfl, rfl, rfl, rfl⟩
    · cases hg : calc_gas_constant s.self with
      | ok v =>
        rw [hg, Prog.ofExcept_ok] at h
        cases h
        first
          | rw [HelmholtzEOSMixtureBackend.self_modify]
          | (unfold same_composition; rw [HelmholtzEOSMixtureBackend.self_modify]
             exact ⟨rfl, rfl, rfl, rfl⟩)
      | error e =>
        rw [hg] at h
        cases h

theorem Dbl.relative_error_zero (P : Dbl) (q : ℚ) (hq : q ≠ 0) :
    (P - Dbl.fin q) / Dbl.fin q = Dbl.fin 0 ↔ P = Dbl.fin q := by
  cases P with
  | fin a =>
    rw [Dbl.fin_sub_fin, Dbl.fin_div_fin _ _ hq]
    constructor
    · intro h
      have h1 : (a - q) / q = 0 := by injection h
      have h2 : a - q = 0 := by
        rcases div_eq_zero_iff.mp h1 with h3 | h3
        · exact h3
        · exact absurd h3 hq
      rw [sub_eq_zero.mp h2]
    · intro h
      have h1 : a = q := by injection h
      rw [h1, sub_self, zero_div]
  | pinf =>
    have h : (Dbl.pinf - Dbl.fin q) / Dbl.fin q = if 0 ≤ q then Dbl.pinf else Dbl.ninf := rfl
    rw [h]
    constructor
    · intro h1
      split at h1 <;> cases h1
    · intro h1
      cases h1
  | ninf =>
    have h : (Dbl.ninf - Dbl.fin q) / Dbl.fin q = if 0 ≤ q then Dbl.ninf else Dbl.pinf := rfl
    rw [h]
    constructor
    · intro h1
      split at h1 <;> cases h1
    · intro h1
      cases h1
  | nan =>
    constructor
    · intro h1
      cases h1
    · intro h1
      cases h1

theorem solver_TP_resid_new_eq (T p : Dbl) (s s1 : HelmholtzEOSMixtureBackend)
    (f : solver_TP_resid) (h : solver_TP_resid.new T p s = Res.ret f s1) :
    gas_constant s = Res.ret f.R_u s1 ∧ f.T = T ∧ f.p = p
      ∧ f.rhor = s.self._reducing.rhomolar ∧ f.tau = s.self._reducing.T / T := by
  unfold solver_TP_resid.new get_reducing at h
  simp only [Prog.bind_apply] at h
  cases hg : gas_constant s with
  | ret R s2 =>
    rw [hg] at h
    simp only [Prog.pure_apply, Res.ret.injEq] at h
    obtain ⟨rfl, rfl⟩ := h
    exact ⟨rfl, rfl, rfl, rfl, rfl⟩
  | throw e s2 =>
    rw [hg] at h
    cases h

/-- C22. Let the cached reducing state be that of the current composition, and let
`f` be the residual object that `solver_rho_Tp` constructs for `T` and `p`, on
the object `s1` the construction leaves. For every density, a call of the
residual returns `r` exactly when `calc_pressure_nocache` returns a pressure `P`
with `r = (P - p)/p`, and neither call changes the object. For a finite target
pressure other than zero, `(P - p)/p` is zero if and only if `P = p`. -/
theorem residual_is_relative_pressure_error (env : Env) (T p rhomolar : Dbl)
    (s s1 : HelmholtzEOSMixtureBackend) (f : solver_TP_resid)
    (hred : calc_reducing_state_nocache env s.self s.self.mole_fractions = .ok s.self._reducing)
    (hnew : solver_TP_resid.new T p s = Res.ret f s1) :
    (∀ r f1 s2, f.call rhomolar s1 = Res.ret (r, f1) s2 →
        ∃ P, calc_pressure_nocache env T rhomolar s1 = Res.ret P s1 ∧ r = (P - p) / p ∧ s2 = s1)
      ∧ (∀ P s2, calc_pressure_nocache env T rhomolar s1 = Res.ret P s2 →
        ∃ f1, f.call rhomolar s1 = Res.ret ((P - p) / p, f1) s1)
      ∧ (∀ (q : ℚ) (P : Dbl), p = Dbl.fin q → q ≠ 0 → ((P - p) / p = Dbl.fin 0 ↔ P = p)) := by
  obtain ⟨hg, hT, hp, hrhor, htau⟩ := solver_TP_resid_new_eq T p s s1 f hnew
  obtain ⟨hsame, hr1, _, hg1⟩ := gas_constant_ret s s1 f.R_u hg
  have hred1 : calc_reducing_state_nocache env s1.self s1.self.mole_fractions
      = .ok s1.self._reducing := by
    rw [calc_reducing_state_nocache_of_same env s s1 hsame, hr1]
    exact hred
  rw [← hr1] at hrhor htau
  refine ⟨?_, ?_, ?_⟩
  · intro r f1 s2 h
    unfold solver_TP_resid.call get_mole_fractions at h
    unfold calc_pressure_nocache
    simp only [Prog.bind_apply, Prog.get_apply, hred1, Prog.ofExcept_ok] at h ⊢
    rw [hrhor, htau] at h
    cases hd : calc_alphar_deriv_nocache s1.self 0 1 s1.self.mole_fractions
        (s1.self._reducing.T / T) (rhomolar / s1.self._reducing.rhomolar) with
    | ok d =>
      rw [hd, Prog.ofExcept_ok] at h
      simp only [Prog.pure_apply, Res.ret.injEq, Prod.mk.injEq] at h
      obtain ⟨⟨hr, _⟩, hs2⟩ := h
      rw [Prog.ofExcept_ok]
      simp only [hg1, Prog.pure_apply]
      refine ⟨_, rfl, ?_, hs2.symm⟩
      rw [← hr, hT, hp]
    | error e =>
      rw [hd] at h
      cases h
  · intro P s2 h
    unfold calc_pressure_nocache at h
    unfold solver_TP_resid.call get_mole_fractions
    simp only [Prog.bind_apply, Prog.get_apply, hred1, Prog.ofExcept_ok] at h ⊢
    rw [hrhor, htau]
    cases hd : calc_alphar_deriv_nocache s1.self 0 1 s1.self.mole_fractions
        (s1.self._reducing.T / T) (rhomolar / s1.self._reducing.rhomolar) with
    | ok d =>
      rw [hd, Prog.ofExcept_ok] at h
      simp only [hg1, Prog.pure_apply, Res.ret.injEq] at h
      rw [Prog.ofExcept_ok]
      simp only [Prog.pure_apply]
      rw [← h.1, hT, hp]
      exact ⟨_, rfl⟩
    | error e =>
      rw [hd] at h
      cases h
  · intro q P hp hq
    rw [hp]
    exact Dbl.relative_error_zero P q hq


/-- Sanity check for C22 on the pure example fluid (an ideal gas with gas constant
8) at 300 K and 100 mol/m3: the pressure is 240000 Pa, and with this target the
residual is zero. -/
theorem residual_is_relative_pressure_error_witness :
    ∃ f s1 f1,
      solver_TP_resid.new (Dbl.fin 300) (Dbl.fin 240000) (example_pure_at 300 240000 100)
        = Res.ret f s1
      ∧ calc_pressure_nocache example_env (Dbl.fin 300) (Dbl.fin 100) s1
        = Res.ret (Dbl.fin 240000) s1
      ∧ f.call (Dbl.fin 100) s1 = Res.ret (Dbl.fin 0, f1) s1 := by
  have h := residual_is_relative_pressure_error example_env (Dbl.fin 300) (Dbl.fin 240000)
    (Dbl.fin 100) (example_pure_at 300 240000 100) _ _ rfl rfl
  have hP : calc_pressure_nocache example_env (Dbl.fin 300) (Dbl.fin 100)
      ((example_pure_at 300 240000 100).modify (fun m =>
        { m with _gas_constant := CachedElement.assign (0 + 1 * Dbl.fin 8) }))
      = Res.ret (Dbl.fin 100 * (0 + 1 * Dbl.fin 8) * Dbl.fin 300
          * (1 + Dbl.fin 100 / Dbl.fin 5000 * Dbl.fin 0))
        ((example_pure_at 300 240000 100).modify (fun m =>
          { m with _gas_constant := CachedElement.assign (0 + 1 * Dbl.fin 8) })) := rfl
  have hv : Dbl.fin 100 * (0 + 1 * Dbl.fin 8) * Dbl.fin 300
      * (1 + Dbl.fin 100 / Dbl.fin 5000 * Dbl.fin 0) = Dbl.fin 240000 := by
    simp only [Dbl.zero_eq, Dbl.one_eq]
    rw [Dbl.fin_div_fin _ _ (by norm_num)]
    simp only [Dbl.fin_mul_fin, Dbl.fin_add_fin]
    norm_num
  rw [hv] at hP
  obtain ⟨f1, hc⟩ := h.2.1 _ _ hP
  rw [(h.2.2 240000 (Dbl.fin 240000) rfl (by norm_num)).mpr rfl] at hc
  exact ⟨_, _, f1, rfl, hP, hc⟩

/-! ## The owned saturation states (C24) -/

/-- C24. For every component list and every value of the flag, the constructed
object has `SatL` and `SatV` exactly when `generate_SatL_and_SatV` is true; each
of the two is built on the same component list, owns no `SatL` and no `SatV` of
its own, and `SatL` has liquid as imposed phase, `SatV` gas. -/
theorem saturation_states_not_nested (env : Env) (components : List CoolPropFluid)
    (generate_SatL_and_SatV : Bool) :
    (construct env components generate_SatL_and_SatV).SatL.isSome = generate_SatL_and_SatV
      ∧ (construct env components generate_SatL_and_SatV).SatV.isSome = generate_SatL_and_SatV
      ∧ (∀ l, (construct env components generate_SatL_and_SatV).SatL = some l →
          l.self.components = components ∧ l.SatL = none ∧ l.SatV = none
            ∧ l.self.imposed_phase_index = some phases.iphase_liquid)
      ∧ (∀ v, (construct env components generate_SatL_and_SatV).SatV = some v →
          v.self.components = components ∧ v.SatL = none ∧ v.SatV = none
            ∧ v.self.imposed_phase_index = some phases.iphase_gas) := by
  have hc : (set_components_members env components (Members.fresh env)).components = components :=
    (set_components_members_N env components (Members.fresh env)).2
  cases generate_SatL_and_SatV
  · refine ⟨rfl, rfl, ?_, ?_⟩ <;> intro x hx <;> cases hx
  · refine ⟨rfl, rfl, ?_, ?_⟩ <;> intro x hx <;> cases hx <;> exact ⟨hc, rfl, rfl, rfl⟩

/-! ## The quality of a two-phase state (C25) -/

namespace Prog

theorem ends_with_bind {α β : Type} (P : HelmholtzEOSMixtureBackend → Prop) (m : Prog α)
    (k : α → Prog β) (hk : ∀ a, ends_with P (k a)) : ends_with P (m >>= k) := by
  intro s b s2 h
  obtain ⟨a, s1, _, h2⟩ := (bind_eq_ret m k s s2 b).mp h
  exact hk a s1 b s2 h2

theorem ends_with_raise {α : Type} (P : HelmholtzEOSMixtureBackend → Prop) (e : Err) :
    ends_with P (Prog.raise e : Prog α) := by
  intro s a s1 h
  cases h

theorem ends_with_ite {α : Type} (P : HelmholtzEOSMixtureBackend → Prop) (c : Prop)
    [Decidable c] (f g : Prog α) (hf : ends_with P f) (hg : ends_with P g) :
    ends_with P (if c then f else g) := by
  split
  · exact hf
  · exact hg

theorem ends_with_set (P : HelmholtzEOSMixtureBackend → Prop) (f : Members → Members)
    (h : ∀ s : HelmholtzEOSMixtureBackend, P (s.modify f)) : ends_with P (Prog.set f) := by
  intro s a s1 hs
  cases hs
  exact h s

theorem ends_with_set_pure {α : Type} (P : HelmholtzEOSMixtureBackend → Prop)
    (f : Members → Members) (b : α) (h : ∀ s : HelmholtzEOSMixtureBackend, P (s.modify f)) :
    ends_with P (Prog.set f >>= fun _ => (pure b : Prog α)) := by
  intro s a s1 hs
  cases hs
  exact h s

end Prog

theorem onLocal_eq_ret {α : Type} (obj : HelmholtzEOSMixtureBackend) (f : Prog α)
    (s s1 : HelmholtzEOSMixtureBackend) (r : α × HelmholtzEOSMixtureBackend)
    (h : onLocal obj f s = Res.ret r s1) : s1 = s := by
  unfold onLocal at h
  cases hf : f obj with
  | ret a o => rw [hf] at h; cases h; rfl
  | throw e o => rw [hf] at h; cases h

theorem not_two_phase_checked (s : HelmholtzEOSMixtureBackend)
    (h : s.self._phase ≠ phases.iphase_twophase) : two_phase_quality_checked s :=
  fun h2 => absurd h2 h

/-- The statements of the two-phase branch after the two tests on `Q`. -/
theorem two_phase_tail_T (Q : Dbl) (HEOS : HelmholtzEOSMixtureBackend)
    (hQ : quality_within_tolerance Q) :
    Prog.ends_with two_phase_quality_checked (do
      Prog.set (fun m => { m with _phase := phases.iphase_twophase })
      Prog.set (fun m => { m with _Q := Q })
      let pV ← onLocal HEOS (onSatV p)
      let pL ← onLocal pV.2 (onSatL p)
      Prog.set (fun m => { m with _p := m._Q * pV.1 + (1 - m._Q) * pL.1 })
      let rhoV ← onLocal pL.2 (onSatV rhomolar)
      let rhoL ← onLocal rhoV.2 (onSatL rhomolar)
      Prog.set (fun m => { m with _rhomolar := 1 / (m._Q / rhoV.1 + (1 - m._Q) / rhoL.1) })
      : Prog Unit) := by
  intro s a s1 h
  simp only [Prog.bind_eq_ret, Prog.set_apply, Res.ret.injEq] at h
  obtain ⟨_, _, ⟨-, rfl⟩, _, _, ⟨-, rfl⟩, pV, t1, h1, pL, t2, h2, _, _, ⟨-, rfl⟩, rV, t3, h3,
    rL, t4, h4, -, rfl⟩ := h
  cases onLocal_eq_ret _ _ _ _ _ h1
  cases onLocal_eq_ret _ _ _ _ _ h2
  cases onLocal_eq_ret _ _ _ _ _ h4
  cases onLocal_eq_ret _ _ _ _ _ h3
  intro _
  simp only [HelmholtzEOSMixtureBackend.self_modify]
  exact hQ

theorem ends_with_set_phase (f : Members → Members)
    (hf : ∀ m, (f m)._phase ≠ phases.iphase_twophase) :
    Prog.ends_with two_phase_quality_checked (Prog.set f) :=
  Prog.ends_with_set _ f (fun s => not_two_phase_checked _ (by
    rw [HelmholtzEOSMixtureBackend.self_modify]; exact hf _))

theorem ends_with_set_phase_pure {α : Type} (f : Members → Members) (b : α)
    (hf : ∀ m, (f m)._phase ≠ phases.iphase_twophase) :
    Prog.ends_with two_phase_quality_checked (Prog.set f >>= fun _ => (pure b : Prog α)) :=
  Prog.ends_with_set_pure _ f b (fun s => not_two_phase_checked _ (by
    rw [HelmholtzEOSMixtureBackend.self_modify]; exact hf _))

theorem T_saturation_ends (env : Env) (other : parameters) (value : Dbl) :
    Prog.ends_with two_phase_quality_checked
      (T_phase_determination_saturation env other value) := by
  unfold T_phase_determination_saturation
  apply Prog.ends_with_bind; intro m
  apply Prog.ends_with_bind; intro _
  apply Prog.ends_with_bind; intro solved
  dsimp only
  split
  · apply Prog.ends_with_bind; intro pL
    split
    · exact ends_with_set_phase _ (fun _ => by simp)
    · apply Prog.ends_with_bind; intro pV
      split
      · exact ends_with_set_phase _ (fun _ => by simp)
      · exact Prog.ends_with_raise _ _
  · apply Prog.ends_with_bind; intro quality
    dsimp only
    split
    · exact ends_with_set_phase _ (fun _ => by simp)
    · split
      · exact ends_with_set_phase _ (fun _ => by simp)
      · rename_i c1 c2
        exact two_phase_tail_T quality.1 quality.2 ⟨c1, c2⟩

theorem two_phase_tail_p (Q : Dbl) (HEOS : HelmholtzEOSMixtureBackend)
    (hQ : quality_within_tolerance Q) :
    Prog.ends_with two_phase_quality_checked (do
      Prog.set (fun m => { m with _phase := phases.iphase_twophase })
      Prog.set (fun m => { m with _Q := Q })
      let pV ← onLocal HEOS (onSatV p)
      let pL ← onLocal pV.2 (onSatL p)
      Prog.set (fun m => { m with _p := m._Q * pV.1 + (1 - m._Q) * pL.1 })
      let rhoV ← onLocal pL.2 (onSatV rhomolar)
      let rhoL ← onLocal rhoV.2 (onSatL rhomolar)
      Prog.set (fun m => { m with _rhomolar := 1 / (m._Q / rhoV.1 + (1 - m._Q) / rhoL.1) })
      pure true
      : Prog Bool) := by
  intro s a s1 h
  simp only [Prog.bind_eq_ret, Prog.set_apply, Prog.pure_apply, Res.ret.injEq] at h
  obtain ⟨_, _, ⟨-, rfl⟩, _, _, ⟨-, rfl⟩, pV, t1, h1, pL, t2, h2, _, _, ⟨-, rfl⟩, rV, t3, h3,
    rL, t4, h4, _, _, ⟨-, rfl⟩, -, rfl⟩ := h
  cases onLocal_eq_ret _ _ _ _ _ h1
  cases onLocal_eq_ret _ _ _ _ _ h2
  cases onLocal_eq_ret _ _ _ _ _ h4
  cases onLocal_eq_ret _ _ _ _ _ h3
  intro _
  simp only [HelmholtzEOSMixtureBackend.self_modify]
  exact hQ

theorem p_saturation_ends (env : Env) (other : parameters) (value : Dbl) :
    Prog.ends_with two_phase_quality_checked
      (p_phase_determination_saturation env other value) := by
  unfold p_phase_determination_saturation
  apply Prog.ends_with_bind; intro m
  apply Prog.ends_with_bind; intro _
  apply Prog.ends_with_bind; intro flashed
  apply Prog.ends_with_bind; intro quality
  dsimp only
  apply Prog.ends_with_bind; intro rhoL
  apply Prog.ends_with_bind; intro TL
  apply Prog.ends_with_bind; intro _
  apply Prog.ends_with_bind; intro rhoV
  apply Prog.ends_with_bind; intro TV
  apply Prog.ends_with_bind; intro _
  split
  · exact ends_with_set_phase_pure _ _ (fun _ => by simp)
  · split
    · exact ends_with_set_phase_pure _ _ (fun _ => by simp)
    · rename_i c1 c2
      exact two_phase_tail_p quality.1 TV.2 ⟨c1, c2⟩

theorem T_phase_determination_ends (env : Env) (other : parameters) (value : Dbl) :
    Prog.ends_with two_phase_quality_checked
      (T_phase_determination_pure_or_pseudopure env other value) := by
  have hsat := T_saturation_ends env other value
  unfold T_phase_determination_pure_or_pseudopure T_phase_determination_subcritical
    T_phase_determination_supercritical T_phase_determination_case_iUmolar
  cases other <;> dsimp only <;>
    repeat' first
      | exact hsat
      | exact Prog.ends_with_raise _ _
      | exact ends_with_set_phase _ (fun _ => by simp)
      | apply Prog.ends_with_ite
      | (apply Prog.ends_with_bind; intro _; dsimp only)

theorem p_density_ends (env : Env) (other : parameters) (value : Dbl) (c : CoolPropFluid)
    (d : Bool) :
    Prog.ends_with two_phase_quality_checked
      (p_phase_determination_density env other value c d) := by
  have hsat := p_saturation_ends env other value
  unfold p_phase_determination_density
  cases other <;> dsimp only <;>
    repeat' first
      | exact hsat
      | exact Prog.ends_with_raise _ _
      | exact ends_with_set_phase_pure _ _ (fun _ => by simp)
      | apply Prog.ends_with_ite
      | (apply Prog.ends_with_bind; intro _; dsimp only)

theorem p_subcritical_ends (env : Env) (other : parameters) (value : Dbl) (c : CoolPropFluid) :
    Prog.ends_with two_phase_quality_checked
      (p_phase_determination_subcritical env other value c) := by
  have hd := p_density_ends env other value c
  unfold p_phase_determination_subcritical p_phase_determination_bands
  cases other <;> dsimp only <;>
    repeat' first
      | exact hd _
      | exact Prog.ends_with_raise _ _
      | exact ends_with_set_phase_pure _ _ (fun _ => by simp)
      | apply Prog.ends_with_ite
      | (apply Prog.ends_with_bind; intro _; dsimp only)

theorem p_supercritical_ends (other : parameters) :
    Prog.ends_with two_phase_quality_checked (p_phase_determination_supercritical other) := by
  unfold p_phase_determination_supercritical
  cases other <;> dsimp only <;>
    repeat' first
      | exact Prog.ends_with_raise _ _
      | exact ends_with_set_phase_pure _ _ (fun _ => by simp)
      | apply Prog.ends_with_ite
      | (apply Prog.ends_with_bind; intro _; dsimp only)

theorem p_phase_determination_ends (env : Env) (other : parameters) (value : Dbl)
    (s s1 : HelmholtzEOSMixtureBackend) (b : Bool)
    (hs : s.self._phase ≠ phases.iphase_twophase)
    (h : p_phase_determination_pure_or_pseudopure env other value s = Res.ret b s1) :
    two_phase_quality_checked s1 := by
  unfold p_phase_determination_pure_or_pseudopure at h
  simp only [Prog.bind_eq_ret, Prog.get_apply, Res.ret.injEq] at h
  obtain ⟨m, s0, ⟨rfl, rfl⟩, c, s2, hc, h⟩ := h
  have hs2 : s2 = s := by
    cases hi : index s.self.components 0 with
    | ok a => rw [hi] at hc; cases hc; rfl
    | error e => rw [hi] at hc; cases hc
  subst hs2
  split at h
  · exact p_supercritical_ends other _ _ _ h
  · split at h
    · exact p_subcritical_ends env other value c _ _ _ h
    · split at h
      · cases h
      · cases h
        exact not_two_phase_checked _ hs

theorem quality_within_tolerance_fin (q : ℚ) :
    quality_within_tolerance (Dbl.fin q) ↔
      -(100 / 4503599627370496) ≤ q ∧ q ≤ 1 + 100 / 4503599627370496 := by
  have hneg : -(Dbl.fin 100 * DBL_EPSILON) = Dbl.fin (-(100 * (1 / 4503599627370496))) := rfl
  have hpos : 1 + Dbl.fin 100 * DBL_EPSILON = Dbl.fin (1 + 100 * (1 / 4503599627370496)) := rfl
  unfold quality_within_tolerance
  rw [hneg, hpos, Dbl.fin_lt_fin, Dbl.fin_lt_fin, not_lt, not_lt]
  constructor <;> rintro ⟨h1, h2⟩ <;> constructor <;> linarith

theorem T_density_two_phase (v Q : ℚ)
    (hr1 : ¬ (Dbl.fin v < Dbl.fin (95 / 100) * Dbl.fin 1))
    (hr2 : ¬ (Dbl.fin (105 / 100) * Dbl.fin 40000 < Dbl.fin v))
    (hq : (1 / Dbl.fin v - 1 / Dbl.fin 40000) / (1 / Dbl.fin 1 - 1 / Dbl.fin 40000) = Dbl.fin Q)
    (hw : quality_within_tolerance (Dbl.fin Q)) :
    ∃ s1, T_phase_determination_pure_or_pseudopure example_env_sat parameters.iDmolar
          (Dbl.fin v) (example_pure_at 300 1000 v) = Res.ret () s1
        ∧ s1.self._phase = phases.iphase_twophase ∧ s1.self._Q = Dbl.fin Q := by
  have hT : (example_pure_at 300 1000 v).self._T < (example_pure_at 300 1000 v).self._crit.T :=
    (Dbl.fin_lt_fin 300 400).mpr (by norm_num)
  have h0 := T_density_reaches_saturation example_env_sat (Dbl.fin v)
    (example_pure_at 300 1000 v) (example_fluid 18 8) [] rfl rfl hT hr1 hr2
  have h1 := T_saturation_classification example_env_sat parameters.iDmolar (Dbl.fin v)
    ((1 / Dbl.fin v - 1 / Dbl.fin 40000) / (1 / Dbl.fin 1 - 1 / Dbl.fin 40000))
    ((example_pure_at 300 1000 v).modify (fun m =>
        { m with _rhoVanc := CachedElement.assign ((example_fluid 18 8).ancillaries.rhoV.evaluate m._T),
                 _rhoLanc := CachedElement.assign ((example_fluid 18 8).ancillaries.rhoL.evaluate m._T) }))
    example_HEOS example_HEOS (example_saturated 40000 1000 100 1 90)
    (example_saturated 1 1000 500 3 450) rfl (by decide) rfl
    (T_quality_density example_env_sat _ example_HEOS _ _ rfl rfl) rfl rfl
  rw [hq] at h1
  simp only [hw.1, hw.2, if_false] at h1
  refine ⟨_, h0.trans h1, ?_⟩
  rw [HelmholtzEOSMixtureBackend.self_modify]
  exact ⟨rfl, rfl⟩

/-- C25, as the code behaves: the T-given variant at 300 K with a density for which
the quality is `-1e-15`. The value is negative, passes the test
`Q < -100*DBL_EPSILON`, and the state is stored as two-phase with this `_Q`. -/
theorem two_phase_with_negative_quality :
    ∃ s1, T_phase_determination_pure_or_pseudopure example_env_sat parameters.iDmolar
          (Dbl.fin (40000000000000000000 / 999999999960001))
          (example_pure_at 300 1000 (40000000000000000000 / 999999999960001)) = Res.ret () s1
        ∧ s1.self._phase = phases.iphase_twophase
        ∧ s1.self._Q = Dbl.fin (-(1 / 1000000000000000))
        ∧ s1.self._Q < 0 := by
  have hr1 : ¬ (Dbl.fin (40000000000000000000 / 999999999960001)
      < Dbl.fin (95 / 100) * Dbl.fin 1) := by
    rw [Dbl.fin_mul_fin, Dbl.fin_lt_fin]; norm_num
  have hr2 : ¬ (Dbl.fin (105 / 100) * Dbl.fin 40000
      < Dbl.fin (40000000000000000000 / 999999999960001)) := by
    rw [Dbl.fin_mul_fin, Dbl.fin_lt_fin]; norm_num
  have hq : (1 / Dbl.fin (40000000000000000000 / 999999999960001) - 1 / Dbl.fin 40000)
      / (1 / Dbl.fin 1 - 1 / Dbl.fin 40000) = Dbl.fin (-(1 / 1000000000000000)) := by
    simp only [Dbl.one_eq]
    rw [Dbl.fin_div_fin _ _ (by norm_num), Dbl.fin_div_fin _ _ (by norm_num),
      Dbl.fin_div_fin _ _ (by norm_num), Dbl.fin_sub_fin, Dbl.fin_sub_fin,
      Dbl.fin_div_fin _ _ (by norm_num)]
    norm_num
  have hw := (quality_within_tolerance_fin (-(1 / 1000000000000000))).mpr
    ⟨by norm_num, by norm_num⟩
  obtain ⟨s1, h, hp, hQ⟩ := T_density_two_phase _ _ hr1 hr2 hq hw
  refine ⟨s1, h, hp, hQ, ?_⟩
  rw [hQ]
  exact (Dbl.fin_lt_fin _ 0).mpr (by norm_num)

/-- C25, amended. Whenever the T-given variant returns with phase two-phase, and
whenever the P-given variant returns with phase two-phase from an object whose
phase was not two-phase before the call, the stored `_Q` has passed the two
tests of the code: it is not below `-100*DBL_EPSILON` and not above
`1 + 100*DBL_EPSILON`. For a finite value this is the closed interval
`[-100*2^-52, 1 + 100*2^-52]`. -/
theorem two_phase_quality_range :
    (∀ (env : Env) (other : parameters) (value : Dbl) (s s1 : HelmholtzEOSMixtureBackend),
        T_phase_determination_pure_or_pseudopure env other value s = Res.ret () s1 →
        s1.self._phase = phases.iphase_twophase → quality_within_tolerance s1.self._Q)
      ∧ (∀ (env : Env) (other : parameters) (value : Dbl) (s s1 : HelmholtzEOSMixtureBackend)
          (saturation_called : Bool), s.self._phase ≠ phases.iphase_twophase →
        p_phase_determination_pure_or_pseudopure env other value s
          = Res.ret saturation_called s1 →
        s1.self._phase = phases.iphase_twophase → quality_within_tolerance s1.self._Q)
      ∧ (∀ q : ℚ, quality_within_tolerance (Dbl.fin q) ↔
          -(100 / 4503599627370496) ≤ q ∧ q ≤ 1 + 100 / 4503599627370496) :=
  ⟨fun env other value s s1 h => T_phase_determination_ends env other value s () s1 h,
   fun env other value s s1 b hs h => p_phase_determination_ends env other value s s1 b hs h,
   quality_within_tolerance_fin⟩

/-! ## The SRK guess and the starting density (C26, C27) -/

theorem Dbl.fin_le_fin (a b : ℚ) : (Dbl.fin a ≤ Dbl.fin b) ↔ a ≤ b := by
  show Dbl.le (Dbl.fin a) (Dbl.fin b) = true ↔ a ≤ b
  simp [Dbl.le]

theorem Dbl.zero_lt_fin (a : ℚ) : ((0 : Dbl) < Dbl.fin a) ↔ 0 < a := Dbl.fin_lt_fin 0 a

theorem Dbl.fin_lt_zero (a : ℚ) : (Dbl.fin a < (0 : Dbl)) ↔ a < 0 := Dbl.fin_lt_fin a 0

theorem Dbl.fin_le_zero (a : ℚ) : (Dbl.fin a ≤ (0 : Dbl)) ↔ a ≤ 0 := Dbl.fin_le_fin a 0

theorem max3_fin (a b c : ℚ) :
    max3 (Dbl.fin a) (Dbl.fin b) (Dbl.fin c) = Dbl.fin (max (max a b) c) := by
  unfold max3
  by_cases h1 : a < b
  · simp only [(Dbl.fin_lt_fin a b).mpr h1, if_true, max_eq_right (le_of_lt h1)]
    by_cases h2 : b < c
    · simp only [(Dbl.fin_lt_fin b c).mpr h2, if_true, max_eq_right (le_of_lt h2)]
    · simp only [mt (Dbl.fin_lt_fin b c).mp h2, if_false, max_eq_left (not_lt.mp h2)]
  · simp only [mt (Dbl.fin_lt_fin a b).mp h1, if_false, max_eq_left (not_lt.mp h1)]
    by_cases h2 : a < c
    · simp only [(Dbl.fin_lt_fin a c).mpr h2, if_true, max_eq_right (le_of_lt h2)]
    · simp only [mt (Dbl.fin_lt_fin a c).mp h2, if_false, max_eq_left (not_lt.mp h2)]

theorem min3_fin (a b c : ℚ) :
    min3 (Dbl.fin a) (Dbl.fin b) (Dbl.fin c) = Dbl.fin (min (min a b) c) := by
  unfold min3
  by_cases h1 : b < a
  · simp only [(Dbl.fin_lt_fin b a).mpr h1, if_true, min_eq_right (le_of_lt h1)]
    by_cases h2 : c < b
    · simp only [(Dbl.fin_lt_fin c b).mpr h2, if_true, min_eq_right (le_of_lt h2)]
    · simp only [mt (Dbl.fin_lt_fin c b).mp h2, if_false, min_eq_left (not_lt.mp h2)]
  · simp only [mt (Dbl.fin_lt_fin b a).mp h1, if_false, min_eq_left (not_lt.mp h1)]
    by_cases h2 : c < a
    · simp only [(Dbl.fin_lt_fin c a).mpr h2, if_true, min_eq_right (le_of_lt h2)]
    · simp only [mt (Dbl.fin_lt_fin c a).mp h2, if_false, min_eq_left (not_lt.mp h2)]

theorem gas_constant_modify (s s1 : HelmholtzEOSMixtureBackend) (R : Dbl)
    (h : gas_constant s = Res.ret R s1) :
    ∃ c, s1 = s.modify (fun m => { m with _gas_constant := c }) := by
  unfold gas_constant via_cache at h
  split at h
  · cases h
    refine ⟨s.self._gas_constant, ?_⟩
    cases s
    rfl
  · cases hg : calc_gas_constant s.self with
    | ok v =>
      rw [hg, Prog.ofExcept_ok] at h
      cases h
      exact ⟨_, rfl⟩
    | error e =>
      rw [hg] at h
      cases h

theorem solver_rho_Tp_SRK_cubic_eq (env : Env) (T p R_u : Dbl) (roots : Int × Dbl × Dbl × Dbl)
    (s s1 : HelmholtzEOSMixtureBackend)
    (h : solver_rho_Tp_SRK_cubic env T p s = Res.ret (R_u, roots) s1) :
    gas_constant s = Res.ret R_u s1 := by
  unfold solver_rho_Tp_SRK_cubic at h
  simp only [Prog.bind_apply, Prog.get_apply] at h
  cases hg : gas_constant s with
  | ret R s2 =>
    rw [hg] at h
    simp only at h
    cases hl : SRK_loop env s2.self R T s2.self.components.length 0 (0, 0) with
    | ok ab =>
      rw [hl, Prog.ofExcept_ok] at h
      simp only [Prog.pure_apply, Res.ret.injEq, Prod.mk.injEq] at h
      rw [h.1.1, h.2]
    | error e =>
      rw [hl] at h
      cases h
  | throw e s2 =>
    rw [hg] at h
    cases h

theorem solver_rho_Tp_SRK_eq (env : Env) (T p R_u : Dbl) (phase : phases) (N : Int)
    (Z0 Z1 Z2 : Dbl) (s s1 : HelmholtzEOSMixtureBackend)
    (h : solver_rho_Tp_SRK_cubic env T p s = Res.ret (R_u, N, Z0, Z1, Z2) s1) :
    solver_rho_Tp_SRK env T p phase s
      = Prog.ofExcept (solver_rho_Tp_SRK_guess T p phase R_u N Z0 Z1 Z2) s1 := by
  unfold solver_rho_Tp_SRK
  simp only [Prog.bind_apply, h]

theorem SRK_candidate_selection (env : Env) (T p R_u : Dbl) (N : Int) (Z0 Z1 Z2 : Dbl)
    (s s1 : HelmholtzEOSMixtureBackend) (q0 q1 q2 : ℚ)
    (hcubic : solver_rho_Tp_SRK_cubic env T p s = Res.ret (R_u, N, Z0, Z1, Z2) s1)
    (hN : N ≠ 1) (h0 : p / (Z0 * R_u * T) = Dbl.fin q0) (h1 : p / (Z1 * R_u * T) = Dbl.fin q1)
    (h2 : p / (Z2 * R_u * T) = Dbl.fin q2) :
    (0 < q0 → q1 ≤ 0 → q2 ≤ 0 → ∀ phase,
        solver_rho_Tp_SRK env T p phase s = Res.ret (Dbl.fin q0) s1)
      ∧ (q0 ≤ 0 → 0 < q1 → q2 ≤ 0 → ∀ phase,
        solver_rho_Tp_SRK env T p phase s = Res.ret (Dbl.fin q1) s1)
      ∧ (q0 ≤ 0 → q1 ≤ 0 → 0 < q2 → ∀ phase,
        solver_rho_Tp_SRK env T p phase s = Res.ret (Dbl.fin q2) s1)
      ∧ ((0 < q0 ∧ 0 < q1) ∨ (0 < q0 ∧ 0 < q2) ∨ (0 < q1 ∧ 0 < q2) →
        solver_rho_Tp_SRK env T p phases.iphase_liquid s
            = Res.ret (Dbl.fin (max (max q0 q1) q2)) s1
          ∧ solver_rho_Tp_SRK env T p phases.iphase_gas s
            = Res.ret (Dbl.fin (min (min q0 q1) q2)) s1
          ∧ ∀ phase, phase ≠ phases.iphase_liquid → phase ≠ phases.iphase_gas →
            solver_rho_Tp_SRK env T p phase s
              = Res.throw (Err.ValueError "Bad phase to solver_rho_Tp_SRK") s1) := by
  have hsel : ∀ phase, solver_rho_Tp_SRK env T p phase s
      = Prog.ofExcept (solver_rho_Tp_SRK_guess T p phase R_u N Z0 Z1 Z2) s1 :=
    fun phase => solver_rho_Tp_SRK_eq env T p R_u phase N Z0 Z1 Z2 s s1 hcubic
  simp only [hsel]
  unfold solver_rho_Tp_SRK_guess
  simp only [hN, if_false, h0, h1, h2, Dbl.zero_lt_fin, Dbl.fin_le_zero, max3_fin, min3_fin]
  refine ⟨?_, ?_, ?_, ?_⟩
  · intro a b c phase
    rw [if_pos ⟨a, b, c⟩]
    rfl
  · intro a b c phase
    rw [if_neg (fun h => absurd h.1 (not_lt.mpr a)), if_pos ⟨a, b, c⟩]
    rfl
  · intro a b c phase
    rw [if_neg (fun h => absurd h.1 (not_lt.mpr a)),
      if_neg (fun h => absurd h.2.1 (not_lt.mpr b)), if_pos ⟨a, b, c⟩]
    rfl
  · intro h
    have n0 : ¬ (0 < q0 ∧ q1 ≤ 0 ∧ q2 ≤ 0) := by
      rintro ⟨_, b, c⟩
      rcases h with h | h | h <;> linarith [h.1, h.2]
    have n1 : ¬ (q0 ≤ 0 ∧ 0 < q1 ∧ q2 ≤ 0) := by
      rintro ⟨a, _, c⟩
      rcases h with h | h | h <;> linarith [h.1, h.2]
    have n2 : ¬ (q0 ≤ 0 ∧ q1 ≤ 0 ∧ 0 < q2) := by
      rintro ⟨a, b, _⟩
      rcases h with h | h | h <;> linarith [h.1, h.2]
    simp only [n0, n1, n2, if_false]
    refine ⟨rfl, rfl, ?_⟩
    intro phase hl hg
    cases phase <;> first | rfl | exact absurd rfl hl | exact absurd rfl hg


theorem max3_mem (a b c : Dbl) : max3 a b c = a ∨ max3 a b c = b ∨ max3 a b c = c := by
  unfold max3
  dsimp only
  split_ifs <;> simp

theorem min3_mem (a b c : Dbl) : min3 a b c = a ∨ min3 a b c = b ∨ min3 a b c = c := by
  unfold min3
  dsimp only
  split_ifs <;> simp

theorem solver_rho_Tp_SRK_guess_mem (T p R_u : Dbl) (phase : phases) (N : Int)
    (Z0 Z1 Z2 r : Dbl) (h : solver_rho_Tp_SRK_guess T p phase R_u N Z0 Z1 Z2 = .ok r) :
    r = p / (Z0 * R_u * T)
      ∨ (N ≠ 1 ∧ (r = p / (Z1 * R_u * T) ∨ r = p / (Z2 * R_u * T))) := by
  unfold solver_rho_Tp_SRK_guess at h
  by_cases hN : N = 1
  · rw [if_pos hN] at h
    injection h with h
    exact Or.inl h.symm
  · rw [if_neg hN] at h
    dsimp only at h
    split_ifs at h
    · injection h with h
      exact Or.inl h.symm
    · injection h with h
      exact Or.inr ⟨hN, Or.inl h.symm⟩
    · injection h with h
      exact Or.inr ⟨hN, Or.inr h.symm⟩
    · cases phase <;> simp only [reduceCtorEq] at h
      · injection h with h
        rcases max3_mem (p / (Z0 * R_u * T)) (p / (Z1 * R_u * T)) (p / (Z2 * R_u * T))
          with h1 | h1 | h1 <;> rw [h1] at h
        · exact Or.inl h.symm
        · exact Or.inr ⟨hN, Or.inl h.symm⟩
        · exact Or.inr ⟨hN, Or.inr h.symm⟩
      · injection h with h
        rcases min3_mem (p / (Z0 * R_u * T)) (p / (Z1 * R_u * T)) (p / (Z2 * R_u * T))
          with h1 | h1 | h1 <;> rw [h1] at h
        · exact Or.inl h.symm
        · exact Or.inr ⟨hN, Or.inl h.symm⟩
        · exact Or.inr ⟨hN, Or.inr h.symm⟩

theorem Dbl.div_eq_zero (p : Dbl) (q : ℚ) (hq : q ≠ 0) (h : p / Dbl.fin q = Dbl.fin 0) :
    p = Dbl.fin 0 := by
  cases p with
  | fin a =>
    rw [Dbl.fin_div_fin _ _ hq] at h
    injection h with h
    rcases div_eq_zero_iff.mp h with h1 | h1
    · rw [h1]
    · exact absurd h1 hq
  | pinf =>
    have h1 : Dbl.pinf / Dbl.fin q = if 0 ≤ q then Dbl.pinf else Dbl.ninf := rfl
    rw [h1] at h
    split at h <;> cases h
  | ninf =>
    have h1 : Dbl.ninf / Dbl.fin q = if 0 ≤ q then Dbl.ninf else Dbl.pinf := rfl
    rw [h1] at h
    split at h <;> cases h
  | nan => cases h

theorem Dbl.infTimes_ne_fin (pos : Bool) (b q : ℚ) : Dbl.infTimes pos b ≠ Dbl.fin q := by
  unfold Dbl.infTimes
  split_ifs <;> simp

theorem Dbl.mul_eq_fin (x y : Dbl) (q : ℚ) (h : x * y = Dbl.fin q) :
    ∃ a b, x = Dbl.fin a ∧ y = Dbl.fin b ∧ a * b = q := by
  cases x <;> cases y <;>
    first
    | (rename_i a b
       rw [Dbl.fin_mul_fin] at h
       injection h with h
       exact ⟨a, b, rfl, rfl, h⟩)
    | (exfalso; exact Dbl.infTimes_ne_fin _ _ _ h)
    | (exfalso; cases h)

theorem ideal_density_zero (Z R_u T : Dbl) (h : finite_nonzero (Z * R_u * T)) :
    Dbl.fin 0 / (R_u * T) = Dbl.fin 0 := by
  obtain ⟨q, hq, h⟩ := h
  obtain ⟨a, t, ha, ht, hat⟩ := Dbl.mul_eq_fin _ _ _ h
  obtain ⟨z, r, hz, hr, hzr⟩ := Dbl.mul_eq_fin _ _ _ ha
  have hr0 : r ≠ 0 := by
    rintro rfl
    apply hq
    rw [← hat, ← hzr]
    ring
  have ht0 : t ≠ 0 := by
    rintro rfl
    apply hq
    rw [← hat]
    ring
  rw [hr, ht, Dbl.fin_mul_fin, Dbl.fin_div_fin _ _ (mul_ne_zero hr0 ht0), zero_div]

theorem SRK_density_zero (T p R_u : Dbl) (phase : phases) (N : Int) (Z0 Z1 Z2 : Dbl)
    (hreg : SRK_roots_regular T R_u N Z0 Z1 Z2)
    (h : solver_rho_Tp_SRK_guess T p phase R_u N Z0 Z1 Z2 = .ok (Dbl.fin 0)) :
    p / (R_u * T) = Dbl.fin 0 := by
  have hp : p = Dbl.fin 0 := by
    rcases solver_rho_Tp_SRK_guess_mem T p R_u phase N Z0 Z1 Z2 _ h with h1 | ⟨hN, h1 | h1⟩
    · obtain ⟨q, hq, hz⟩ := hreg.1
      rw [hz] at h1
      exact Dbl.div_eq_zero p q hq h1.symm
    · obtain ⟨q, hq, hz⟩ := (hreg.2 hN).1
      rw [hz] at h1
      exact Dbl.div_eq_zero p q hq h1.symm
    · obtain ⟨q, hq, hz⟩ := (hreg.2 hN).2
      rw [hz] at h1
      exact Dbl.div_eq_zero p q hq h1.symm
  rw [hp]
  exact ideal_density_zero Z0 R_u T hreg.1

theorem Dbl.le_of_lt (a b : Dbl) (h : a < b) : a ≤ b := by
  cases a <;> cases b <;>
    first
    | (rename_i x y
       exact (Dbl.fin_le_fin x y).mpr ((Dbl.fin_lt_fin x y).mp h).le)
    | (cases h; done)
    | rfl

theorem Dbl.eq_zero_of_le (a : Dbl) (h : a ≤ 0) (h1 : ¬ (a < 0)) : a = Dbl.fin 0 := by
  cases a with
  | fin x =>
    have h2 := (Dbl.fin_le_zero x).mp h
    have h3 : ¬ (x < 0) := fun h4 => h1 ((Dbl.fin_lt_zero x).mpr h4)
    rw [le_antisymm h2 (not_lt.mp h3)]
  | pinf => cases h
  | ninf => exact absurd rfl h1
  | nan => cases h


theorem solver_rho_Tp_liquid_guess_value (env : Env) (T rho : Dbl)
    (s : HelmholtzEOSMixtureBackend) (c : CoolPropFluid) (cs : List CoolPropFluid)
    (hcomp : s.self.components = c :: cs) :
    solver_rho_Tp_liquid_guess env T rho s
      = Res.ret (if rho < c.ancillaries.rhoL.evaluate T then c.ancillaries.rhoL.evaluate T
          else rho)
        (s.modify (fun m =>
          { m with _rhoLanc := CachedElement.assign (c.ancillaries.rhoL.evaluate T) })) := by
  unfold solver_rho_Tp_liquid_guess
  simp only [Prog.bind_apply, Prog.get_apply, Prog.set_apply, hcomp, index, List.get?_cons_zero,
    Prog.ofExcept_ok, HelmholtzEOSMixtureBackend.self_modify, cell_to_double,
    CachedElement.assign, if_true]
  split
  · rfl
  · rfl

theorem solver_rho_Tp_guess_eq (env : Env) (T p rhomolar_guess : Dbl)
    (s : HelmholtzEOSMixtureBackend) :
    solver_rho_Tp_guess env T p rhomolar_guess s =
      if rhomolar_guess < 0 then
        (solver_rho_Tp_SRK env T p (phase_used s.self) >>= fun rho =>
          if phase_used s.self = phases.iphase_gas ∧ rho < 0 then
            (gas_constant >>= fun R_u => pure (p / (R_u * T)))
          else if phase_used s.self = phases.iphase_liquid then
            solver_rho_Tp_liquid_guess env T rho
          else pure rho) s
      else Res.ret rhomolar_guess s := by
  unfold solver_rho_Tp_guess
  simp only [Prog.bind_apply, Prog.get_apply]
  split <;> rfl

theorem starting_density_of_guess (env : Env) (T p rhomolar_guess R_u : Dbl) (N : Int)
    (Z0 Z1 Z2 : Dbl) (s s1 : HelmholtzEOSMixtureBackend) (c : CoolPropFluid)
    (cs : List CoolPropFluid)
    (hcubic : solver_rho_Tp_SRK_cubic env T p s = Res.ret (R_u, N, Z0, Z1, Z2) s1)
    (hreg : SRK_roots_regular T R_u N Z0 Z1 Z2)
    (hcomp : s.self.components = c :: cs) :
    (¬ (rhomolar_guess < 0) →
        solver_rho_Tp_guess env T p rhomolar_guess s = Res.ret rhomolar_guess s)
      ∧ (rhomolar_guess < 0 → ∀ rho_SRK,
        solver_rho_Tp_SRK env T p (phase_used s.self) s = Res.ret rho_SRK s1 →
        ∃ s2, solver_rho_Tp_guess env T p rhomolar_guess s =
          Res.ret (starting_density (phase_used s.self) rho_SRK (p / (R_u * T))
            (c.ancillaries.rhoL.evaluate T)) s2) := by
  rw [solver_rho_Tp_guess_eq]
  constructor
  · intro hg
    rw [if_neg hg]
  · intro hg rho_SRK hsrk
    have hgc := solver_rho_Tp_SRK_cubic_eq env T p R_u _ s s1 hcubic
    obtain ⟨cell, hs1⟩ := gas_constant_modify s s1 R_u hgc
    have hcomp1 : s1.self.components = c :: cs := by
      rw [hs1, HelmholtzEOSMixtureBackend.self_modify]
      exact hcomp
    have hgc1 := (gas_constant_ret s s1 R_u hgc).2.2.2
    have hsel : solver_rho_Tp_SRK_guess T p (phase_used s.self) R_u N Z0 Z1 Z2 = .ok rho_SRK := by
      rw [solver_rho_Tp_SRK_eq env T p R_u _ N Z0 Z1 Z2 s s1 hcubic] at hsrk
      cases hsel : solver_rho_Tp_SRK_guess T p (phase_used s.self) R_u N Z0 Z1 Z2 with
      | ok r =>
        rw [hsel, Prog.ofExcept_ok] at hsrk
        injection hsrk with h1 _
        rw [h1]
      | error e =>
        rw [hsel] at hsrk
        cases hsrk
    rw [if_pos hg, Prog.bind_apply, hsrk]
    dsimp only
    unfold starting_density
    by_cases hgas : phase_used s.self = phases.iphase_gas
    · have hnl : ¬ (phase_used s.self = phases.iphase_liquid) := by
        rw [hgas]
        decide
      by_cases hneg : rho_SRK < 0
      · simp only [hgas, hneg, Dbl.le_of_lt _ _ hneg, and_self, if_true, Prog.bind_apply, hgc1,
          Prog.pure_apply]
        exact ⟨_, rfl⟩
      · by_cases hle : rho_SRK ≤ 0
        · have h0 := Dbl.eq_zero_of_le rho_SRK hle hneg
          rw [h0] at hsel
          simp only [hgas, hneg, hle, and_self, and_false, if_true, if_false, reduceCtorEq,
            Prog.pure_apply, h0, SRK_density_zero T p R_u _ N Z0 Z1 Z2 hreg hsel]
          exact ⟨_, rfl⟩
        · simp only [hgas, hneg, hle, and_false, if_false, reduceCtorEq, Prog.pure_apply]
          exact ⟨_, rfl⟩
    · by_cases hliq : phase_used s.self = phases.iphase_liquid
      · simp only [hgas, hliq, false_and, if_false, if_true, reduceCtorEq,
          solver_rho_Tp_liquid_guess_value env T rho_SRK s1 c cs hcomp1]
        exact ⟨_, rfl⟩
      · simp only [hgas, hliq, false_and, if_false, Prog.pure_apply]
        exact ⟨_, rfl⟩


theorem example_cubic_candidates :
    Dbl.fin (-2400) / (Dbl.fin (-21) * (0 + 1 * Dbl.fin 8) * Dbl.fin 300) = Dbl.fin (1 / 21)
      ∧ Dbl.fin (-2400) / (Dbl.fin (-18) * (0 + 1 * Dbl.fin 8) * Dbl.fin 300) = Dbl.fin (1 / 18)
      ∧ Dbl.fin (-2400) / (Dbl.fin 40 * (0 + 1 * Dbl.fin 8) * Dbl.fin 300)
          = Dbl.fin (-(1 / 40)) := by
  simp only [Dbl.zero_eq, Dbl.one_eq, Dbl.fin_mul_fin, Dbl.fin_add_fin]
  refine ⟨?_, ?_, ?_⟩ <;>
  · rw [Dbl.fin_div_fin _ _ (by norm_num)]
    norm_num

/-- C26, amended. Let `solve_cubic` report more than one root, and let the three
candidate densities `p/(Z_i*R_u*T)` be finite. When exactly one candidate is
positive and the other two are not, `solver_rho_Tp_SRK` returns that one for
every phase. When at least two candidates are positive, it returns the largest
of the three candidates (the largest positive one) for the liquid phase, and
the smallest of the three candidates for the gas phase: the smallest positive
one when all three are positive, the candidate that is not positive when
exactly two are; for every other phase it raises
"Bad phase to solver_rho_Tp_SRK". -/
theorem solver_rho_Tp_SRK_selection (env : Env) (T p R_u : Dbl) (N : Int) (Z0 Z1 Z2 : Dbl)
    (s s1 : HelmholtzEOSMixtureBackend) (q0 q1 q2 : ℚ)
    (hcubic : solver_rho_Tp_SRK_cubic env T p s = Res.ret (R_u, N, Z0, Z1, Z2) s1)
    (hN : N ≠ 1) (h0 : p / (Z0 * R_u * T) = Dbl.fin q0) (h1 : p / (Z1 * R_u * T) = Dbl.fin q1)
    (h2 : p / (Z2 * R_u * T) = Dbl.fin q2) :
    (0 < q0 → q1 ≤ 0 → q2 ≤ 0 → ∀ phase,
        solver_rho_Tp_SRK env T p phase s = Res.ret (Dbl.fin q0) s1)
      ∧ (q0 ≤ 0 → 0 < q1 → q2 ≤ 0 → ∀ phase,
        solver_rho_Tp_SRK env T p phase s = Res.ret (Dbl.fin q1) s1)
      ∧ (q0 ≤ 0 → q1 ≤ 0 → 0 < q2 → ∀ phase,
        solver_rho_Tp_SRK env T p phase s = Res.ret (Dbl.fin q2) s1)
      ∧ ((0 < q0 ∧ 0 < q1) ∨ (0 < q0 ∧ 0 < q2) ∨ (0 < q1 ∧ 0 < q2) →
        solver_rho_Tp_SRK env T p phases.iphase_liquid s
            = Res.ret (Dbl.fin (max (max q0 q1) q2)) s1
          ∧ solver_rho_Tp_SRK env T p phases.iphase_gas s
            = Res.ret (Dbl.fin (min (min q0 q1) q2)) s1
          ∧ ∀ phase, phase ≠ phases.iphase_liquid → phase ≠ phases.iphase_gas →
            solver_rho_Tp_SRK env T p phase s
              = Res.throw (Err.ValueError "Bad phase to solver_rho_Tp_SRK") s1) :=
  SRK_candidate_selection env T p R_u N Z0 Z1 Z2 s s1 q0 q1 q2 hcubic hN h0 h1 h2

/-- Sanity check for C26 at 300 K and -2400 Pa, where the candidates are 1/21, 1/18
and -1/40: the liquid phase gets 1/18, the largest. -/
theorem solver_rho_Tp_SRK_selection_witness :
    ∃ s1, solver_rho_Tp_SRK example_env_cubic (Dbl.fin 300) (Dbl.fin (-2400))
        phases.iphase_liquid (example_pure_at 300 (-2400) 100) = Res.ret (Dbl.fin (1 / 18)) s1 := by
  have h := (solver_rho_Tp_SRK_selection example_env_cubic (Dbl.fin 300) (Dbl.fin (-2400)) _ _ _ _ _
    (example_pure_at 300 (-2400) 100) _ (1 / 21) (1 / 18) (-(1 / 40)) rfl (by decide)
    example_cubic_candidates.1 example_cubic_candidates.2.1 example_cubic_candidates.2.2).2.2.2
    (Or.inl ⟨by norm_num, by norm_num⟩)
  have hm : max (max (1 / 21 : ℚ) (1 / 18)) (-(1 / 40)) = 1 / 18 := by norm_num
  rw [hm] at h
  exact ⟨_, h.1⟩

/-- C26, as the code behaves, at 300 K and -2400 Pa with the roots -21, -18 and 40
(the roots of the cubic for `A = -630`, `B = -24`): the candidates are 1/21, 1/18
and -1/40, two of them positive, and the gas phase gets -1/40, the smallest of
the three, where the smallest positive candidate is 1/21. -/
theorem SRK_gas_takes_negative_candidate :
    (∃ s1, solver_rho_Tp_SRK example_env_cubic (Dbl.fin 300) (Dbl.fin (-2400))
        phases.iphase_gas (example_pure_at 300 (-2400) 100) = Res.ret (Dbl.fin (-(1 / 40))) s1)
      ∧ Dbl.fin (-2400) / (Dbl.fin (-21) * (0 + 1 * Dbl.fin 8) * Dbl.fin 300) = Dbl.fin (1 / 21)
      ∧ Dbl.fin (-2400) / (Dbl.fin (-18) * (0 + 1 * Dbl.fin 8) * Dbl.fin 300) = Dbl.fin (1 / 18)
      ∧ Dbl.fin (-2400) / (Dbl.fin 40 * (0 + 1 * Dbl.fin 8) * Dbl.fin 300)
          = Dbl.fin (-(1 / 40))
      ∧ ∀ Z ∈ [(-21 : ℚ), -18, 40],
          Z ^ 3 - Z ^ 2 + ((-630) - (-24) - (-24) ^ 2) * Z - (-630) * (-24) = 0 := by
  have h := (SRK_candidate_selection example_env_cubic (Dbl.fin 300) (Dbl.fin (-2400))
    _ _ _ _ _ (example_pure_at 300 (-2400) 100) _ (1 / 21) (1 / 18) (-(1 / 40)) rfl (by decide)
    example_cubic_candidates.1 example_cubic_candidates.2.1 example_cubic_candidates.2.2).2.2.2
    (Or.inl ⟨by norm_num, by norm_num⟩)
  have hm : min (min (1 / 21 : ℚ) (1 / 18)) (-(1 / 40)) = -(1 / 40) := by norm_num
  rw [hm] at h
  refine ⟨⟨_, h.2.1⟩, example_cubic_candidates.1, example_cubic_candidates.2.1,
    example_cubic_candidates.2.2, ?_⟩
  intro Z hZ
  simp only [List.mem_cons, List.mem_singleton, List.not_mem_nil, or_false] at hZ
  rcases hZ with rfl | rfl | rfl <;> norm_num

/-- C27. Let the cubic stage of `solver_rho_Tp_SRK` return, with finite non-zero
denominators `Z*R_u*T` of the candidates it reads. A supplied guess that is not
negative is used unchanged, and the object stays as it is. When no guess is
supplied (`rhomolar_guess < 0`), the phase is the imposed phase if one was
specified and the phase of the state otherwise, and the starting density is
`starting_density`: the ideal-gas density `p/(R_u*T)` when the phase is gas and
the SRK density is not positive, the larger of the SRK density and the
ancillary saturated-liquid density at `T` when the phase is liquid, the SRK
density otherwise. -/
theorem solver_rho_Tp_guess_rule (env : Env) (T p rhomolar_guess R_u : Dbl) (N : Int)
    (Z0 Z1 Z2 : Dbl) (s s1 : HelmholtzEOSMixtureBackend) (c : CoolPropFluid)
    (cs : List CoolPropFluid)
    (hcubic : solver_rho_Tp_SRK_cubic env T p s = Res.ret (R_u, N, Z0, Z1, Z2) s1)
    (hreg : SRK_roots_regular T R_u N Z0 Z1 Z2)
    (hcomp : s.self.components = c :: cs) :
    (¬ (rhomolar_guess < 0) →
        solver_rho_Tp_guess env T p rhomolar_guess s = Res.ret rhomolar_guess s)
      ∧ (rhomolar_guess < 0 → ∀ rho_SRK,
        solver_rho_Tp_SRK env T p (phase_used s.self) s = Res.ret rho_SRK s1 →
        ∃ s2, solver_rho_Tp_guess env T p rhomolar_guess s =
          Res.ret (starting_density (phase_used s.self) rho_SRK (p / (R_u * T))
            (c.ancillaries.rhoL.evaluate T)) s2) :=
  starting_density_of_guess env T p rhomolar_guess R_u N Z0 Z1 Z2 s s1 c cs hcubic hreg hcomp

/-- Sanity check for C27 on the pure example fluid with liquid imposed, at 300 K and
240000 Pa: without a guess the SRK density 100 is raised to the ancillary
liquid density 40000; the supplied guess 50 is used unchanged. -/
theorem solver_rho_Tp_guess_rule_witness :
    (∃ s2, solver_rho_Tp_guess example_env (Dbl.fin 300) (Dbl.fin 240000) (Dbl.fin (-1))
        (specify_phase phases.iphase_liquid (example_pure_at 300 240000 100))
          = Res.ret (Dbl.fin 40000) s2)
      ∧ solver_rho_Tp_guess example_env (Dbl.fin 300) (Dbl.fin 240000) (Dbl.fin 50)
        (specify_phase phases.iphase_liquid (example_pure_at 300 240000 100))
          = Res.ret (Dbl.fin 50)
            (specify_phase phases.iphase_liquid (example_pure_at 300 240000 100)) := by
  have hreg : SRK_roots_regular (Dbl.fin 300) (0 + 1 * Dbl.fin 8) 1 1 0 0 := by
    refine ⟨⟨2400, by norm_num, ?_⟩, fun h => absurd rfl h⟩
    simp only [Dbl.zero_eq, Dbl.one_eq, Dbl.fin_mul_fin, Dbl.fin_add_fin]
    norm_num
  have h := solver_rho_Tp_guess_rule example_env (Dbl.fin 300) (Dbl.fin 240000) (Dbl.fin (-1))
    _ _ _ _ _ (specify_phase phases.iphase_liquid (example_pure_at 300 240000 100)) _
    (example_fluid 18 8) [] rfl hreg rfl
  have h50 := (solver_rho_Tp_guess_rule example_env (Dbl.fin 300) (Dbl.fin 240000) (Dbl.fin 50)
    _ _ _ _ _ (specify_phase phases.iphase_liquid (example_pure_at 300 240000 100)) _
    (example_fluid 18 8) [] rfl hreg rfl).1
    (mt (Dbl.fin_lt_zero 50).mp (by norm_num))
  obtain ⟨s2, h2⟩ := h.2 ((Dbl.fin_lt_zero (-1)).mpr (by norm_num))
    (Dbl.fin 240000 / (1 * (0 + 1 * Dbl.fin 8) * Dbl.fin 300)) rfl
  have hv : Dbl.fin 240000 / (1 * (0 + 1 * Dbl.fin 8) * Dbl.fin 300) = Dbl.fin 100 := by
    simp only [Dbl.zero_eq, Dbl.one_eq, Dbl.fin_mul_fin, Dbl.fin_add_fin]
    rw [Dbl.fin_div_fin _ _ (by norm_num)]
    norm_num
  have hs : starting_density
      (phase_used (specify_phase phases.iphase_liquid (example_pure_at 300 240000 100)).self)
      (Dbl.fin 100) (Dbl.fin 240000 / ((0 + 1 * Dbl.fin 8) * Dbl.fin 300))
      ((example_fluid 18 8).ancillaries.rhoL.evaluate (Dbl.fin 300)) = Dbl.fin 40000 := by
    have hp : phase_used (specify_phase phases.iphase_liquid
        (example_pure_at 300 240000 100)).self = phases.iphase_liquid := rfl
    have hlt : Dbl.fin 100 < (example_fluid 18 8).ancillaries.rhoL.evaluate (Dbl.fin 300) :=
      (Dbl.fin_lt_fin 100 40000).mpr (by norm_num)
    unfold starting_density
    rw [hp]
    simp only [reduceCtorEq, false_and, if_false, if_true, hlt]
    rfl
  rw [hv] at h2
  exact ⟨⟨s2, h2.trans (congrArg (fun v => Res.ret v s2) hs)⟩, h50⟩

/-! ## The brackets at supercritical temperature (C28) -/

theorem is_in_closed_range_fin (a b x : ℚ) :
    is_in_closed_range (Dbl.fin a) (Dbl.fin b) (Dbl.fin x) = true ↔ min a b ≤ x ∧ x ≤ max a b := by
  unfold is_in_closed_range
  simp only [decide_eq_true_eq, Dbl.fin_le_fin]
  constructor
  · rintro (⟨h1, h2⟩ | ⟨h1, h2⟩)
    · exact ⟨le_trans (min_le_left a b) h1, le_trans h2 (le_max_right a b)⟩
    · exact ⟨le_trans (min_le_right a b) h1, le_trans h2 (le_max_left a b)⟩
  · rintro ⟨h1, h2⟩
    rcases le_total a b with h | h
    · rw [min_eq_left h] at h1
      rw [max_eq_right h] at h2
      exact Or.inl ⟨h1, h2⟩
    · rw [min_eq_right h] at h1
      rw [max_eq_left h] at h2
      exact Or.inr ⟨h1, h2⟩

theorem HSU_supercritical_eq (env : Env) (T value : Dbl) (other : parameters)
    (s s1 s2 s3 : HelmholtzEOSMixtureBackend) (c : CoolPropFluid) (cs : List CoolPropFluid)
    (ymelt yc ymin y : Dbl)
    (hT : s.self._crit.T < s.self._T) (hcomp : s.self.components = c :: cs)
    (hother : other = parameters.iSmolar ∨ other = parameters.iHmolar
      ∨ other = parameters.iUmolar)
    (hmelt : caloric_nocache env other s.self._T c.triple_liquid.rhomolar s = Res.ret ymelt s1)
    (hc : caloric_nocache env other s.self._T c.crit.rhomolar s1 = Res.ret yc s2)
    (hmin : caloric_nocache env other s.self._T (Dbl.fin (1 / 10000000000)) s2
      = Res.ret ymin s3)
    (hy : cell_to_double env (caloric_cell other s.self) = .ok y) :
    solver_for_rho_given_T_oneof_HSU env T value other s =
      if is_in_closed_range ymelt yc y = true then
        (env.Brent (FuncWrapper1D.HSU ⟨other, T, value, none, none, none⟩)
          c.triple_liquid.rhomolar c.crit.rhomolar env.LDBL_EPSILON
          (Dbl.fin (1 / 1000000000000)) 100 s3).finish
      else if is_in_closed_range yc ymin y = true then
        (env.Brent (FuncWrapper1D.HSU ⟨other, T, value, none, none, none⟩)
          c.crit.rhomolar (Dbl.fin (1 / 10000000000)) env.LDBL_EPSILON
          (Dbl.fin (1 / 1000000000000)) 100 s3).finish
      else Res.throw (Err.ValueError "") s3 := by
  unfold solver_for_rho_given_T_oneof_HSU
  simp only [Prog.bind_apply, Prog.get_apply, hT, if_true]
  unfold solver_for_rho_given_T_oneof_HSU_supercritical
  simp only [Prog.bind_apply, Prog.get_apply, hcomp, index, List.get?_cons_zero,
    Prog.ofExcept_ok]
  rcases hother with h | h | h <;> subst h <;>
    simp only [caloric_nocache, caloric_cell] at hmelt hc hmin hy <;>
    simp only [Prog.bind_apply, hmelt, hc, hmin, hy, Prog.ofExcept_ok, Prog.pure_apply] <;>
    split <;> first | rfl | (split <;> rfl)


/-- C28. At supercritical temperature, for the keys s, h and u, let `ymelt`, `yc` and
`ymin` be the values of the caloric property at the melting density, the
critical density and the density `1e-10`, and `y` the content of the cell of the
property. If `y` lies in the closed range between `ymelt` and `yc`,
`solver_for_rho_given_T_oneof_HSU` is the Brent search on `[rho_melt, rho_c]`;
else if `y` lies in the closed range between `yc` and `ymin`, it is the Brent
search on `[rho_c, 1e-10]`; else the call fails. For finite values the first
bracket is taken when `y = yc`, and the closed range between `a` and `b` is
`min a b <= x <= max a b`. -/
theorem HSU_supercritical_brackets (env : Env) (T value : Dbl) (other : parameters)
    (s s1 s2 s3 : HelmholtzEOSMixtureBackend) (c : CoolPropFluid) (cs : List CoolPropFluid)
    (ymelt yc ymin y : Dbl)
    (hT : s.self._crit.T < s.self._T) (hcomp : s.self.components = c :: cs)
    (hother : other = parameters.iSmolar ∨ other = parameters.iHmolar
      ∨ other = parameters.iUmolar)
    (hmelt : caloric_nocache env other s.self._T c.triple_liquid.rhomolar s = Res.ret ymelt s1)
    (hc : caloric_nocache env other s.self._T c.crit.rhomolar s1 = Res.ret yc s2)
    (hmin : caloric_nocache env other s.self._T (Dbl.fin (1 / 10000000000)) s2
      = Res.ret ymin s3)
    (hy : cell_to_double env (caloric_cell other s.self) = .ok y) :
    (is_in_closed_range ymelt yc y = true →
        solver_for_rho_given_T_oneof_HSU env T value other s =
          (env.Brent (FuncWrapper1D.HSU ⟨other, T, value, none, none, none⟩)
            c.triple_liquid.rhomolar c.crit.rhomolar env.LDBL_EPSILON
            (Dbl.fin (1 / 1000000000000)) 100 s3).finish)
      ∧ (is_in_closed_range ymelt yc y = false → is_in_closed_range yc ymin y = true →
        solver_for_rho_given_T_oneof_HSU env T value other s =
          (env.Brent (FuncWrapper1D.HSU ⟨other, T, value, none, none, none⟩)
            c.crit.rhomolar (Dbl.fin (1 / 10000000000)) env.LDBL_EPSILON
            (Dbl.fin (1 / 1000000000000)) 100 s3).finish)
      ∧ (is_in_closed_range ymelt yc y = false → is_in_closed_range yc ymin y = false →
        solver_for_rho_given_T_oneof_HSU env T value other s
          = Res.throw (Err.ValueError "") s3)
      ∧ (∀ a b : ℚ, ymelt = Dbl.fin a → yc = Dbl.fin b → y = yc →
        solver_for_rho_given_T_oneof_HSU env T value other s =
          (env.Brent (FuncWrapper1D.HSU ⟨other, T, value, none, none, none⟩)
            c.triple_liquid.rhomolar c.crit.rhomolar env.LDBL_EPSILON
            (Dbl.fin (1 / 1000000000000)) 100 s3).finish)
      ∧ (∀ a b x : ℚ, is_in_closed_range (Dbl.fin a) (Dbl.fin b) (Dbl.fin x) = true
          ↔ min a b ≤ x ∧ x ≤ max a b) := by
  have h := HSU_supercritical_eq env T value other s s1 s2 s3 c cs ymelt yc ymin y hT hcomp
    hother hmelt hc hmin hy
  refine ⟨?_, ?_, ?_, ?_, is_in_closed_range_fin⟩
  · intro h1
    rw [h, if_pos h1]
  · intro h1 h2
    rw [h, if_neg (by rw [h1]; decide), if_pos h2]
  · intro h1 h2
    rw [h, if_neg (by rw [h1]; decide), if_neg (by rw [h2]; decide)]
  · intro a b ha hb hyc
    have h1 : is_in_closed_range ymelt yc y = true := by
      rw [hyc, ha, hb]
      exact (is_in_closed_range_fin a b b).mpr ⟨min_le_right a b, le_max_right a b⟩
    rw [h, if_pos h1]

theorem example_entropy_value (R tau : ℚ) :
    (0 + 1 * Dbl.fin R) * (Dbl.fin tau * (Dbl.fin 0 + Dbl.fin 0) - Dbl.fin 0 - Dbl.fin 0)
      = Dbl.fin 0 := by
  simp only [Dbl.zero_eq, Dbl.one_eq, Dbl.fin_mul_fin, Dbl.fin_add_fin, Dbl.fin_sub_fin]
  norm_num

/-- Sanity check for C28 on the pure example fluid at 450 K, above the critical
400 K: the entropy is 0 at every density, the target 0 equals `yc`, and the
search runs on the first bracket, whose lower end 45000 the example `Brent`
returns. -/
theorem HSU_supercritical_brackets_witness :
    example_supercritical.self._crit.T < example_supercritical.self._T
      ∧ ∃ s3, solver_for_rho_given_T_oneof_HSU example_env (Dbl.fin 450) (Dbl.fin 0)
          parameters.iSmolar example_supercritical = Res.ret (Dbl.fin 45000) s3 := by
  have hT : example_supercritical.self._crit.T < example_supercritical.self._T :=
    (Dbl.fin_lt_fin 400 450).mpr (by norm_num)
  have h := (HSU_supercritical_brackets example_env (Dbl.fin 450) (Dbl.fin 0) parameters.iSmolar
    example_supercritical _ _ _ (example_fluid 18 8) [] _ _ _ _ hT rfl (Or.inl rfl)
    rfl rfl rfl rfl).1
  refine ⟨hT, _, h ?_⟩
  show is_in_closed_range
    ((0 + 1 * Dbl.fin 8) * (Dbl.fin 400 / Dbl.fin 450 * (Dbl.fin 0 + Dbl.fin 0) - Dbl.fin 0
      - Dbl.fin 0))
    ((0 + 1 * Dbl.fin 8) * (Dbl.fin 400 / Dbl.fin 450 * (Dbl.fin 0 + Dbl.fin 0) - Dbl.fin 0
      - Dbl.fin 0))
    (Dbl.fin 0) = true
  rw [Dbl.fin_div_fin 400 450 (by norm_num), example_entropy_value]
  exact (is_in_closed_range_fin 0 0 0).mpr ⟨by norm_num, by norm_num⟩

/-! ## Pressure above the critical pressure (C29) -/

/-- C29, amended. With `_p` above the critical pressure the P-given variant sets
`_Q = 1e9` and returns with `saturation_called = false`. For the keys T, s, h and
u the phase is supercritical exactly when the paired variable is above its
critical value (`yc < y`) and liquid otherwise; for the density the test is the
other way round: supercritical exactly when `_rhomolar` is below the critical
density, liquid otherwise. -/
theorem p_above_critical_rule (env : Env) (other : parameters) (value : Dbl)
    (s : HelmholtzEOSMixtureBackend) (c : CoolPropFluid) (cs : List CoolPropFluid)
    (y yc : Dbl) (hcomp : s.self.components = c :: cs) (hp : s.self._crit.p < s.self._p)
    (hy : paired_variable_at_pressure s.self other = some y)
    (hyc : critical_value_at_pressure s.self other = some yc) :
    p_phase_determination_pure_or_pseudopure env other value s =
      Res.ret false (s.modify (fun m =>
        { m with _Q := Dbl.fin 1000000000,
                 _phase :=
                   if other = parameters.iDmolar then
                     (if y < yc then phases.iphase_supercritical else phases.iphase_liquid)
                   else
                     (if yc < y then phases.iphase_supercritical else phases.iphase_liquid) })) := by
  unfold p_phase_determination_pure_or_pseudopure p_phase_determination_supercritical
  simp only [Prog.bind_apply, Prog.get_apply, Prog.set_apply, hcomp, index, List.get?_cons_zero,
    Prog.ofExcept_ok, hp, if_true, HelmholtzEOSMixtureBackend.self_modify]
  cases other <;>
    simp only [paired_variable_at_pressure, critical_value_at_pressure, Option.some.injEq] at hy hyc <;>
    first
    | (cases hy; done)
    | (subst hy; subst hyc; dsimp only; split <;> rename_i hlt <;>
        simp [hlt, Prog.bind_apply, Prog.set_apply, Prog.pure_apply,
          HelmholtzEOSMixtureBackend.modify_modify])

/-- C29, as the code behaves: at 5 MPa (critical pressure 4 MPa) the density 6000
lies above the critical density 5000, and the state is called liquid. -/
theorem p_above_critical_density_liquid :
    (example_pure_at 300 5000000 6000).self._crit.p < (example_pure_at 300 5000000 6000).self._p
      ∧ (example_pure_at 300 5000000 6000).self._crit.rhomolar
          < (example_pure_at 300 5000000 6000).self._rhomolar
      ∧ p_phase_determination_pure_or_pseudopure example_env parameters.iDmolar (Dbl.fin 6000)
          (example_pure_at 300 5000000 6000) =
        Res.ret false ((example_pure_at 300 5000000 6000).modify (fun m =>
          { m with _Q := Dbl.fin 1000000000, _phase := phases.iphase_liquid })) := by
  have hp : (example_pure_at 300 5000000 6000).self._crit.p
      < (example_pure_at 300 5000000 6000).self._p :=
    (Dbl.fin_lt_fin 4000000 5000000).mpr (by norm_num)
  have hr : (example_pure_at 300 5000000 6000).self._crit.rhomolar
      < (example_pure_at 300 5000000 6000).self._rhomolar :=
    (Dbl.fin_lt_fin 5000 6000).mpr (by norm_num)
  have hn : ¬ ((example_pure_at 300 5000000 6000).self._rhomolar
      < (example_pure_at 300 5000000 6000).self._crit.rhomolar) := Dbl.lt_asymm _ _ hr
  refine ⟨hp, hr, ?_⟩
  unfold p_phase_determination_pure_or_pseudopure p_phase_determination_supercritical
  simp only [Prog.bind_apply, Prog.get_apply, Prog.set_apply,
    show (example_pure_at 300 5000000 6000).self.components = [example_fluid 18 8] from rfl, index,
    List.get?_cons_zero, Prog.ofExcept_ok, hp, if_true, HelmholtzEOSMixtureBackend.self_modify]
  have hn2 : ¬ (Dbl.fin 6000 < Dbl.fin 5000) := hn
  simp [example_pure_at, HelmholtzEOSMixtureBackend.self_modify, hn2, example_EOS, Prog.bind_apply,
    Prog.set_apply, Prog.pure_apply, HelmholtzEOSMixtureBackend.modify_modify]

/-- Sanity check for C29 at 5 MPa: the temperature 450 above the critical 400 gives
supercritical, and so does the density 3000 below the critical 5000. -/
theorem p_above_critical_rule_witness :
    (example_pure_at 450 5000000 3000).self._crit.p < (example_pure_at 450 5000000 3000).self._p
      ∧ p_phase_determination_pure_or_pseudopure example_env parameters.iT (Dbl.fin 450)
          (example_pure_at 450 5000000 3000) =
        Res.ret false ((example_pure_at 450 5000000 3000).modify (fun m =>
          { m with _Q := Dbl.fin 1000000000, _phase := phases.iphase_supercritical }))
      ∧ p_phase_determination_pure_or_pseudopure example_env parameters.iDmolar (Dbl.fin 3000)
          (example_pure_at 450 5000000 3000) =
        Res.ret false ((example_pure_at 450 5000000 3000).modify (fun m =>
          { m with _Q := Dbl.fin 1000000000, _phase := phases.iphase_supercritical })) := by
  have hp : (example_pure_at 450 5000000 3000).self._crit.p
      < (example_pure_at 450 5000000 3000).self._p :=
    (Dbl.fin_lt_fin 4000000 5000000).mpr (by norm_num)
  have h1 := p_above_critical_rule example_env parameters.iT (Dbl.fin 450)
    (example_pure_at 450 5000000 3000) (example_fluid 18 8) [] (Dbl.fin 450) (Dbl.fin 400)
    rfl hp rfl rfl
  have h2 := p_above_critical_rule example_env parameters.iDmolar (Dbl.fin 3000)
    (example_pure_at 450 5000000 3000) (example_fluid 18 8) [] (Dbl.fin 3000) (Dbl.fin 5000)
    rfl hp rfl rfl
  have c1 : Dbl.fin 400 < Dbl.fin 450 := (Dbl.fin_lt_fin 400 450).mpr (by norm_num)
  have c2 : Dbl.fin 3000 < Dbl.fin 5000 := (Dbl.fin_lt_fin 3000 5000).mpr (by norm_num)
  simp only [c1, if_true, reduceCtorEq, if_false] at h1
  simp only [c2, if_true] at h2
  exact ⟨hp, h1, h2⟩

/-! ## The ancillary test at given pressure and temperature (C30) -/

/-- C30, as the code behaves. In the P-given variant with T as the other variable
and `_p` between the triple and the critical pressure, the short-circuit
compares `value` (the temperature) with 0.98 times the content of the cell
`_pVanc` and 1.02 times the content of the cell `_pLanc`. The call assigns
`_TLanc` and `_TVanc` before the test, but neither of the two cells it reads, and
`_p` takes no part in the comparison: gas when `value` is below 0.98 times the
stored `_pVanc`, liquid when it is above 1.02 times the stored `_pLanc`, the
density test otherwise. When the cell `_pVanc` is empty, its conversion fails
and the call ends there. -/
theorem p_given_T_ancillary_test (env : Env) (value : Dbl)
    (s : HelmholtzEOSMixtureBackend) (c : CoolPropFluid) (cs : List CoolPropFluid)
    (hcomp : s.self.components = c :: cs)
    (hpt : c.pEOS.ptriple < s.self._p) (hpc : s.self._p < s.self._crit.p) :
    (∀ pV pL, s.self._pVanc = CachedElement.assign pV → s.self._pLanc = CachedElement.assign pL →
      p_phase_determination_pure_or_pseudopure env parameters.iT value s =
        if value < Dbl.fin (98 / 100) * pV then
          Res.ret false (s.modify (fun m =>
            { m with _TLanc := CachedElement.assign (c.ancillaries.pL.invert m._p),
                     _TVanc := CachedElement.assign (c.ancillaries.pV.invert m._p),
                     _phase := phases.iphase_gas, _Q := Dbl.fin (-1000) }))
        else if Dbl.fin (102 / 100) * pL < value then
          Res.ret false (s.modify (fun m =>
            { m with _TLanc := CachedElement.assign (c.ancillaries.pL.invert m._p),
                     _TVanc := CachedElement.assign (c.ancillaries.pV.invert m._p),
                     _phase := phases.iphase_liquid, _Q := Dbl.fin 1000 }))
        else
          p_phase_determination_density env parameters.iT value c false (s.modify (fun m =>
            { m with _TLanc := CachedElement.assign (c.ancillaries.pL.invert m._p),
                     _TVanc := CachedElement.assign (c.ancillaries.pV.invert m._p) })))
      ∧ (∀ e, s.self._pVanc.is_cached = false → env.empty_cell_read s.self._pVanc = .error e →
          p_phase_determination_pure_or_pseudopure env parameters.iT value s =
            Res.throw e (s.modify (fun m =>
              { m with _TLanc := CachedElement.assign (c.ancillaries.pL.invert m._p),
                       _TVanc := CachedElement.assign (c.ancillaries.pV.invert m._p) }))) := by
  have hpc1 : ¬ (s.self._crit.p < s.self._p) := Dbl.lt_asymm _ _ hpc
  constructor
  · intro pV pL hV hL
    unfold p_phase_determination_pure_or_pseudopure p_phase_determination_subcritical
    simp only [Prog.bind_apply, Prog.get_apply, Prog.set_apply, hcomp, index, List.get?_cons_zero,
      Prog.ofExcept_ok, hpc1, hpt, hpc, and_self, if_true, if_false,
      HelmholtzEOSMixtureBackend.self_modify, HelmholtzEOSMixtureBackend.modify_modify,
      cell_to_double, hV, hL, CachedElement.assign]
    split
    · simp [Prog.bind_apply, Prog.set_apply, Prog.pure_apply,
        HelmholtzEOSMixtureBackend.modify_modify]
    · split
      · simp [Prog.bind_apply, Prog.set_apply, Prog.pure_apply,
          HelmholtzEOSMixtureBackend.modify_modify]
      · rfl
  · intro e hV he
    unfold p_phase_determination_pure_or_pseudopure p_phase_determination_subcritical
    simp only [Prog.bind_apply, Prog.get_apply, Prog.set_apply, hcomp, index, List.get?_cons_zero,
      Prog.ofExcept_ok, hpc1, hpt, hpc, and_self, if_true, if_false,
      HelmholtzEOSMixtureBackend.self_modify, HelmholtzEOSMixtureBackend.modify_modify,
      cell_to_double, hV, he]
    rfl

/-- C30 at the failing input: at 300 K and 2500 Pa the ancillary liquid pressure at
300 K is 1000 Pa, so the pressure lies above 1.02 times the envelope; with 1000
left in both cells by an earlier call, the code compares 300 with 980 and calls
the state gas. -/
theorem p_given_T_ancillary_test_witness :
    (example_fluid 18 8).pEOS.ptriple < example_stale_ancillaries.self._p
      ∧ example_stale_ancillaries.self._p < example_stale_ancillaries.self._crit.p
      ∧ Dbl.fin (102 / 100) * (example_fluid 18 8).ancillaries.pL.evaluate (Dbl.fin 300)
          < example_stale_ancillaries.self._p
      ∧ p_phase_determination_pure_or_pseudopure example_env parameters.iT (Dbl.fin 300)
          example_stale_ancillaries =
        Res.ret false (example_stale_ancillaries.modify (fun m =>
          { m with _TLanc := CachedElement.assign (Dbl.fin 300),
                   _TVanc := CachedElement.assign (Dbl.fin 300),
                   _phase := phases.iphase_gas, _Q := Dbl.fin (-1000) })) := by
  have hpt : (example_fluid 18 8).pEOS.ptriple < example_stale_ancillaries.self._p :=
    (Dbl.fin_lt_fin 600 2500).mpr (by norm_num)
  have hpc : example_stale_ancillaries.self._p < example_stale_ancillaries.self._crit.p :=
    (Dbl.fin_lt_fin 2500 4000000).mpr (by norm_num)
  have h := (p_given_T_ancillary_test example_env (Dbl.fin 300) example_stale_ancillaries
    (example_fluid 18 8) [] rfl hpt hpc).1 (Dbl.fin 1000) (Dbl.fin 1000) rfl rfl
  have c1 : Dbl.fin 300 < Dbl.fin (98 / 100) * Dbl.fin 1000 := by
    rw [Dbl.fin_mul_fin, Dbl.fin_lt_fin]
    norm_num
  have c2 : Dbl.fin (102 / 100) * (example_fluid 18 8).ancillaries.pL.evaluate (Dbl.fin 300)
      < example_stale_ancillaries.self._p := by
    show Dbl.fin (102 / 100) * Dbl.fin 1000 < Dbl.fin 2500
    rw [Dbl.fin_mul_fin, Dbl.fin_lt_fin]
    norm_num
  rw [if_pos c1] at h
  exact ⟨hpt, hpc, c2, h⟩

/-! ## The pressure as other variable at given temperature (C31) -/

theorem T_saturation_given_p (env : Env) (value : Dbl)
    (s HEOS L V : HelmholtzEOSMixtureBackend)
    (hpure : s.self.is_pure_or_pseudopure = true)
    (hsolve : env.saturation_T_pure s.self._T (construct env s.self.components true)
      = Res.ret () HEOS)
    (hL : HEOS.SatL = some L) (hV : HEOS.SatV = some V) :
    T_phase_determination_saturation env parameters.iP value s =
      if L.self._p * (Dbl.fin 100 * DBL_EPSILON + 1) < value then
        Res.ret () (s.modify (fun m =>
          { m with _phase := phases.iphase_liquid, _Q := Dbl.fin (-1000) }))
      else if value < V.self._p * (1 - Dbl.fin 100 * DBL_EPSILON) then
        Res.ret () (s.modify (fun m =>
          { m with _phase := phases.iphase_gas, _Q := Dbl.fin 1000 }))
      else Res.throw (Err.ValueError "subcrit T, funny p") s := by
  unfold T_phase_determination_saturation
  simp only [Prog.bind_apply, Prog.get_apply, hpure, Bool.not_true, Prog.throw_if_false,
    onLocal_apply _ _ _ _ _ hsolve, if_true]
  have h1 : onLocal HEOS (onSatL p) s = Res.ret (L.self._p, HEOS) s :=
    onLocal_onSatL_getter (fun m => m._p) HEOS L s hL
  have h2 : onLocal HEOS (onSatV p) s = Res.ret (V.self._p, HEOS) s :=
    onLocal_onSatV_getter (fun m => m._p) HEOS V s hV
  rw [h1]
  dsimp only
  split
  · rfl
  · simp only [Prog.bind_apply, h2]
    split
    · rfl
    · rfl

theorem T_pressure_classification (env : Env) (value : Dbl)
    (s HEOS L V : HelmholtzEOSMixtureBackend) (c : CoolPropFluid) (cs : List CoolPropFluid)
    (hvalue : ValidNumber value = true) (hcomp : s.self.components = c :: cs)
    (hpure : s.self.is_pure_or_pseudopure = true) (hT : s.self._T < s.self._crit.T)
    (hsolve : env.saturation_T_pure s.self._T (construct env s.self.components true)
      = Res.ret () HEOS)
    (hL : HEOS.SatL = some L) (hV : HEOS.SatV = some V) :
    T_phase_determination_pure_or_pseudopure env parameters.iP value s =
      if value < Dbl.fin (98 / 100) * c.ancillaries.pV.evaluate s.self._T then
        Res.ret () (s.modify (fun m =>
          { m with _pLanc := CachedElement.assign (c.ancillaries.pL.evaluate m._T),
                   _pVanc := CachedElement.assign (c.ancillaries.pV.evaluate m._T),
                   _phase := phases.iphase_gas, _Q := Dbl.fin (-1000) }))
      else if Dbl.fin (102 / 100) * c.ancillaries.pL.evaluate s.self._T < value then
        Res.ret () (s.modify (fun m =>
          { m with _pLanc := CachedElement.assign (c.ancillaries.pL.evaluate m._T),
                   _pVanc := CachedElement.assign (c.ancillaries.pV.evaluate m._T),
                   _phase := phases.iphase_liquid, _Q := Dbl.fin 1000 }))
      else if L.self._p * (Dbl.fin 100 * DBL_EPSILON + 1) < value then
        Res.ret () (s.modify (fun m =>
          { m with _pLanc := CachedElement.assign (c.ancillaries.pL.evaluate m._T),
                   _pVanc := CachedElement.assign (c.ancillaries.pV.evaluate m._T),
                   _phase := phases.iphase_liquid, _Q := Dbl.fin (-1000) }))
      else if value < V.self._p * (1 - Dbl.fin 100 * DBL_EPSILON) then
        Res.ret () (s.modify (fun m =>
          { m with _pLanc := CachedElement.assign (c.ancillaries.pL.evaluate m._T),
                   _pVanc := CachedElement.assign (c.ancillaries.pV.evaluate m._T),
                   _phase := phases.iphase_gas, _Q := Dbl.fin 1000 }))
      else
        Res.throw (Err.ValueError "subcrit T, funny p") (s.modify (fun m =>
          { m with _pLanc := CachedElement.assign (c.ancillaries.pL.evaluate m._T),
                   _pVanc := CachedElement.assign (c.ancillaries.pV.evaluate m._T) })) := by
  have hsat := T_saturation_given_p env value (s.modify (fun m =>
      { m with _pLanc := CachedElement.assign (c.ancillaries.pL.evaluate m._T),
               _pVanc := CachedElement.assign (c.ancillaries.pV.evaluate m._T) })) HEOS L V
    (by rw [HelmholtzEOSMixtureBackend.self_modify]; exact hpure)
    (by rw [HelmholtzEOSMixtureBackend.self_modify]; exact hsolve) hL hV
  have hv : ∀ x : Dbl, (CachedElement.assign x).value = x := fun _ => rfl
  unfold T_phase_determination_pure_or_pseudopure T_phase_determination_subcritical
  simp only [Prog.bind_apply, Prog.get_apply, Prog.set_apply, hvalue, Bool.not_true,
    Prog.throw_if_false, hT, if_true, hcomp, index, List.get?_cons_zero, Prog.ofExcept_ok,
    HelmholtzEOSMixtureBackend.self_modify, HelmholtzEOSMixtureBackend.modify_modify, hv]
  by_cases h1 : value < Dbl.fin (98 / 100) * c.ancillaries.pV.evaluate s.self._T
  · simp only [h1, if_true, Prog.set_apply, HelmholtzEOSMixtureBackend.modify_modify]
  · by_cases h2 : Dbl.fin (102 / 100) * c.ancillaries.pL.evaluate s.self._T < value
    · simp only [h1, h2, if_true, if_false, Prog.set_apply,
        HelmholtzEOSMixtureBackend.modify_modify]
    · simp only [h1, h2, if_false]
      rw [hsat]
      simp only [HelmholtzEOSMixtureBackend.modify_modify]

/-- C31, amended. For a pure fluid at a temperature below the critical temperature,
a valid pressure `value` and a saturation call that returns with the saturated
states `L` and `V` on the local object, `T_phase_determination_pure_or_pseudopure`
with the pressure as other variable returns with gas when `value` is below 0.98
times the ancillary vapour pressure and with liquid when it is above 1.02 times
the ancillary liquid pressure; in between it returns with liquid when `value` is
above `pL * (100*DBL_EPSILON + 1)` and with gas when it is below
`pV * (1 - 100*DBL_EPSILON)`, for the pressures `pL`, `pV` of `L` and `V`. For a
pressure in the band that remains around the saturation pressures it raises the
`ValueError` "subcrit T, funny p" and assigns no phase. -/
theorem T_given_p_outcome (env : Env) (value : Dbl)
    (s HEOS L V : HelmholtzEOSMixtureBackend) (c : CoolPropFluid) (cs : List CoolPropFluid)
    (hvalue : ValidNumber value = true) (hcomp : s.self.components = c :: cs)
    (hpure : s.self.is_pure_or_pseudopure = true) (hT : s.self._T < s.self._crit.T)
    (hsolve : env.saturation_T_pure s.self._T (construct env s.self.components true)
      = Res.ret () HEOS)
    (hL : HEOS.SatL = some L) (hV : HEOS.SatV = some V) :
    T_phase_determination_pure_or_pseudopure env parameters.iP value s =
      if value < Dbl.fin (98 / 100) * c.ancillaries.pV.evaluate s.self._T then
        Res.ret () (s.modify (fun m =>
          { m with _pLanc := CachedElement.assign (c.ancillaries.pL.evaluate m._T),
                   _pVanc := CachedElement.assign (c.ancillaries.pV.evaluate m._T),
                   _phase := phases.iphase_gas, _Q := Dbl.fin (-1000) }))
      else if Dbl.fin (102 / 100) * c.ancillaries.pL.evaluate s.self._T < value then
        Res.ret () (s.modify (fun m =>
          { m with _pLanc := CachedElement.assign (c.ancillaries.pL.evaluate m._T),
                   _pVanc := CachedElement.assign (c.ancillaries.pV.evaluate m._T),
                   _phase := phases.iphase_liquid, _Q := Dbl.fin 1000 }))
      else if L.self._p * (Dbl.fin 100 * DBL_EPSILON + 1) < value then
        Res.ret () (s.modify (fun m =>
          { m with _pLanc := CachedElement.assign (c.ancillaries.pL.evaluate m._T),
                   _pVanc := CachedElement.assign (c.ancillaries.pV.evaluate m._T),
                   _phase := phases.iphase_liquid, _Q := Dbl.fin (-1000) }))
      else if value < V.self._p * (1 - Dbl.fin 100 * DBL_EPSILON) then
        Res.ret () (s.modify (fun m =>
          { m with _pLanc := CachedElement.assign (c.ancillaries.pL.evaluate m._T),
                   _pVanc := CachedElement.assign (c.ancillaries.pV.evaluate m._T),
                   _phase := phases.iphase_gas, _Q := Dbl.fin 1000 }))
      else
        Res.throw (Err.ValueError "subcrit T, funny p") (s.modify (fun m =>
          { m with _pLanc := CachedElement.assign (c.ancillaries.pL.evaluate m._T),
                   _pVanc := CachedElement.assign (c.ancillaries.pV.evaluate m._T) })) :=
  T_pressure_classification env value s HEOS L V c cs hvalue hcomp hpure hT hsolve hL hV

theorem example_band_low (v : ℚ) (h : 1000 ≤ v) :
    ¬ (Dbl.fin v < Dbl.fin (98 / 100) * Dbl.fin 1000) := by
  rw [Dbl.fin_mul_fin, Dbl.fin_lt_fin]
  norm_num
  linarith

theorem example_band_high (v : ℚ) (h : v ≤ 1010) :
    ¬ (Dbl.fin (102 / 100) * Dbl.fin 1000 < Dbl.fin v) := by
  rw [Dbl.fin_mul_fin, Dbl.fin_lt_fin]
  norm_num
  linarith

theorem example_above_saturation (v : ℚ) :
    (Dbl.fin 1000 * (Dbl.fin 100 * DBL_EPSILON + 1) < Dbl.fin v)
      ↔ 1000 * (100 * (1 / 4503599627370496) + 1) < v := by
  show Dbl.fin 1000 * (Dbl.fin 100 * Dbl.fin (1 / 4503599627370496) + Dbl.fin 1) < Dbl.fin v ↔ _
  rw [Dbl.fin_mul_fin, Dbl.fin_add_fin, Dbl.fin_mul_fin, Dbl.fin_lt_fin]

theorem example_below_saturation (v : ℚ) :
    (Dbl.fin v < Dbl.fin 1000 * (1 - Dbl.fin 100 * DBL_EPSILON))
      ↔ v < 1000 * (1 - 100 * (1 / 4503599627370496)) := by
  show Dbl.fin v < Dbl.fin 1000 * (Dbl.fin 1 - Dbl.fin 100 * Dbl.fin (1 / 4503599627370496)) ↔ _
  rw [Dbl.fin_mul_fin, Dbl.fin_sub_fin, Dbl.fin_mul_fin, Dbl.fin_lt_fin]

/-- C31 on the pure example fluid at 300 K with the pressure 1010 Pa: the ancillary
pressures and both saturation pressures are 1000 Pa, the pressure is within 2 %
of the ancillary values and above the saturated-liquid pressure by more than the
tolerance, and the call returns with liquid. -/
theorem T_given_p_outcome_witness :
    ValidNumber (Dbl.fin 1010) = true
      ∧ (example_pure_at 300 1010 100).self.is_pure_or_pseudopure = true
      ∧ (example_pure_at 300 1010 100).self._T < (example_pure_at 300 1010 100).self._crit.T
      ∧ T_phase_determination_pure_or_pseudopure example_env_sat parameters.iP (Dbl.fin 1010)
          (example_pure_at 300 1010 100) =
        Res.ret () ((example_pure_at 300 1010 100).modify (fun m =>
          { m with _pLanc := CachedElement.assign (Dbl.fin 1000),
                   _pVanc := CachedElement.assign (Dbl.fin 1000),
                   _phase := phases.iphase_liquid, _Q := Dbl.fin (-1000) })) := by
  have hT : (example_pure_at 300 1010 100).self._T < (example_pure_at 300 1010 100).self._crit.T :=
    (Dbl.fin_lt_fin 300 400).mpr (by norm_num)
  have h := T_given_p_outcome example_env_sat (Dbl.fin 1010) (example_pure_at 300 1010 100)
    example_HEOS (example_saturated 40000 1000 100 1 90) (example_saturated 1 1000 500 3 450)
    (example_fluid 18 8) [] rfl rfl rfl hT rfl rfl rfl
  have c1 := example_band_low 1010 (by norm_num)
  have c2 := example_band_high 1010 (by norm_num)
  have c3 : Dbl.fin 1000 * (Dbl.fin 100 * DBL_EPSILON + 1) < Dbl.fin 1010 :=
    (example_above_saturation 1010).mpr (by norm_num)
  exact ⟨rfl, rfl, hT, h.trans ((if_neg c1).trans ((if_neg c2).trans (if_pos c3)))⟩

/-- C31, as the code behaves: the pure example fluid at 300 K (triple point 200 K,
critical point 400 K) with the valid pressure 1000 Pa, where the ancillary
pressures and both saturation pressures are 1000 Pa. The pressure is neither
above `pL * (100*DBL_EPSILON + 1)` nor below `pV * (1 - 100*DBL_EPSILON)`, and
the call raises "subcrit T, funny p"; the phase is as it was. -/
theorem T_given_p_raises :
    ValidNumber (Dbl.fin 1000) = true
      ∧ (example_pure_at 300 1000 100).self.is_pure_or_pseudopure = true
      ∧ (example_pure_at 300 1000 100).self._T < (example_pure_at 300 1000 100).self._crit.T
      ∧ (example_fluid 18 8).pEOS.Ttriple < (example_pure_at 300 1000 100).self._T
      ∧ T_phase_determination_pure_or_pseudopure example_env_sat parameters.iP (Dbl.fin 1000)
          (example_pure_at 300 1000 100) =
        Res.throw (Err.ValueError "subcrit T, funny p")
          ((example_pure_at 300 1000 100).modify (fun m =>
            { m with _pLanc := CachedElement.assign (Dbl.fin 1000),
                     _pVanc := CachedElement.assign (Dbl.fin 1000) })) := by
  have hT : (example_pure_at 300 1000 100).self._T < (example_pure_at 300 1000 100).self._crit.T :=
    (Dbl.fin_lt_fin 300 400).mpr (by norm_num)
  have hTt : (example_fluid 18 8).pEOS.Ttriple < (example_pure_at 300 1000 100).self._T :=
    (Dbl.fin_lt_fin 200 300).mpr (by norm_num)
  have h := T_pressure_classification example_env_sat (Dbl.fin 1000) (example_pure_at 300 1000 100)
    example_HEOS (example_saturated 40000 1000 100 1 90) (example_saturated 1 1000 500 3 450)
    (example_fluid 18 8) [] rfl rfl rfl hT rfl rfl rfl
  have c1 := example_band_low 1000 (by norm_num)
  have c2 := example_band_high 1000 (by norm_num)
  have c3 : ¬ (Dbl.fin 1000 * (Dbl.fin 100 * DBL_EPSILON + 1) < Dbl.fin 1000) :=
    mt (example_above_saturation 1000).mp (by norm_num)
  have c4 : ¬ (Dbl.fin 1000 < Dbl.fin 1000 * (1 - Dbl.fin 100 * DBL_EPSILON)) :=
    mt (example_below_saturation 1000).mp (by norm_num)
  exact ⟨rfl, rfl, hT, hTt, h.trans ((if_neg c1).trans ((if_neg c2).trans ((if_neg c3).trans (if_neg c4))))⟩

/-! ## The owned saturation states after a two-phase result (C32) -/

/-- C32, as the code behaves. In the T-given variant with the density as other
variable, at a temperature below the critical one, a valid density between the
two ancillary bounds and a saturation call that returns with the saturated
states `L` and `V` on the local object: the call returns, the phase is
two-phase when the quality passes the two tolerance tests, and the owned `SatL`
and `SatV` are what they were before the call. The saturated states stay on the
local object; no statement of this variant copies their density and temperature
into the owned states, as the P-given variant does. -/
theorem T_two_phase_leaves_owned_states (env : Env) (value : Dbl)
    (s HEOS L V : HelmholtzEOSMixtureBackend) (c : CoolPropFluid) (cs : List CoolPropFluid)
    (hvalue : ValidNumber value = true) (hcomp : s.self.components = c :: cs)
    (hpure : s.self.is_pure_or_pseudopure = true) (hT : s.self._T < s.self._crit.T)
    (h1 : ¬ (value < Dbl.fin (95 / 100) * c.ancillaries.rhoV.evaluate s.self._T))
    (h2 : ¬ (Dbl.fin (105 / 100) * c.ancillaries.rhoL.evaluate s.self._T < value))
    (hsolve : env.saturation_T_pure s.self._T (construct env s.self.components true)
      = Res.ret () HEOS)
    (hL : HEOS.SatL = some L) (hV : HEOS.SatV = some V) :
    ∃ s1, T_phase_determination_pure_or_pseudopure env parameters.iDmolar value s = Res.ret () s1
      ∧ (quality_within_tolerance ((1 / value - 1 / L.self._rhomolar)
          / (1 / V.self._rhomolar - 1 / L.self._rhomolar)) →
        s1.self._phase = phases.iphase_twophase)
      ∧ s1.SatL = s.SatL ∧ s1.SatV = s.SatV := by
  have h0 := T_density_reaches_saturation env value s c cs hvalue hcomp hT h1 h2
  have hQ := T_quality_density env value HEOS L V hL hV
  have h := T_saturation_classification env parameters.iDmolar value _ (s.modify (fun m =>
      { m with _rhoVanc := CachedElement.assign (c.ancillaries.rhoV.evaluate m._T),
               _rhoLanc := CachedElement.assign (c.ancillaries.rhoL.evaluate m._T) }))
    HEOS HEOS L V (by rw [HelmholtzEOSMixtureBackend.self_modify]; exact hpure) (by decide)
    (by rw [HelmholtzEOSMixtureBackend.self_modify]; exact hsolve) hQ hL hV
  refine ⟨_, h0.trans h, ?_, ?_, ?_⟩
  · intro hw
    rw [HelmholtzEOSMixtureBackend.self_modify]
    simp only [hw.1, hw.2, if_false]
  · rw [HelmholtzEOSMixtureBackend.SatL_modify, HelmholtzEOSMixtureBackend.SatL_modify]
  · rw [HelmholtzEOSMixtureBackend.SatV_modify, HelmholtzEOSMixtureBackend.SatV_modify]

/-- C32 at the failing input: the pure example fluid at 300 K with the density
2 mol/m3 between the saturated densities 1 and 40000. The call returns with
two-phase, and the owned `SatL` and `SatV` still hold the density and the
temperature `-_HUGE` of the construction, not 40000 and 1 mol/m3 at 300 K. -/
theorem T_two_phase_leaves_owned_states_witness :
    ∃ s1 l v, T_phase_determination_pure_or_pseudopure example_env_sat parameters.iDmolar
          (Dbl.fin 2) (example_pure_at 300 1000 2) = Res.ret () s1
      ∧ s1.self._phase = phases.iphase_twophase
      ∧ s1.SatL = some l ∧ s1.SatV = some v
      ∧ l.self._rhomolar = Dbl.ninf ∧ l.self._T = Dbl.ninf
      ∧ v.self._rhomolar = Dbl.ninf ∧ v.self._T = Dbl.ninf := by
  have hT : (example_pure_at 300 1000 2).self._T < (example_pure_at 300 1000 2).self._crit.T :=
    (Dbl.fin_lt_fin 300 400).mpr (by norm_num)
  have hr1 : ¬ (Dbl.fin 2 < Dbl.fin (95 / 100) * Dbl.fin 1) := by
    rw [Dbl.fin_mul_fin, Dbl.fin_lt_fin]; norm_num
  have hr2 : ¬ (Dbl.fin (105 / 100) * Dbl.fin 40000 < Dbl.fin 2) := by
    rw [Dbl.fin_mul_fin, Dbl.fin_lt_fin]; norm_num
  obtain ⟨s1, h, hph, hl, hv⟩ := T_two_phase_leaves_owned_states example_env_sat (Dbl.fin 2)
    (example_pure_at 300 1000 2) example_HEOS (example_saturated 40000 1000 100 1 90)
    (example_saturated 1 1000 500 3 450) (example_fluid 18 8) [] rfl rfl rfl hT hr1 hr2
    rfl rfl rfl
  have hw : quality_within_tolerance ((1 / Dbl.fin 2 - 1 / Dbl.fin 40000)
      / (1 / Dbl.fin 1 - 1 / Dbl.fin 40000)) := by
    rw [example_quality_value]
    exact example_quality_between
  exact ⟨s1, _, _, h, hph hw, hl.trans rfl, hv.trans rfl, rfl, rfl, rfl, rfl⟩

/-! ## Consistency of the caloric formulas (C33) -/

theorem Dbl.add_eq_fin (x y : Dbl) (q : ℚ) (h : x + y = Dbl.fin q) :
    ∃ a b, x = Dbl.fin a ∧ y = Dbl.fin b ∧ a + b = q := by
  cases x <;> cases y <;>
    first
    | (rename_i a b
       rw [Dbl.fin_add_fin] at h
       injection h with h
       exact ⟨a, b, rfl, rfl, h⟩)
    | (exfalso; cases h)

theorem Dbl.div_eq_fin (x y : Dbl) (q : ℚ) (h : x / y = Dbl.fin q) : ∃ a, x = Dbl.fin a := by
  cases x with
  | fin a => exact ⟨a, rfl⟩
  | pinf =>
    cases y with
    | fin b =>
      have h1 : Dbl.pinf / Dbl.fin b = if 0 ≤ b then Dbl.pinf else Dbl.ninf := rfl
      rw [h1] at h
      split at h <;> cases h
    | _ => cases h
  | ninf =>
    cases y with
    | fin b =>
      have h1 : Dbl.ninf / Dbl.fin b = if 0 ≤ b then Dbl.ninf else Dbl.pinf := rfl
      rw [h1] at h
      split at h <;> cases h
    | _ => cases h
  | nan => cases y <;> cases h

/-- C33. Let the cached reducing state be that of the current composition and let
the density be other than zero. Whenever `calc_hmolar_nocache(T, rho)` returns a
finite value `h`, `calc_umolar_nocache(T, rho)` returns a value `U` and
`calc_pressure_nocache(T, rho)` a value `P`, each on the same object, and
`h = U + P/rho`. A finite enthalpy needs a finite `tau = Tr/T`, which excludes
`T = 0`. -/
theorem caloric_formulas_consistent (env : Env) (T rhomolar : Dbl) (h : ℚ)
    (s s1 : HelmholtzEOSMixtureBackend) (hrho : rhomolar ≠ 0)
    (hred : calc_reducing_state_nocache env s.self s.self.mole_fractions = .ok s.self._reducing)
    (hH : calc_hmolar_nocache env T rhomolar s = Res.ret (Dbl.fin h) s1) :
    ∃ U P, calc_umolar_nocache env T rhomolar s = Res.ret U s1
      ∧ calc_pressure_nocache env T rhomolar s = Res.ret P s1
      ∧ Dbl.fin h = U + P / rhomolar := by
  unfold calc_hmolar_nocache at hH
  simp only [Prog.bind_apply, Prog.get_apply] at hH
  cases hd01 : calc_alphar_deriv_nocache s.self 0 1 s.self.mole_fractions
      (s.self._reducing.T / T) (rhomolar / s.self._reducing.rhomolar) with
  | error e => rw [hd01, Prog.ofExcept_error] at hH; cases hH
  | ok a =>
    cases hd10 : calc_alphar_deriv_nocache s.self 1 0 s.self.mole_fractions
        (s.self._reducing.T / T) (rhomolar / s.self._reducing.rhomolar) with
    | error e =>
      simp only [hd01, hd10, Prog.ofExcept_ok, Prog.ofExcept_error] at hH
      cases hH
    | ok b =>
      cases h0 : calc_alpha0_deriv_nocache env s.self 1 0 s.self.mole_fractions
          (s.self._reducing.T / T) (rhomolar / s.self._reducing.rhomolar)
          s.self._reducing.T s.self._reducing.rhomolar with
      | error e =>
        simp only [hd01, hd10, h0, Prog.ofExcept_ok, Prog.ofExcept_error] at hH
        cases hH
      | ok c =>
        cases hg : gas_constant s with
        | throw e s2 =>
          simp only [hd01, hd10, h0, Prog.ofExcept_ok, hg] at hH
          cases hH
        | ret R s2 =>
          simp only [hd01, hd10, h0, Prog.ofExcept_ok, hg, Prog.pure_apply] at hH
          injection hH with hval hst
          subst hst
          refine ⟨R * T * (s.self._reducing.T / T) * (c + b),
            rhomolar * R * T * (1 + rhomolar / s.self._reducing.rhomolar * a), ?_, ?_, ?_⟩
          · unfold calc_umolar_nocache
            simp only [Prog.bind_apply, Prog.get_apply, hd10, h0, Prog.ofExcept_ok, hg,
              Prog.pure_apply]
          · unfold calc_pressure_nocache
            simp only [Prog.bind_apply, Prog.get_apply, hred, hd01, Prog.ofExcept_ok, hg,
              Prog.pure_apply]
          · obtain ⟨x, y, hx, hy, hxy⟩ := Dbl.mul_eq_fin _ _ _ hval
            obtain ⟨r, t, hr, ht, hrt⟩ := Dbl.mul_eq_fin _ _ _ hx
            obtain ⟨y1, y2, hy1, hy2, hy12⟩ := Dbl.add_eq_fin _ _ _ hy
            obtain ⟨d, a1, hd, ha, hda⟩ := Dbl.mul_eq_fin _ _ _ hy2
            obtain ⟨o, y3, ho, hy3, hoy⟩ := Dbl.add_eq_fin _ _ _ hy1
            obtain ⟨tau, cb, htau, hcb, htc⟩ := Dbl.mul_eq_fin _ _ _ hy3
            obtain ⟨rho, hrho1⟩ := Dbl.div_eq_fin _ _ _ hd
            have ho1 : o = 1 := by
              have : (1 : Dbl) = Dbl.fin 1 := rfl
              rw [this] at ho
              injection ho with ho
              exact ho.symm
            subst hrho1
            have hrho0 : rho ≠ 0 := fun h0 => hrho (by rw [h0]; rfl)
            rw [htau, hcb, hd, ha, hr, ht, Dbl.one_eq]
            simp only [Dbl.fin_mul_fin, Dbl.fin_add_fin]
            rw [Dbl.fin_div_fin _ _ hrho0, Dbl.fin_add_fin]
            congr 1
            rw [← hxy, ← hrt, ← hy12, ← hoy, ← htc, ← hda, ho1]
            field_simp
            ring

theorem example_gas_enthalpy :
    Dbl.fin 8 * Dbl.fin 300 * (1 + Dbl.fin 400 / Dbl.fin 300 * (Dbl.fin 400 / Dbl.fin 300
        + Dbl.fin 0) + Dbl.fin 100 / Dbl.fin 5000 * Dbl.fin 0) = Dbl.fin (20000 / 3) := by
  simp only [Dbl.one_eq]
  rw [Dbl.fin_div_fin _ _ (by norm_num), Dbl.fin_div_fin _ _ (by norm_num)]
  simp only [Dbl.fin_mul_fin, Dbl.fin_add_fin]
  norm_num

/-- C33 on the example gas state at 300 K and 100 mol/m3 (reducing point 400 K,
5000 mol/m3, ideal-gas derivative `tau`, gas constant 8): the molar enthalpy is
`8 * 300 * (1 + (4/3) * (4/3)) = 20000/3`. -/
theorem caloric_formulas_consistent_witness :
    Dbl.fin 100 ≠ 0
      ∧ calc_hmolar_nocache example_env (Dbl.fin 300) (Dbl.fin 100) example_gas
        = Res.ret (Dbl.fin (20000 / 3)) example_gas
      ∧ ∃ U P, calc_umolar_nocache example_env (Dbl.fin 300) (Dbl.fin 100) example_gas
          = Res.ret U example_gas
        ∧ calc_pressure_nocache example_env (Dbl.fin 300) (Dbl.fin 100) example_gas
          = Res.ret P example_gas
        ∧ Dbl.fin (20000 / 3) = U + P / Dbl.fin 100 := by
  have hH : calc_hmolar_nocache example_env (Dbl.fin 300) (Dbl.fin 100) example_gas
      = Res.ret (Dbl.fin (20000 / 3)) example_gas :=
    (rfl : _ = Res.ret (Dbl.fin 8 * Dbl.fin 300 * (1 + Dbl.fin 400 / Dbl.fin 300
      * (Dbl.fin 400 / Dbl.fin 300 + Dbl.fin 0) + Dbl.fin 100 / Dbl.fin 5000 * Dbl.fin 0))
      example_gas).trans (congrArg (fun v => Res.ret v example_gas) example_gas_enthalpy)
  exact ⟨by decide, hH, caloric_formulas_consistent example_env (Dbl.fin 300) (Dbl.fin 100)
    (20000 / 3) example_gas example_gas (by decide) rfl hH⟩

/-! ## The density round trip of the two-phase branch (C34) -/

theorem Dbl.quality_of_density (v rL rV : ℚ) (hv : v ≠ 0) (hL : rL ≠ 0) (hV : rV ≠ 0)
    (hne : rL ≠ rV) :
    (1 / Dbl.fin v - 1 / Dbl.fin rL) / (1 / Dbl.fin rV - 1 / Dbl.fin rL)
      = Dbl.fin ((1 / v - 1 / rL) / (1 / rV - 1 / rL)) := by
  have hd : 1 / rV - 1 / rL ≠ 0 := by
    intro h
    apply hne
    field_simp at h
    linarith
  simp only [Dbl.one_eq]
  rw [Dbl.fin_div_fin _ _ hv, Dbl.fin_div_fin _ _ hL, Dbl.fin_div_fin _ _ hV, Dbl.fin_sub_fin,
    Dbl.fin_sub_fin, Dbl.fin_div_fin _ _ hd]

theorem Dbl.density_of_quality (v rL rV : ℚ) (hv : v ≠ 0) (hL : rL ≠ 0) (hV : rV ≠ 0)
    (hne : rL ≠ rV) :
    1 / ((1 / Dbl.fin v - 1 / Dbl.fin rL) / (1 / Dbl.fin rV - 1 / Dbl.fin rL) / Dbl.fin rV
        + (1 - (1 / Dbl.fin v - 1 / Dbl.fin rL) / (1 / Dbl.fin rV - 1 / Dbl.fin rL)) / Dbl.fin rL)
      = Dbl.fin v := by
  have hd : 1 / rV - 1 / rL ≠ 0 := by
    intro h
    apply hne
    field_simp at h
    linarith
  have hsum : (1 / v - 1 / rL) / (1 / rV - 1 / rL) / rV
      + (1 - (1 / v - 1 / rL) / (1 / rV - 1 / rL)) / rL = 1 / v := by
    have hd2 : rL - rV ≠ 0 := sub_ne_zero.mpr hne
    field_simp
    ring
  rw [Dbl.quality_of_density v rL rV hv hL hV hne]
  simp only [Dbl.one_eq]
  rw [Dbl.fin_div_fin _ _ hV, Dbl.fin_sub_fin, Dbl.fin_div_fin _ _ hL, Dbl.fin_add_fin, hsum,
    Dbl.fin_div_fin _ _ (by simpa using hv)]
  simp

/-- C34. For finite saturated densities `rhoL != rhoV`, both other than zero, and a
finite input density `value != 0`, with `Q = (1/value - 1/rhoL)/(1/rhoV - 1/rhoL)`
the recomposed density `1/(Q/rhoV + (1 - Q)/rhoL)` is `value`. In both variants,
when the saturation call leaves saturated states with these densities on the
local object (and, in the P-given variant, the updates of the owned `SatL` and
`SatV` return), the branch after the saturation call returns, and when it
classifies the state as two-phase the density it stores is the input density. -/
theorem two_phase_density_round_trip (env : Env) (value rhoL rhoV : ℚ)
    (hvalue : value ≠ 0) (hrhoL : rhoL ≠ 0) (hrhoV : rhoV ≠ 0) (hne : rhoL ≠ rhoV) :
    1 / ((1 / Dbl.fin value - 1 / Dbl.fin rhoL) / (1 / Dbl.fin rhoV - 1 / Dbl.fin rhoL)
          / Dbl.fin rhoV
        + (1 - (1 / Dbl.fin value - 1 / Dbl.fin rhoL) / (1 / Dbl.fin rhoV - 1 / Dbl.fin rhoL))
          / Dbl.fin rhoL) = Dbl.fin value
      ∧ (∀ s HEOS L V : HelmholtzEOSMixtureBackend,
          s.self.is_pure_or_pseudopure = true →
          env.saturation_T_pure s.self._T (construct env s.self.components true)
            = Res.ret () HEOS →
          HEOS.SatL = some L → HEOS.SatV = some V →
          L.self._rhomolar = Dbl.fin rhoL → V.self._rhomolar = Dbl.fin rhoV →
          T_phase_determination_saturation env parameters.iDmolar (Dbl.fin value) s =
            Res.ret () (s.modify (fun m =>
              if (1 / Dbl.fin value - 1 / Dbl.fin rhoL) / (1 / Dbl.fin rhoV - 1 / Dbl.fin rhoL)
                  < -(Dbl.fin 100 * DBL_EPSILON) then
                { m with _phase := phases.iphase_liquid, _Q := Dbl.fin (-1000) }
              else if 1 + Dbl.fin 100 * DBL_EPSILON
                  < (1 / Dbl.fin value - 1 / Dbl.fin rhoL)
                    / (1 / Dbl.fin rhoV - 1 / Dbl.fin rhoL) then
                { m with _phase := phases.iphase_gas, _Q := Dbl.fin 1000 }
              else
                { m with _phase := phases.iphase_twophase,
                         _Q := (1 / Dbl.fin value - 1 / Dbl.fin rhoL)
                           / (1 / Dbl.fin rhoV - 1 / Dbl.fin rhoL),
                         _p := (1 / Dbl.fin value - 1 / Dbl.fin rhoL)
                             / (1 / Dbl.fin rhoV - 1 / Dbl.fin rhoL) * V.self._p
                           + (1 - (1 / Dbl.fin value - 1 / Dbl.fin rhoL)
                             / (1 / Dbl.fin rhoV - 1 / Dbl.fin rhoL)) * L.self._p,
                         _rhomolar := Dbl.fin value })))
      ∧ (∀ s HEOS L V l0 v0 l1 v1 : HelmholtzEOSMixtureBackend,
          s.self.is_pure_or_pseudopure = true →
          env.PQ_flash ((construct env s.self.components true).modify
            (fun h => { h with _p := s.self._p, _Q := 0 })) = Res.ret () HEOS →
          HEOS.SatL = some L → HEOS.SatV = some V →
          L.self._rhomolar = Dbl.fin rhoL → V.self._rhomolar = Dbl.fin rhoV →
          s.SatL = some l0 → s.SatV = some v0 →
          update env input_pairs.DmolarT_INPUTS L.self._rhomolar L.self._T l0 = Res.ret () l1 →
          update env input_pairs.DmolarT_INPUTS V.self._rhomolar V.self._T v0 = Res.ret () v1 →
          p_phase_determination_saturation env parameters.iDmolar (Dbl.fin value) s =
            Res.ret true (((s.setSatL (some l1)).setSatV (some v1)).modify (fun m =>
              if (1 / Dbl.fin value - 1 / Dbl.fin rhoL) / (1 / Dbl.fin rhoV - 1 / Dbl.fin rhoL)
                  < -(Dbl.fin 100 * DBL_EPSILON) then
                { m with _phase := phases.iphase_liquid, _Q := Dbl.fin (-1000) }
              else if 1 + Dbl.fin 100 * DBL_EPSILON
                  < (1 / Dbl.fin value - 1 / Dbl.fin rhoL)
                    / (1 / Dbl.fin rhoV - 1 / Dbl.fin rhoL) then
                { m with _phase := phases.iphase_gas, _Q := Dbl.fin 1000 }
              else
                { m with _phase := phases.iphase_twophase,
                         _Q := (1 / Dbl.fin value - 1 / Dbl.fin rhoL)
                           / (1 / Dbl.fin rhoV - 1 / Dbl.fin rhoL),
                         _p := (1 / Dbl.fin value - 1 / Dbl.fin rhoL)
                             / (1 / Dbl.fin rhoV - 1 / Dbl.fin rhoL) * V.self._p
                           + (1 - (1 / Dbl.fin value - 1 / Dbl.fin rhoL)
                             / (1 / Dbl.fin rhoV - 1 / Dbl.fin rhoL)) * L.self._p,
                         _rhomolar := Dbl.fin value }))) := by
  have halg := Dbl.density_of_quality value rhoL rhoV hvalue hrhoL hrhoV hne
  refine ⟨halg, ?_, ?_⟩
  · intro s HEOS L V hpure hsolve hL hV hrL hrV
    have hQ := T_quality_density env (Dbl.fin value) HEOS L V hL hV
    have h := T_saturation_classification env parameters.iDmolar (Dbl.fin value) _ s HEOS HEOS L V
      hpure (by decide) hsolve hQ hL hV
    rw [h]
    simp only [hrL, hrV, halg]
  · intro s HEOS L V l0 v0 l1 v1 hpure hflash hL hV hrL hrV hl0 hv0 hupL hupV
    have hQ := p_quality_density env (Dbl.fin value) HEOS L V hL hV
    have h := p_saturation_classification env parameters.iDmolar (Dbl.fin value) _ s HEOS HEOS L V
      l0 v0 l1 v1 hpure hflash hQ hL hV hl0 hv0 hupL hupV
    rw [h]
    simp only [hrL, hrV, halg]

/-- C34 on the pure example fluid at 300 K with the density 2 mol/m3 between the
saturated densities 1 and 40000: the quality is 19999/39999, the state is
two-phase at 1000 Pa, and the stored density is again 2. -/
theorem two_phase_density_round_trip_witness :
    (2 : ℚ) ≠ 0 ∧ (40000 : ℚ) ≠ 0 ∧ (1 : ℚ) ≠ 0 ∧ (40000 : ℚ) ≠ 1
      ∧ T_phase_determination_saturation example_env_sat parameters.iDmolar (Dbl.fin 2)
          (example_pure_at 300 1000 2) =
        Res.ret () ((example_pure_at 300 1000 2).modify (fun m =>
          { m with _phase := phases.iphase_twophase, _Q := Dbl.fin (19999 / 39999),
                   _p := Dbl.fin 1000, _rhomolar := Dbl.fin 2 })) := by
  have h := (two_phase_density_round_trip example_env_sat 2 40000 1 (by norm_num) (by norm_num)
    (by norm_num) (by norm_num)).2.1 (example_pure_at 300 1000 2) example_HEOS
    (example_saturated 40000 1000 100 1 90) (example_saturated 1 1000 500 3 450)
    rfl rfl rfl rfl rfl rfl
  rw [example_quality_value] at h
  simp only [example_quality_between.1, example_quality_between.2, if_false] at h
  refine ⟨by norm_num, by norm_num, by norm_num, by norm_num, h.trans ?_⟩
  have hp := example_two_phase_values.1
  exact congrArg (fun x => Res.ret () ((example_pure_at 300 1000 2).modify (fun m =>
          { m with _phase := phases.iphase_twophase, _Q := Dbl.fin (19999 / 39999),
                   _p := x, _rhomolar := Dbl.fin 2 }))) hp

/-! ## The enthalpy short-circuit at given temperature (C35) -/

/-- C35, as the code behaves. In the T-given variant at a temperature below the
critical one with the molar enthalpy as other variable, let the two updates of
the owned states return, and let `hV`, `hL` be the enthalpies that
`SatV->calc_hmolar()` and `SatL->calc_hmolar()` return and `uV` the internal
energy that `SatV->calc_umolar()` returns. The case `iHmolar` has no `break`:
when `value` is neither above `hV` nor below `hL`, control falls into the case
`iUmolar`, and when `value` is above `uV` the call returns with gas, without the
saturation call. -/
theorem T_enthalpy_fall_through (env : Env) (value hV hL uV : Dbl)
    (s s1 s2 s3 s4 s5 : HelmholtzEOSMixtureBackend) (c : CoolPropFluid) (cs : List CoolPropFluid)
    (hvalue : ValidNumber value = true) (hcomp : s.self.components = c :: cs)
    (hT : s.self._T < s.self._crit.T)
    (hupV : onSatV (update env input_pairs.DmolarT_INPUTS
        (Dbl.fin (95 / 100) * c.ancillaries.rhoV.evaluate s.self._T) s.self._T)
        (s.modify (fun m =>
          { m with _rhoVanc := CachedElement.assign (c.ancillaries.rhoV.evaluate m._T),
                   _rhoLanc := CachedElement.assign (c.ancillaries.rhoL.evaluate m._T) }))
      = Res.ret () s1)
    (hupL : onSatL (update env input_pairs.DmolarT_INPUTS
        (Dbl.fin (105 / 100) * c.ancillaries.rhoL.evaluate s.self._T) s.self._T) s1
      = Res.ret () s2)
    (hhV : onSatV (calc_hmolar env) s2 = Res.ret hV s3)
    (hhL : onSatL (calc_hmolar env) s3 = Res.ret hL s4)
    (huV : onSatV (calc_umolar env) s4 = Res.ret uV s5)
    (h1 : ¬ (hV < value)) (h2 : ¬ (value < hL)) (h3 : uV < value) :
    T_phase_determination_pure_or_pseudopure env parameters.iHmolar value s =
      Res.ret () (s5.modify (fun m => { m with _phase := phases.iphase_gas })) := by
  have hv : ∀ x : Dbl, (CachedElement.assign x).value = x := fun _ => rfl
  unfold T_phase_determination_pure_or_pseudopure T_phase_determination_subcritical
    T_phase_determination_case_iUmolar
  simp only [Prog.bind_apply, Prog.get_apply, Prog.set_apply, hvalue, Bool.not_true,
    Prog.throw_if_false, hT, if_true, hcomp, index, List.get?_cons_zero, Prog.ofExcept_ok,
    HelmholtzEOSMixtureBackend.self_modify, HelmholtzEOSMixtureBackend.modify_modify, hv,
    hupV, hupL, hhV, hhL, huV, h1, h2, h3, if_false]

theorem example_enthalpy_2400 :
    (0 + 1 * Dbl.fin 8) * Dbl.fin 300 * (1 + Dbl.fin 400 / Dbl.fin 300 * (Dbl.fin 0 + Dbl.fin 0)
        + Dbl.fin 1 / Dbl.fin 5000 * Dbl.fin 0) = Dbl.fin 2400 := by
  simp only [Dbl.zero_eq, Dbl.one_eq]
  rw [Dbl.fin_div_fin _ _ (by norm_num), Dbl.fin_div_fin _ _ (by norm_num)]
  simp only [Dbl.fin_mul_fin, Dbl.fin_add_fin]
  norm_num

theorem example_energy_0 :
    (0 + 1 * Dbl.fin 8) * Dbl.fin 300 * (Dbl.fin 400 / Dbl.fin 300) * (Dbl.fin 0 + Dbl.fin 0)
      = Dbl.fin 0 := by
  simp only [Dbl.zero_eq, Dbl.one_eq]
  rw [Dbl.fin_div_fin _ _ (by norm_num)]
  simp only [Dbl.fin_mul_fin, Dbl.fin_add_fin]
  norm_num

/-- C35 at the failing input: the pure example fluid at 300 K with the molar
enthalpy 2400. After the updates both owned states have the enthalpy
`8 * 300 = 2400` and the internal energy 0; the value is not above the enthalpy
of `SatV` and not below the enthalpy of `SatL`, it is above the internal energy
of `SatV`, and the call returns with gas. -/
theorem T_enthalpy_fall_through_witness :
    ∃ s3 s4 s5,
      onSatV (calc_hmolar example_env_sat) example_ancillary_updated = Res.ret (Dbl.fin 2400) s3
      ∧ onSatL (calc_hmolar example_env_sat) s3 = Res.ret (Dbl.fin 2400) s4
      ∧ onSatV (calc_umolar example_env_sat) s4 = Res.ret (Dbl.fin 0) s5
      ∧ T_phase_determination_pure_or_pseudopure example_env_sat parameters.iHmolar (Dbl.fin 2400)
          (example_pure_at 300 1000 100) =
        Res.ret () (s5.modify (fun m => { m with _phase := phases.iphase_gas })) := by
  have hT : (example_pure_at 300 1000 100).self._T < (example_pure_at 300 1000 100).self._crit.T :=
    (Dbl.fin_lt_fin 300 400).mpr (by norm_num)
  have r1 : onSatV (update example_env_sat input_pairs.DmolarT_INPUTS
      (Dbl.fin (95 / 100) * Dbl.fin 1) (Dbl.fin 300))
      ((example_pure_at 300 1000 100).modify (fun m =>
        { m with _rhoVanc := CachedElement.assign (Dbl.fin 1),
                 _rhoLanc := CachedElement.assign (Dbl.fin 40000) })) = Res.ret () _ :=
    (Res.eq_ret_state _ (by decide)).choose_spec
  have r2 : onSatL (update example_env_sat input_pairs.DmolarT_INPUTS
      (Dbl.fin (105 / 100) * Dbl.fin 40000) (Dbl.fin 300)) _ = Res.ret () example_ancillary_updated :=
    (Res.eq_ret_state _ (by decide)).choose_spec
  have r3 : onSatV (calc_hmolar example_env_sat) example_ancillary_updated = Res.ret (Dbl.fin 2400)
      (onSatV (calc_hmolar example_env_sat) example_ancillary_updated).state :=
    (rfl : _ = Res.ret ((0 + 1 * Dbl.fin 8) * Dbl.fin 300 * (1 + Dbl.fin 400 / Dbl.fin 300
      * (Dbl.fin 0 + Dbl.fin 0) + Dbl.fin 1 / Dbl.fin 5000 * Dbl.fin 0)) _).trans
      (congrArg (fun v => Res.ret v _) example_enthalpy_2400)
  have r4 : onSatL (calc_hmolar example_env_sat)
      (onSatV (calc_hmolar example_env_sat) example_ancillary_updated).state = Res.ret (Dbl.fin 2400)
      (onSatL (calc_hmolar example_env_sat)
        (onSatV (calc_hmolar example_env_sat) example_ancillary_updated).state).state :=
    (rfl : _ = Res.ret ((0 + 1 * Dbl.fin 8) * Dbl.fin 300 * (1 + Dbl.fin 400 / Dbl.fin 300
      * (Dbl.fin 0 + Dbl.fin 0) + Dbl.fin 1 / Dbl.fin 5000 * Dbl.fin 0)) _).trans
      (congrArg (fun v => Res.ret v _) example_enthalpy_2400)
  have r5 : onSatV (calc_umolar example_env_sat)
      (onSatL (calc_hmolar example_env_sat)
        (onSatV (calc_hmolar example_env_sat) example_ancillary_updated).state).state
      = Res.ret (Dbl.fin 0) (onSatV (calc_umolar example_env_sat)
      (onSatL (calc_hmolar example_env_sat)
        (onSatV (calc_hmolar example_env_sat) example_ancillary_updated).state).state).state :=
    (rfl : _ = Res.ret ((0 + 1 * Dbl.fin 8) * Dbl.fin 300 * (Dbl.fin 400 / Dbl.fin 300)
      * (Dbl.fin 0 + Dbl.fin 0)) _).trans
      (congrArg (fun v => Res.ret v _) example_energy_0)
  exact ⟨_, _, _, r3, r4, r5, T_enthalpy_fall_through example_env_sat (Dbl.fin 2400) (Dbl.fin 2400)
    (Dbl.fin 2400) (Dbl.fin 0) (example_pure_at 300 1000 100) _ _ _ _ _ (example_fluid 18 8) []
    rfl rfl hT r1 r2 r3 r4 r5 (Dbl.not_lt_self _) (Dbl.not_lt_self _)
    ((Dbl.fin_lt_fin 0 2400).mpr (by norm_num))⟩

/-! ## Paths without a result or without a phase (C36, C37) -/

/-- C36, as the code behaves. `solver_for_rho_given_T_oneof_HSU` tests `_T > _crit.T`,
then `_phase == iphase_liquid`, then `_phase == iphase_gas`, and has no final
`else`: at a stored temperature not above the critical one with a phase that is
neither liquid nor gas, for every other variable, control reaches the end of the
function, which neither returns a density nor raises an error. -/
theorem HSU_solver_without_result (env : Env) (T value : Dbl) (other : parameters)
    (s : HelmholtzEOSMixtureBackend)
    (hT : ¬ (s.self._crit.T < s.self._T)) (hl : s.self._phase ≠ phases.iphase_liquid)
    (hg : s.self._phase ≠ phases.iphase_gas) :
    solver_for_rho_given_T_oneof_HSU env T value other s = Res.throw
      (Err.UndefinedBehaviour "control reaches the end of solver_for_rho_given_T_oneof_HSU") s := by
  unfold solver_for_rho_given_T_oneof_HSU
  simp only [Prog.bind_apply, Prog.get_apply, hT, hl, hg, if_false]
  rfl

/-- C36 at the failing input: the two-phase example state at 300 K (critical
temperature 400 K) with the molar enthalpy 200 as target. -/
theorem HSU_solver_without_result_witness :
    ¬ (example_two_phase.self._crit.T < example_two_phase.self._T)
      ∧ example_two_phase.self._phase = phases.iphase_twophase
      ∧ solver_for_rho_given_T_oneof_HSU example_env (Dbl.fin 300) (Dbl.fin 200)
          parameters.iHmolar example_two_phase = Res.throw
        (Err.UndefinedBehaviour "control reaches the end of solver_for_rho_given_T_oneof_HSU")
        example_two_phase := by
  have hT : ¬ (example_two_phase.self._crit.T < example_two_phase.self._T) :=
    mt (Dbl.fin_lt_fin 400 300).mp (by norm_num)
  exact ⟨hT, rfl, HSU_solver_without_result example_env (Dbl.fin 300) (Dbl.fin 200)
    parameters.iHmolar example_two_phase hT (by decide) (by decide)⟩

/-- C37, as the code behaves. `p_phase_determination_pure_or_pseudopure` tests
`_p > _crit.p`, then `_p > ptriple && _p < _crit.p`, then `_p < ptriple`, all
strict. For a fluid whose triple-point pressure is below the critical pressure,
at `_p` equal to the critical pressure or equal to the triple-point pressure
none of the three holds: for every other variable the call returns without
raising, and the object, its phase included, is as it was on entry. -/
theorem p_phase_determination_gap (env : Env) (other : parameters) (value : Dbl)
    (s : HelmholtzEOSMixtureBackend) (c : CoolPropFluid) (cs : List CoolPropFluid)
    (hcomp : s.self.components = c :: cs) (hpos : c.pEOS.ptriple < s.self._crit.p)
    (h : s.self._p = s.self._crit.p ∨ s.self._p = c.pEOS.ptriple) :
    p_phase_determination_pure_or_pseudopure env other value s = Res.ret false s := by
  have h1 : ¬ (s.self._crit.p < s.self._p) := by
    rcases h with h | h <;> rw [h]
    · exact Dbl.not_lt_self _
    · exact Dbl.lt_asymm _ _ hpos
  have h2 : ¬ (c.pEOS.ptriple < s.self._p ∧ s.self._p < s.self._crit.p) := by
    rcases h with h | h <;> rw [h]
    · exact fun h3 => Dbl.not_lt_self _ h3.2
    · exact fun h3 => Dbl.not_lt_self _ h3.1
  have h3 : ¬ (s.self._p < c.pEOS.ptriple) := by
    rcases h with h | h <;> rw [h]
    · exact Dbl.lt_asymm _ _ hpos
    · exact Dbl.not_lt_self _
  unfold p_phase_determination_pure_or_pseudopure
  simp only [Prog.bind_apply, Prog.get_apply, hcomp, index, List.get?_cons_zero,
    Prog.ofExcept_ok, h1, h2, h3, if_false]
  rfl

/-- C37 at the failing input: the pure example fluid at the critical pressure
4 MPa, with the temperature 300 K as other variable; the phase is unknown on
entry and on return. -/
theorem p_phase_determination_gap_witness :
    (example_pure_at 300 4000000 100).self._p = (example_pure_at 300 4000000 100).self._crit.p
      ∧ (example_pure_at 300 4000000 100).self._phase = phases.iphase_unknown
      ∧ p_phase_determination_pure_or_pseudopure example_env parameters.iT (Dbl.fin 300)
          (example_pure_at 300 4000000 100) = Res.ret false (example_pure_at 300 4000000 100) :=
  ⟨rfl, rfl, p_phase_determination_gap example_env parameters.iT (Dbl.fin 300)
    (example_pure_at 300 4000000 100) (example_fluid 18 8) [] rfl
    ((Dbl.fin_lt_fin 600 4000000).mpr (by norm_num)) (Or.inl rfl)⟩

/-! ## The cached accessors of the second derivatives -/

theorem via_cache_closed_form (read : Members → CachedElement)
    (write : CachedElement → Members → Members) (hwr : ∀ m, write (read m) m = m)
    (e : Except Err Dbl) (s : HelmholtzEOSMixtureBackend) :
    via_cache read write s (Prog.ofExcept e s) =
      match cached_or (read s.self) e with
      | .ok v => Res.ret v (s.modify (write (CachedElement.assign v)))
      | .error err => Res.throw err s := by
  unfold via_cache cached_or
  by_cases hc : (read s.self).is_cached = true
  · simp only [hc, if_true]
    have h1 : CachedElement.assign (read s.self).value = read s.self := by
      cases hr : read s.self with
      | mk b v =>
        rw [hr] at hc
        cases hc
        rfl
    rw [h1]
    congr 1
    cases s with
    | mk m l v => exact (congrArg (fun x => HelmholtzEOSMixtureBackend.mk x l v) (hwr m)).symm
  · simp only [hc]
    cases e <;> rfl

theorem dalphar_dDelta_closed_form (s : HelmholtzEOSMixtureBackend) :
    dalphar_dDelta s =
      match cached_or s.self._dalphar_dDelta (calc_dalphar_dDelta s.self) with
      | .ok v => Res.ret v (s.modify (fun m => { m with _dalphar_dDelta := CachedElement.assign v }))
      | .error err => Res.throw err s :=
  via_cache_closed_form (fun m => m._dalphar_dDelta) (fun c m => { m with _dalphar_dDelta := c })
    (fun _ => rfl) _ s

theorem d2alphar_dDelta2_closed_form (s : HelmholtzEOSMixtureBackend) :
    d2alphar_dDelta2 s =
      match cached_or s.self._d2alphar_dDelta2 (calc_d2alphar_dDelta2 s.self) with
      | .ok v => Res.ret v (s.modify (fun m => { m with _d2alphar_dDelta2 := CachedElement.assign v }))
      | .error err => Res.throw err s :=
  via_cache_closed_form (fun m => m._d2alphar_dDelta2) (fun c m => { m with _d2alphar_dDelta2 := c })
    (fun _ => rfl) _ s

theorem d2alphar_dDelta_dTau_closed_form (s : HelmholtzEOSMixtureBackend) :
    d2alphar_dDelta_dTau s =
      match cached_or s.self._d2alphar_dDelta_dTau (calc_d2alphar_dDelta_dTau s.self) with
      | .ok v => Res.ret v (s.modify (fun m =>
          { m with _d2alphar_dDelta_dTau := CachedElement.assign v }))
      | .error err => Res.throw err s :=
  via_cache_closed_form (fun m => m._d2alphar_dDelta_dTau)
    (fun c m => { m with _d2alphar_dDelta_dTau := c }) (fun _ => rfl) _ s

theorem d2alphar_dTau2_closed_form (s : HelmholtzEOSMixtureBackend) :
    d2alphar_dTau2 s =
      match cached_or s.self._d2alphar_dTau2 (calc_d2alphar_dTau2 s.self) with
      | .ok v => Res.ret v (s.modify (fun m => { m with _d2alphar_dTau2 := CachedElement.assign v }))
      | .error err => Res.throw err s :=
  via_cache_closed_form (fun m => m._d2alphar_dTau2) (fun c m => { m with _d2alphar_dTau2 := c })
    (fun _ => rfl) _ s

theorem d2alpha0_dTau2_closed_form (env : Env) (s : HelmholtzEOSMixtureBackend) :
    d2alpha0_dTau2 env s =
      match cached_or s.self._d2alpha0_dTau2 (calc_d2alpha0_dTau2 env s.self) with
      | .ok v => Res.ret v (s.modify (fun m => { m with _d2alpha0_dTau2 := CachedElement.assign v }))
      | .error err => Res.throw err s :=
  via_cache_closed_form (fun m => m._d2alpha0_dTau2) (fun c m => { m with _d2alpha0_dTau2 := c })
    (fun _ => rfl) _ s

theorem gas_constant_closed_form (s : HelmholtzEOSMixtureBackend) :
    gas_constant s =
      match cached_or s.self._gas_constant (calc_gas_constant s.self) with
      | .ok v => Res.ret v (s.modify (fun m => { m with _gas_constant := CachedElement.assign v }))
      | .error err => Res.throw err s :=
  via_cache_closed_form (fun m => m._gas_constant) (fun c m => { m with _gas_constant := c })
    (fun _ => rfl) _ s

theorem cell_to_double_assign (env : Env) (x : Dbl) :
    cell_to_double env (CachedElement.assign x) = .ok x := rfl

/-! ## The difference of the heat capacities (C40) -/

theorem calc_cvmolar_value (env : Env) (s : HelmholtzEOSMixtureBackend)
    (R ar_tt a0_tt : Dbl)
    (hR : cell_to_double env s.self._gas_constant = .ok R)
    (h4 : cached_or s.self._d2alphar_dTau2 (calc_alphar_deriv_nocache s.self 2 0
      s.self.mole_fractions (s.self._reducing.T / s.self._T)
      (s.self._rhomolar / s.self._reducing.rhomolar)) = .ok ar_tt)
    (h5 : cached_or s.self._d2alpha0_dTau2 (calc_alpha0_deriv_nocache env s.self 2 0
      s.self.mole_fractions (s.self._reducing.T / s.self._T)
      (s.self._rhomolar / s.self._reducing.rhomolar) s.self._reducing.T
      s.self._reducing.rhomolar) = .ok a0_tt) :
    ∃ s2, calc_cvmolar env s =
      Res.ret ((-R) * pow2 (s.self._reducing.T / s.self._T) * (ar_tt + a0_tt)) s2 := by
  cases s with
  | mk m l v =>
    unfold calc_cvmolar set_reduced_variables
    simp only [Prog.bind_apply, Prog.get_apply, Prog.set_apply, d2alphar_dTau2_closed_form,
      d2alpha0_dTau2_closed_form]
    erw [h4]
    dsimp only
    erw [h5]
    dsimp only
    erw [hR]
    exact ⟨_, rfl⟩

theorem calc_cpmolar_value (env : Env) (s : HelmholtzEOSMixtureBackend)
    (R ar_d ar_dd ar_dt ar_tt a0_tt : Dbl)
    (hR : cell_to_double env s.self._gas_constant = .ok R)
    (h1 : cached_or s.self._dalphar_dDelta (calc_alphar_deriv_nocache s.self 0 1
      s.self.mole_fractions (s.self._reducing.T / s.self._T)
      (s.self._rhomolar / s.self._reducing.rhomolar)) = .ok ar_d)
    (h2 : cached_or s.self._d2alphar_dDelta2 (calc_alphar_deriv_nocache s.self 0 2
      s.self.mole_fractions (s.self._reducing.T / s.self._T)
      (s.self._rhomolar / s.self._reducing.rhomolar)) = .ok ar_dd)
    (h3 : cached_or s.self._d2alphar_dDelta_dTau (calc_alphar_deriv_nocache s.self 1 1
      s.self.mole_fractions (s.self._reducing.T / s.self._T)
      (s.self._rhomolar / s.self._reducing.rhomolar)) = .ok ar_dt)
    (h4 : cached_or s.self._d2alphar_dTau2 (calc_alphar_deriv_nocache s.self 2 0
      s.self.mole_fractions (s.self._reducing.T / s.self._T)
      (s.self._rhomolar / s.self._reducing.rhomolar)) = .ok ar_tt)
    (h5 : cached_or s.self._d2alpha0_dTau2 (calc_alpha0_deriv_nocache env s.self 2 0
      s.self.mole_fractions (s.self._reducing.T / s.self._T)
      (s.self._rhomolar / s.self._reducing.rhomolar) s.self._reducing.T
      s.self._reducing.rhomolar) = .ok a0_tt) :
    ∃ s1, calc_cpmolar env s =
      Res.ret (R * ((-pow2 (s.self._reducing.T / s.self._T)) * (ar_tt + a0_tt)
        + pow2 (1 + s.self._rhomolar / s.self._reducing.rhomolar * ar_d
            - s.self._rhomolar / s.self._reducing.rhomolar * (s.self._reducing.T / s.self._T)
              * ar_dt)
          / (1 + Dbl.fin 2 * (s.self._rhomolar / s.self._reducing.rhomolar) * ar_d
            + pow2 (s.self._rhomolar / s.self._reducing.rhomolar) * ar_dd))) s1 := by
  cases s with
  | mk m l v =>
    unfold calc_cpmolar set_reduced_variables
    simp only [Prog.bind_apply, Prog.get_apply, Prog.set_apply, d2alphar_dTau2_closed_form,
      d2alpha0_dTau2_closed_form, dalphar_dDelta_closed_form, d2alphar_dDelta2_closed_form,
      d2alphar_dDelta_dTau_closed_form]
    erw [h5]
    dsimp only
    erw [h1]
    dsimp only
    erw [h2]
    dsimp only
    erw [h3]
    dsimp only
    erw [h4]
    dsimp only
    erw [hR]
    exact ⟨_, rfl⟩

theorem Dbl.neg_fin (a : ℚ) : -(Dbl.fin a) = Dbl.fin (-a) := rfl

theorem Dbl.pow2_fin (a : ℚ) : pow2 (Dbl.fin a) = Dbl.fin (a * a) := rfl

/-- C40. Let the gas constant `R` be in its cell, let `tau = Tr/T` and
`delta = rho/rhor` be finite, let the five accessors of `calc_cpmolar` hand out
finite values (the content of a cached cell, the derivative of the equation of
state at `(tau, delta)` otherwise), and let
`1 + 2*delta*ar_delta + delta^2*ar_deltadelta` be other than zero. Then
`calc_cpmolar()` and `calc_cvmolar()` return, and the difference of their values
is `R*(1 + delta*ar_delta - delta*tau*ar_deltatau)^2 /
(1 + 2*delta*ar_delta + delta^2*ar_deltadelta)`; when `R` and this denominator
are positive, `cv <= cp`. -/
theorem heat_capacity_difference (env : Env) (s : HelmholtzEOSMixtureBackend)
    (R tau delta ar_d ar_dd ar_dt ar_tt a0_tt : ℚ)
    (hR : cell_to_double env s.self._gas_constant = .ok (Dbl.fin R))
    (htau : s.self._reducing.T / s.self._T = Dbl.fin tau)
    (hdelta : s.self._rhomolar / s.self._reducing.rhomolar = Dbl.fin delta)
    (h1 : cached_or s.self._dalphar_dDelta (calc_alphar_deriv_nocache s.self 0 1
      s.self.mole_fractions (Dbl.fin tau) (Dbl.fin delta)) = .ok (Dbl.fin ar_d))
    (h2 : cached_or s.self._d2alphar_dDelta2 (calc_alphar_deriv_nocache s.self 0 2
      s.self.mole_fractions (Dbl.fin tau) (Dbl.fin delta)) = .ok (Dbl.fin ar_dd))
    (h3 : cached_or s.self._d2alphar_dDelta_dTau (calc_alphar_deriv_nocache s.self 1 1
      s.self.mole_fractions (Dbl.fin tau) (Dbl.fin delta)) = .ok (Dbl.fin ar_dt))
    (h4 : cached_or s.self._d2alphar_dTau2 (calc_alphar_deriv_nocache s.self 2 0
      s.self.mole_fractions (Dbl.fin tau) (Dbl.fin delta)) = .ok (Dbl.fin ar_tt))
    (h5 : cached_or s.self._d2alpha0_dTau2 (calc_alpha0_deriv_nocache env s.self 2 0
      s.self.mole_fractions (Dbl.fin tau) (Dbl.fin delta) s.self._reducing.T
      s.self._reducing.rhomolar) = .ok (Dbl.fin a0_tt))
    (hD : 1 + 2 * delta * ar_d + delta * delta * ar_dd ≠ 0) :
    ∃ cp cv s1 s2, calc_cpmolar env s = Res.ret cp s1 ∧ calc_cvmolar env s = Res.ret cv s2
      ∧ cp - cv = Dbl.fin R
          * pow2 (1 + Dbl.fin delta * Dbl.fin ar_d - Dbl.fin delta * Dbl.fin tau * Dbl.fin ar_dt)
          / (1 + Dbl.fin 2 * Dbl.fin delta * Dbl.fin ar_d + pow2 (Dbl.fin delta) * Dbl.fin ar_dd)
      ∧ (0 < Dbl.fin R →
          0 < 1 + Dbl.fin 2 * Dbl.fin delta * Dbl.fin ar_d + pow2 (Dbl.fin delta) * Dbl.fin ar_dd →
          cv ≤ cp) := by
  rw [← htau, ← hdelta] at h1 h2 h3 h4 h5
  obtain ⟨s1, hcp⟩ := calc_cpmolar_value env s _ _ _ _ _ _ hR h1 h2 h3 h4 h5
  obtain ⟨s2, hcv⟩ := calc_cvmolar_value env s _ _ _ hR h4 h5
  rw [htau, hdelta] at hcp
  rw [htau] at hcv
  refine ⟨_, _, s1, s2, hcp, hcv, ?_, ?_⟩
  · simp only [Dbl.one_eq, Dbl.pow2_fin, Dbl.neg_fin, Dbl.fin_mul_fin, Dbl.fin_add_fin,
      Dbl.fin_sub_fin]
    rw [Dbl.fin_div_fin _ _ (by simpa using hD), Dbl.fin_add_fin, Dbl.fin_mul_fin,
      Dbl.fin_sub_fin, Dbl.fin_div_fin _ _ (by simpa using hD)]
    congr 1
    field_simp
    ring
  · simp only [Dbl.one_eq, Dbl.pow2_fin, Dbl.neg_fin, Dbl.fin_mul_fin, Dbl.fin_add_fin,
      Dbl.fin_sub_fin]
    rw [Dbl.fin_div_fin _ _ (by simpa using hD), Dbl.fin_add_fin, Dbl.fin_mul_fin,
      Dbl.zero_lt_fin, Dbl.zero_lt_fin, Dbl.fin_le_fin]
    intro hRpos hDpos
    have hq : 0 ≤ (1 + delta * ar_d - delta * tau * ar_dt) * (1 + delta * ar_d - delta * tau * ar_dt)
        / (1 + 2 * delta * ar_d + delta * delta * ar_dd) :=
      div_nonneg (mul_self_nonneg _) hDpos.le
    nlinarith [mul_nonneg hRpos.le hq]

theorem example_curved_tau :
    (example_curved 400).self._reducing.T / (example_curved 400).self._T = Dbl.fin (4 / 3) := by
  show Dbl.fin 400 / Dbl.fin 300 = _
  rw [Dbl.fin_div_fin _ _ (by norm_num)]
  norm_num

theorem example_curved_delta :
    (example_curved 400).self._rhomolar / (example_curved 400).self._reducing.rhomolar
      = Dbl.fin (1 / 50) := by
  show Dbl.fin 100 / Dbl.fin 5000 = _
  rw [Dbl.fin_div_fin _ _ (by norm_num)]
  norm_num

/-- C40 on the example state `example_curved 400` (gas constant 8, `tau = 4/3`,
`delta = 1/50`, residual derivatives 1/2, 1, 1 and -1, ideal-gas derivative -2). -/
theorem heat_capacity_difference_witness :
    (1 : ℚ) + 2 * (1 / 50) * (1 / 2) + 1 / 50 * (1 / 50) * 1 ≠ 0
      ∧ ∃ cp cv s1 s2, calc_cpmolar example_env (example_curved 400) = Res.ret cp s1
        ∧ calc_cvmolar example_env (example_curved 400) = Res.ret cv s2
        ∧ cp - cv = Dbl.fin 8
          * pow2 (1 + Dbl.fin (1 / 50) * Dbl.fin (1 / 2)
              - Dbl.fin (1 / 50) * Dbl.fin (4 / 3) * Dbl.fin 1)
          / (1 + Dbl.fin 2 * Dbl.fin (1 / 50) * Dbl.fin (1 / 2)
              + pow2 (Dbl.fin (1 / 50)) * Dbl.fin 1)
        ∧ (0 < Dbl.fin 8 →
            0 < 1 + Dbl.fin 2 * Dbl.fin (1 / 50) * Dbl.fin (1 / 2)
              + pow2 (Dbl.fin (1 / 50)) * Dbl.fin 1 →
            cv ≤ cp) :=
  ⟨by norm_num, heat_capacity_difference example_env (example_curved 400) 8 (4 / 3) (1 / 50) (1 / 2) 1 1
    (-1) (-2) rfl example_curved_tau example_curved_delta rfl rfl rfl rfl rfl (by norm_num)⟩

/-! ## The pressure derivatives (C39) -/

theorem gas_constant_of_cell (s : HelmholtzEOSMixtureBackend) (R : Dbl)
    (hR : s.self._gas_constant = CachedElement.assign R) : gas_constant s = Res.ret R s := by
  unfold gas_constant via_cache
  simp only [hR]
  rfl

theorem get_dtau_ddelta_iT (env : Env) (T rho R : Dbl) (s : HelmholtzEOSMixtureBackend)
    (hR : s.self._gas_constant = CachedElement.assign R) :
    get_dtau_ddelta env T rho parameters.iT s =
      Res.ret ((-pow2 T) / s.self._reducing.T, 0) s := by
  unfold get_dtau_ddelta
  simp only [Prog.bind_apply, get_reducing, gas_constant_of_cell s R hR]
  rfl

theorem get_dtau_ddelta_iDmolar (env : Env) (T rho R : Dbl) (s : HelmholtzEOSMixtureBackend)
    (hR : s.self._gas_constant = CachedElement.assign R) :
    get_dtau_ddelta env T rho parameters.iDmolar s =
      Res.ret (0, s.self._reducing.rhomolar) s := by
  unfold get_dtau_ddelta
  simp only [Prog.bind_apply, get_reducing, gas_constant_of_cell s R hR]
  rfl

theorem get_dtau_ddelta_iP (env : Env) (T rho R ar_d ar_dd ar_dt : Dbl)
    (s : HelmholtzEOSMixtureBackend)
    (hR : s.self._gas_constant = CachedElement.assign R)
    (h1 : calc_alphar_deriv_nocache s.self 0 1 s.self.mole_fractions (s.self._reducing.T / T)
      (rho / s.self._reducing.rhomolar) = .ok ar_d)
    (h2 : calc_alphar_deriv_nocache s.self 0 2 s.self.mole_fractions (s.self._reducing.T / T)
      (rho / s.self._reducing.rhomolar) = .ok ar_dd)
    (h3 : calc_alphar_deriv_nocache s.self 1 1 s.self.mole_fractions (s.self._reducing.T / T)
      (rho / s.self._reducing.rhomolar) = .ok ar_dt) :
    get_dtau_ddelta env T rho parameters.iP s =
      Res.ret ((-pow2 T) / s.self._reducing.T * rho * R
          * (1 + rho / s.self._reducing.rhomolar * ar_d
            - s.self._reducing.T / T * (rho / s.self._reducing.rhomolar) * ar_dt),
        s.self._reducing.rhomolar * R * T
          * (1 + Dbl.fin 2 * (rho / s.self._reducing.rhomolar) * ar_d
            + pow2 (rho / s.self._reducing.rhomolar) * ar_dd)) s := by
  unfold get_dtau_ddelta
  simp only [Prog.bind_apply, get_reducing, gas_constant_of_cell s R hR, Prog.get_apply,
    get_mole_fractions, h1, h2, h3, Prog.ofExcept_ok]
  rfl

theorem first_partial_deriv_of_pairs (env : Env) (T rho : Dbl) (X Y Z : parameters)
    (s : HelmholtzEOSMixtureBackend) (pX pY pZ : Dbl × Dbl)
    (hX : get_dtau_ddelta env T rho X s = Res.ret pX s)
    (hY : get_dtau_ddelta env T rho Y s = Res.ret pY s)
    (hZ : get_dtau_ddelta env T rho Z s = Res.ret pZ s) :
    calc_first_partial_deriv_nocache env T rho X Y Z s =
      Res.ret ((pX.1 * pZ.2 - pX.2 * pZ.1) / (pY.1 * pZ.2 - pY.2 * pZ.1)) s := by
  unfold calc_first_partial_deriv_nocache
  simp only [Prog.bind_apply, hX, hY, hZ, Prog.pure_apply]

theorem mixderiv_dpdrho_value (env : Env) (s : HelmholtzEOSMixtureBackend) (R ar_d ar_dd : Dbl)
    (hR : s.self._gas_constant = CachedElement.assign R)
    (h1 : cached_or s.self._dalphar_dDelta (calc_alphar_deriv_nocache s.self 0 1
      s.self.mole_fractions s.self._tau.value s.self._delta.value) = .ok ar_d)
    (h2 : cached_or s.self._d2alphar_dDelta2 (calc_alphar_deriv_nocache s.self 0 2
      s.self.mole_fractions s.self._tau.value s.self._delta.value) = .ok ar_dd) :
    ∃ s1, mixderiv_dpdrho__constT_n env s =
      Res.ret (R * s.self._T * (1 + Dbl.fin 2 * s.self._delta.value * ar_d
        + pow2 s.self._delta.value * ar_dd)) s1 := by
  cases s with
  | mk m l v =>
    have hR1 : cell_to_double env m._gas_constant = .ok R := by
      rw [show m._gas_constant = CachedElement.assign R from hR]
      rfl
    unfold mixderiv_dpdrho__constT_n
    simp only [Prog.bind_apply, Prog.get_apply, dalphar_dDelta_closed_form,
      d2alphar_dDelta2_closed_form]
    erw [hR1]
    dsimp only [Prog.ofExcept_ok]
    erw [h1]
    dsimp only
    erw [h2]
    exact ⟨_, rfl⟩

theorem mixderiv_dpdT_value (env : Env) (s : HelmholtzEOSMixtureBackend) (R ar_d ar_dt : Dbl)
    (hR : s.self._gas_constant = CachedElement.assign R)
    (h1 : cached_or s.self._dalphar_dDelta (calc_alphar_deriv_nocache s.self 0 1
      s.self.mole_fractions s.self._tau.value s.self._delta.value) = .ok ar_d)
    (h3 : cached_or s.self._d2alphar_dDelta_dTau (calc_alphar_deriv_nocache s.self 1 1
      s.self.mole_fractions s.self._tau.value s.self._delta.value) = .ok ar_dt) :
    ∃ s1, mixderiv_dpdT__constV_n env s =
      Res.ret (s.self._rhomolar * R * (1 + s.self._delta.value * ar_d
        - s.self._delta.value * s.self._tau.value * ar_dt)) s1 := by
  cases s with
  | mk m l v =>
    have hR1 : cell_to_double env m._gas_constant = .ok R := by
      rw [show m._gas_constant = CachedElement.assign R from hR]
      rfl
    unfold mixderiv_dpdT__constV_n
    simp only [Prog.bind_apply, Prog.get_apply, dalphar_dDelta_closed_form,
      d2alphar_dDelta_dTau_closed_form]
    erw [hR1]
    dsimp only [Prog.ofExcept_ok]
    erw [h1]
    dsimp only
    erw [h3]
    exact ⟨_, rfl⟩

theorem cached_or_of_value (c : CachedElement) (e : Except Err Dbl) (x : Dbl)
    (he : e = .ok x) (hc : cached_or c (.ok x) = .ok x) : cached_or c e = .ok x := by
  rw [he]
  exact hc

theorem Dbl.fin_div_of_eq (a b c : ℚ) (hb : b ≠ 0) (h : a / b = c) :
    Dbl.fin a / Dbl.fin b = Dbl.fin c := by
  rw [Dbl.fin_div_fin _ _ hb, h]

/-- C39, amended. Let the state hold finite `T != 0` and `rho`, a finite reducing
temperature `Tr != 0` and a finite reducing density `rhor != 0`, the values
`tau = Tr/T` and `delta = rho/rhor` in their cells and the gas constant `R` in
its cell; let the three residual derivatives at `(tau, delta)` be finite, and let
each cell of the accessors `dalphar_dDelta`, `d2alphar_dDelta2` and
`d2alphar_dDelta_dTau` be empty or hold that derivative. Then
`calc_first_partial_deriv(iP, iDmolar, iT)` and `mixderiv_dpdrho__constT_n()`
return the same value `R*T*(1 + 2*delta*ar_delta + delta^2*ar_deltadelta)`, and
`calc_first_partial_deriv(iP, iT, iDmolar)` and `mixderiv_dpdT__constV_n()`
return the same value `rho*R*(1 + delta*ar_delta - delta*tau*ar_deltatau)`. -/
theorem pressure_derivatives_agree (env : Env) (s : HelmholtzEOSMixtureBackend)
    (T rho Tr rhor R ar_d ar_dd ar_dt : ℚ)
    (hT : s.self._T = Dbl.fin T) (hrho : s.self._rhomolar = Dbl.fin rho)
    (hTr : s.self._reducing.T = Dbl.fin Tr) (hrhor : s.self._reducing.rhomolar = Dbl.fin rhor)
    (hT0 : T ≠ 0) (hTr0 : Tr ≠ 0) (hrhor0 : rhor ≠ 0)
    (htau : s.self._tau = CachedElement.assign (Dbl.fin (Tr / T)))
    (hdelta : s.self._delta = CachedElement.assign (Dbl.fin (rho / rhor)))
    (hR : s.self._gas_constant = CachedElement.assign (Dbl.fin R))
    (hn1 : calc_alphar_deriv_nocache s.self 0 1 s.self.mole_fractions (Dbl.fin (Tr / T))
      (Dbl.fin (rho / rhor)) = .ok (Dbl.fin ar_d))
    (hn2 : calc_alphar_deriv_nocache s.self 0 2 s.self.mole_fractions (Dbl.fin (Tr / T))
      (Dbl.fin (rho / rhor)) = .ok (Dbl.fin ar_dd))
    (hn3 : calc_alphar_deriv_nocache s.self 1 1 s.self.mole_fractions (Dbl.fin (Tr / T))
      (Dbl.fin (rho / rhor)) = .ok (Dbl.fin ar_dt))
    (hc1 : cached_or s.self._dalphar_dDelta (.ok (Dbl.fin ar_d)) = .ok (Dbl.fin ar_d))
    (hc2 : cached_or s.self._d2alphar_dDelta2 (.ok (Dbl.fin ar_dd)) = .ok (Dbl.fin ar_dd))
    (hc3 : cached_or s.self._d2alphar_dDelta_dTau (.ok (Dbl.fin ar_dt)) = .ok (Dbl.fin ar_dt)) :
    ∃ s1 s2,
      calc_first_partial_deriv env parameters.iP parameters.iDmolar parameters.iT s =
        Res.ret (Dbl.fin (R * T * (1 + 2 * (rho / rhor) * ar_d
          + rho / rhor * (rho / rhor) * ar_dd))) s
      ∧ mixderiv_dpdrho__constT_n env s =
        Res.ret (Dbl.fin (R * T * (1 + 2 * (rho / rhor) * ar_d
          + rho / rhor * (rho / rhor) * ar_dd))) s1
      ∧ calc_first_partial_deriv env parameters.iP parameters.iT parameters.iDmolar s =
        Res.ret (Dbl.fin (rho * R * (1 + rho / rhor * ar_d - rho / rhor * (Tr / T) * ar_dt))) s
      ∧ mixderiv_dpdT__constV_n env s =
        Res.ret (Dbl.fin (rho * R * (1 + rho / rhor * ar_d - rho / rhor * (Tr / T) * ar_dt))) s2 := by
  have etau : s.self._reducing.T / s.self._T = Dbl.fin (Tr / T) := by
    rw [hTr, hT, Dbl.fin_div_fin _ _ hT0]
  have edelta : s.self._rhomolar / s.self._reducing.rhomolar = Dbl.fin (rho / rhor) := by
    rw [hrho, hrhor, Dbl.fin_div_fin _ _ hrhor0]
  have ctau : s.self._tau.value = Dbl.fin (Tr / T) := by rw [htau]; rfl
  have cdelta : s.self._delta.value = Dbl.fin (rho / rhor) := by rw [hdelta]; rfl
  have hP := get_dtau_ddelta_iP env s.self._T s.self._rhomolar (Dbl.fin R) (Dbl.fin ar_d)
    (Dbl.fin ar_dd) (Dbl.fin ar_dt) s hR (by rw [etau, edelta]; exact hn1)
    (by rw [etau, edelta]; exact hn2) (by rw [etau, edelta]; exact hn3)
  have hD := get_dtau_ddelta_iDmolar env s.self._T s.self._rhomolar (Dbl.fin R) s hR
  have hTT := get_dtau_ddelta_iT env s.self._T s.self._rhomolar (Dbl.fin R) s hR
  have d1 := first_partial_deriv_of_pairs env _ _ _ _ _ s _ _ _ hP hD hTT
  have d2 := first_partial_deriv_of_pairs env _ _ _ _ _ s _ _ _ hP hTT hD
  obtain ⟨s1, m1⟩ := mixderiv_dpdrho_value env s (Dbl.fin R) (Dbl.fin ar_d) (Dbl.fin ar_dd) hR
    (cached_or_of_value _ _ _ (by rw [ctau, cdelta]; exact hn1) hc1)
    (cached_or_of_value _ _ _ (by rw [ctau, cdelta]; exact hn2) hc2)
  obtain ⟨s2, m2⟩ := mixderiv_dpdT_value env s (Dbl.fin R) (Dbl.fin ar_d) (Dbl.fin ar_dt) hR
    (cached_or_of_value _ _ _ (by rw [ctau, cdelta]; exact hn1) hc1)
    (cached_or_of_value _ _ _ (by rw [ctau, cdelta]; exact hn3) hc3)
  have hTT0 : -(T * T) / Tr ≠ 0 := by
    apply div_ne_zero _ hTr0
    simpa using hT0
  refine ⟨s1, s2, ?_, ?_, ?_, ?_⟩
  · unfold calc_first_partial_deriv
    simp only [Prog.bind_apply, Prog.get_apply]
    rw [d1]
    congr 1
    simp only [hT, hrho, hTr, hrhor, Dbl.one_eq, Dbl.zero_eq, Dbl.pow2_fin,
      Dbl.neg_fin, Dbl.fin_div_fin _ _ hTr0, Dbl.fin_div_fin _ _ hrhor0,
      Dbl.fin_div_fin _ _ hT0, Dbl.fin_mul_fin, Dbl.fin_add_fin, Dbl.fin_sub_fin]
    refine Dbl.fin_div_of_eq _ _ _ ?_ ?_
    · have h := mul_ne_zero hrhor0 hTT0
      intro h1
      apply h
      linear_combination -h1
    · field_simp
      ring
  · rw [m1]
    congr 1
    simp only [cdelta, hT, Dbl.one_eq, Dbl.pow2_fin, Dbl.fin_mul_fin, Dbl.fin_add_fin]
  · unfold calc_first_partial_deriv
    simp only [Prog.bind_apply, Prog.get_apply]
    rw [d2]
    congr 1
    simp only [hT, hrho, hTr, hrhor, Dbl.one_eq, Dbl.zero_eq, Dbl.pow2_fin,
      Dbl.neg_fin, Dbl.fin_div_fin _ _ hTr0, Dbl.fin_div_fin _ _ hrhor0,
      Dbl.fin_div_fin _ _ hT0, Dbl.fin_mul_fin, Dbl.fin_add_fin, Dbl.fin_sub_fin]
    refine Dbl.fin_div_of_eq _ _ _ ?_ ?_
    · have h := mul_ne_zero hTT0 hrhor0
      intro h1
      apply h
      linear_combination h1
    · field_simp
      ring
  · rw [m2]
    congr 1
    simp only [cdelta, ctau, hrho, Dbl.one_eq, Dbl.pow2_fin, Dbl.fin_mul_fin, Dbl.fin_add_fin,
      Dbl.fin_sub_fin]

/-- C39 on the example state `example_curved 400`: 300 K, 100 mol/m3, reducing
point 400 K and 5000 mol/m3, gas constant 8 and the residual derivatives 1/2, 1
and 1. -/
theorem pressure_derivatives_agree_witness :
    (300 : ℚ) ≠ 0 ∧ (400 : ℚ) ≠ 0 ∧ (5000 : ℚ) ≠ 0
      ∧ ∃ s1 s2,
        calc_first_partial_deriv example_env parameters.iP parameters.iDmolar parameters.iT
            (example_curved 400) =
          Res.ret (Dbl.fin (8 * 300 * (1 + 2 * (100 / 5000) * (1 / 2)
            + 100 / 5000 * (100 / 5000) * 1))) (example_curved 400)
        ∧ mixderiv_dpdrho__constT_n example_env (example_curved 400) =
          Res.ret (Dbl.fin (8 * 300 * (1 + 2 * (100 / 5000) * (1 / 2)
            + 100 / 5000 * (100 / 5000) * 1))) s1
        ∧ calc_first_partial_deriv example_env parameters.iP parameters.iT parameters.iDmolar
            (example_curved 400) =
          Res.ret (Dbl.fin (100 * 8 * (1 + 100 / 5000 * (1 / 2) - 100 / 5000 * (400 / 300) * 1)))
            (example_curved 400)
        ∧ mixderiv_dpdT__constV_n example_env (example_curved 400) =
          Res.ret (Dbl.fin (100 * 8 * (1 + 100 / 5000 * (1 / 2) - 100 / 5000 * (400 / 300) * 1)))
            s2 :=
  ⟨by norm_num, by norm_num, by norm_num,
    pressure_derivatives_agree example_env (example_curved 400) 300 100 400 5000 8 (1 / 2) 1 1
      rfl rfl rfl rfl (by norm_num) (by norm_num) (by norm_num) rfl rfl rfl rfl rfl rfl rfl rfl rfl⟩

theorem Dbl.fin_div_zero_of_neg (a : ℚ) (h : a < 0) : Dbl.fin a / Dbl.fin 0 = Dbl.ninf := by
  show (if (0 : ℚ) = 0 then (if a = 0 then Dbl.nan else if 0 < a then Dbl.pinf else Dbl.ninf)
    else Dbl.fin (a / 0)) = Dbl.ninf
  rw [if_pos rfl, if_neg h.ne, if_neg (not_lt.mpr h.le)]

theorem Dbl.ninf_mul_fin (b : ℚ) (h : 0 < b) : Dbl.ninf * Dbl.fin b = Dbl.ninf := by
  show Dbl.infTimes false b = Dbl.ninf
  unfold Dbl.infTimes
  rw [if_neg h.ne.symm, if_neg (by simp [h])]

theorem Dbl.ninf_mul_zero : Dbl.ninf * Dbl.fin 0 = Dbl.nan := by
  show Dbl.infTimes false 0 = Dbl.nan
  unfold Dbl.infTimes
  rw [if_pos rfl]

theorem Dbl.nan_sub (x : Dbl) : Dbl.nan - x = Dbl.nan := by
  cases x <;> rfl

theorem Dbl.nan_div (x : Dbl) : Dbl.nan / x = Dbl.nan := by
  cases x <;> rfl

/-- C39, as the code behaves, on the example state `example_curved 0`: 300 K,
100 mol/m3, reducing density 5000 mol/m3 and reducing temperature 0, with
`tau = 0/300` and `delta = 100/5000` in their cells. `get_dtau_ddelta` computes
`dT_dtau = -T^2/Tr = -inf`; the numerator of the Jacobian ratio contains
`-inf * 0`, and `calc_first_partial_deriv(iP, iDmolar, iT)` returns NaN, where
`mixderiv_dpdrho__constT_n()` returns `2400 * (1 + 1/50 + 1/2500)`. -/
theorem pressure_derivative_without_reducing_temperature :
    (example_curved 0).self._T = Dbl.fin 300
      ∧ (example_curved 0).self._reducing.T = Dbl.fin 0
      ∧ (example_curved 0).self._reducing.rhomolar = Dbl.fin 5000
      ∧ (example_curved 0).self._tau = CachedElement.assign (Dbl.fin (0 / 300))
      ∧ (example_curved 0).self._delta = CachedElement.assign (Dbl.fin (100 / 5000))
      ∧ calc_first_partial_deriv example_env parameters.iP parameters.iDmolar parameters.iT
          (example_curved 0) = Res.ret Dbl.nan (example_curved 0)
      ∧ ∃ s1, mixderiv_dpdrho__constT_n example_env (example_curved 0) =
          Res.ret (Dbl.fin (2400 * (1 + 1 / 50 + 1 / 2500))) s1 := by
  have hP := get_dtau_ddelta_iP example_env (Dbl.fin 300) (Dbl.fin 100) (Dbl.fin 8)
    (Dbl.fin (1 / 2)) (Dbl.fin 1) (Dbl.fin 1) (example_curved 0) rfl rfl rfl rfl
  have hD := get_dtau_ddelta_iDmolar example_env (Dbl.fin 300) (Dbl.fin 100) (Dbl.fin 8)
    (example_curved 0) rfl
  have hTT := get_dtau_ddelta_iT example_env (Dbl.fin 300) (Dbl.fin 100) (Dbl.fin 8)
    (example_curved 0) rfl
  have d1 := first_partial_deriv_of_pairs example_env _ _ _ _ _ (example_curved 0) _ _ _ hP hD hTT
  have hdT : (-pow2 (Dbl.fin 300)) / (example_curved 0).self._reducing.T = Dbl.ninf := by
    show (-pow2 (Dbl.fin 300)) / Dbl.fin 0 = Dbl.ninf
    rw [Dbl.pow2_fin, Dbl.neg_fin]
    exact Dbl.fin_div_zero_of_neg _ (by norm_num)
  have hfac : (1 : Dbl) + Dbl.fin 100 / (example_curved 0).self._reducing.rhomolar * Dbl.fin (1 / 2)
      - (example_curved 0).self._reducing.T / Dbl.fin 300
        * (Dbl.fin 100 / (example_curved 0).self._reducing.rhomolar) * Dbl.fin 1
      = Dbl.fin (101 / 100) := by
    show (1 : Dbl) + Dbl.fin 100 / Dbl.fin 5000 * Dbl.fin (1 / 2)
      - Dbl.fin 0 / Dbl.fin 300 * (Dbl.fin 100 / Dbl.fin 5000) * Dbl.fin 1 = _
    rw [Dbl.fin_div_fin _ _ (by norm_num), Dbl.fin_div_fin _ _ (by norm_num)]
    simp only [Dbl.one_eq, Dbl.fin_mul_fin, Dbl.fin_add_fin, Dbl.fin_sub_fin]
    norm_num
  have hval : calc_first_partial_deriv example_env parameters.iP parameters.iDmolar
      parameters.iT (example_curved 0) = Res.ret Dbl.nan (example_curved 0) := by
    refine (d1 : calc_first_partial_deriv example_env parameters.iP parameters.iDmolar
      parameters.iT (example_curved 0) = _).trans ?_
    congr 1
    dsimp only
    rw [hdT, hfac, Dbl.ninf_mul_fin _ (by norm_num), Dbl.ninf_mul_fin _ (by norm_num),
      Dbl.ninf_mul_fin _ (by norm_num)]
    show (Dbl.ninf * Dbl.fin 0 - _) / _ = Dbl.nan
    rw [Dbl.ninf_mul_zero, Dbl.nan_sub, Dbl.nan_div]
  obtain ⟨s1, m1⟩ := mixderiv_dpdrho_value example_env (example_curved 0) (Dbl.fin 8)
    (Dbl.fin (1 / 2)) (Dbl.fin 1) rfl rfl rfl
  refine ⟨rfl, rfl, rfl, rfl, rfl, hval, s1, m1.trans ?_⟩
  congr 1
  show Dbl.fin 8 * Dbl.fin 300 * (1 + Dbl.fin 2 * Dbl.fin (100 / 5000) * Dbl.fin (1 / 2)
    + pow2 (Dbl.fin (100 / 5000)) * Dbl.fin 1) = _
  simp only [Dbl.one_eq, Dbl.pow2_fin, Dbl.fin_mul_fin, Dbl.fin_add_fin]
  norm_num

/-! ## Values that do not depend on the cells filled -/

theorem same_cache_values_refl (env : Env) (s : HelmholtzEOSMixtureBackend) :
    same_cache_values env s s := by
  refine ⟨⟨s.self._gas_constant, s.self._dalphar_dDelta, s.self._d2alphar_dDelta2,
    s.self._d2alphar_dDelta_dTau, s.self._d2alphar_dTau2, s.self._d2alpha0_dTau2, ?_⟩,
    rfl, rfl, rfl, rfl, rfl, rfl⟩
  cases s
  rfl

theorem same_cache_values_symm (env : Env) (s t : HelmholtzEOSMixtureBackend)
    (h : same_cache_values env s t) : same_cache_values env t s := by
  obtain ⟨⟨c1, c2, c3, c4, c5, c6, rfl⟩, h1, h2, h3, h4, h5, h6⟩ := h
  refine ⟨⟨s.self._gas_constant, s.self._dalphar_dDelta, s.self._d2alphar_dDelta2,
    s.self._d2alphar_dDelta_dTau, s.self._d2alphar_dTau2, s.self._d2alpha0_dTau2, ?_⟩,
    h1.symm, h2.symm, h3.symm, h4.symm, h5.symm, h6.symm⟩
  cases s
  rfl

theorem same_cache_values_trans (env : Env) (s t u : HelmholtzEOSMixtureBackend)
    (h : same_cache_values env s t) (h' : same_cache_values env t u) :
    same_cache_values env s u := by
  obtain ⟨⟨c1, c2, c3, c4, c5, c6, rfl⟩, h1, h2, h3, h4, h5, h6⟩ := h
  obtain ⟨⟨d1, d2, d3, d4, d5, d6, rfl⟩, k1, k2, k3, k4, k5, k6⟩ := h'
  refine ⟨⟨d1, d2, d3, d4, d5, d6, ?_⟩, k1.trans h1, k2.trans h2, k3.trans h3, k4.trans h4,
    k5.trans h5, k6.trans h6⟩
  cases s
  rfl

theorem Prog.cache_stable_apply {α : Type} (env : Env) (f : Prog α) (hf : Prog.cache_stable env f)
    (s t s1 : HelmholtzEOSMixtureBackend) (a : α) (hst : same_cache_values env s t)
    (h : f s = Res.ret a s1) :
    ∃ t1, f t = Res.ret a t1 ∧ same_cache_values env s t1 := by
  obtain ⟨_, t1, ht, htt⟩ := hf s t a s1 hst h
  exact ⟨t1, ht, same_cache_values_trans env s t t1 hst htt⟩

theorem Prog.cache_stable_pure {α : Type} (env : Env) (a : α) :
    Prog.cache_stable env (pure a : Prog α) := by
  intro s t b s1 hst h
  cases h
  exact ⟨same_cache_values_refl env s, t, rfl, same_cache_values_refl env t⟩

theorem Prog.cache_stable_raise {α : Type} (env : Env) (e : Err) :
    Prog.cache_stable env (Prog.raise e : Prog α) := by
  intro s t b s1 hst h
  cases h

theorem Prog.cache_stable_bind {α β : Type} (env : Env) (f : Prog α) (g : α → Prog β)
    (hf : Prog.cache_stable env f) (hg : ∀ a, Prog.cache_stable env (g a)) :
    Prog.cache_stable env (f >>= g) := by
  intro s t b s2 hst h
  obtain ⟨a, s1, h1, h2⟩ := (Prog.bind_eq_ret f g s s2 b).mp h
  obtain ⟨hs1, t1, ht1, htt1⟩ := hf s t a s1 hst h1
  have hs1t1 : same_cache_values env s1 t1 :=
    same_cache_values_trans env s1 s t1 (same_cache_values_symm env s s1 hs1)
      (same_cache_values_trans env s t t1 hst htt1)
  obtain ⟨hs2, t2, ht2, htt2⟩ := hg a s1 t1 b s2 hs1t1 h2
  refine ⟨same_cache_values_trans env s s1 s2 hs1 hs2, t2, ?_,
    same_cache_values_trans env t t1 t2 htt1 htt2⟩
  exact (Prog.bind_eq_ret f g t t2 b).mpr ⟨a, t1, ht1, ht2⟩

theorem Prog.cache_stable_read {α : Type} (env : Env) (g : Members → α)
    (hg : ∀ c1 c2 c3 c4 c5 c6 m, g (fill_cells c1 c2 c3 c4 c5 c6 m) = g m) :
    Prog.cache_stable env (fun s => Res.ret (g s.self) s) := by
  intro s t b s1 hst h
  cases h
  refine ⟨same_cache_values_refl env s, t, ?_, same_cache_values_refl env t⟩
  obtain ⟨⟨c1, c2, c3, c4, c5, c6, rfl⟩, _⟩ := hst
  dsimp only
  rw [HelmholtzEOSMixtureBackend.self_modify, hg]

theorem Prog.cache_stable_except {α : Type} (env : Env) (F : Members → Except Err α)
    (hF : ∀ c1 c2 c3 c4 c5 c6 m, F (fill_cells c1 c2 c3 c4 c5 c6 m) = F m) :
    Prog.cache_stable env (fun s => Prog.ofExcept (F s.self) s) := by
  intro s t b s1 hst h
  obtain ⟨⟨c1, c2, c3, c4, c5, c6, rfl⟩, hv⟩ := hst
  have e : F (s.modify (fill_cells c1 c2 c3 c4 c5 c6)).self = F s.self := by
    rw [HelmholtzEOSMixtureBackend.self_modify, hF]
  dsimp only at h ⊢
  rw [e]
  cases hF1 : F s.self with
  | error err => rw [hF1] at h; cases h
  | ok v =>
    rw [hF1] at h
    cases h
    exact ⟨same_cache_values_refl env s, _, rfl, same_cache_values_refl env _⟩

theorem Prog.cache_stable_accessor (env : Env) (a : Prog Dbl) (val : Members → Except Err Dbl)
    (w : Dbl → Members → Members)
    (hclosed : ∀ s, a s = match val s.self with
      | .ok v => Res.ret v (s.modify (w v))
      | .error e => Res.throw e s)
    (hval : ∀ s t, same_cache_values env s t → val t.self = val s.self)
    (hw : ∀ s v, val s.self = .ok v → same_cache_values env s (s.modify (w v))) :
    Prog.cache_stable env a := by
  intro s t b s1 hst h
  rw [hclosed] at h
  cases hv : val s.self with
  | error e => rw [hv] at h; cases h
  | ok v =>
    rw [hv] at h
    cases h
    have hvt : val t.self = .ok b := (hval s t hst).trans hv
    refine ⟨hw s b hv, t.modify (w b), ?_, hw t b hvt⟩
    rw [hclosed, hvt]

theorem gas_constant_stable (env : Env) : Prog.cache_stable env gas_constant :=
  Prog.cache_stable_accessor env gas_constant
    (fun m => cached_or m._gas_constant (calc_gas_constant m))
    (fun v m => { m with _gas_constant := CachedElement.assign v })
    gas_constant_closed_form (fun _ _ h => h.2.1)
    (fun s v h => by
      cases s with
      | mk m l v1 =>
        exact ⟨⟨CachedElement.assign v, m._dalphar_dDelta, m._d2alphar_dDelta2,
          m._d2alphar_dDelta_dTau, m._d2alphar_dTau2, m._d2alpha0_dTau2, rfl⟩,
          h.symm, rfl, rfl, rfl, rfl, rfl⟩)

theorem dalphar_dDelta_stable (env : Env) : Prog.cache_stable env dalphar_dDelta :=
  Prog.cache_stable_accessor env dalphar_dDelta
    (fun m => cached_or m._dalphar_dDelta (calc_dalphar_dDelta m))
    (fun v m => { m with _dalphar_dDelta := CachedElement.assign v })
    dalphar_dDelta_closed_form (fun _ _ h => h.2.2.1)
    (fun s v h => by
      cases s with
      | mk m l v1 =>
        exact ⟨⟨m._gas_constant, CachedElement.assign v, m._d2alphar_dDelta2,
          m._d2alphar_dDelta_dTau, m._d2alphar_dTau2, m._d2alpha0_dTau2, rfl⟩,
          rfl, h.symm, rfl, rfl, rfl, rfl⟩)

theorem d2alphar_dDelta2_stable (env : Env) : Prog.cache_stable env d2alphar_dDelta2 :=
  Prog.cache_stable_accessor env d2alphar_dDelta2
    (fun m => cached_or m._d2alphar_dDelta2 (calc_d2alphar_dDelta2 m))
    (fun v m => { m with _d2alphar_dDelta2 := CachedElement.assign v })
    d2alphar_dDelta2_closed_form (fun _ _ h => h.2.2.2.1)
    (fun s v h => by
      cases s with
      | mk m l v1 =>
        exact ⟨⟨m._gas_constant, m._dalphar_dDelta, CachedElement.assign v,
          m._d2alphar_dDelta_dTau, m._d2alphar_dTau2, m._d2alpha0_dTau2, rfl⟩,
          rfl, rfl, h.symm, rfl, rfl, rfl⟩)

theorem d2alphar_dDelta_dTau_stable (env : Env) : Prog.cache_stable env d2alphar_dDelta_dTau :=
  Prog.cache_stable_accessor env d2alphar_dDelta_dTau
    (fun m => cached_or m._d2alphar_dDelta_dTau (calc_d2alphar_dDelta_dTau m))
    (fun v m => { m with _d2alphar_dDelta_dTau := CachedElement.assign v })
    d2alphar_dDelta_dTau_closed_form (fun _ _ h => h.2.2.2.2.1)
    (fun s v h => by
      cases s with
      | mk m l v1 =>
        exact ⟨⟨m._gas_constant, m._dalphar_dDelta, m._d2alphar_dDelta2,
          CachedElement.assign v, m._d2alphar_dTau2, m._d2alpha0_dTau2, rfl⟩,
          rfl, rfl, rfl, h.symm, rfl, rfl⟩)

theorem d2alphar_dTau2_stable (env : Env) : Prog.cache_stable env d2alphar_dTau2 :=
  Prog.cache_stable_accessor env d2alphar_dTau2
    (fun m => cached_or m._d2alphar_dTau2 (calc_d2alphar_dTau2 m))
    (fun v m => { m with _d2alphar_dTau2 := CachedElement.assign v })
    d2alphar_dTau2_closed_form (fun _ _ h => h.2.2.2.2.2.1)
    (fun s v h => by
      cases s with
      | mk m l v1 =>
        exact ⟨⟨m._gas_constant, m._dalphar_dDelta, m._d2alphar_dDelta2,
          m._d2alphar_dDelta_dTau, CachedElement.assign v, m._d2alpha0_dTau2, rfl⟩,
          rfl, rfl, rfl, rfl, h.symm, rfl⟩)

theorem d2alpha0_dTau2_stable (env : Env) : Prog.cache_stable env (d2alpha0_dTau2 env) :=
  Prog.cache_stable_accessor env (d2alpha0_dTau2 env)
    (fun m => cached_or m._d2alpha0_dTau2 (calc_d2alpha0_dTau2 env m))
    (fun v m => { m with _d2alpha0_dTau2 := CachedElement.assign v })
    (d2alpha0_dTau2_closed_form env) (fun _ _ h => h.2.2.2.2.2.2)
    (fun s v h => by
      cases s with
      | mk m l v1 =>
        exact ⟨⟨m._gas_constant, m._dalphar_dDelta, m._d2alphar_dDelta2,
          m._d2alphar_dDelta_dTau, m._d2alphar_dTau2, CachedElement.assign v, rfl⟩,
          rfl, rfl, rfl, rfl, rfl, h.symm⟩)

theorem get_reducing_stable (env : Env) : Prog.cache_stable env get_reducing :=
  Prog.cache_stable_read env (fun m => m._reducing) (fun _ _ _ _ _ _ _ => rfl)

theorem T_stable (env : Env) : Prog.cache_stable env T :=
  Prog.cache_stable_read env (fun m => m._T) (fun _ _ _ _ _ _ _ => rfl)

theorem get_dtau_ddelta_pressure_stable (env : Env) (T rho rhor dT_dtau R delta tau : Dbl) :
    Prog.cache_stable env (do
      let m ← Prog.get
      let x ← get_mole_fractions
      let dalphar_dDelta ← Prog.ofExcept (calc_alphar_deriv_nocache m 0 1 x tau delta)
      let x ← get_mole_fractions
      let d2alphar_dDelta2 ← Prog.ofExcept (calc_alphar_deriv_nocache m 0 2 x tau delta)
      let x ← get_mole_fractions
      let d2alphar_dDelta_dTau ← Prog.ofExcept (calc_alphar_deriv_nocache m 1 1 x tau delta)
      let ddelta := rhor * R * T * (1 + Dbl.fin 2 * delta * dalphar_dDelta
        + pow2 delta * d2alphar_dDelta2)
      let dtau := dT_dtau * rho * R * (1 + delta * dalphar_dDelta
        - tau * delta * d2alphar_dDelta_dTau)
      pure (dtau, ddelta)) := by
  let F : Members → Except Err (Dbl × Dbl) := fun m =>
    match calc_alphar_deriv_nocache m 0 1 m.mole_fractions tau delta,
      calc_alphar_deriv_nocache m 0 2 m.mole_fractions tau delta,
      calc_alphar_deriv_nocache m 1 1 m.mole_fractions tau delta with
    | .ok a, .ok b, .ok c =>
      .ok (dT_dtau * rho * R * (1 + delta * a - tau * delta * c),
        rhor * R * T * (1 + Dbl.fin 2 * delta * a + pow2 delta * b))
    | .error e, _, _ => .error e
    | .ok _, .error e, _ => .error e
    | .ok _, .ok _, .error e => .error e
  have e : (do
      let m ← Prog.get
      let x ← get_mole_fractions
      let dalphar_dDelta ← Prog.ofExcept (calc_alphar_deriv_nocache m 0 1 x tau delta)
      let x ← get_mole_fractions
      let d2alphar_dDelta2 ← Prog.ofExcept (calc_alphar_deriv_nocache m 0 2 x tau delta)
      let x ← get_mole_fractions
      let d2alphar_dDelta_dTau ← Prog.ofExcept (calc_alphar_deriv_nocache m 1 1 x tau delta)
      let ddelta := rhor * R * T * (1 + Dbl.fin 2 * delta * dalphar_dDelta
        + pow2 delta * d2alphar_dDelta2)
      let dtau := dT_dtau * rho * R * (1 + delta * dalphar_dDelta
        - tau * delta * d2alphar_dDelta_dTau)
      pure (dtau, ddelta) : Prog (Dbl × Dbl)) = fun s => Prog.ofExcept (F s.self) s := by
    funext s
    simp only [Prog.bind_apply, Prog.get_apply, get_mole_fractions, F]
    cases h1 : calc_alphar_deriv_nocache s.self 0 1 s.self.mole_fractions tau delta <;>
    cases h2 : calc_alphar_deriv_nocache s.self 0 2 s.self.mole_fractions tau delta <;>
    cases h3 : calc_alphar_deriv_nocache s.self 1 1 s.self.mole_fractions tau delta <;>
    simp only [Prog.ofExcept_ok, Prog.ofExcept_error, h2, h3, Prog.pure_apply]
  rw [e]
  exact Prog.cache_stable_except env F (fun _ _ _ _ _ _ _ => rfl)

theorem get_dtau_ddelta_stable (env : Env) (T rho : Dbl) (i : parameters) :
    Prog.cache_stable env (get_dtau_ddelta env T rho i) := by
  unfold get_dtau_ddelta
  refine Prog.cache_stable_bind env _ _ (get_reducing_stable env) (fun r1 => ?_)
  refine Prog.cache_stable_bind env _ _ (get_reducing_stable env) (fun r2 => ?_)
  refine Prog.cache_stable_bind env _ _ (gas_constant_stable env) (fun R => ?_)
  cases i <;> dsimp only [get_dtau_ddelta_caloric]
  case iT => exact Prog.cache_stable_pure env _
  case iDmolar => exact Prog.cache_stable_pure env _
  case iTau => exact Prog.cache_stable_pure env _
  case iDelta => exact Prog.cache_stable_pure env _
  case unlisted => exact Prog.cache_stable_raise env _
  case iP => exact get_dtau_ddelta_pressure_stable env T rho _ _ R _ _
  all_goals
    repeat' first
      | exact Prog.cache_stable_pure env _
      | exact gas_constant_stable env
      | exact dalphar_dDelta_stable env
      | exact d2alphar_dDelta2_stable env
      | exact d2alphar_dDelta_dTau_stable env
      | exact d2alphar_dTau2_stable env
      | exact d2alpha0_dTau2_stable env
      | exact T_stable env
      | refine Prog.cache_stable_bind env _ _ ?_ (fun _ => ?_)

/-! ## The triple product rule (C38) -/

theorem first_partial_deriv_of_runs (env : Env) (T rho : Dbl) (X Y Z : parameters)
    (s sX sY sZ : HelmholtzEOSMixtureBackend) (pX pY pZ : Dbl × Dbl)
    (hX : get_dtau_ddelta env T rho X s = Res.ret pX sX)
    (hY : get_dtau_ddelta env T rho Y s = Res.ret pY sY)
    (hZ : get_dtau_ddelta env T rho Z s = Res.ret pZ sZ) :
    ∃ s1, calc_first_partial_deriv_nocache env T rho X Y Z s =
      Res.ret ((pX.1 * pZ.2 - pX.2 * pZ.1) / (pY.1 * pZ.2 - pY.2 * pZ.1)) s1 := by
  obtain ⟨t1, h1, e1⟩ := Prog.cache_stable_apply env _ (get_dtau_ddelta_stable env T rho X)
    s s sX pX (same_cache_values_refl env s) hX
  obtain ⟨t2, h2, e2⟩ := Prog.cache_stable_apply env _ (get_dtau_ddelta_stable env T rho Y)
    s t1 sY pY e1 hY
  obtain ⟨t3, h3, _⟩ := Prog.cache_stable_apply env _ (get_dtau_ddelta_stable env T rho Z)
    s t2 sZ pZ e2 hZ
  refine ⟨t3, ?_⟩
  unfold calc_first_partial_deriv_nocache
  simp only [Prog.bind_apply, h1, h2, h3, Prog.pure_apply]

theorem Dbl.sub_eq_fin (x y : Dbl) (q : ℚ) (h : x - y = Dbl.fin q) :
    ∃ a b, x = Dbl.fin a ∧ y = Dbl.fin b ∧ a - b = q := by
  cases x <;> cases y <;>
    first
    | (rename_i a b
       rw [Dbl.fin_sub_fin] at h
       injection h with h
       exact ⟨a, b, rfl, rfl, h⟩)
    | (exfalso; cases h)

theorem jacobian_finite (a b : Dbl × Dbl) (h : finite_nonzero (a.1 * b.2 - a.2 * b.1)) :
    ∃ at_ ad bt bd : ℚ, a = (Dbl.fin at_, Dbl.fin ad) ∧ b = (Dbl.fin bt, Dbl.fin bd)
      ∧ at_ * bd - ad * bt ≠ 0 := by
  obtain ⟨q, hq, h⟩ := h
  obtain ⟨x, y, hx, hy, hxy⟩ := Dbl.sub_eq_fin _ _ _ h
  obtain ⟨at_, bd, h1, h2, h12⟩ := Dbl.mul_eq_fin _ _ _ hx
  obtain ⟨ad, bt, h3, h4, h34⟩ := Dbl.mul_eq_fin _ _ _ hy
  refine ⟨at_, ad, bt, bd, Prod.ext h1 h3, Prod.ext h4 h2, ?_⟩
  rw [h12, h34, hxy]
  exact hq

/-- C38. For every `T`, `rho` and every three indices `X`, `Y`, `Z`: let
`get_dtau_ddelta` return the pairs `(X_tau, X_delta)`, `(Y_tau, Y_delta)` and
`(Z_tau, Z_delta)` on the object, and let the three Jacobians
`X_tau*Y_delta - X_delta*Y_tau`, `Y_tau*Z_delta - Y_delta*Z_tau` and
`Z_tau*X_delta - Z_delta*X_tau` be finite and other than zero. Then the four
calls of `calc_first_partial_deriv_nocache` below return, whichever cells the
earlier calls of `get_dtau_ddelta` have filled, and their values satisfy
`(dX/dY)_Z * (dY/dZ)_X * (dZ/dX)_Y = -1` and `(dX/dY)_Z * (dY/dX)_Z = 1`. -/
theorem triple_product_rule (env : Env) (T rho : Dbl) (X Y Z : parameters)
    (s sX sY sZ : HelmholtzEOSMixtureBackend) (pX pY pZ : Dbl × Dbl)
    (hX : get_dtau_ddelta env T rho X s = Res.ret pX sX)
    (hY : get_dtau_ddelta env T rho Y s = Res.ret pY sY)
    (hZ : get_dtau_ddelta env T rho Z s = Res.ret pZ sZ)
    (hXY : finite_nonzero (pX.1 * pY.2 - pX.2 * pY.1))
    (hYZ : finite_nonzero (pY.1 * pZ.2 - pY.2 * pZ.1))
    (hZX : finite_nonzero (pZ.1 * pX.2 - pZ.2 * pX.1)) :
    ∃ dXYZ dYZX dZXY dYXZ s1 s2 s3 s4,
      calc_first_partial_deriv_nocache env T rho X Y Z s = Res.ret dXYZ s1
      ∧ calc_first_partial_deriv_nocache env T rho Y Z X s = Res.ret dYZX s2
      ∧ calc_first_partial_deriv_nocache env T rho Z X Y s = Res.ret dZXY s3
      ∧ calc_first_partial_deriv_nocache env T rho Y X Z s = Res.ret dYXZ s4
      ∧ dXYZ * dYZX * dZXY = Dbl.fin (-1)
      ∧ dXYZ * dYXZ = Dbl.fin 1 := by
  obtain ⟨s1, h1⟩ := first_partial_deriv_of_runs env T rho X Y Z s sX sY sZ pX pY pZ hX hY hZ
  obtain ⟨s2, h2⟩ := first_partial_deriv_of_runs env T rho Y Z X s sY sZ sX pY pZ pX hY hZ hX
  obtain ⟨s3, h3⟩ := first_partial_deriv_of_runs env T rho Z X Y s sZ sX sY pZ pX pY hZ hX hY
  obtain ⟨s4, h4⟩ := first_partial_deriv_of_runs env T rho Y X Z s sY sX sZ pY pX pZ hY hX hZ
  refine ⟨_, _, _, _, s1, s2, s3, s4, h1, h2, h3, h4, ?_, ?_⟩
  all_goals
    obtain ⟨xt, xd, yt, yd, rfl, rfl, jXY⟩ := jacobian_finite pX pY hXY
    obtain ⟨yt1, yd1, zt, zd, eY, rfl, jYZ⟩ := jacobian_finite _ pZ hYZ
    obtain ⟨zt1, zd1, xt1, xd1, eZ, eX, jZX⟩ := jacobian_finite _ _ hZX
    simp only [Prod.mk.injEq, Dbl.fin.injEq] at eY eZ eX
    obtain ⟨rfl, rfl⟩ := eY
    obtain ⟨rfl, rfl⟩ := eZ
    obtain ⟨rfl, rfl⟩ := eX
    have jXZ : xt * zd - xd * zt ≠ 0 := fun h => jZX (by linear_combination -h)
    have jYX : yt * xd - yd * xt ≠ 0 := fun h => jXY (by linear_combination -h)
    have jZY : zt * yd - zd * yt ≠ 0 := fun h => jYZ (by linear_combination -h)
    simp only [Dbl.fin_mul_fin, Dbl.fin_sub_fin]
  · rw [Dbl.fin_div_fin _ _ jYZ, Dbl.fin_div_fin _ _ jZX, Dbl.fin_div_fin _ _ jXY,
      Dbl.fin_mul_fin, Dbl.fin_mul_fin]
    congr 1
    field_simp
    ring
  · rw [Dbl.fin_div_fin _ _ jYZ, Dbl.fin_div_fin _ _ jXZ, Dbl.fin_mul_fin]
    congr 1
    field_simp

theorem finite_nonzero_of_eq (x : Dbl) (q : ℚ) (h : x = Dbl.fin q) (hq : q ≠ 0) :
    finite_nonzero x := ⟨q, hq, h⟩

/-- C38 on the example state `example_curved 400` at 300 K and 100 mol/m3 with
`X` the molar entropy, `Y` the temperature and `Z` the molar density: the pairs
are `(-32, -1180/3)`, `(-225, 0)` and `(0, 5000)`, the Jacobians -88500,
-1125000 and 160000. -/
theorem triple_product_rule_witness :
    ∃ dXYZ dYZX dZXY dYXZ s1 s2 s3 s4,
      calc_first_partial_deriv_nocache example_env (Dbl.fin 300) (Dbl.fin 100)
          parameters.iSmolar parameters.iT parameters.iDmolar (example_curved 400)
        = Res.ret dXYZ s1
      ∧ calc_first_partial_deriv_nocache example_env (Dbl.fin 300) (Dbl.fin 100)
          parameters.iT parameters.iDmolar parameters.iSmolar (example_curved 400)
        = Res.ret dYZX s2
      ∧ calc_first_partial_deriv_nocache example_env (Dbl.fin 300) (Dbl.fin 100)
          parameters.iDmolar parameters.iSmolar parameters.iT (example_curved 400)
        = Res.ret dZXY s3
      ∧ calc_first_partial_deriv_nocache example_env (Dbl.fin 300) (Dbl.fin 100)
          parameters.iT parameters.iSmolar parameters.iDmolar (example_curved 400)
        = Res.ret dYXZ s4
      ∧ dXYZ * dYZX * dZXY = Dbl.fin (-1)
      ∧ dXYZ * dYXZ = Dbl.fin 1 := by
  obtain ⟨sS, hS⟩ : ∃ s1, get_dtau_ddelta example_env (Dbl.fin 300) (Dbl.fin 100)
      parameters.iSmolar (example_curved 400) =
      Res.ret ((-pow2 (Dbl.fin 300)) / Dbl.fin 400 * Dbl.fin 8 / Dbl.fin 300
          * ((-pow2 (Dbl.fin 400 / Dbl.fin 300)) * (Dbl.fin (-2) + Dbl.fin (-1))),
        Dbl.fin 5000 * Dbl.fin 8 / Dbl.fin 100
          * (-(1 + Dbl.fin 100 / Dbl.fin 5000 * Dbl.fin (1 / 2)
            - Dbl.fin 400 / Dbl.fin 300 * (Dbl.fin 100 / Dbl.fin 5000) * Dbl.fin 1))) s1 :=
    ⟨_, rfl⟩
  have hT : get_dtau_ddelta example_env (Dbl.fin 300) (Dbl.fin 100) parameters.iT
      (example_curved 400) = Res.ret ((-pow2 (Dbl.fin 300)) / Dbl.fin 400, Dbl.fin 0)
        (example_curved 400) :=
    get_dtau_ddelta_iT example_env (Dbl.fin 300) (Dbl.fin 100) (Dbl.fin 8) (example_curved 400) rfl
  have hD : get_dtau_ddelta example_env (Dbl.fin 300) (Dbl.fin 100) parameters.iDmolar
      (example_curved 400) = Res.ret (Dbl.fin 0, Dbl.fin 5000) (example_curved 400) :=
    get_dtau_ddelta_iDmolar example_env (Dbl.fin 300) (Dbl.fin 100) (Dbl.fin 8)
      (example_curved 400) rfl
  refine triple_product_rule example_env _ _ _ _ _ _ _ _ _ _ _ _ hS hT hD
    (finite_nonzero_of_eq _ (-88500) ?_ (by norm_num))
    (finite_nonzero_of_eq _ (-1125000) ?_ (by norm_num))
    (finite_nonzero_of_eq _ 160000 ?_ (by norm_num))
  all_goals
    simp (disch := norm_num) only [Dbl.one_eq, Dbl.pow2_fin, Dbl.neg_fin, Dbl.fin_div_fin,
      Dbl.fin_mul_fin, Dbl.fin_add_fin, Dbl.fin_sub_fin]
    norm_num

end CoolProp
